import Mathlib

/-!
# lv_drivers, Wayland backend (`wayland/wayland.c`)

A shallow embedding of the Wayland display and input driver: the window
collection, the draw callback `lv_wayland_flush`, the per-window coordinator
`window_cycle`, window construction and teardown, and the seat listeners.

Conventions of the embedding.

* Pointers into the window collection are positions in `application.window_ll`
  (windows are only ever appended, and only a window that failed to build is taken
  out again, from the tail). A pointer to a `struct input` names the record that
  embeds it (`input_ptr`).
* A pointer to an object owned by a collaborator (compositor surface, buffer, pool,
  shell binding) is a `Bool`: `true` when the pointer is non-NULL.
* Every call made to a collaborator (libwayland, xkbcommon, libc, the GUI library)
  is appended to `world.trace`; what a collaborator answers is an input of the
  function that asks (`create_env`, `cycle_env`, the fields of `wl_event`).
* Integers of the C code are `Int`/`Nat`; a conversion that can lose bits is written
  out (`wrap_int16`, `% 256`, `% 2 ^ 32`).
-/

namespace LvWayland

/-! ## Configuration and constants -/

/-- The colour value handed over by the renderer: `lv_color_t`, with its `full` view and
its `ch` view (the type itself belongs to the GUI library). -/
structure lv_color_t where
  full : Nat
  red : Nat
  green : Nat
  blue : Nat
deriving DecidableEq, Repr

/-- A compiled keymap of xkbcommon, named by the description it was compiled from. -/
structure xkb_keymap where
  source : String
deriving DecidableEq, Repr

/-- A modifier-tracking state of xkbcommon: the keymap it was derived from and the
masks last given to `xkb_state_update_mask`. -/
structure xkb_state where
  keymap : xkb_keymap
  mods_depressed : Nat
  mods_latched : Nat
  mods_locked : Nat
  group : Nat
deriving DecidableEq, Repr

/-- The preprocessor symbols of `lv_conf.h` and `lv_drv_conf.h` that select code in
`wayland.c`, together with two pure functions of collaborating libraries:
`lv_color_make` of the GUI library (fixed by the colour depth) and the symbol lookup
`xkb_state_key_get_syms` of xkbcommon (the symbols a state gives for a key code). -/
structure config where
  LV_COLOR_DEPTH : Nat
  LV_USE_LARGE_COORD : Bool
  LV_WAYLAND_CLIENT_SIDE_DECORATIONS : Bool
  LV_WAYLAND_WL_SHELL : Bool
  LV_WAYLAND_XDG_SHELL : Bool
  LV_WAYLAND_IVI_APPLICATION : Bool
  LV_WAYLAND_IVI_ID_BASE : Nat
  lv_color_make : Nat → Nat → Nat → lv_color_t
  xkb_state_key_get_syms : xkb_state → Nat → List Nat

/-- `#define BYTES_PER_PIXEL ((LV_COLOR_DEPTH + 7) / 8)` -/
def BYTES_PER_PIXEL (cfg : config) : Nat := (cfg.LV_COLOR_DEPTH + 7) / 8

/-- `#define TITLE_BAR_HEIGHT 24` -/
def TITLE_BAR_HEIGHT : Nat := 24

/-- `#define BUTTON_MARGIN LV_MAX((TITLE_BAR_HEIGHT / 6), 1)` -/
def BUTTON_MARGIN : Nat := max (TITLE_BAR_HEIGHT / 6) 1

/-- `#define BUTTON_PADDING LV_MAX((TITLE_BAR_HEIGHT / 8), 1)` -/
def BUTTON_PADDING : Nat := max (TITLE_BAR_HEIGHT / 8) 1

/-- `#define BUTTON_SIZE (TITLE_BAR_HEIGHT - (2 * BUTTON_MARGIN))` -/
def BUTTON_SIZE : Nat := TITLE_BAR_HEIGHT - (2 * BUTTON_MARGIN)

/-- Conversion of an `int` to `int16_t` (two's complement wrap). -/
def wrap_int16 (i : Int) : Int := (i + 32768) % 65536 - 32768

/-- Conversion of an `int` to `int32_t` (two's complement wrap). -/
def wrap_int32 (i : Int) : Int := (i + 2147483648) % 4294967296 - 2147483648

/-- Conversion of an `int` to `lv_coord_t`, which the GUI library declares as `int16_t`,
or as `int32_t` under `LV_USE_LARGE_COORD`. -/
def to_lv_coord (cfg : config) (i : Int) : Int :=
  if cfg.LV_USE_LARGE_COORD then wrap_int32 i else wrap_int16 i

/-- `wl_fixed_to_int` of libwayland: a 24.8 fixed-point number divided by 256,
rounding toward zero as C does. -/
def wl_fixed_to_int (f : Int) : Int := Int.tdiv f 256

/-! ## Data model -/

/-- `enum parent_type` -/
inductive parent_type
  | PARENT_IS_WINDOW
  | PARENT_IS_DECORATION
  | PARENT_IS_BUTTON
deriving DecidableEq, Repr

/-- `enum button_type` (without the counter `NUM_BUTTONS`). -/
inductive button_type
  | BUTTON_TYPE_CLOSE
  | BUTTON_TYPE_MINIMIZE
deriving DecidableEq, Repr

/-- `lv_indev_state_t`: `LV_INDEV_STATE_REL` is 0, `LV_INDEV_STATE_PR` is 1. -/
inductive lv_indev_state_t
  | LV_INDEV_STATE_REL
  | LV_INDEV_STATE_PR
deriving DecidableEq, Repr

/-- The `mouse` member of `struct input`. -/
structure mouse_t where
  x : Int
  y : Int
  left_button : lv_indev_state_t
  right_button : lv_indev_state_t
  wheel_button : lv_indev_state_t
  wheel_diff : Int
deriving DecidableEq, Repr

/-- The `keyboard` member of `struct input`. -/
structure keyboard_t where
  key : Nat
  state : lv_indev_state_t
deriving DecidableEq, Repr

/-- The `touch` member of `struct input`. -/
structure touch_t where
  x : Int
  y : Int
  state : lv_indev_state_t
deriving DecidableEq, Repr

/-- `struct input`; `window` is the position of the owning window, `none` for NULL. -/
structure input where
  mouse : mouse_t
  keyboard : keyboard_t
  touch : touch_t
  window : Option Nat
  parent_type : parent_type
deriving DecidableEq, Repr

/-- A `struct input *`: the record that embeds the input state, a window, the title bar
of a window, or one of its buttons (what `input_to_parent` recovers). -/
inductive input_ptr
  | of_window (w : Nat)
  | of_decoration (w : Nat)
  | of_button (w : Nat) (b : button_type)
deriving DecidableEq, Repr

/-- `struct decoration`; `data` is the byte offset of its pixels in the window's mapping. -/
structure decoration where
  buffer : Bool
  surface : Bool
  subsurface : Bool
  data : Nat
  input : input
deriving DecidableEq, Repr

/-- `struct button`; `data` is the byte offset of its pixels in the window's mapping. -/
structure button where
  type : button_type
  buffer : Bool
  surface : Bool
  subsurface : Bool
  data : Nat
  input : input
deriving DecidableEq, Repr

/-- A value of `disp_drv->monitor_cb`: a callback of the embedding program, or this
driver's `window_cycle`. -/
inductive monitor_cb_t
  | external (id : Nat)
  | window_cycle
deriving DecidableEq, Repr

/-- The fields of `lv_disp_drv_t` the driver reads or writes; `user_data` is the window. -/
structure lv_disp_drv_t where
  hor_res : Int
  ver_res : Int
  rotated : Nat
  user_data : Option Nat
  monitor_cb : Option monitor_cb_t
deriving DecidableEq, Repr

/-- `lv_area_t` -/
structure lv_area_t where
  x1 : Int
  y1 : Int
  x2 : Int
  y2 : Int
deriving DecidableEq, Repr

/-- `struct window`. `data` is the mapped memory seen as cells of one pixel
(`BYTES_PER_PIXEL` bytes) each, cell 0 at `window->data`; `data_mapped` tells whether
`window->data` holds a mapping. -/
structure window where
  shm_pool : Bool
  buffer : Bool
  surface : Bool
  wl_shell_surface : Bool
  xdg_surface : Bool
  xdg_toplevel : Bool
  ivi_surface : Bool
  decoration : Option decoration
  button : button_type → Option button
  width : Int
  height : Int
  data : Int → Nat
  data_mapped : Bool
  data_size : Nat
  data_offset : Nat
  input : input
  flush_pending : Bool
  cycled : Bool
  shall_close : Bool
  closed : Bool
  ext_monitor_cb : Option monitor_cb_t

/-- `struct seat` -/
structure seat where
  wl_touch : Bool
  wl_pointer : Bool
  wl_keyboard : Bool
  xkb_keymap : Option xkb_keymap
  xkb_state : Option xkb_state
deriving DecidableEq, Repr

/-- `struct application` -/
structure application where
  compositor : Bool
  subcompositor : Bool
  shm : Bool
  wl_seat : Bool
  cursor_theme : Bool
  cursor_surface : Bool
  wl_shell : Bool
  xdg_wm : Bool
  ivi_application : Bool
  ivi_id_base : Nat
  opt_disable_decorations : Bool
  format : Nat
  seat : seat
  touch : Option input_ptr
  pointer : Option input_ptr
  keyboard : Option input_ptr
  window_ll : List window
  cursor_flush_pending : Bool

/-! ## Calls to collaborators -/

/-- What a window, its title bar or one of its buttons holds from a collaborator:
the list node of the window (`_lv_ll_ins_tail`), the file name buffer
(`lv_mem_alloc`), the backing file (`mkstemp`), the mapping (`mmap`), the protocol
objects, and the heap block of a title bar or button (`lv_mem_alloc`). -/
inductive resource
  | node
  | name
  | fd
  | mapping
  | shm_pool
  | buffer
  | surface
  | subsurface
  | wl_shell_surface
  | xdg_surface
  | xdg_toplevel
  | ivi_surface
  | memory
deriving DecidableEq, Repr

/-- A call to a collaborator. `acquire o r` is a successful creation of `r` for `o`
(`mkstemp`, `mmap`, `wl_shm_create_pool`, `wl_compositor_create_surface`, ...);
`release o r` is the matching `close`, `munmap`, `lv_mem_free` or `*_destroy` call on the
handle stored in `o`. `store o k` is a store into cell `k` of the mapping shared with
the display server, made by `lv_wayland_flush`. `cursor_update` stands for `wl_pointer_set_cursor` followed by
attach, damage and commit on the cursor surface. -/
inductive effect
  | acquire (o : input_ptr) (r : resource)
  | release (o : input_ptr) (r : resource)
  | store (o : input_ptr) (offset : Int)
  | ivi_application_surface_create (w : Nat) (ivi_id : Nat)
  | lv_disp_flush_ready (drv : lv_disp_drv_t)
  | wl_surface_attach (o : input_ptr)
  | wl_surface_damage (o : input_ptr) (x y width height : Int)
  | wl_surface_commit (o : input_ptr)
  | monitor_cb (cb : monitor_cb_t) (drv : lv_disp_drv_t) (time px : Nat)
  | wl_display_prepare_read (ok : Bool)
  | wl_display_dispatch_pending
  | wl_display_flush
  | wl_display_read_events
  | exit (status : Nat)
  | cursor_update (cursor : String)
  | cursor_surface_create (ok : Bool)
  | cursor_surface_destroy
  | xdg_toplevel_move (w : Nat)
  | xdg_toplevel_set_minimized (w : Nat)
  | keymap_fd_close
  | keymap_mmap (ok : Bool)
  | keymap_munmap
  | xkb_keymap_unref (k : Option xkb_keymap)
  | xkb_state_unref (k : Option xkb_state)
  | wl_shm_destroy
  | xdg_wm_base_destroy
  | wl_shell_destroy
  | wl_seat_destroy
  | wl_subcompositor_destroy
  | wl_compositor_destroy
  | wl_registry_destroy
  | wl_display_disconnect
  | lv_ll_clear
deriving DecidableEq, Repr

/-- The state of the process: the single `static struct application`, the calls made
to collaborators so far (oldest first), and whether `exit` has been called. -/
structure world where
  app : application
  trace : List effect
  exited : Bool

/-- Record a call to a collaborator. -/
def world.emit (s : world) (e : effect) : world :=
  { s with trace := s.trace ++ [e] }

/-- Assignment through a `struct window *`: rewrite the window at position `i`. -/
def modify_window (l : List window) (i : Nat) (f : window → window) : List window :=
  match l[i]? with
  | some w => l.set i (f w)
  | none => l

/-- Assignment through a `struct window *` held in the application. -/
def application.modify_window (app : application) (i : Nat) (f : window → window) :
    application :=
  { app with window_ll := LvWayland.modify_window app.window_ll i f }

/-- Read through a `struct input *`. -/
def input_get (app : application) : input_ptr → Option input
  | .of_window w => (app.window_ll[w]?).map (fun x => x.input)
  | .of_decoration w =>
    (app.window_ll[w]?).bind (fun x => x.decoration.map (fun d => d.input))
  | .of_button w b =>
    (app.window_ll[w]?).bind (fun x => (x.button b).map (fun d => d.input))

/-- Assignment through a `struct input *`. -/
def input_set (app : application) (p : input_ptr) (f : input → input) : application :=
  match p with
  | .of_window w => app.modify_window w (fun x => { x with input := f x.input })
  | .of_decoration w =>
    app.modify_window w (fun x =>
      { x with decoration := x.decoration.map (fun d => { d with input := f d.input }) })
  | .of_button w b =>
    app.modify_window w (fun x =>
      { x with button := fun c =>
          if c = b then (x.button c).map (fun d => { d with input := f d.input })
          else x.button c })

/-- The `struct button` recovered by `input_to_parent(p, struct button)`. -/
def button_of (app : application) : input_ptr → Option button
  | .of_button w b => (app.window_ll[w]?).bind (fun x => x.button b)
  | _ => none

/-- The window reached through `input->window`. -/
def window_of (app : application) (i : input) : Option window :=
  i.window.bind (fun w => app.window_ll[w]?)

/-! ## Seat listeners

Where the C code would read through a NULL or stale pointer (an input record that is
not there, an input whose `window` is NULL) its behaviour is undefined; the embedding
leaves the state unchanged in that case. -/

/-- `WL_POINTER_BUTTON_STATE_PRESSED` -/
def WL_POINTER_BUTTON_STATE_PRESSED : Nat := 1

/-- `WL_POINTER_BUTTON_STATE_RELEASED` -/
def WL_POINTER_BUTTON_STATE_RELEASED : Nat := 0

/-- `WL_KEYBOARD_KEY_STATE_PRESSED` -/
def WL_KEYBOARD_KEY_STATE_PRESSED : Nat := 1

/-- `WL_KEYBOARD_KEYMAP_FORMAT_XKB_V1` -/
def WL_KEYBOARD_KEYMAP_FORMAT_XKB_V1 : Nat := 1

/-- `pointer_handle_enter`; `surface` is the user data of the entered surface. -/
def pointer_handle_enter (cfg : config) (s : world) (surface : Option input_ptr)
    (sx sy : Int) : world :=
  match surface with
  | none => { s with app := { s.app with pointer := none } }
  | some p =>
    let app := { s.app with pointer := some p }
    let app := input_set app p (fun i =>
      { i with mouse := { i.mouse with x := to_lv_coord cfg (wl_fixed_to_int sx) } })
    let app := input_set app p (fun i =>
      { i with mouse := { i.mouse with y := to_lv_coord cfg (wl_fixed_to_int sy) } })
    let grabbing : Bool :=
      match input_get app p with
      | some i =>
        cfg.LV_WAYLAND_CLIENT_SIDE_DECORATIONS && cfg.LV_WAYLAND_XDG_SHELL &&
          decide (i.parent_type = parent_type.PARENT_IS_DECORATION) &&
          (match window_of app i with
           | some w => w.xdg_toplevel
           | none => false)
      | none => false
    let cursor : String := if grabbing then "grabbing" else "left_ptr"
    if app.cursor_surface then
      { s with app := { app with cursor_flush_pending := true },
               trace := s.trace ++ [effect.cursor_update cursor] }
    else { s with app := app }

/-- `pointer_handle_leave` -/
def pointer_handle_leave (s : world) (surface : Option input_ptr) : world :=
  if surface = none ∨ s.app.pointer = surface then
    { s with app := { s.app with pointer := none } }
  else s

/-- The `switch` of `pointer_handle_motion` that selects `max_x` and `max_y`. -/
def pointer_motion_max (cfg : config) (app : application) (i : input) : Option (Int × Int) :=
  match i.parent_type with
  | parent_type.PARENT_IS_WINDOW =>
    (window_of app i).map (fun w => (w.width - 1, w.height - 1))
  | parent_type.PARENT_IS_DECORATION =>
    if cfg.LV_WAYLAND_CLIENT_SIDE_DECORATIONS then
      (window_of app i).map (fun w => (w.width - 1, (TITLE_BAR_HEIGHT : Int)))
    else some (0, 0)
  | parent_type.PARENT_IS_BUTTON =>
    if cfg.LV_WAYLAND_CLIENT_SIDE_DECORATIONS then
      some ((BUTTON_SIZE : Int), (BUTTON_SIZE : Int))
    else some (0, 0)

/-- `pointer_handle_motion` -/
def pointer_handle_motion (cfg : config) (s : world) (sx sy : Int) : world :=
  match s.app.pointer with
  | none => s
  | some p =>
    match input_get s.app p with
    | none => s
    | some i =>
      match pointer_motion_max cfg s.app i with
      | none => s
      | some (max_x, max_y) =>
        let app := input_set s.app p (fun j =>
          { j with mouse := { j.mouse with
              x := to_lv_coord cfg (max 0 (min (wl_fixed_to_int sx) max_x)) } })
        let app := input_set app p (fun j =>
          { j with mouse := { j.mouse with
              y := to_lv_coord cfg (max 0 (min (wl_fixed_to_int sy) max_y)) } })
        { s with app := app }

/-- The last branch of `pointer_handle_button`: `switch (button & 0xF)`. -/
def pointer_button_store (m : mouse_t) (button : Nat) (lv_state : lv_indev_state_t) :
    mouse_t :=
  match button % 16 with
  | 0 => { m with left_button := lv_state }
  | 1 => { m with right_button := lv_state }
  | 2 => { m with wheel_button := lv_state }
  | _ => m

/-- `pointer_handle_button` -/
def pointer_handle_button (cfg : config) (s : world) (button state : Nat) : world :=
  let lv_state : lv_indev_state_t :=
    if state = WL_POINTER_BUTTON_STATE_PRESSED then lv_indev_state_t.LV_INDEV_STATE_PR
    else lv_indev_state_t.LV_INDEV_STATE_REL
  match s.app.pointer with
  | none => s
  | some p =>
    match input_get s.app p with
    | none => s
    | some i =>
      if cfg.LV_WAYLAND_CLIENT_SIDE_DECORATIONS ∧
          i.parent_type = parent_type.PARENT_IS_DECORATION then
        match i.window, window_of s.app i with
        | some w, some win =>
          if cfg.LV_WAYLAND_XDG_SHELL ∧ win.xdg_toplevel = true then
            { s with app := s.app.modify_window w (fun x => { x with flush_pending := true }),
                     trace := s.trace ++ [effect.xdg_toplevel_move w] }
          else s
        | _, _ => s
      else if cfg.LV_WAYLAND_CLIENT_SIDE_DECORATIONS ∧
          i.parent_type = parent_type.PARENT_IS_BUTTON then
        if state = WL_POINTER_BUTTON_STATE_RELEASED then
          match i.window, window_of s.app i, button_of s.app p with
          | some w, some win, some b =>
            match b.type with
            | button_type.BUTTON_TYPE_CLOSE =>
              { s with app := s.app.modify_window w (fun x => { x with shall_close := true }) }
            | button_type.BUTTON_TYPE_MINIMIZE =>
              if cfg.LV_WAYLAND_XDG_SHELL ∧ win.xdg_toplevel = true then
                { s with
                    app := s.app.modify_window w (fun x => { x with flush_pending := true }),
                    trace := s.trace ++ [effect.xdg_toplevel_set_minimized w] }
              else s
          | _, _, _ => s
        else s
      else
        { s with app := input_set s.app p (fun j =>
            { j with mouse := pointer_button_store j.mouse button lv_state }) }

/-- `pointer_handle_axis` -/
def pointer_handle_axis (s : world) (axis : Nat) (value : Int) : world :=
  let diff : Int := wl_fixed_to_int value
  match s.app.pointer with
  | none => s
  | some p =>
    if axis = 0 then
      if diff > 0 then
        { s with app := input_set s.app p (fun i =>
            { i with mouse := { i.mouse with wheel_diff := wrap_int16 (i.mouse.wheel_diff + 1) } }) }
      else if diff < 0 then
        { s with app := input_set s.app p (fun i =>
            { i with mouse := { i.mouse with wheel_diff := wrap_int16 (i.mouse.wheel_diff - 1) } }) }
      else s
    else s

/-! ### Key symbols (`xkbcommon-keysyms.h`) and logical keys (`lv_group.h`) -/

def XKB_KEY_NoSymbol : Nat := 0x000000
def XKB_KEY_space : Nat := 0x0020
def XKB_KEY_asciitilde : Nat := 0x007e
def XKB_KEY_BackSpace : Nat := 0xff08
def XKB_KEY_Tab : Nat := 0xff09
def XKB_KEY_Return : Nat := 0xff0d
def XKB_KEY_Escape : Nat := 0xff1b
def XKB_KEY_Delete : Nat := 0xffff
def XKB_KEY_Home : Nat := 0xff50
def XKB_KEY_Left : Nat := 0xff51
def XKB_KEY_Up : Nat := 0xff52
def XKB_KEY_Right : Nat := 0xff53
def XKB_KEY_Down : Nat := 0xff54
def XKB_KEY_Prior : Nat := 0xff55
def XKB_KEY_Next : Nat := 0xff56
def XKB_KEY_End : Nat := 0xff57
def XKB_KEY_KP_Tab : Nat := 0xff89
def XKB_KEY_KP_Enter : Nat := 0xff8d
def XKB_KEY_KP_Home : Nat := 0xff95
def XKB_KEY_KP_Left : Nat := 0xff96
def XKB_KEY_KP_Up : Nat := 0xff97
def XKB_KEY_KP_Right : Nat := 0xff98
def XKB_KEY_KP_Down : Nat := 0xff99
def XKB_KEY_KP_Prior : Nat := 0xff9a
def XKB_KEY_KP_Next : Nat := 0xff9b
def XKB_KEY_KP_End : Nat := 0xff9c
def XKB_KEY_KP_Delete : Nat := 0xff9f
def XKB_KEY_KP_0 : Nat := 0xffb0
def XKB_KEY_KP_9 : Nat := 0xffb9

def LV_KEY_UP : Nat := 17
def LV_KEY_DOWN : Nat := 18
def LV_KEY_RIGHT : Nat := 19
def LV_KEY_LEFT : Nat := 20
def LV_KEY_ESC : Nat := 27
def LV_KEY_DEL : Nat := 127
def LV_KEY_BACKSPACE : Nat := 8
def LV_KEY_ENTER : Nat := 10
def LV_KEY_NEXT : Nat := 9
def LV_KEY_PREV : Nat := 11
def LV_KEY_HOME : Nat := 2
def LV_KEY_END : Nat := 3

/-- `keycode_xkb_to_lv`; the result is an `lv_key_t`, 0 when the symbol has no logical key. -/
def keycode_xkb_to_lv (xkb_key : Nat) : Nat :=
  if XKB_KEY_space ≤ xkb_key ∧ xkb_key ≤ XKB_KEY_asciitilde then xkb_key
  else if XKB_KEY_KP_0 ≤ xkb_key ∧ xkb_key ≤ XKB_KEY_KP_9 then xkb_key &&& 0x003f
  else if xkb_key = XKB_KEY_BackSpace then LV_KEY_BACKSPACE
  else if xkb_key = XKB_KEY_Return ∨ xkb_key = XKB_KEY_KP_Enter then LV_KEY_ENTER
  else if xkb_key = XKB_KEY_Escape then LV_KEY_ESC
  else if xkb_key = XKB_KEY_Delete ∨ xkb_key = XKB_KEY_KP_Delete then LV_KEY_DEL
  else if xkb_key = XKB_KEY_Home ∨ xkb_key = XKB_KEY_KP_Home then LV_KEY_HOME
  else if xkb_key = XKB_KEY_Left ∨ xkb_key = XKB_KEY_KP_Left then LV_KEY_LEFT
  else if xkb_key = XKB_KEY_Up ∨ xkb_key = XKB_KEY_KP_Up then LV_KEY_UP
  else if xkb_key = XKB_KEY_Right ∨ xkb_key = XKB_KEY_KP_Right then LV_KEY_RIGHT
  else if xkb_key = XKB_KEY_Down ∨ xkb_key = XKB_KEY_KP_Down then LV_KEY_DOWN
  else if xkb_key = XKB_KEY_Prior ∨ xkb_key = XKB_KEY_KP_Prior then LV_KEY_PREV
  else if xkb_key = XKB_KEY_Next ∨ xkb_key = XKB_KEY_KP_Next ∨ xkb_key = XKB_KEY_Tab ∨
      xkb_key = XKB_KEY_KP_Tab then LV_KEY_NEXT
  else if xkb_key = XKB_KEY_End ∨ xkb_key = XKB_KEY_KP_End then LV_KEY_END
  else 0

/-- The state `xkb_state_new` of xkbcommon derives from a keymap when it succeeds: no
modifier is active yet. -/
def xkb_state_new (keymap : xkb_keymap) : xkb_state :=
  { keymap := keymap, mods_depressed := 0, mods_latched := 0, mods_locked := 0, group := 0 }

/-- `keyboard_handle_keymap`. The answers of the collaborators are arguments: `map_str`
is what `mmap` gives (`none` for `MAP_FAILED`), `compiles` whether
`xkb_keymap_new_from_string` returns a keymap for it, `state_created` whether
`xkb_state_new` returns a state for that keymap. -/
def keyboard_handle_keymap (s : world) (format : Nat) (map_str : Option String)
    (compiles state_created : Bool) : world :=
  if format ≠ WL_KEYBOARD_KEYMAP_FORMAT_XKB_V1 then
    s.emit effect.keymap_fd_close
  else
    match map_str with
    | none => (s.emit (effect.keymap_mmap false)).emit effect.keymap_fd_close
    | some str =>
      let s := ((s.emit (effect.keymap_mmap true)).emit effect.keymap_munmap).emit
        effect.keymap_fd_close
      if !compiles then s
      else
        let keymap : xkb_keymap := { source := str }
        if !state_created then s.emit (effect.xkb_keymap_unref (some keymap))
        else
          let state : xkb_state := xkb_state_new keymap
          let s := (s.emit (effect.xkb_keymap_unref s.app.seat.xkb_keymap)).emit
            (effect.xkb_state_unref s.app.seat.xkb_state)
          { s with app := { s.app with
              seat := { s.app.seat with xkb_keymap := some keymap, xkb_state := some state } } }

/-- `keyboard_handle_enter` -/
def keyboard_handle_enter (s : world) (surface : Option input_ptr) : world :=
  { s with app := { s.app with keyboard := surface } }

/-- `keyboard_handle_leave` -/
def keyboard_handle_leave (s : world) (surface : Option input_ptr) : world :=
  if surface = none ∨ s.app.keyboard = surface then
    { s with app := { s.app with keyboard := none } }
  else s

/-- `keyboard_handle_key` -/
def keyboard_handle_key (cfg : config) (s : world) (key state : Nat) : world :=
  let code : Nat := (key + 8) % 2 ^ 32
  match s.app.keyboard, s.app.seat.xkb_state with
  | some p, some st =>
    let sym : Nat :=
      match cfg.xkb_state_key_get_syms st code with
      | [k] => k
      | _ => XKB_KEY_NoSymbol
    let lv_key : Nat := keycode_xkb_to_lv sym
    let lv_state : lv_indev_state_t :=
      if state = WL_KEYBOARD_KEY_STATE_PRESSED then lv_indev_state_t.LV_INDEV_STATE_PR
      else lv_indev_state_t.LV_INDEV_STATE_REL
    if lv_key ≠ 0 then
      { s with app := input_set s.app p (fun i =>
          { i with keyboard := { key := lv_key, state := lv_state } }) }
    else s
  | _, _ => s

/-- `keyboard_handle_modifiers`; `xkb_state_update_mask` stores the masks in the state. -/
def keyboard_handle_modifiers (s : world) (mods_depressed mods_latched mods_locked
    group : Nat) : world :=
  match s.app.seat.xkb_keymap with
  | none => s
  | some _ =>
    { s with app := { s.app with seat := { s.app.seat with
        xkb_state := s.app.seat.xkb_state.map (fun st =>
          { st with mods_depressed := mods_depressed, mods_latched := mods_latched,
                    mods_locked := mods_locked, group := group }) } } }

/-- `touch_handle_down` -/
def touch_handle_down (cfg : config) (s : world) (surface : Option input_ptr)
    (x_w y_w : Int) : world :=
  match surface with
  | none => { s with app := { s.app with touch := none } }
  | some p =>
    let app := { s.app with touch := some p }
    let app := input_set app p (fun i =>
      { i with touch := { i.touch with x := to_lv_coord cfg (wl_fixed_to_int x_w) } })
    let app := input_set app p (fun i =>
      { i with touch := { i.touch with y := to_lv_coord cfg (wl_fixed_to_int y_w) } })
    let app := input_set app p (fun i =>
      { i with touch := { i.touch with state := lv_indev_state_t.LV_INDEV_STATE_PR } })
    { s with app := app }

/-- `touch_handle_up` -/
def touch_handle_up (s : world) : world :=
  match s.app.touch with
  | none => s
  | some p =>
    let app := input_set s.app p (fun i =>
      { i with touch := { i.touch with state := lv_indev_state_t.LV_INDEV_STATE_REL } })
    { s with app := { app with touch := none } }

/-- `touch_handle_motion` -/
def touch_handle_motion (cfg : config) (s : world) (x_w y_w : Int) : world :=
  match s.app.touch with
  | none => s
  | some p =>
    let app := input_set s.app p (fun i =>
      { i with touch := { i.touch with x := to_lv_coord cfg (wl_fixed_to_int x_w) } })
    let app := input_set app p (fun i =>
      { i with touch := { i.touch with y := to_lv_coord cfg (wl_fixed_to_int y_w) } })
    { s with app := app }

/-! ### Seat, shell and registry listeners -/

/-- `WL_SEAT_CAPABILITY_POINTER`, `WL_SEAT_CAPABILITY_KEYBOARD`, `WL_SEAT_CAPABILITY_TOUCH`
are the bits 0, 1 and 2 of the capability mask. -/
def seat_has (caps : Nat) (bit : Nat) : Bool := caps.testBit bit

/-- `seat_handle_capabilities`; `cursor_ok` is whether `wl_compositor_create_surface`
returns a cursor surface when one is asked for. -/
def seat_handle_capabilities (s : world) (caps : Nat) (cursor_ok : Bool) : world :=
  let s : world :=
    if seat_has caps 0 ∧ s.app.seat.wl_pointer = false then
      { s with app := { s.app with seat := { s.app.seat with wl_pointer := true },
                                   cursor_surface := cursor_ok },
               trace := s.trace ++ [effect.cursor_surface_create cursor_ok] }
    else if ¬ seat_has caps 0 ∧ s.app.seat.wl_pointer = true then
      let s := if s.app.cursor_surface then s.emit effect.cursor_surface_destroy else s
      { s with app := { s.app with seat := { s.app.seat with wl_pointer := false } } }
    else s
  let s : world :=
    if seat_has caps 1 ∧ s.app.seat.wl_keyboard = false then
      { s with app := { s.app with seat := { s.app.seat with wl_keyboard := true } } }
    else if ¬ seat_has caps 1 ∧ s.app.seat.wl_keyboard = true then
      { s with app := { s.app with seat := { s.app.seat with wl_keyboard := false } } }
    else s
  if seat_has caps 2 ∧ s.app.seat.wl_touch = false then
    { s with app := { s.app with seat := { s.app.seat with wl_touch := true } } }
  else if ¬ seat_has caps 2 ∧ s.app.seat.wl_touch = true then
    { s with app := { s.app with seat := { s.app.seat with wl_touch := false } } }
  else s

/-- `xdg_toplevel_handle_close`; `w` is the window given as listener data. -/
def xdg_toplevel_handle_close (s : world) (w : Nat) : world :=
  { s with app := s.app.modify_window w (fun x => { x with shall_close := true }) }

def WL_SHM_FORMAT_ARGB8888 : Nat := 0
def WL_SHM_FORMAT_XRGB8888 : Nat := 1
def WL_SHM_FORMAT_RGB565 : Nat := 0x36314752
def WL_SHM_FORMAT_RGB332 : Nat := 0x38424752

/-- `shm_format` -/
def shm_format (cfg : config) (s : world) (format : Nat) : world :=
  let set : world := { s with app := { s.app with format := format } }
  if cfg.LV_COLOR_DEPTH = 32 then
    if format = WL_SHM_FORMAT_ARGB8888 then set
    else if format = WL_SHM_FORMAT_XRGB8888 then
      if s.app.format ≠ WL_SHM_FORMAT_ARGB8888 then set else s
    else s
  else if cfg.LV_COLOR_DEPTH = 16 then
    if format = WL_SHM_FORMAT_RGB565 then set else s
  else if cfg.LV_COLOR_DEPTH = 8 then
    if format = WL_SHM_FORMAT_RGB332 then set else s
  else if cfg.LV_COLOR_DEPTH = 1 then
    if format = WL_SHM_FORMAT_RGB332 then set else s
  else s

/-- `handle_global`; `interface` is the advertised interface name. -/
def handle_global (cfg : config) (s : world) (interface : String) : world :=
  if interface = "wl_compositor" then { s with app := { s.app with compositor := true } }
  else if interface = "wl_subcompositor" then
    { s with app := { s.app with subcompositor := true } }
  else if interface = "wl_shm" then
    { s with app := { s.app with shm := true, cursor_theme := true } }
  else if interface = "wl_seat" then { s with app := { s.app with wl_seat := true } }
  else if cfg.LV_WAYLAND_WL_SHELL ∧ interface = "wl_shell" then
    { s with app := { s.app with wl_shell := true } }
  else if cfg.LV_WAYLAND_XDG_SHELL ∧ interface = "xdg_wm_base" then
    { s with app := { s.app with xdg_wm := true } }
  else if cfg.LV_WAYLAND_IVI_APPLICATION ∧ interface = "ivi_application" then
    { s with app := { s.app with ivi_application := true } }
  else s

/-- An event delivered by `wl_display_dispatch_pending` to one of the listeners of this
file, with what the collaborators answer while it is handled. `other` stands for the
listeners that leave the application record alone (ping, configure, frame, cancel,
global_remove). -/
inductive wl_event
  | pointer_enter (surface : Option input_ptr) (sx sy : Int)
  | pointer_leave (surface : Option input_ptr)
  | pointer_motion (sx sy : Int)
  | pointer_button (button state : Nat)
  | pointer_axis (axis : Nat) (value : Int)
  | keyboard_keymap (format : Nat) (map_str : Option String) (compiles state_created : Bool)
  | keyboard_enter (surface : Option input_ptr)
  | keyboard_leave (surface : Option input_ptr)
  | keyboard_key (key state : Nat)
  | keyboard_modifiers (mods_depressed mods_latched mods_locked group : Nat)
  | touch_down (surface : Option input_ptr) (x_w y_w : Int)
  | touch_up
  | touch_motion (x_w y_w : Int)
  | seat_capabilities (caps : Nat) (cursor_ok : Bool)
  | xdg_toplevel_close (w : Nat)
  | shm_format (format : Nat)
  | global (interface : String)
  | other
deriving DecidableEq, Repr

/-- Deliver one event to its listener. -/
def dispatch (cfg : config) (s : world) : wl_event → world
  | .pointer_enter surface sx sy => pointer_handle_enter cfg s surface sx sy
  | .pointer_leave surface => pointer_handle_leave s surface
  | .pointer_motion sx sy => pointer_handle_motion cfg s sx sy
  | .pointer_button button state => pointer_handle_button cfg s button state
  | .pointer_axis axis value => pointer_handle_axis s axis value
  | .keyboard_keymap format map_str compiles state_created =>
    keyboard_handle_keymap s format map_str compiles state_created
  | .keyboard_enter surface => keyboard_handle_enter s surface
  | .keyboard_leave surface => keyboard_handle_leave s surface
  | .keyboard_key key state => keyboard_handle_key cfg s key state
  | .keyboard_modifiers d l k g => keyboard_handle_modifiers s d l k g
  | .touch_down surface x_w y_w => touch_handle_down cfg s surface x_w y_w
  | .touch_up => touch_handle_up s
  | .touch_motion x_w y_w => touch_handle_motion cfg s x_w y_w
  | .seat_capabilities caps cursor_ok => seat_handle_capabilities s caps cursor_ok
  | .xdg_toplevel_close w =>
    if cfg.LV_WAYLAND_XDG_SHELL then xdg_toplevel_handle_close s w else s
  | .shm_format format => shm_format cfg s format
  | .global interface => handle_global cfg s interface
  | .other => s

/-- `wl_display_dispatch_pending`: deliver the queued events in order. -/
def wl_display_dispatch_pending (cfg : config) (s : world) (events : List wl_event) : world :=
  events.foldl (dispatch cfg) (s.emit effect.wl_display_dispatch_pending)

/-! ## Window construction -/

/-- Conversion of an `int` to `unsigned int`. -/
def to_uint32 (i : Int) : Nat := (i % 4294967296).toNat

/-- A store through a pixel pointer: cell `o` of the mapping receives `v`. -/
def store (data : Int → Nat) (o : Int) (v : Nat) : Int → Nat :=
  fun k => if k = o then v else data k

/-- `lv_color_fill` of the GUI library: `px_num` cells from cell `start` on receive the
colour. -/
def lv_color_fill (data : Int → Nat) (start : Nat) (color : lv_color_t) (px_num : Nat) :
    Int → Nat :=
  fun k => if (start : Int) ≤ k ∧ k < (start : Int) + px_num then color.full else data k

/-- What the collaborators answer during one `create_titlebar` or `create_button`:
whether each acquisition succeeds, and the content of the input member of the fresh
heap block, which `lv_mem_alloc` does not clear. -/
structure part_env where
  alloc_ok : Bool
  surface_ok : Bool
  subsurface_ok : Bool
  buffer_ok : Bool
  uninit : input

/-- What the collaborators answer during one `create_window`: whether each acquisition
succeeds (`ftruncate_ok` is the answer of the last `ftruncate` of the retry loop). -/
structure create_env where
  node_ok : Bool
  name_ok : Bool
  mkstemp_ok : Bool
  ftruncate_ok : Bool
  mmap_ok : Bool
  pool_ok : Bool
  buffer_ok : Bool
  surface_ok : Bool
  ivi_surface_ok : Bool
  xdg_surface_ok : Bool
  xdg_toplevel_ok : Bool
  wl_shell_surface_ok : Bool
  titlebar : part_env
  button : button_type → part_env

/-- A `struct input` after `lv_memset(…, 0x00, …)`. -/
def zero_input : input :=
  { mouse := { x := 0, y := 0, left_button := lv_indev_state_t.LV_INDEV_STATE_REL,
               right_button := lv_indev_state_t.LV_INDEV_STATE_REL,
               wheel_button := lv_indev_state_t.LV_INDEV_STATE_REL, wheel_diff := 0 },
    keyboard := { key := 0, state := lv_indev_state_t.LV_INDEV_STATE_REL },
    touch := { x := 0, y := 0, state := lv_indev_state_t.LV_INDEV_STATE_REL },
    window := none,
    parent_type := parent_type.PARENT_IS_WINDOW }

/-- A `struct window` after `lv_memset(window, 0x00, sizeof(struct window))`. -/
def zero_window : window :=
  { shm_pool := false, buffer := false, surface := false, wl_shell_surface := false,
    xdg_surface := false, xdg_toplevel := false, ivi_surface := false,
    decoration := none, button := fun _ => none, width := 0, height := 0,
    data := fun _ => 0, data_mapped := false, data_size := 0, data_offset := 0,
    input := zero_input, flush_pending := false, cycled := false, shall_close := false,
    closed := false, ext_monitor_cb := none }

/-- `create_titlebar` for the window at position `w`; the result is the new state and
the `struct decoration *` returned. -/
def create_titlebar (cfg : config) (env : part_env) (s : world) (w : Nat)
    (title_bar_height : Nat) : world × Option decoration :=
  match s.app.window_ll[w]? with
  | none => (s, none)
  | some win =>
    let size : Nat := (to_uint32 win.width * title_bar_height * BYTES_PER_PIXEL cfg) % 2 ^ 32
    if !env.alloc_ok then (s, none)
    else
      let s := s.emit (effect.acquire (input_ptr.of_decoration w) resource.memory)
      let d : decoration :=
        { buffer := false, surface := false, subsurface := false,
          data := win.data_offset, input := env.uninit }
      if !env.surface_ok then (s, none)
      else
        let s := s.emit (effect.acquire (input_ptr.of_decoration w) resource.surface)
        let i : input :=
          { d.input with window := some w, parent_type := parent_type.PARENT_IS_DECORATION }
        let d := { d with surface := true, input := i }
        if !env.subsurface_ok then
          (s.emit (effect.release (input_ptr.of_decoration w) resource.surface), none)
        else
          let s := s.emit (effect.acquire (input_ptr.of_decoration w) resource.subsurface)
          let d := { d with subsurface := true }
          if !env.buffer_ok then
            ((s.emit (effect.release (input_ptr.of_decoration w) resource.subsurface)).emit
              (effect.release (input_ptr.of_decoration w) resource.surface), none)
          else
            let s := s.emit (effect.acquire (input_ptr.of_decoration w) resource.buffer)
            let d := { d with buffer := true }
            let app := s.app.modify_window w (fun x =>
              { x with data_offset := (x.data_offset + size) % 2 ^ 32,
                       data := lv_color_fill x.data (d.data / BYTES_PER_PIXEL cfg)
                         (cfg.lv_color_make 0x66 0x66 0x66)
                         ((to_uint32 x.width * title_bar_height) % 2 ^ 32) })
            let s := { s with app := app }
            ((s.emit (effect.wl_surface_attach (input_ptr.of_decoration w))).emit
              (effect.wl_surface_commit (input_ptr.of_decoration w)), some d)

/-- The glyph loops of `create_button`: the pixel at (`x`, `y`) of the button whose
pixels start at cell `start`. -/
def button_glyph_px (cfg : config) (type : button_type) (button_size start : Nat)
    (data : Int → Nat) (y x : Nat) : Int → Nat :=
  let pixel : Int := (start : Int) + (y * button_size) + x
  match type with
  | button_type.BUTTON_TYPE_CLOSE =>
    if BUTTON_PADDING ≤ x ∧ x < button_size - BUTTON_PADDING then
      if x = y ∨ x + y + 1 = button_size then
        store data pixel (cfg.lv_color_make 0x33 0x33 0x33).full
      else if x + 1 = y ∨ x + y = button_size then
        store data pixel (cfg.lv_color_make 0x66 0x66 0x66).full
      else data
    else data
  | button_type.BUTTON_TYPE_MINIMIZE =>
    if BUTTON_PADDING ≤ x ∧ x < button_size - BUTTON_PADDING ∧
        button_size - (2 * BUTTON_PADDING) < y ∧ y < button_size - BUTTON_PADDING then
      store data pixel (cfg.lv_color_make 0x33 0x33 0x33).full
    else data

/-- The nested `for (y …) for (x …)` loops of `create_button`. -/
def button_glyph (cfg : config) (type : button_type) (button_size start : Nat)
    (data : Int → Nat) : Int → Nat :=
  (List.range button_size).foldl (fun d y =>
    (List.range button_size).foldl (fun e x =>
      button_glyph_px cfg type button_size start e y x) d) data

/-- `create_button` for the window at position `w`; the result is the new state and the
`struct button *` returned. -/
def create_button (cfg : config) (env : part_env) (s : world) (w : Nat)
    (button_size : Nat) (type : button_type) : world × Option button :=
  let o : input_ptr := input_ptr.of_button w type
  match s.app.window_ll[w]? with
  | none => (s, none)
  | some win =>
    let size : Nat := (button_size * button_size * BYTES_PER_PIXEL cfg) % 2 ^ 32
    if !env.alloc_ok then (s, none)
    else
      let s := s.emit (effect.acquire o resource.memory)
      let b : button :=
        { type := type, buffer := false, surface := false, subsurface := false,
          data := win.data_offset, input := env.uninit }
      if !env.surface_ok then (s, none)
      else
        let s := s.emit (effect.acquire o resource.surface)
        let i : input :=
          { b.input with window := some w, parent_type := parent_type.PARENT_IS_BUTTON }
        let b := { b with surface := true, input := i }
        if !env.subsurface_ok then (s.emit (effect.release o resource.surface), none)
        else
          let s := s.emit (effect.acquire o resource.subsurface)
          let b := { b with subsurface := true }
          if !env.buffer_ok then
            ((s.emit (effect.release o resource.subsurface)).emit
              (effect.release o resource.surface), none)
          else
            let s := s.emit (effect.acquire o resource.buffer)
            let b := { b with buffer := true }
            let app := s.app.modify_window w (fun x =>
              { x with data_offset := (x.data_offset + size) % 2 ^ 32,
                       data := button_glyph cfg type button_size (b.data / BYTES_PER_PIXEL cfg)
                         (lv_color_fill x.data (b.data / BYTES_PER_PIXEL cfg)
                           (cfg.lv_color_make 0xCC 0xCC 0xCC)
                           ((button_size * button_size) % 2 ^ 32)) })
            let s := { s with app := app }
            ((s.emit (effect.wl_surface_attach o)).emit (effect.wl_surface_commit o), some b)

/-- `_lv_ll_get_prev(&app->window_ll, window)` for the window at position `w`. -/
def lv_ll_get_prev (w : Nat) : Option Nat :=
  if w = 0 then none else some (w - 1)

/-- The loop `while (prev_window != NULL) { ivi_id++; prev_window = _lv_ll_get_prev(&app->window_ll, window); }`
of `create_window`, for the new window at position `w`. Each round asks again for the
predecessor of `window`. `none`: the loop has not ended within `fuel` rounds. -/
def ivi_id_loop (w : Nat) : Nat → Option Nat → Nat → Option Nat
  | 0, _, _ => none
  | fuel + 1, prev_window, ivi_id =>
    match prev_window with
    | none => some ivi_id
    | some _ => ivi_id_loop w fuel (lv_ll_get_prev w) ((ivi_id + 1) % 2 ^ 32)

/-- Label `err_free_window` of `create_window`: `_lv_ll_remove` and `lv_mem_free`. -/
def err_free_window (s : world) (w : Nat) : world :=
  { s with app := { s.app with window_ll := s.app.window_ll.eraseIdx w },
           trace := s.trace ++ [effect.release (input_ptr.of_window w) resource.node] }

/-- Label `err_close_fd`. -/
def err_close_fd (s : world) (w : Nat) : world :=
  err_free_window (s.emit (effect.release (input_ptr.of_window w) resource.fd)) w

/-- Label `err_unmap`. -/
def err_unmap (s : world) (w : Nat) : world :=
  err_close_fd (s.emit (effect.release (input_ptr.of_window w) resource.mapping)) w

/-- Label `err_destroy_pool`. -/
def err_destroy_pool (s : world) (w : Nat) : world :=
  err_unmap (s.emit (effect.release (input_ptr.of_window w) resource.shm_pool)) w

/-- Label `err_destroy_buffer`. -/
def err_destroy_buffer (s : world) (w : Nat) : world :=
  err_destroy_pool (s.emit (effect.release (input_ptr.of_window w) resource.buffer)) w

/-- Label `err_destroy_surface`. -/
def err_destroy_surface (s : world) (w : Nat) : world :=
  err_destroy_buffer (s.emit (effect.release (input_ptr.of_window w) resource.surface)) w

/-- Label `err_destroy_shell_surface`. -/
def err_destroy_shell_surface (cfg : config) (s : world) (w : Nat) : world :=
  let win : window := (s.app.window_ll[w]?).getD zero_window
  let s := if cfg.LV_WAYLAND_WL_SHELL ∧ win.wl_shell_surface = true then
      s.emit (effect.release (input_ptr.of_window w) resource.wl_shell_surface) else s
  let s := if cfg.LV_WAYLAND_XDG_SHELL ∧ win.xdg_surface = true then
      s.emit (effect.release (input_ptr.of_window w) resource.xdg_surface) else s
  let s := if cfg.LV_WAYLAND_IVI_APPLICATION ∧ win.ivi_surface = true then
      s.emit (effect.release (input_ptr.of_window w) resource.ivi_surface) else s
  err_destroy_surface s w

/-- The chain `if (0) … else if (app->ivi_application) … else if (app->xdg_wm) … else if
(app->wl_shell) … else …` of `create_window` that binds the surface to a shell. The
result is `none` when the identifier loop has not ended within `fuel` rounds, and
otherwise the state together with the error label reached: 0 for none, 1 for
`err_destroy_surface`, 2 for `err_destroy_shell_surface`. -/
def create_shell_surface (cfg : config) (env : create_env) (fuel : Nat) (s : world)
    (w : Nat) : Option (world × Nat) :=
  let o : input_ptr := input_ptr.of_window w
  if cfg.LV_WAYLAND_IVI_APPLICATION ∧ s.app.ivi_application = true then
    match ivi_id_loop w fuel (lv_ll_get_prev w) s.app.ivi_id_base with
    | none => none
    | some ivi_id =>
      let s := s.emit (effect.ivi_application_surface_create w ivi_id)
      if !env.ivi_surface_ok then some (s, 1)
      else
        let s := s.emit (effect.acquire o resource.ivi_surface)
        some ({ s with app := s.app.modify_window w (fun x => { x with ivi_surface := true }) },
              0)
  else if cfg.LV_WAYLAND_XDG_SHELL ∧ s.app.xdg_wm = true then
    if !env.xdg_surface_ok then some (s, 1)
    else
      let s := s.emit (effect.acquire o resource.xdg_surface)
      let s := { s with app := s.app.modify_window w (fun x => { x with xdg_surface := true }) }
      if !env.xdg_toplevel_ok then some (s, 2)
      else
        let s := s.emit (effect.acquire o resource.xdg_toplevel)
        some ({ s with app := s.app.modify_window w (fun x => { x with xdg_toplevel := true }) },
              0)
  else if cfg.LV_WAYLAND_WL_SHELL ∧ s.app.wl_shell = true then
    if !env.wl_shell_surface_ok then some (s, 1)
    else
      let s := s.emit (effect.acquire o resource.wl_shell_surface)
      some ({ s with app := s.app.modify_window w (fun x => { x with wl_shell_surface := true }) },
            0)
  else some (s, 1)

/-- One round of the loop `for (b = 0; b < NUM_BUTTONS; b++)` of `create_window` that
creates the buttons of a window with a title bar. -/
def create_window_button (cfg : config) (env : create_env) (s : world) (w : Nat)
    (b : button_type) : world :=
  let meaningful : Bool :=
    match b with
    | button_type.BUTTON_TYPE_CLOSE => true
    | button_type.BUTTON_TYPE_MINIMIZE =>
      cfg.LV_WAYLAND_XDG_SHELL && ((s.app.window_ll[w]?).getD zero_window).xdg_toplevel
  if meaningful then
    let r := create_button cfg (env.button b) s w BUTTON_SIZE b
    { r.1 with app := r.1.app.modify_window w (fun x =>
        { x with button := fun c => if c = b then r.2 else x.button c }) }
  else s

/-- The block of `create_window` under `#if LV_WAYLAND_CLIENT_SIDE_DECORATIONS` that
creates the title bar and the buttons. -/
def create_decorations (cfg : config) (env : create_env) (s : world) (w : Nat) : world :=
  if cfg.LV_WAYLAND_CLIENT_SIDE_DECORATIONS ∧ s.app.opt_disable_decorations = false then
    let r := create_titlebar cfg env.titlebar s w TITLE_BAR_HEIGHT
    let s := { r.1 with app := r.1.app.modify_window w (fun x => { x with decoration := r.2 }) }
    match r.2 with
    | none => s
    | some _ =>
      [button_type.BUTTON_TYPE_CLOSE, button_type.BUTTON_TYPE_MINIMIZE].foldl
        (fun t b => create_window_button cfg env t w b) s
  else s

/-- The size computed at the head of `create_window`: `window->data_size` after the
decoration regions have been added. -/
def window_data_size (cfg : config) (width height : Int) : Nat :=
  let size : Nat := to_uint32 (width * height * BYTES_PER_PIXEL cfg)
  if cfg.LV_WAYLAND_CLIENT_SIDE_DECORATIONS then
    [button_type.BUTTON_TYPE_CLOSE, button_type.BUTTON_TYPE_MINIMIZE].foldl
      (fun n _ => (n + to_uint32 (BUTTON_SIZE * BUTTON_SIZE * BYTES_PER_PIXEL cfg)) % 2 ^ 32)
      ((size + to_uint32 (width * TITLE_BAR_HEIGHT * BYTES_PER_PIXEL cfg)) % 2 ^ 32)
  else size

/-- `create_window` from the comment `Create shell surface` on, for the new window at
position `w`: bind the surface to a shell, create the decorations, close the file. -/
def create_window_shell (cfg : config) (env : create_env) (fuel : Nat) (s : world)
    (w : Nat) : Option (world × Option Nat) :=
  match create_shell_surface cfg env fuel s w with
  | none => none
  | some (s, 0) =>
    let s := create_decorations cfg env s w
    some (s.emit (effect.release (input_ptr.of_window w) resource.fd), some w)
  | some (s, 1) => some (err_destroy_surface s w, none)
  | some (s, _) => some (err_destroy_shell_surface cfg s w, none)

/-- `create_window` from `wl_compositor_create_surface` on. -/
def create_window_surface (cfg : config) (env : create_env) (fuel : Nat) (s : world)
    (w : Nat) : Option (world × Option Nat) :=
  if !env.surface_ok then some (err_destroy_buffer s w, none)
  else
    let s := s.emit (effect.acquire (input_ptr.of_window w) resource.surface)
    let s := { s with app := s.app.modify_window w (fun x =>
      { x with surface := true,
               input := { x.input with window := some w,
                                       parent_type := parent_type.PARENT_IS_WINDOW } }) }
    create_window_shell cfg env fuel s w

/-- `create_window` from `wl_shm_pool_create_buffer` on. -/
def create_window_buffer (cfg : config) (env : create_env) (fuel : Nat) (s : world)
    (w : Nat) (width height : Int) : Option (world × Option Nat) :=
  if !env.buffer_ok then some (err_destroy_pool s w, none)
  else
    let s := s.emit (effect.acquire (input_ptr.of_window w) resource.buffer)
    let s := { s with app := s.app.modify_window w (fun x =>
      { x with buffer := true,
               data_offset := (x.data_offset +
                 to_uint32 (width * height * BYTES_PER_PIXEL cfg)) % 2 ^ 32 }) }
    create_window_surface cfg env fuel s w

/-- `create_window` from `wl_shm_create_pool` on. -/
def create_window_pool (cfg : config) (env : create_env) (fuel : Nat) (s : world)
    (w : Nat) (width height : Int) : Option (world × Option Nat) :=
  if !env.pool_ok then some (err_unmap s w, none)
  else
    let s := s.emit (effect.acquire (input_ptr.of_window w) resource.shm_pool)
    let s := { s with app := s.app.modify_window w (fun x => { x with shm_pool := true }) }
    create_window_buffer cfg env fuel s w width height

/-- `create_window` from the `ftruncate` loop on; the fresh file reads as zeros. -/
def create_window_map (cfg : config) (env : create_env) (fuel : Nat) (s : world)
    (w : Nat) (width height : Int) : Option (world × Option Nat) :=
  if !env.ftruncate_ok then some (err_close_fd s w, none)
  else if !env.mmap_ok then some (err_close_fd s w, none)
  else
    let s := s.emit (effect.acquire (input_ptr.of_window w) resource.mapping)
    let s := { s with app := s.app.modify_window w (fun x =>
      { x with data := fun _ => 0, data_mapped := true }) }
    create_window_pool cfg env fuel s w width height

/-- `create_window` from the allocation of the file name on. -/
def create_window_file (cfg : config) (env : create_env) (fuel : Nat) (s : world)
    (w : Nat) (width height : Int) : Option (world × Option Nat) :=
  let o : input_ptr := input_ptr.of_window w
  if !env.name_ok then some (err_free_window s w, none)
  else
    let s := s.emit (effect.acquire o resource.name)
    let s := if env.mkstemp_ok then s.emit (effect.acquire o resource.fd) else s
    let s := s.emit (effect.release o resource.name)
    if !env.mkstemp_ok then some (err_free_window s w, none)
    else create_window_map cfg env fuel s w width height

/-- `create_window`. The result is `none` when the call has not returned within `fuel`
rounds of its identifier loop, and otherwise the new state with the `struct window *`
returned (`none` for NULL). The body is cut at its acquisitions: each
`create_window_…` is the rest of the function from one acquisition on. -/
def create_window (cfg : config) (env : create_env) (fuel : Nat) (s : world)
    (width height : Int) : Option (world × Option Nat) :=
  let w : Nat := s.app.window_ll.length
  if !env.node_ok then some (s, none)
  else
    let win : window :=
      { zero_window with width := width, height := height,
                         data_size := window_data_size cfg width height }
    let s : world :=
      { s with app := { s.app with window_ll := s.app.window_ll ++ [win] },
               trace := s.trace ++ [effect.acquire (input_ptr.of_window w) resource.node] }
    create_window_file cfg env fuel s w width height

/-! ## Teardown and the frame cycle coordinator -/

/-- `destroy_window`; `window` is the `struct window *` argument. The function assigns
nothing: it only hands the stored handles to their release calls. -/
def destroy_window (cfg : config) (s : world) (window : Option Nat) : world :=
  match window with
  | none => s
  | some w =>
    match s.app.window_ll[w]? with
    | none => s
    | some win =>
      let o : input_ptr := input_ptr.of_window w
      let s := if cfg.LV_WAYLAND_WL_SHELL ∧ win.wl_shell_surface = true then
          s.emit (effect.release o resource.wl_shell_surface) else s
      let s := if cfg.LV_WAYLAND_XDG_SHELL ∧ win.xdg_toplevel = true then
          (s.emit (effect.release o resource.xdg_toplevel)).emit
            (effect.release o resource.xdg_surface)
        else s
      let s := if cfg.LV_WAYLAND_IVI_APPLICATION ∧ win.ivi_surface = true then
          s.emit (effect.release o resource.ivi_surface) else s
      let s := s.emit (effect.release o resource.surface)
      let s := s.emit (effect.release o resource.buffer)
      let s := s.emit (effect.release o resource.shm_pool)
      let s := s.emit (effect.release o resource.mapping)
      if cfg.LV_WAYLAND_CLIENT_SIDE_DECORATIONS ∧ win.decoration.isSome = true then
        [button_type.BUTTON_TYPE_CLOSE, button_type.BUTTON_TYPE_MINIMIZE].foldl
          (fun t b =>
            if (win.button b).isSome then
              t.emit (effect.release (input_ptr.of_button w b) resource.memory)
            else t)
          (s.emit (effect.release (input_ptr.of_decoration w) resource.memory))
      else s

/-- What the display server answers during one flush round of `window_cycle`: the
batches of already queued events, one for each `wl_display_prepare_read` that fails,
and the events that `wl_display_read_events` brings in. -/
structure cycle_env where
  queued : List (List wl_event)
  arrived : List wl_event

/-- Lines 1462 to 1473 of `window_cycle`: mark the window cycled, then close it or call
the captured callback. -/
def window_cycle_close (cfg : config) (s : world) (disp_drv : lv_disp_drv_t) (w : Nat)
    (time px : Nat) : world :=
  let s := { s with app := s.app.modify_window w (fun x => { x with cycled := true }) }
  match s.app.window_ll[w]? with
  | none => s
  | some win =>
    if win.shall_close then
      let s := destroy_window cfg s (some w)
      { s with app := s.app.modify_window w (fun x =>
          { x with closed := true, shall_close := false, flush_pending := true }) }
    else
      match win.ext_monitor_cb with
      | some cb => s.emit (effect.monitor_cb cb disp_drv time px)
      | none => s

/-- The loop `while (wl_display_prepare_read(app->display) != 0) wl_display_dispatch_pending(app->display);`. -/
def prepare_read_loop (cfg : config) (s : world) : List (List wl_event) → world
  | [] => s.emit (effect.wl_display_prepare_read true)
  | batch :: rest =>
    prepare_read_loop cfg
      (wl_display_dispatch_pending cfg (s.emit (effect.wl_display_prepare_read false)) batch)
      rest

/-- Lines 1485 to 1518 of `window_cycle`: the flush round, entered once every window has
cycled. `shall_flush` comes in with the value of `cursor_flush_pending` read at entry of
`window_cycle`. -/
def window_cycle_round (cfg : config) (env : cycle_env) (s : world) (shall_flush : Bool) :
    world :=
  let shall_flush : Bool :=
    s.app.window_ll.foldl (fun acc a_window => acc || a_window.flush_pending) shall_flush
  let s := { s with app := { s.app with window_ll := s.app.window_ll.map (fun a_window =>
    { a_window with flush_pending := false, cycled := false }) } }
  let s := prepare_read_loop cfg s env.queued
  let s := if shall_flush then
      { s with app := { s.app with cursor_flush_pending := false },
               trace := s.trace ++ [effect.wl_display_flush] }
    else s
  let s := s.emit effect.wl_display_read_events
  let s := wl_display_dispatch_pending cfg s env.arrived
  if s.app.window_ll.all (fun a_window => a_window.closed) then
    { s with trace := s.trace ++ [effect.exit 0], exited := true }
  else s

/-- `window_cycle`, the `monitor_cb` installed by `lv_wayland_flush`. -/
def window_cycle (cfg : config) (env : cycle_env) (s : world) (disp_drv : lv_disp_drv_t)
    (time px : Nat) : world :=
  match disp_drv.user_data with
  | none => s
  | some w =>
    let shall_flush : Bool := s.app.cursor_flush_pending
    let s := window_cycle_close cfg s disp_drv w time px
    if s.app.window_ll.all (fun a_window => a_window.cycled) then
      window_cycle_round cfg env s shall_flush
    else s

/-- `lv_wayland_deinit` -/
def lv_wayland_deinit (cfg : config) (s : world) : world :=
  let s := (List.range s.app.window_ll.length).foldl
    (fun t w =>
      match t.app.window_ll[w]? with
      | some win => if !win.closed then destroy_window cfg t (some w) else t
      | none => t) s
  let s := if s.app.shm then s.emit effect.wl_shm_destroy else s
  let s := if cfg.LV_WAYLAND_XDG_SHELL ∧ s.app.xdg_wm = true then
      s.emit effect.xdg_wm_base_destroy else s
  let s := if cfg.LV_WAYLAND_WL_SHELL ∧ s.app.wl_shell = true then
      s.emit effect.wl_shell_destroy else s
  let s := if s.app.wl_seat then s.emit effect.wl_seat_destroy else s
  let s := if s.app.subcompositor then s.emit effect.wl_subcompositor_destroy else s
  let s := if s.app.compositor then s.emit effect.wl_compositor_destroy else s
  let s := ((s.emit effect.wl_registry_destroy).emit effect.wl_display_flush).emit
    effect.wl_display_disconnect
  { s with app := { s.app with window_ll := [] }, trace := s.trace ++ [effect.lv_ll_clear] }

/-! ## The draw callback -/

/-- The state of the copy loops of `lv_wayland_flush`: the mapped memory, the position
of `color_p` in the pixel buffer of the renderer, and the offsets stored to so far
(oldest first). -/
structure draw_st where
  data : Int → Nat
  color_p : Nat
  written : List Int

/-- The value stored for one pixel at colour depth 1:
`((0x07 * ch.red) << 5) | ((0x07 * ch.green) << 2) | ((0x03 * ch.blue) << 0)`,
converted to `uint8_t`. -/
def rgb332_of_1bit (c : lv_color_t) : Nat :=
  (((0x07 * c.red) <<< 5) ||| ((0x07 * c.green) <<< 2) ||| ((0x03 * c.blue) <<< 0)) % 256

/-- The body of the inner loop of `lv_wayland_flush`: the store selected by
`LV_COLOR_DEPTH` (no store is compiled for another depth), then `color_p++`. -/
def put_px (cfg : config) (color_p : Nat → lv_color_t) (d : draw_st) (offset : Int) :
    draw_st :=
  let c : lv_color_t := color_p d.color_p
  let d : draw_st :=
    if cfg.LV_COLOR_DEPTH = 32 ∨ cfg.LV_COLOR_DEPTH = 16 ∨ cfg.LV_COLOR_DEPTH = 8 then
      { d with data := store d.data offset c.full, written := d.written ++ [offset] }
    else if cfg.LV_COLOR_DEPTH = 1 then
      { d with data := store d.data offset (rgb332_of_1bit c),
               written := d.written ++ [offset] }
    else d
  { d with color_p := d.color_p + 1 }

/-- The loop `for (x = area->x1; x <= area->x2 && x < disp_drv->hor_res; x++)`, from `x`
on, in row `y`. -/
def flush_row (cfg : config) (hor_res : Int) (color_p : Nat → lv_color_t) (y x2 : Int)
    (x : Int) (d : draw_st) : draw_st :=
  if x ≤ x2 ∧ x < hor_res then
    flush_row cfg hor_res color_p y x2 (x + 1) (put_px cfg color_p d ((y * hor_res) + x))
  else d
termination_by (x2 + 1 - x).toNat
decreasing_by omega

/-- The loop `for (y = area->y1; y <= area->y2 && y < disp_drv->ver_res; y++)`, from `y`
on. -/
def flush_rows (cfg : config) (hor_res ver_res : Int) (color_p : Nat → lv_color_t)
    (x1 x2 y2 : Int) (y : Int) (d : draw_st) : draw_st :=
  if y ≤ y2 ∧ y < ver_res then
    flush_rows cfg hor_res ver_res color_p x1 x2 y2 (y + 1)
      (flush_row cfg hor_res color_p y x2 x1 d)
  else d
termination_by (y2 + 1 - y).toNat
decreasing_by omega

/-- Lines 1679 to 1715 of `lv_wayland_flush`: copy the pixels, attach the buffer, record
the damage, commit on the last rectangle of a frame, acknowledge. `is_last` is what
`lv_disp_flush_is_last` answers. Each store into the shared mapping is also entered in
the trace. -/
def flush_draw (cfg : config) (s : world) (disp_drv : lv_disp_drv_t) (w : Nat)
    (area : lv_area_t) (color_p : Nat → lv_color_t) (is_last : Bool) : world :=
  let o : input_ptr := input_ptr.of_window w
  match s.app.window_ll[w]? with
  | none => s
  | some win =>
    let d : draw_st :=
      flush_rows cfg disp_drv.hor_res disp_drv.ver_res color_p area.x1 area.x2 area.y2
        area.y1 { data := win.data, color_p := 0, written := [] }
    let s := { s with app := s.app.modify_window w (fun x => { x with data := d.data }),
                      trace := s.trace ++ d.written.map (fun k => effect.store o k) }
    let s := s.emit (effect.wl_surface_attach o)
    let s := s.emit (effect.wl_surface_damage o area.x1 area.y1 (area.x2 - area.x1 + 1)
      (area.y2 - area.y1 + 1))
    let s := if is_last then
        { s with app := s.app.modify_window w (fun x => { x with flush_pending := true }),
                 trace := s.trace ++ [effect.wl_surface_commit o] }
      else s
    s.emit (effect.lv_disp_flush_ready disp_drv)

/-- `lv_wayland_flush`. The result is `none` when the call has not returned within
`fuel` rounds of the identifier loop of `create_window`, and otherwise the new state
and the display driver record, whose `user_data` and `monitor_cb` the call may set. -/
def lv_wayland_flush (cfg : config) (env : create_env) (fuel : Nat) (s : world)
    (disp_drv : lv_disp_drv_t) (area : lv_area_t) (color_p : Nat → lv_color_t)
    (is_last : Bool) : Option (world × lv_disp_drv_t) :=
  let hres : Int := if disp_drv.rotated = 0 then disp_drv.hor_res else disp_drv.ver_res
  let vres : Int := if disp_drv.rotated = 0 then disp_drv.ver_res else disp_drv.hor_res
  match disp_drv.user_data with
  | none =>
    match create_window cfg env fuel s hres vres with
    | none => none
    | some (s, none) => some (s, disp_drv)
    | some (s, some w) =>
      let s := { s with app := s.app.modify_window w (fun x =>
        { x with ext_monitor_cb := disp_drv.monitor_cb }) }
      let disp_drv := { disp_drv with user_data := some w,
                                      monitor_cb := some monitor_cb_t.window_cycle }
      some (flush_draw cfg s disp_drv w area color_p is_last, disp_drv)
  | some w =>
    match s.app.window_ll[w]? with
    | none => some (s, disp_drv)
    | some win =>
      if win.closed ∨ win.shall_close then
        some (s.emit (effect.lv_disp_flush_ready disp_drv), disp_drv)
      else if area.x2 < 0 ∨ area.y2 < 0 ∨ area.x1 > hres - 1 ∨ area.y1 > vres - 1 then
        some (s.emit (effect.lv_disp_flush_ready disp_drv), disp_drv)
      else some (flush_draw cfg s disp_drv w area color_p is_last, disp_drv)

/-! ## Input reads -/

/-- The fields of `lv_indev_data_t` the read callbacks fill. -/
structure lv_indev_data_t where
  point_x : Int
  point_y : Int
  key : Nat
  enc_diff : Int
  state : lv_indev_state_t
deriving DecidableEq, Repr

/-- `lv_wayland_pointer_read`; `window` is `drv->disp->driver->user_data`. -/
def lv_wayland_pointer_read (s : world) (window : Option Nat) (data : lv_indev_data_t) :
    world × lv_indev_data_t :=
  match window.bind (fun w => s.app.window_ll[w]?) with
  | none => (s, data)
  | some win =>
    (s, { data with point_x := win.input.mouse.x, point_y := win.input.mouse.y,
                    state := win.input.mouse.left_button })

/-- `lv_wayland_pointeraxis_read`; `window` is `drv->disp->driver->user_data`. -/
def lv_wayland_pointeraxis_read (s : world) (window : Option Nat) (data : lv_indev_data_t) :
    world × lv_indev_data_t :=
  match window with
  | none => (s, data)
  | some w =>
    match s.app.window_ll[w]? with
    | none => (s, data)
    | some win =>
      ({ s with app := s.app.modify_window w (fun x =>
          { x with input := { x.input with mouse := { x.input.mouse with wheel_diff := 0 } } }) },
       { data with state := win.input.mouse.wheel_button,
                   enc_diff := win.input.mouse.wheel_diff })

/-- `lv_wayland_keyboard_read`; `window` is `drv->disp->driver->user_data`. -/
def lv_wayland_keyboard_read (s : world) (window : Option Nat) (data : lv_indev_data_t) :
    world × lv_indev_data_t :=
  match window.bind (fun w => s.app.window_ll[w]?) with
  | none => (s, data)
  | some win =>
    (s, { data with key := win.input.keyboard.key, state := win.input.keyboard.state })

/-- `lv_wayland_touch_read`; `window` is `drv->disp->driver->user_data`. -/
def lv_wayland_touch_read (s : world) (window : Option Nat) (data : lv_indev_data_t) :
    world × lv_indev_data_t :=
  match window.bind (fun w => s.app.window_ll[w]?) with
  | none => (s, data)
  | some win =>
    (s, { data with point_x := win.input.touch.x, point_y := win.input.touch.y,
                    state := win.input.touch.state })

/-! ## Concrete configurations and states used to instantiate the theorems -/

/-- A build at colour depth 16 (`LV_COLOR_MAKE16` without byte swap), XDG shell only,
no client-side decorations. -/
def cfg16 : config :=
  { LV_COLOR_DEPTH := 16, LV_USE_LARGE_COORD := false,
    LV_WAYLAND_CLIENT_SIDE_DECORATIONS := false, LV_WAYLAND_WL_SHELL := false,
    LV_WAYLAND_XDG_SHELL := true, LV_WAYLAND_IVI_APPLICATION := false,
    LV_WAYLAND_IVI_ID_BASE := 0,
    lv_color_make := fun r g b =>
      { full := (r / 8) * 2048 + (g / 4) * 32 + b / 8, red := r / 8, green := g / 4,
        blue := b / 8 },
    xkb_state_key_get_syms := fun _ _ => [] }

/-- Every acquisition of `create_window` succeeds. -/
def env_ok : create_env :=
  { node_ok := true, name_ok := true, mkstemp_ok := true, ftruncate_ok := true,
    mmap_ok := true, pool_ok := true, buffer_ok := true, surface_ok := true,
    ivi_surface_ok := true, xdg_surface_ok := true, xdg_toplevel_ok := true,
    wl_shell_surface_ok := true,
    titlebar := { alloc_ok := true, surface_ok := true, subsurface_ok := true,
                  buffer_ok := true, uninit := zero_input },
    button := fun _ => { alloc_ok := true, surface_ok := true, subsurface_ok := true,
                         buffer_ok := true, uninit := zero_input } }

/-- The application after `lv_wayland_init` on a server that offers the XDG shell: no
window yet. -/
def app0 : application :=
  { compositor := true, subcompositor := true, shm := true, wl_seat := true,
    cursor_theme := true, cursor_surface := false, wl_shell := false, xdg_wm := true,
    ivi_application := false, ivi_id_base := 0, opt_disable_decorations := false,
    format := WL_SHM_FORMAT_RGB565,
    seat := { wl_touch := false, wl_pointer := false, wl_keyboard := false,
              xkb_keymap := none, xkb_state := none },
    touch := none, pointer := none, keyboard := none, window_ll := [],
    cursor_flush_pending := false }

/-- An open 320 by 240 window bound to the XDG shell, as `create_window` leaves it at
colour depth 16 without decorations, at position `w` of the collection. -/
def window320 (w : Nat) : window :=
  { zero_window with
    shm_pool := true, buffer := true, surface := true, xdg_surface := true,
    xdg_toplevel := true, width := 320, height := 240, data_mapped := true,
    data_size := 153600, data_offset := 153600,
    input := { zero_input with window := some w } }

/-- A process with the given windows and an empty trace. -/
def world_of (l : List window) : world :=
  { app := { app0 with window_ll := l }, trace := [], exited := false }

/-- The display driver record of a 320 by 240 unrotated display whose window is at
position `w`. -/
def drv320 (w : Nat) : lv_disp_drv_t :=
  { hor_res := 320, ver_res := 240, rotated := 0, user_data := some w,
    monitor_cb := some monitor_cb_t.window_cycle }

/-- The encoded value of white at colour depth 16. -/
def white16 : lv_color_t := cfg16.lv_color_make 0xff 0xff 0xff

/-! ## Predicates and runs used in the statements -/

/-- The keymap and the modifier state held by the application belong together: both
are absent, or the state is one derived from that keymap. -/
def xkb_pair_ok (st : seat) : Bool :=
  match st.xkb_keymap, st.xkb_state with
  | none, none => true
  | some k, some x => decide (x.keymap = k)
  | _, _ => false

/-- The lifecycle flags `cycled` and `closed` of every window, in collection order. -/
def cycle_flags (app : application) : List (Bool × Bool) :=
  app.window_ll.map (fun a_window => (a_window.cycled, a_window.closed))

/-- The events of `k` scroll steps: `pointer_handle_axis` on axis 0 for each value of
`values`, in order, with no read in between. -/
def axis_events (s : world) (values : List Int) : world :=
  values.foldl (fun t value => pointer_handle_axis t 0 value) s

/-- One open 320 by 240 window that holds the pointer focus. -/
def world_focused : world :=
  { app := { app0 with window_ll := [window320 0], pointer := some (input_ptr.of_window 0) },
    trace := [], exited := false }

/-- An `lv_indev_data_t` before a read callback fills it. -/
def data0 : lv_indev_data_t :=
  { point_x := 0, point_y := 0, key := 0, enc_diff := 0,
    state := lv_indev_state_t.LV_INDEV_STATE_REL }

/-- The later state `r` has the trace of `s` followed by further calls, each of which
satisfies `P`. -/
def trace_adds (P : effect → Prop) (s r : world) : Prop :=
  ∃ added, r.trace = s.trace ++ added ∧ ∀ e ∈ added, P e

/-- The calls a seat, shell or registry listener of this file can make. -/
def effect.from_listener : effect → Bool
  | .cursor_update _ => true
  | .cursor_surface_create _ => true
  | .cursor_surface_destroy => true
  | .xdg_toplevel_move _ => true
  | .xdg_toplevel_set_minimized _ => true
  | .keymap_fd_close => true
  | .keymap_mmap _ => true
  | .keymap_munmap => true
  | .xkb_keymap_unref _ => true
  | .xkb_state_unref _ => true
  | _ => false

/-- A call that releases something held for the window at position `w`, for its title
bar or for one of its buttons. -/
def effect.releases_of (w : Nat) : effect → Bool
  | .release (.of_window v) _ => decide (v = w)
  | .release (.of_decoration v) _ => decide (v = w)
  | .release (.of_button v _) _ => decide (v = w)
  | _ => false

/-- Any release call. -/
def effect.is_release : effect → Bool
  | .release _ _ => true
  | _ => false

/-- The close step of the coordinator (lines 1462 to 1473 of `window_cycle`) run `k`
times in a row for the window at position `w`. -/
def close_steps (cfg : config) (disp_drv : lv_disp_drv_t) (w : Nat) (time px : Nat) :
    Nat → world → world
  | 0, s => s
  | k + 1, s => close_steps cfg disp_drv w time px k (window_cycle_close cfg s disp_drv w time px)

/-- An open 320 by 240 window at position `w` for which a close has been requested. -/
def window_closing (w : Nat) : window := { window320 w with shall_close := true }

/-- The calls `destroy_window` makes for the window `win` at position `w`, in order
(`destroy_window_eq` proves that these are the calls of `destroy_window`). -/
def destroy_window_calls (cfg : config) (w : Nat) (win : window) : List effect :=
  (if cfg.LV_WAYLAND_WL_SHELL ∧ win.wl_shell_surface = true then
      [effect.release (input_ptr.of_window w) resource.wl_shell_surface] else []) ++
  ((if cfg.LV_WAYLAND_XDG_SHELL ∧ win.xdg_toplevel = true then
      [effect.release (input_ptr.of_window w) resource.xdg_toplevel,
       effect.release (input_ptr.of_window w) resource.xdg_surface] else []) ++
  ((if cfg.LV_WAYLAND_IVI_APPLICATION ∧ win.ivi_surface = true then
      [effect.release (input_ptr.of_window w) resource.ivi_surface] else []) ++
  ([effect.release (input_ptr.of_window w) resource.surface,
    effect.release (input_ptr.of_window w) resource.buffer,
    effect.release (input_ptr.of_window w) resource.shm_pool,
    effect.release (input_ptr.of_window w) resource.mapping] ++
  (if cfg.LV_WAYLAND_CLIENT_SIDE_DECORATIONS ∧ win.decoration.isSome = true then
      [effect.release (input_ptr.of_decoration w) resource.memory] ++
      ((if (win.button button_type.BUTTON_TYPE_CLOSE).isSome then
          [effect.release (input_ptr.of_button w button_type.BUTTON_TYPE_CLOSE)
            resource.memory] else []) ++
       (if (win.button button_type.BUTTON_TYPE_MINIMIZE).isSome then
          [effect.release (input_ptr.of_button w button_type.BUTTON_TYPE_MINIMIZE)
            resource.memory] else []))
    else []))))

/-- The lifecycle flags of a window and the callback it captured. -/
def lifecycle (x : window) : Bool × Bool × Bool × Bool × Option monitor_cb_t :=
  (x.flush_pending, x.cycled, x.shall_close, x.closed, x.ext_monitor_cb)

/-- The value `lv_wayland_flush` stores for a source pixel at the configured colour
depth; `none` when no store is compiled for that depth. -/
def stored_value (cfg : config) (c : lv_color_t) : Option Nat :=
  if cfg.LV_COLOR_DEPTH = 32 ∨ cfg.LV_COLOR_DEPTH = 16 ∨ cfg.LV_COLOR_DEPTH = 8 then some c.full
  else if cfg.LV_COLOR_DEPTH = 1 then some (rgb332_of_1bit c)
  else none

/-- The number of pixels the inner loop of `lv_wayland_flush` copies in one row: the
columns from `x1` up to `x2`, cut off at the right edge `hor_res`. -/
def row_len (hor_res x1 x2 : Int) : Nat :=
  (min x2 (hor_res - 1) + 1 - x1).toNat

/-- The number of rows the outer loop of `lv_wayland_flush` visits: the rows from `y1`
up to `y2`, cut off at the bottom edge `ver_res`. -/
def row_count (ver_res y1 y2 : Int) : Nat :=
  (min y2 (ver_res - 1) + 1 - y1).toNat

/-- The colour depths for which `lv_wayland_flush` compiles a store. -/
def depth_supported (cfg : config) : Prop :=
  cfg.LV_COLOR_DEPTH = 32 ∨ cfg.LV_COLOR_DEPTH = 16 ∨ cfg.LV_COLOR_DEPTH = 8 ∨
    cfg.LV_COLOR_DEPTH = 1

/-- The value stored for a source pixel at a supported colour depth: the pixel itself
at depth 8, 16 and 32, the synthesized byte at depth 1. -/
def px_value (cfg : config) (c : lv_color_t) : Nat :=
  if cfg.LV_COLOR_DEPTH = 1 then rgb332_of_1bit c else c.full

/-- The calls `create_window` can make: acquisitions, releases, the request for an IVI
surface, and attach and commit on the surface of a title bar or button. -/
def effect.from_creation : effect → Bool
  | .acquire _ _ => true
  | .release _ _ => true
  | .ivi_application_surface_create _ _ => true
  | .wl_surface_attach (.of_decoration _) => true
  | .wl_surface_attach (.of_button _ _) => true
  | .wl_surface_commit (.of_decoration _) => true
  | .wl_surface_commit (.of_button _ _) => true
  | _ => false

/-- The display driver record of a 320 by 240 unrotated display for which no window has
been created yet. -/
def drv_new : lv_disp_drv_t :=
  { hor_res := 320, ver_res := 240, rotated := 0, user_data := none,
    monitor_cb := some (monitor_cb_t.external 7) }

/-- A rectangle of one row and five columns that lies entirely to the left of the
display. -/
def area_left : lv_area_t := { x1 := -5, y1 := 1, x2 := -1, y2 := 1 }

/-- One coordinator invocation: the display driver record whose `monitor_cb` is called,
the arguments of the call, and what the display server answers should this invocation
run the flush round. -/
structure cycle_call where
  disp_drv : lv_disp_drv_t
  time : Nat
  px : Nat
  env : cycle_env

/-- Coordinator invocations made one after the other; once the process has called
`exit` nothing runs any more. -/
def run_cycles (cfg : config) : world → List cycle_call → world
  | s, [] => s
  | s, c :: rest =>
    if s.exited then s
    else run_cycles cfg (window_cycle cfg c.env s c.disp_drv c.time c.px) rest

/-- The number of flush rounds recorded in a trace: each round calls
`wl_display_read_events` exactly once, and nothing else calls it. -/
def rounds (t : List effect) : Nat := t.count effect.wl_display_read_events

/-- An invocation of the coordinator for the window at position `w` of a 320 by 240
display, with no event queued or arriving. -/
def call320 (w : Nat) : cycle_call :=
  { disp_drv := drv320 w, time := 33, px := 76800, env := { queued := [], arrived := [] } }

/-- The named keys of the static table behind `keycode_xkb_to_lv`, as the specification
lists them: each navigation or control symbol (with its keypad variant) and the logical
key it stands for. -/
def named_keys : List (Nat × Nat) :=
  [(XKB_KEY_BackSpace, LV_KEY_BACKSPACE),
   (XKB_KEY_Return, LV_KEY_ENTER), (XKB_KEY_KP_Enter, LV_KEY_ENTER),
   (XKB_KEY_Escape, LV_KEY_ESC),
   (XKB_KEY_Delete, LV_KEY_DEL), (XKB_KEY_KP_Delete, LV_KEY_DEL),
   (XKB_KEY_Home, LV_KEY_HOME), (XKB_KEY_KP_Home, LV_KEY_HOME),
   (XKB_KEY_Left, LV_KEY_LEFT), (XKB_KEY_KP_Left, LV_KEY_LEFT),
   (XKB_KEY_Up, LV_KEY_UP), (XKB_KEY_KP_Up, LV_KEY_UP),
   (XKB_KEY_Right, LV_KEY_RIGHT), (XKB_KEY_KP_Right, LV_KEY_RIGHT),
   (XKB_KEY_Down, LV_KEY_DOWN), (XKB_KEY_KP_Down, LV_KEY_DOWN),
   (XKB_KEY_Prior, LV_KEY_PREV), (XKB_KEY_KP_Prior, LV_KEY_PREV),
   (XKB_KEY_Next, LV_KEY_NEXT), (XKB_KEY_KP_Next, LV_KEY_NEXT),
   (XKB_KEY_Tab, LV_KEY_NEXT), (XKB_KEY_KP_Tab, LV_KEY_NEXT),
   (XKB_KEY_End, LV_KEY_END), (XKB_KEY_KP_End, LV_KEY_END)]

/-- The bounds of a pointer position as the specification gives them for each kind of
target: the full window for the window itself, a strip of the height of the title bar
for a decoration, a fixed square for a button. -/
def motion_bounds (kind : parent_type) (win : window) : Int × Int :=
  match kind with
  | parent_type.PARENT_IS_WINDOW => (win.width - 1, win.height - 1)
  | parent_type.PARENT_IS_DECORATION => (win.width - 1, (TITLE_BAR_HEIGHT : Int))
  | parent_type.PARENT_IS_BUTTON => ((BUTTON_SIZE : Int), (BUTTON_SIZE : Int))

/-- The input record of a window at position 0 over which the pointer was last seen at
(7, 9). -/
def input_at_7_9 : input :=
  { zero_input with window := some 0, mouse := { zero_input.mouse with x := 7, y := 9 } }

/-- An open 320 by 240 window with the input record `input_at_7_9`. -/
def window_pointing : window := { window320 0 with input := input_at_7_9 }

/-- One window, `window_pointing`, that holds the pointer focus. -/
def world_pointing : world :=
  { app := { app0 with window_ll := [window_pointing],
                       pointer := some (input_ptr.of_window 0) },
    trace := [], exited := false }

/-- The build `cfg16` with client-side decorations compiled in. -/
def cfg_deco : config := { cfg16 with LV_WAYLAND_CLIENT_SIDE_DECORATIONS := true }

/-- The input record of the close button of the window at position 0. -/
def close_button_input : input :=
  { zero_input with window := some 0, parent_type := parent_type.PARENT_IS_BUTTON }

/-- The close button of a 320 by 240 window at colour depth 16: its pixels follow the
window pixels and the title bar in the mapping. -/
def close_button : button :=
  { type := button_type.BUTTON_TYPE_CLOSE, buffer := true, surface := true,
    subsurface := true, data := 168960, input := close_button_input }

/-- An open 320 by 240 window at position 0 with a title bar and a close button. -/
def window_decorated : window :=
  { window320 0 with
    decoration := some { buffer := true, surface := true, subsurface := true, data := 153600,
                         input := { zero_input with
                           window := some 0,
                           parent_type := parent_type.PARENT_IS_DECORATION } },
    button := fun b =>
      match b with
      | button_type.BUTTON_TYPE_CLOSE => some close_button
      | button_type.BUTTON_TYPE_MINIMIZE => none,
    data_size := 169984, data_offset := 169472 }

/-- The window `window_decorated` with the pointer over its close button. -/
def world_on_close_button : world :=
  { app := { app0 with
      window_ll := [window_decorated],
      pointer := some (input_ptr.of_button 0 button_type.BUTTON_TYPE_CLOSE) },
    trace := [], exited := false }

/-- The build `cfg16` with a keymap in which the key code 38 carries the one symbol `a`
(0x61), the key code 50 the two symbols of a shift level pair, and no other code a
symbol. -/
def cfg_keys : config :=
  { cfg16 with xkb_state_key_get_syms := fun _ code =>
      if code = 38 then [0x61] else if code = 50 then [0xffe1, 0xffe2] else [] }

/-- One open 320 by 240 window that holds the keyboard focus, with a keymap loaded. -/
def world_typing : world :=
  { app := { app0 with
      window_ll := [window320 0],
      keyboard := some (input_ptr.of_window 0),
      seat := { app0.seat with xkb_keymap := some { source := "xkb_keymap" },
                               xkb_state := some (xkb_state_new { source := "xkb_keymap" }) } },
    trace := [], exited := false }

/-- One 320 by 240 window for which a close has been requested and which holds the
pointer, the keyboard and the touch focus. -/
def world_closing_focused : world :=
  { app := { app0 with
      window_ll := [window_closing 0],
      pointer := some (input_ptr.of_window 0),
      keyboard := some (input_ptr.of_window 0),
      touch := some (input_ptr.of_window 0) },
    trace := [], exited := false }

/-- The three focus references of the application: pointer, keyboard, touch. -/
def focus_refs (app : application) : Option input_ptr × Option input_ptr × Option input_ptr :=
  (app.pointer, app.keyboard, app.touch)

/-- The number of times buffered requests were sent to the server in a trace: the calls
of `wl_display_flush`. -/
def flushes (t : List effect) : Nat := t.count effect.wl_display_flush

/-- Two open windows: the first has not cycled yet, the second has cycled and has a frame
to send. -/
def world_last_to_cycle : world :=
  world_of [window320 0, { window320 1 with cycled := true, flush_pending := true }]

/-- One step of the bookkeeping of what is held: an acquisition is pushed on top, a
release takes the resource out. -/
def held_step (h : List (input_ptr × resource)) : effect → List (input_ptr × resource)
  | .acquire o r => (o, r) :: h
  | .release o r => h.erase (o, r)
  | _ => h

/-- What is held after the calls `t`, starting from `h`; the latest acquisition comes
first. -/
def held_from (h : List (input_ptr × resource)) (t : List effect) :
    List (input_ptr × resource) :=
  t.foldl held_step h

/-- What is held after the calls `t` of one attempt, the latest acquisition first. -/
def held (t : List effect) : List (input_ptr × resource) := held_from [] t

/-- The release calls for `h`, in the order of `h`. -/
def unwinding (h : List (input_ptr × resource)) : List effect :=
  h.map (fun p => effect.release p.1 p.2)

/-- The shell binding of `create_window` fails: the one shell that the chain
`ivi_application`, `xdg_wm`, `wl_shell` selects refuses an object, or there is no shell. -/
def shell_fails (cfg : config) (env : create_env) (app : application) : Bool :=
  if cfg.LV_WAYLAND_IVI_APPLICATION ∧ app.ivi_application = true then !env.ivi_surface_ok
  else if cfg.LV_WAYLAND_XDG_SHELL ∧ app.xdg_wm = true then
    !env.xdg_surface_ok || !env.xdg_toplevel_ok
  else if cfg.LV_WAYLAND_WL_SHELL ∧ app.wl_shell = true then !env.wl_shell_surface_ok
  else true

/-- An acquisition of `create_window` that comes before the shell binding fails: name
allocation, backing file, truncate, mapping, pool, buffer or surface. -/
def create_fails_early (env : create_env) : Bool :=
  !env.name_ok || (!env.mkstemp_ok || (!env.ftruncate_ok || (!env.mmap_ok ||
    (!env.pool_ok || (!env.buffer_ok || !env.surface_ok)))))

/-- Some acquisition of `create_window` after the list node fails. -/
def create_fails (cfg : config) (env : create_env) (app : application) : Bool :=
  create_fails_early env || shell_fails cfg env app

/-- The identifier loop of `create_window` is not entered (no IVI shell is in use), or it
ends: the new window at position `w` has no predecessor and there is fuel for the one
test of the loop condition. -/
def loop_ends (cfg : config) (app : application) (w fuel : Nat) : Prop :=
  ¬ (cfg.LV_WAYLAND_IVI_APPLICATION = true ∧ app.ivi_application = true) ∨ (w = 0 ∧ 0 < fuel)

/-- The state `r` is the state `s` after a failed rest of `create_window` for the window
at position `w`, when `h` was held at `s`: the window is out of the collection, and the
trace has grown by further calls `more` followed by the release of everything then held,
the latest acquisition first, each once; `more` itself releases nothing but the buffer of
the file name. -/
def unwinds (w : Nat) (h : List (input_ptr × resource)) (s r : world) : Prop :=
  r.app = { s.app with window_ll := s.app.window_ll.eraseIdx w } ∧
  r.exited = s.exited ∧
  ∃ more, r.trace = s.trace ++ more ++ unwinding (held_from h more) ∧
    (held_from h more).Nodup ∧
    ∀ e ∈ more, effect.is_release e = true →
      e = effect.release (input_ptr.of_window w) resource.name

/-- No shell object is bound to the window at position `w` yet. -/
def shell_free (app : application) (w : Nat) : Prop :=
  ∃ win, app.window_ll[w]? = some win ∧ win.wl_shell_surface = false ∧
    win.xdg_surface = false ∧ win.ivi_surface = false

/-- Every acquisition of `create_window` succeeds except that of the XDG top-level. -/
def env_no_toplevel : create_env := { env_ok with xdg_toplevel_ok := false }

/-- The width, the height and the size of the backing memory of a window. -/
def geometry (x : window) : Int × Int × Nat := (x.width, x.height, x.data_size)

/-- How the backing memory of a window has been carved up so far: the running offset
`data_offset`, the byte offsets at which the pixels of the title bar and of the two
buttons start (`none` for a part that does not exist), and the width of the window. -/
structure carve where
  offset : Nat
  titlebar : Option Nat
  close : Option Nat
  minimize : Option Nat
  width : Int
deriving DecidableEq, Repr

/-- The carving of a window, read off its record. -/
def window.carve (x : window) : carve :=
  { offset := x.data_offset,
    titlebar := x.decoration.map (fun d => d.data),
    close := (x.button button_type.BUTTON_TYPE_CLOSE).map (fun b => b.data),
    minimize := (x.button button_type.BUTTON_TYPE_MINIMIZE).map (fun b => b.data),
    width := x.width }

/-- The carving of the window at position `w`. -/
def carve_at (app : application) (w : Nat) : Option carve :=
  (app.window_ll[w]?).map window.carve

/-- The carving after the decorations of a window have been created, from the carving
`c` before: `tb`, `cl` and `mn` tell whether the title bar, the close button and the
minimize button were created. Each part starts at the running offset, which then moves
on by the size of the part (`unsigned int` arithmetic). -/
def carved (cfg : config) (c : carve) (tb cl mn : Bool) : carve :=
  if tb then
    let o1 : Nat :=
      (c.offset + (to_uint32 c.width * TITLE_BAR_HEIGHT * BYTES_PER_PIXEL cfg) % 2 ^ 32) % 2 ^ 32
    let o2 : Nat :=
      if cl then (o1 + (BUTTON_SIZE * BUTTON_SIZE * BYTES_PER_PIXEL cfg) % 2 ^ 32) % 2 ^ 32
      else o1
    let o3 : Nat :=
      if mn then (o2 + (BUTTON_SIZE * BUTTON_SIZE * BYTES_PER_PIXEL cfg) % 2 ^ 32) % 2 ^ 32
      else o2
    { offset := o3, titlebar := some c.offset,
      close := if cl then some o1 else none,
      minimize := if mn then some o2 else none, width := c.width }
  else c

/-- The counter `NUM_BUTTONS` that closes `enum button_type`. -/
def NUM_BUTTONS : Nat := 2

/-- The regions of the backing memory of a window that have been handed out as pixel
buffers, each as (offset, size in bytes), in the order of creation: the window pixels at
offset 0 (`wl_shm_pool_create_buffer(window->shm_pool, 0, ...)`), the title bar, the
close button and the minimize button, each at the offset `create_titlebar` or
`create_button` recorded for it. -/
def sub_buffers (cfg : config) (x : window) : List (Nat × Nat) :=
  (0, to_uint32 (x.width * x.height * BYTES_PER_PIXEL cfg)) ::
    ((x.carve.titlebar.map (fun o =>
        (o, to_uint32 (x.width * TITLE_BAR_HEIGHT * BYTES_PER_PIXEL cfg)))).toList ++
     ((x.carve.close.map (fun o =>
        (o, BUTTON_SIZE * BUTTON_SIZE * BYTES_PER_PIXEL cfg))).toList ++
      (x.carve.minimize.map (fun o =>
        (o, BUTTON_SIZE * BUTTON_SIZE * BYTES_PER_PIXEL cfg))).toList))

/-- The size of the backing memory as the specification words it, in unbounded
integers: the window pixels, and with decorations compiled in the title bar and
`NUM_BUTTONS` buttons. -/
def spec_data_size (cfg : config) (width height : Int) : Int :=
  width * height * BYTES_PER_PIXEL cfg +
    (if cfg.LV_WAYLAND_CLIENT_SIDE_DECORATIONS then
      width * TITLE_BAR_HEIGHT * BYTES_PER_PIXEL cfg +
        NUM_BUTTONS * (BUTTON_SIZE * BUTTON_SIZE * BYTES_PER_PIXEL cfg)
     else 0)

/-- The state after the first window, 320 by 240 with decorations, has been created
with every acquisition succeeding. -/
def world_first_window : world :=
  ((create_window cfg_deco env_ok 0 (world_of []) 320 240).map Prod.fst).getD (world_of [])

/-- The shell objects bound to a window: `ivi_surface`, `xdg_surface`, `xdg_toplevel`
and `wl_shell_surface`, each `true` when the pointer is not NULL. -/
def shell_fields (x : window) : Bool × Bool × Bool × Bool :=
  (x.ivi_surface, x.xdg_surface, x.xdg_toplevel, x.wl_shell_surface)

/-- The application record `app` is `app0` with one more window at the tail of the
collection, to which no shell object is bound. -/
def tail_unbound (app0 app : application) : Prop :=
  ∃ x, app = { app0 with window_ll := app0.window_ll ++ [x] } ∧
    shell_fields x = (false, false, false, false)

/-- The shell-protocol variants of the specification. -/
inductive shell_variant
  | ivi_application
  | xdg_shell
  | wl_shell
deriving DecidableEq, Repr

/-- The variants that are compiled in and that the server has advertised (the
registry listener has bound them), in the priority order of the specification. -/
def available_variants (cfg : config) (app : application) : List shell_variant :=
  (if cfg.LV_WAYLAND_IVI_APPLICATION ∧ app.ivi_application = true then
    [shell_variant.ivi_application] else []) ++
  ((if cfg.LV_WAYLAND_XDG_SHELL ∧ app.xdg_wm = true then [shell_variant.xdg_shell] else []) ++
   (if cfg.LV_WAYLAND_WL_SHELL ∧ app.wl_shell = true then [shell_variant.wl_shell] else []))

/-- The variants for which the window holds a shell object. -/
def bound_variants (x : window) : List shell_variant :=
  (if x.ivi_surface then [shell_variant.ivi_application] else []) ++
  ((if x.xdg_surface ∨ x.xdg_toplevel then [shell_variant.xdg_shell] else []) ++
   (if x.wl_shell_surface then [shell_variant.wl_shell] else []))

/-- A build like `cfg16` with the IVI application shell compiled in as well. -/
def cfg_ivi : config := { cfg16 with LV_WAYLAND_IVI_APPLICATION := true }

/-- An open 320 by 240 window at position `w` that is bound to the IVI shell. -/
def window_ivi (w : Nat) : window :=
  { window320 w with xdg_surface := false, xdg_toplevel := false, ivi_surface := true }

/-- A process on a server that advertises the IVI application shell, with identifier
base 1000, the given windows and an empty trace. -/
def world_ivi (l : List window) : world :=
  { app := { app0 with ivi_application := true, ivi_id_base := 1000, window_ll := l },
    trace := [], exited := false }

/-- A process on a server that advertises no shell, with no window. -/
def world_no_shell : world :=
  { app := { app0 with xdg_wm := false }, trace := [], exited := false }

/-- The surface identifiers requested from the IVI shell in a trace, oldest first. -/
def ivi_ids (t : List effect) : List (Nat × Nat) :=
  t.filterMap (fun e =>
    match e with
    | effect.ivi_application_surface_create w ivi_id => some (w, ivi_id)
    | _ => none)

/-- A build at colour depth 1 (`LV_COLOR_MAKE1`: one bit, shared by the three
channels), otherwise like `cfg16`. -/
def cfg1 : config :=
  { cfg16 with
    LV_COLOR_DEPTH := 1,
    lv_color_make := fun r g b =>
      { full := (b / 128) ||| (g / 128) ||| (r / 128),
        red := (b / 128) ||| (g / 128) ||| (r / 128),
        green := (b / 128) ||| (g / 128) ||| (r / 128),
        blue := (b / 128) ||| (g / 128) ||| (r / 128) } }

/-- White at colour depth 1: the one bit is set. -/
def white1 : lv_color_t := cfg1.lv_color_make 0xff 0xff 0xff

/-- Two 320 by 240 windows after a tick in which the first was closed: the first is
closed and has not cycled since the round that reset the flags, the second is open and
has cycled in the current tick. -/
def world_closed_and_open : world :=
  world_of [{ window320 0 with closed := true }, { window320 1 with cycled := true }]

/-- A rectangle of one row and ten columns that straddles the left edge of a window:
columns -5 to 4 of row 0. -/
def area_straddle : lv_area_t := { x1 := -5, y1 := 0, x2 := 4, y2 := 0 }

/-- A rectangle of two rows and four columns that extends past the right edge of a
320 pixel wide window: columns 318 to 321 of the rows 0 and 1. -/
def area_right : lv_area_t := { x1 := 318, y1 := 0, x2 := 321, y2 := 1 }

/-- A source buffer in which the pixel at index `i` has the value `i`. -/
def numbered_pixels (i : Nat) : lv_color_t := { full := i, red := 0, green := 0, blue := 0 }

/-- Two windows: `window_decorated` at position 0 with the pointer over its close
button, and an open 320 by 240 window at position 1. -/
def world_two_on_close_button : world :=
  { app := { app0 with
      window_ll := [window_decorated, window320 1],
      pointer := some (input_ptr.of_button 0 button_type.BUTTON_TYPE_CLOSE) },
    trace := [], exited := false }

/-- The left mouse button is released over the close button of window 0
(`BTN_LEFT` is 0x110): a close is requested. -/
def world_close_requested : world :=
  pointer_handle_button cfg_deco world_two_on_close_button 0x110
    WL_POINTER_BUTTON_STATE_RELEASED

/-- One tick later: the coordinator has run once for each of the two windows, with no
event queued or arriving. -/
def world_closed_once : world :=
  run_cycles cfg_deco world_close_requested [call320 0, call320 1]

/-- The left mouse button is released once more while the pointer focus is still on the
close button of window 0. -/
def world_close_requested_again : world :=
  pointer_handle_button cfg_deco world_closed_once 0x110 WL_POINTER_BUTTON_STATE_RELEASED

/-- The coordinator runs for window 0 in the next tick. -/
def world_closed_twice : world :=
  window_cycle cfg_deco { queued := [], arrived := [] } world_close_requested_again
    (drv320 0) 33 76800

/-! ## Basic facts about the window collection -/

theorem modify_window_length (l : List window) (i : Nat) (f : window → window) :
    (modify_window l i f).length = l.length := by
  unfold modify_window
  split <;> simp

theorem modify_window_getElem? (l : List window) (i j : Nat) (f : window → window) :
    (modify_window l i f)[j]? = if j = i then (l[i]?).map f else l[j]? := by
  unfold modify_window
  split
  · rename_i w hw
    by_cases h : j = i
    · subst h
      have hlt : j < l.length := by
        rcases List.getElem?_eq_some.mp hw with ⟨h1, _⟩
        exact h1
      simp [hw, List.getElem?_set, hlt]
    · have h2 : ¬ i = j := fun e => h e.symm
      simp [h, List.getElem?_set, h2]
  · rename_i hw
    by_cases h : j = i
    · subst h
      simp [hw]
    · simp [h]

theorem modify_window_map {β : Type} (l : List window) (i : Nat) (f : window → window)
    (g : window → β) (h : ∀ x, g (f x) = g x) :
    (modify_window l i f).map g = l.map g := by
  apply List.ext_getElem?
  intro j
  rw [List.getElem?_map, List.getElem?_map, modify_window_getElem?]
  by_cases hj : j = i
  · subst hj
    cases hl : l[j]? <;> simp [h]
  · simp [hj]

/-! ## Draw calls on a window that is closing or closed -/

/-- C2. A draw call on a window that is closing (`shall_close`) or closed (`closed`)
returns, leaves the application record as it was (so the backing memory and
`flush_pending` of every window are unchanged), and adds exactly one call to the trace,
the acknowledgment `lv_disp_flush_ready`: no store, no damage and no commit request. -/
theorem flush_closed_window_only_acknowledges (cfg : config) (env : create_env) (fuel : Nat)
    (s : world) (disp_drv : lv_disp_drv_t) (area : lv_area_t) (color_p : Nat → lv_color_t)
    (is_last : Bool) (w : Nat) (win : window)
    (hdrv : disp_drv.user_data = some w) (hwin : s.app.window_ll[w]? = some win)
    (hclose : win.closed = true ∨ win.shall_close = true) :
    ∃ r : world,
      lv_wayland_flush cfg env fuel s disp_drv area color_p is_last = some (r, disp_drv) ∧
      r.app = s.app ∧
      r.trace = s.trace ++ [effect.lv_disp_flush_ready disp_drv] ∧
      r.exited = s.exited := by
  refine ⟨s.emit (effect.lv_disp_flush_ready disp_drv), ?_, rfl, rfl, rfl⟩
  unfold lv_wayland_flush
  simp only [hdrv, hwin]
  rw [if_pos hclose]

theorem flush_closed_window_only_acknowledges_witness :
    (drv320 0).user_data = some 0 ∧
    (world_of [{ window320 0 with closed := true }]).app.window_ll[0]? =
      some { window320 0 with closed := true } ∧
    ∃ r : world,
      lv_wayland_flush cfg16 env_ok 0 (world_of [{ window320 0 with closed := true }])
        (drv320 0) { x1 := 0, y1 := 0, x2 := 9, y2 := 9 } (fun _ => white16) true =
        some (r, drv320 0) ∧
      r.app = (world_of [{ window320 0 with closed := true }]).app ∧
      r.trace = (world_of [{ window320 0 with closed := true }]).trace ++
        [effect.lv_disp_flush_ready (drv320 0)] ∧
      r.exited = (world_of [{ window320 0 with closed := true }]).exited :=
  ⟨rfl, rfl,
    flush_closed_window_only_acknowledges cfg16 env_ok 0
      (world_of [{ window320 0 with closed := true }]) (drv320 0)
      { x1 := 0, y1 := 0, x2 := 9, y2 := 9 } (fun _ => white16) true 0
      { window320 0 with closed := true } rfl rfl (Or.inl rfl)⟩

/-! ## What the listeners leave alone -/

@[simp] theorem application_modify_window_seat (app : application) (i : Nat)
    (f : window → window) : (app.modify_window i f).seat = app.seat := rfl

@[simp] theorem application_modify_window_ll (app : application) (i : Nat)
    (f : window → window) :
    (app.modify_window i f).window_ll = modify_window app.window_ll i f := rfl

@[simp] theorem application_modify_window_cursor (app : application) (i : Nat)
    (f : window → window) :
    (app.modify_window i f).cursor_flush_pending = app.cursor_flush_pending := rfl

@[simp] theorem input_set_seat (app : application) (p : input_ptr) (f : input → input) :
    (input_set app p f).seat = app.seat := by
  cases p <;> rfl

@[simp] theorem input_set_cursor (app : application) (p : input_ptr) (f : input → input) :
    (input_set app p f).cursor_flush_pending = app.cursor_flush_pending := by
  cases p <;> rfl

@[simp] theorem input_set_cursor_surface (app : application) (p : input_ptr)
    (f : input → input) : (input_set app p f).cursor_surface = app.cursor_surface := by
  cases p <;> rfl

theorem input_set_flags (app : application) (p : input_ptr) (f : input → input) :
    cycle_flags (input_set app p f) = cycle_flags app := by
  cases p <;> exact modify_window_map _ _ _ _ (fun _ => rfl)

theorem modify_window_flags (app : application) (i : Nat) (f : window → window)
    (h : ∀ x, ((f x).cycled, (f x).closed) = (x.cycled, x.closed)) :
    cycle_flags (app.modify_window i f) = cycle_flags app :=
  modify_window_map _ _ _ _ h

theorem pointer_handle_enter_flags (cfg : config) (s : world) (surface : Option input_ptr)
    (sx sy : Int) :
    cycle_flags (pointer_handle_enter cfg s surface sx sy).app = cycle_flags s.app ∧
    (pointer_handle_enter cfg s surface sx sy).app.seat = s.app.seat ∧
    (pointer_handle_enter cfg s surface sx sy).exited = s.exited := by
  unfold pointer_handle_enter
  cases surface with
  | none => exact ⟨rfl, rfl, rfl⟩
  | some p =>
    simp only
    split
    · refine ⟨?_, ?_, rfl⟩
      · show cycle_flags (input_set (input_set _ p _) p _) = _
        rw [input_set_flags, input_set_flags]; rfl
      · simp
    · refine ⟨?_, ?_, rfl⟩
      · rw [input_set_flags, input_set_flags]; rfl
      · simp

/-- What every listener preserves: the `cycled` and `closed` flags of all windows, and
that the process is running. -/
theorem keeps_flags_refl (s : world) :
    cycle_flags s.app = cycle_flags s.app ∧ s.exited = s.exited := ⟨rfl, rfl⟩

theorem pointer_handle_leave_flags (s : world) (surface : Option input_ptr) :
    cycle_flags (pointer_handle_leave s surface).app = cycle_flags s.app ∧
    (pointer_handle_leave s surface).exited = s.exited := by
  unfold pointer_handle_leave
  split <;> exact ⟨rfl, rfl⟩

theorem pointer_handle_motion_flags (cfg : config) (s : world) (sx sy : Int) :
    cycle_flags (pointer_handle_motion cfg s sx sy).app = cycle_flags s.app ∧
    (pointer_handle_motion cfg s sx sy).exited = s.exited := by
  unfold pointer_handle_motion
  repeat' (first | split | dsimp only)
  all_goals first
    | exact ⟨rfl, rfl⟩
    | (refine ⟨?_, rfl⟩; rw [input_set_flags, input_set_flags])

theorem pointer_handle_button_flags (cfg : config) (s : world) (button state : Nat) :
    cycle_flags (pointer_handle_button cfg s button state).app = cycle_flags s.app ∧
    (pointer_handle_button cfg s button state).exited = s.exited := by
  unfold pointer_handle_button
  repeat' (first | split | dsimp only)
  all_goals first
    | exact ⟨rfl, rfl⟩
    | (refine ⟨?_, rfl⟩; exact input_set_flags _ _ _)
    | exact ⟨modify_window_flags _ _ _ (fun _ => rfl), rfl⟩

theorem pointer_handle_axis_flags (s : world) (axis : Nat) (value : Int) :
    cycle_flags (pointer_handle_axis s axis value).app = cycle_flags s.app ∧
    (pointer_handle_axis s axis value).exited = s.exited := by
  unfold pointer_handle_axis
  repeat' (first | split | dsimp only)
  all_goals first
    | exact ⟨rfl, rfl⟩
    | (refine ⟨?_, rfl⟩; exact input_set_flags _ _ _)

theorem keyboard_handle_keymap_flags (s : world) (format : Nat) (map_str : Option String)
    (compiles state_created : Bool) :
    cycle_flags (keyboard_handle_keymap s format map_str compiles state_created).app =
      cycle_flags s.app ∧
    (keyboard_handle_keymap s format map_str compiles state_created).exited = s.exited := by
  unfold keyboard_handle_keymap
  repeat' (first | split | dsimp only)
  all_goals exact ⟨rfl, rfl⟩

theorem keyboard_handle_leave_flags (s : world) (surface : Option input_ptr) :
    cycle_flags (keyboard_handle_leave s surface).app = cycle_flags s.app ∧
    (keyboard_handle_leave s surface).exited = s.exited := by
  unfold keyboard_handle_leave
  split <;> exact ⟨rfl, rfl⟩

theorem keyboard_handle_key_flags (cfg : config) (s : world) (key state : Nat) :
    cycle_flags (keyboard_handle_key cfg s key state).app = cycle_flags s.app ∧
    (keyboard_handle_key cfg s key state).exited = s.exited := by
  unfold keyboard_handle_key
  repeat' (first | split | dsimp only)
  all_goals first
    | exact ⟨rfl, rfl⟩
    | (refine ⟨?_, rfl⟩; exact input_set_flags _ _ _)

theorem keyboard_handle_modifiers_flags (s : world) (a b c d : Nat) :
    cycle_flags (keyboard_handle_modifiers s a b c d).app = cycle_flags s.app ∧
    (keyboard_handle_modifiers s a b c d).exited = s.exited := by
  unfold keyboard_handle_modifiers
  split <;> exact ⟨rfl, rfl⟩

theorem touch_handle_down_flags (cfg : config) (s : world) (surface : Option input_ptr)
    (x_w y_w : Int) :
    cycle_flags (touch_handle_down cfg s surface x_w y_w).app = cycle_flags s.app ∧
    (touch_handle_down cfg s surface x_w y_w).exited = s.exited := by
  unfold touch_handle_down
  split
  · exact ⟨rfl, rfl⟩
  · refine ⟨?_, rfl⟩
    simp only [input_set_flags]
    rfl

theorem touch_handle_up_flags (s : world) :
    cycle_flags (touch_handle_up s).app = cycle_flags s.app ∧
    (touch_handle_up s).exited = s.exited := by
  unfold touch_handle_up
  split
  · exact ⟨rfl, rfl⟩
  · refine ⟨?_, rfl⟩
    show cycle_flags (input_set _ _ _) = _
    simp only [input_set_flags]

theorem touch_handle_motion_flags (cfg : config) (s : world) (x_w y_w : Int) :
    cycle_flags (touch_handle_motion cfg s x_w y_w).app = cycle_flags s.app ∧
    (touch_handle_motion cfg s x_w y_w).exited = s.exited := by
  unfold touch_handle_motion
  split
  · exact ⟨rfl, rfl⟩
  · refine ⟨?_, rfl⟩
    rw [input_set_flags, input_set_flags]

theorem seat_handle_capabilities_flags (s : world) (caps : Nat) (cursor_ok : Bool) :
    cycle_flags (seat_handle_capabilities s caps cursor_ok).app = cycle_flags s.app ∧
    (seat_handle_capabilities s caps cursor_ok).exited = s.exited := by
  unfold seat_handle_capabilities
  repeat' (first | split | dsimp only)
  all_goals exact ⟨rfl, rfl⟩

theorem xdg_toplevel_handle_close_flags (s : world) (w : Nat) :
    cycle_flags (xdg_toplevel_handle_close s w).app = cycle_flags s.app ∧
    (xdg_toplevel_handle_close s w).exited = s.exited :=
  ⟨modify_window_flags _ _ _ (fun _ => rfl), rfl⟩

theorem shm_format_flags (cfg : config) (s : world) (format : Nat) :
    cycle_flags (shm_format cfg s format).app = cycle_flags s.app ∧
    (shm_format cfg s format).exited = s.exited := by
  unfold shm_format
  repeat' (first | split | dsimp only)
  all_goals exact ⟨rfl, rfl⟩

theorem handle_global_flags (cfg : config) (s : world) (interface : String) :
    cycle_flags (handle_global cfg s interface).app = cycle_flags s.app ∧
    (handle_global cfg s interface).exited = s.exited := by
  unfold handle_global
  repeat' (first | split | dsimp only)
  all_goals exact ⟨rfl, rfl⟩

theorem dispatch_flags (cfg : config) (s : world) (e : wl_event) :
    cycle_flags (dispatch cfg s e).app = cycle_flags s.app ∧
    (dispatch cfg s e).exited = s.exited := by
  cases e with
  | pointer_enter surface sx sy =>
    exact ⟨(pointer_handle_enter_flags cfg s surface sx sy).1,
      (pointer_handle_enter_flags cfg s surface sx sy).2.2⟩
  | pointer_leave surface => exact pointer_handle_leave_flags s surface
  | pointer_motion sx sy => exact pointer_handle_motion_flags cfg s sx sy
  | pointer_button button state => exact pointer_handle_button_flags cfg s button state
  | pointer_axis axis value => exact pointer_handle_axis_flags s axis value
  | keyboard_keymap f m c t => exact keyboard_handle_keymap_flags s f m c t
  | keyboard_enter surface => exact ⟨rfl, rfl⟩
  | keyboard_leave surface => exact keyboard_handle_leave_flags s surface
  | keyboard_key key state => exact keyboard_handle_key_flags cfg s key state
  | keyboard_modifiers a b c d => exact keyboard_handle_modifiers_flags s a b c d
  | touch_down surface x_w y_w => exact touch_handle_down_flags cfg s surface x_w y_w
  | touch_up => exact touch_handle_up_flags s
  | touch_motion x_w y_w => exact touch_handle_motion_flags cfg s x_w y_w
  | seat_capabilities caps ok => exact seat_handle_capabilities_flags s caps ok
  | xdg_toplevel_close w =>
    simp only [dispatch]
    split
    · exact xdg_toplevel_handle_close_flags s w
    · exact ⟨rfl, rfl⟩
  | shm_format format => exact shm_format_flags cfg s format
  | global interface => exact handle_global_flags cfg s interface
  | other => exact ⟨rfl, rfl⟩

/-! ## Keymap replacement -/

theorem keyboard_handle_modifiers_pair (s : world) (a b c d : Nat)
    (h : xkb_pair_ok s.app.seat = true) :
    xkb_pair_ok (keyboard_handle_modifiers s a b c d).app.seat = true := by
  unfold keyboard_handle_modifiers
  unfold xkb_pair_ok at h ⊢
  cases hk : s.app.seat.xkb_keymap <;> cases hs : s.app.seat.xkb_state <;>
    simp_all

theorem keyboard_handle_keymap_pair (s : world) (format : Nat) (map_str : Option String)
    (compiles state_created : Bool) (h : xkb_pair_ok s.app.seat = true) :
    xkb_pair_ok (keyboard_handle_keymap s format map_str compiles state_created).app.seat =
      true := by
  unfold keyboard_handle_keymap
  repeat' (first | split | dsimp only)
  all_goals first
    | exact h
    | (simp [xkb_pair_ok, xkb_state_new])

theorem seat_handle_capabilities_pair (s : world) (caps : Nat) (cursor_ok : Bool) :
    xkb_pair_ok (seat_handle_capabilities s caps cursor_ok).app.seat =
      xkb_pair_ok s.app.seat := by
  unfold seat_handle_capabilities
  repeat' (first | split | dsimp only)
  all_goals rfl

theorem pointer_handle_leave_seat (s : world) (surface : Option input_ptr) :
    (pointer_handle_leave s surface).app.seat = s.app.seat := by
  unfold pointer_handle_leave
  split <;> rfl

theorem pointer_handle_motion_seat (cfg : config) (s : world) (sx sy : Int) :
    (pointer_handle_motion cfg s sx sy).app.seat = s.app.seat := by
  unfold pointer_handle_motion
  repeat' (first | split | dsimp only)
  all_goals simp

theorem pointer_handle_button_seat (cfg : config) (s : world) (button state : Nat) :
    (pointer_handle_button cfg s button state).app.seat = s.app.seat := by
  unfold pointer_handle_button
  repeat' (first | split | dsimp only)
  all_goals simp

theorem pointer_handle_axis_seat (s : world) (axis : Nat) (value : Int) :
    (pointer_handle_axis s axis value).app.seat = s.app.seat := by
  unfold pointer_handle_axis
  repeat' (first | split | dsimp only)
  all_goals simp

theorem keyboard_handle_leave_seat (s : world) (surface : Option input_ptr) :
    (keyboard_handle_leave s surface).app.seat = s.app.seat := by
  unfold keyboard_handle_leave
  split <;> rfl

theorem keyboard_handle_key_seat (cfg : config) (s : world) (key state : Nat) :
    (keyboard_handle_key cfg s key state).app.seat = s.app.seat := by
  unfold keyboard_handle_key
  repeat' (first | split | dsimp only)
  all_goals simp

theorem touch_handle_down_seat (cfg : config) (s : world) (surface : Option input_ptr)
    (x_w y_w : Int) : (touch_handle_down cfg s surface x_w y_w).app.seat = s.app.seat := by
  unfold touch_handle_down
  repeat' (first | split | dsimp only)
  all_goals simp

theorem touch_handle_up_seat (s : world) : (touch_handle_up s).app.seat = s.app.seat := by
  unfold touch_handle_up
  repeat' (first | split | dsimp only)
  all_goals simp

theorem touch_handle_motion_seat (cfg : config) (s : world) (x_w y_w : Int) :
    (touch_handle_motion cfg s x_w y_w).app.seat = s.app.seat := by
  unfold touch_handle_motion
  repeat' (first | split | dsimp only)
  all_goals simp

theorem shm_format_seat (cfg : config) (s : world) (format : Nat) :
    (shm_format cfg s format).app.seat = s.app.seat := by
  unfold shm_format
  repeat' (first | split | dsimp only)

theorem handle_global_seat (cfg : config) (s : world) (interface : String) :
    (handle_global cfg s interface).app.seat = s.app.seat := by
  unfold handle_global
  repeat' (first | split | dsimp only)

theorem dispatch_pair (cfg : config) (s : world) (e : wl_event)
    (h : xkb_pair_ok s.app.seat = true) :
    xkb_pair_ok (dispatch cfg s e).app.seat = true := by
  cases e with
  | pointer_enter surface sx sy =>
    simp only [dispatch, (pointer_handle_enter_flags cfg s surface sx sy).2.1, h]
  | pointer_leave surface => simp only [dispatch, pointer_handle_leave_seat, h]
  | pointer_motion sx sy => simp only [dispatch, pointer_handle_motion_seat, h]
  | pointer_button button state => simp only [dispatch, pointer_handle_button_seat, h]
  | pointer_axis axis value => simp only [dispatch, pointer_handle_axis_seat, h]
  | keyboard_keymap f m c t => exact keyboard_handle_keymap_pair s f m c t h
  | keyboard_enter surface => exact h
  | keyboard_leave surface => simp only [dispatch, keyboard_handle_leave_seat, h]
  | keyboard_key key state => simp only [dispatch, keyboard_handle_key_seat, h]
  | keyboard_modifiers a b c d => exact keyboard_handle_modifiers_pair s a b c d h
  | touch_down surface x_w y_w => simp only [dispatch, touch_handle_down_seat, h]
  | touch_up => simp only [dispatch, touch_handle_up_seat, h]
  | touch_motion x_w y_w => simp only [dispatch, touch_handle_motion_seat, h]
  | seat_capabilities caps ok => simp only [dispatch, seat_handle_capabilities_pair, h]
  | xdg_toplevel_close w =>
    simp only [dispatch]
    split
    · exact h
    · exact h
  | shm_format format => simp only [dispatch, shm_format_seat, h]
  | global interface => simp only [dispatch, handle_global_seat, h]
  | other => exact h

theorem dispatch_list_pair (cfg : config) (events : List wl_event) (s : world)
    (h : xkb_pair_ok s.app.seat = true) :
    xkb_pair_ok (events.foldl (dispatch cfg) s).app.seat = true := by
  induction events generalizing s with
  | nil => exact h
  | cons e rest ih => exact ih _ (dispatch_pair cfg s e h)

/-- C10. Keymap replacement is all or nothing. After a keymap event the application
holds either the keymap and state it held before, or the newly compiled keymap together
with the state derived from it; when the format is unsupported, the mapping fails, the
compilation fails or the state cannot be created, the whole application record is
unchanged. A keymap and state that belong together before the event still belong
together after it and after any later events, so a key event always resolves through
a matching pair. -/
theorem keymap_replacement_all_or_nothing (cfg : config) (s : world) (format : Nat)
    (map_str : Option String) (compiles state_created : Bool) (later : List wl_event) :
    ((keyboard_handle_keymap s format map_str compiles state_created).app.seat.xkb_keymap =
        s.app.seat.xkb_keymap ∧
      (keyboard_handle_keymap s format map_str compiles state_created).app.seat.xkb_state =
        s.app.seat.xkb_state ∨
     ∃ str, map_str = some str ∧
      (keyboard_handle_keymap s format map_str compiles state_created).app.seat.xkb_keymap =
        some { source := str } ∧
      (keyboard_handle_keymap s format map_str compiles state_created).app.seat.xkb_state =
        some (xkb_state_new { source := str })) ∧
    (format ≠ WL_KEYBOARD_KEYMAP_FORMAT_XKB_V1 ∨ map_str = none ∨ compiles = false ∨
        state_created = false →
      (keyboard_handle_keymap s format map_str compiles state_created).app = s.app) ∧
    (format = WL_KEYBOARD_KEYMAP_FORMAT_XKB_V1 ∧ compiles = true ∧ state_created = true →
      ∀ str, map_str = some str →
        (keyboard_handle_keymap s format map_str compiles state_created).app.seat.xkb_keymap =
          some { source := str } ∧
        (keyboard_handle_keymap s format map_str compiles state_created).app.seat.xkb_state =
          some (xkb_state_new { source := str })) ∧
    (xkb_pair_ok s.app.seat = true →
      xkb_pair_ok (keyboard_handle_keymap s format map_str compiles state_created).app.seat =
        true ∧
      xkb_pair_ok (later.foldl (dispatch cfg)
        (keyboard_handle_keymap s format map_str compiles state_created)).app.seat = true) := by
  refine ⟨?_, ?_, ?_, ?_⟩
  · unfold keyboard_handle_keymap
    repeat' (first | split | dsimp only)
    all_goals first
      | exact Or.inl ⟨rfl, rfl⟩
      | exact Or.inr ⟨_, rfl, rfl, rfl⟩
  · intro h
    unfold keyboard_handle_keymap
    repeat' (first | split | dsimp only)
    all_goals first
      | rfl
      | (exfalso; simp_all)
  · rintro ⟨hf, hc, hs⟩ str hm
    subst hm
    simp [keyboard_handle_keymap, hf, hc, hs, world.emit]
  · intro h
    exact ⟨keyboard_handle_keymap_pair s format map_str compiles state_created h,
      dispatch_list_pair cfg later _
        (keyboard_handle_keymap_pair s format map_str compiles state_created h)⟩

theorem keymap_replacement_all_or_nothing_witness :
    xkb_pair_ok (world_of []).app.seat = true ∧
    (keyboard_handle_keymap (world_of []) 1 (some "xkb_keymap") true true).app.seat.xkb_keymap =
      some { source := "xkb_keymap" } ∧
    (keyboard_handle_keymap (world_of []) 1 (some "xkb_keymap") true true).app.seat.xkb_state =
      some (xkb_state_new { source := "xkb_keymap" }) ∧
    xkb_pair_ok ([wl_event.keyboard_key 30 1].foldl (dispatch cfg16)
      (keyboard_handle_keymap (world_of []) 1 (some "xkb_keymap") true true)).app.seat = true :=
  ⟨rfl,
   ((keymap_replacement_all_or_nothing cfg16 (world_of []) 1 (some "xkb_keymap") true true
      [wl_event.keyboard_key 30 1]).2.2.1 ⟨rfl, rfl, rfl⟩ "xkb_keymap" rfl).1,
   ((keymap_replacement_all_or_nothing cfg16 (world_of []) 1 (some "xkb_keymap") true true
      [wl_event.keyboard_key 30 1]).2.2.1 ⟨rfl, rfl, rfl⟩ "xkb_keymap" rfl).2,
   ((keymap_replacement_all_or_nothing cfg16 (world_of []) 1 (some "xkb_keymap") true true
      [wl_event.keyboard_key 30 1]).2.2.2 rfl).2⟩

/-! ## Wheel delta -/

theorem wrap_int16_succ (a : Int) : wrap_int16 (wrap_int16 a + 1) = wrap_int16 (a + 1) := by
  unfold wrap_int16
  omega

theorem wrap_int16_small (a : Int) (h0 : -32768 ≤ a) (h1 : a ≤ 32767) : wrap_int16 a = a := by
  unfold wrap_int16
  omega

theorem pointer_handle_axis_up (s : world) (w : Nat) (win : window) (value : Int)
    (hp : s.app.pointer = some (input_ptr.of_window w))
    (hw : s.app.window_ll[w]? = some win) (hv : 0 < wl_fixed_to_int value) :
    (pointer_handle_axis s 0 value).app.pointer = some (input_ptr.of_window w) ∧
    ∃ win2, (pointer_handle_axis s 0 value).app.window_ll[w]? = some win2 ∧
      win2.input.mouse.wheel_diff = wrap_int16 (win.input.mouse.wheel_diff + 1) := by
  unfold pointer_handle_axis
  simp only [hp, if_pos hv, if_true]
  refine ⟨?_, ?_⟩
  · simp [input_set, application.modify_window, hp]
  · simp [input_set, modify_window_getElem?, hw]

theorem axis_events_wheel_diff (values : List Int) (s : world) (w : Nat) (win : window)
    (d : Int) (hp : s.app.pointer = some (input_ptr.of_window w))
    (hw : s.app.window_ll[w]? = some win)
    (hd : win.input.mouse.wheel_diff = wrap_int16 d)
    (hv : ∀ value ∈ values, 0 < wl_fixed_to_int value) :
    ∃ win2, (axis_events s values).app.window_ll[w]? = some win2 ∧
      win2.input.mouse.wheel_diff = wrap_int16 (d + values.length) := by
  induction values generalizing s win d with
  | nil => exact ⟨win, hw, by simpa using hd⟩
  | cons v rest ih =>
    obtain ⟨hp2, win2, hw2, hd2⟩ :=
      pointer_handle_axis_up s w win v hp hw (hv v (List.mem_cons_self _ _))
    have hd3 : win2.input.mouse.wheel_diff = wrap_int16 (d + 1) := by
      rw [hd2, hd, wrap_int16_succ]
    obtain ⟨win3, hw3, hd4⟩ := ih (pointer_handle_axis s 0 v) win2 (d + 1) hp2 hw2 hd3
      (fun x hx => hv x (List.mem_cons_of_mem _ hx))
    refine ⟨win3, hw3, ?_⟩
    rw [hd4]
    congr 1
    simp only [List.length_cons]
    push_cast
    ring

theorem pointeraxis_read_result (s : world) (w : Nat) (win : window)
    (data : lv_indev_data_t) (hw : s.app.window_ll[w]? = some win) :
    (lv_wayland_pointeraxis_read s (some w) data).2.enc_diff = win.input.mouse.wheel_diff ∧
    ∃ win2, (lv_wayland_pointeraxis_read s (some w) data).1.app.window_ll[w]? = some win2 ∧
      win2.input.mouse.wheel_diff = 0 := by
  unfold lv_wayland_pointeraxis_read
  simp [hw, modify_window_getElem?]

theorem axis_then_read (values : List Int) (s : world) (w : Nat) (win : window)
    (data : lv_indev_data_t) (hp : s.app.pointer = some (input_ptr.of_window w))
    (hw : s.app.window_ll[w]? = some win) (hd : win.input.mouse.wheel_diff = 0)
    (hv : ∀ value ∈ values, 0 < wl_fixed_to_int value) :
    (lv_wayland_pointeraxis_read (axis_events s values) (some w) data).2.enc_diff =
      wrap_int16 values.length ∧
    (lv_wayland_pointeraxis_read
      (lv_wayland_pointeraxis_read (axis_events s values) (some w) data).1 (some w)
      (lv_wayland_pointeraxis_read (axis_events s values) (some w) data).2).2.enc_diff = 0 := by
  obtain ⟨win2, hw2, hd2⟩ := axis_events_wheel_diff values s w win 0 hp hw
    (by rw [hd]; rfl) hv
  obtain ⟨h1, win3, hw3, hd3⟩ := pointeraxis_read_result (axis_events s values) w win2 data hw2
  obtain ⟨h2, _⟩ := pointeraxis_read_result
    (lv_wayland_pointeraxis_read (axis_events s values) (some w) data).1 w win3
    (lv_wayland_pointeraxis_read (axis_events s values) (some w) data).2 hw3
  refine ⟨?_, ?_⟩
  · rw [h1, hd2]; simp
  · rw [h2, hd3]

/-- C9 as stated fails at k = 32768: `wheel_diff` is an `int16_t`, so after 32768 scroll
steps from 0 on the focused window the read returns -32768, not +32768. -/
theorem wheel_delta_wraps_at_32768 :
    (lv_wayland_pointeraxis_read (axis_events world_focused (List.replicate 32768 256))
      (some 0) data0).2.enc_diff = -32768 ∧
    (lv_wayland_pointeraxis_read (axis_events world_focused (List.replicate 32768 256))
      (some 0) data0).2.enc_diff ≠ ((List.replicate 32768 (256 : Int)).length : Int) := by
  have h := (axis_then_read (List.replicate 32768 256) world_focused 0 (window320 0) data0
    rfl rfl rfl (by
      intro v hv
      rw [List.eq_of_mem_replicate hv]
      decide)).1
  rw [h]
  simp only [List.length_replicate]
  constructor <;> decide

/-- C9, amended. For every k from 0 to 32767: starting from wheel delta 0 with the
pointer focus on window `w`, after k pointer-axis events on axis 0 whose value has a
positive integer part, with no read in between, `lv_wayland_pointeraxis_read` for `w`
returns delta +k, and an immediately following read returns delta 0. -/
theorem wheel_delta_round_trip (values : List Int) (s : world) (w : Nat) (win : window)
    (data : lv_indev_data_t) (hp : s.app.pointer = some (input_ptr.of_window w))
    (hw : s.app.window_ll[w]? = some win) (hd : win.input.mouse.wheel_diff = 0)
    (hv : ∀ value ∈ values, 0 < wl_fixed_to_int value) (hk : values.length ≤ 32767) :
    (lv_wayland_pointeraxis_read (axis_events s values) (some w) data).2.enc_diff =
      values.length ∧
    (lv_wayland_pointeraxis_read
      (lv_wayland_pointeraxis_read (axis_events s values) (some w) data).1 (some w)
      (lv_wayland_pointeraxis_read (axis_events s values) (some w) data).2).2.enc_diff = 0 := by
  obtain ⟨h1, h2⟩ := axis_then_read values s w win data hp hw hd hv
  refine ⟨?_, h2⟩
  rw [h1]
  apply wrap_int16_small <;> omega

theorem wheel_delta_round_trip_witness :
    world_focused.app.pointer = some (input_ptr.of_window 0) ∧
    world_focused.app.window_ll[0]? = some (window320 0) ∧
    (window320 0).input.mouse.wheel_diff = 0 ∧
    (∀ value ∈ [(2560 : Int), 2560, 3840], 0 < wl_fixed_to_int value) ∧
    [(2560 : Int), 2560, 3840].length ≤ 32767 ∧
    (lv_wayland_pointeraxis_read (axis_events world_focused [2560, 2560, 3840]) (some 0)
      data0).2.enc_diff = ([(2560 : Int), 2560, 3840].length : Int) ∧
    (lv_wayland_pointeraxis_read
      (lv_wayland_pointeraxis_read (axis_events world_focused [2560, 2560, 3840]) (some 0)
        data0).1 (some 0)
      (lv_wayland_pointeraxis_read (axis_events world_focused [2560, 2560, 3840]) (some 0)
        data0).2).2.enc_diff = 0 :=
  ⟨rfl, rfl, rfl, by decide, by decide,
    wheel_delta_round_trip [2560, 2560, 3840] world_focused 0 (window320 0) data0 rfl rfl rfl
      (by decide) (by decide)⟩

/-! ## Teardown -/

theorem destroy_window_eq (cfg : config) (s : world) (w : Nat) (win : window)
    (hw : s.app.window_ll[w]? = some win) :
    destroy_window cfg s (some w) =
      { s with trace := s.trace ++ destroy_window_calls cfg w win } := by
  unfold destroy_window destroy_window_calls
  simp only [hw, List.foldl, world.emit]
  split_ifs <;> simp

theorem destroy_window_calls_sublist (cfg : config) (w : Nat) (win : window) :
    (destroy_window_calls cfg w win).Sublist
      [effect.release (input_ptr.of_window w) resource.wl_shell_surface,
       effect.release (input_ptr.of_window w) resource.xdg_toplevel,
       effect.release (input_ptr.of_window w) resource.xdg_surface,
       effect.release (input_ptr.of_window w) resource.ivi_surface,
       effect.release (input_ptr.of_window w) resource.surface,
       effect.release (input_ptr.of_window w) resource.buffer,
       effect.release (input_ptr.of_window w) resource.shm_pool,
       effect.release (input_ptr.of_window w) resource.mapping,
       effect.release (input_ptr.of_decoration w) resource.memory,
       effect.release (input_ptr.of_button w button_type.BUTTON_TYPE_CLOSE) resource.memory,
       effect.release (input_ptr.of_button w button_type.BUTTON_TYPE_MINIMIZE)
         resource.memory] := by
  unfold destroy_window_calls
  have seg : ∀ (c : Prop) [Decidable c] (l : List effect),
      (if c then l else []).Sublist l := by
    intro c _ l
    split
    · exact List.Sublist.refl _
    · exact List.nil_sublist _
  refine @List.Sublist.append _ _ [_] _ _ (seg _ _) ?_
  refine @List.Sublist.append _ _ [_, _] _ _ (seg _ _) ?_
  refine @List.Sublist.append _ _ [_] _ _ (seg _ _) ?_
  refine @List.Sublist.append _ _ [_, _, _, _] _ _ (List.Sublist.refl _) ?_
  split
  · refine @List.Sublist.append _ _ [_] _ _ (List.Sublist.refl _) ?_
    exact @List.Sublist.append _ _ [_] _ [_] (seg _ _) (seg _ _)
  · exact List.nil_sublist _

theorem destroy_window_calls_nodup (cfg : config) (w : Nat) (win : window) :
    (destroy_window_calls cfg w win).Nodup := by
  refine List.Nodup.sublist (destroy_window_calls_sublist cfg w win) ?_
  simp

theorem destroy_window_calls_release (cfg : config) (w : Nat) (win : window) :
    ∀ e ∈ destroy_window_calls cfg w win, effect.releases_of w e = true := by
  intro e he
  have h := (destroy_window_calls_sublist cfg w win).subset he
  simp only [List.mem_cons, List.mem_singleton, List.not_mem_nil, or_false] at h
  rcases h with h | h | h | h | h | h | h | h | h | h | h <;> subst h <;>
    simp [effect.releases_of]

theorem destroy_window_calls_mem (cfg : config) (w : Nat) (win : window) :
    effect.release (input_ptr.of_window w) resource.surface ∈ destroy_window_calls cfg w win ∧
    effect.release (input_ptr.of_window w) resource.buffer ∈ destroy_window_calls cfg w win ∧
    effect.release (input_ptr.of_window w) resource.shm_pool ∈ destroy_window_calls cfg w win ∧
    effect.release (input_ptr.of_window w) resource.mapping ∈ destroy_window_calls cfg w win := by
  unfold destroy_window_calls
  simp
theorem window_cycle_close_spec (cfg : config) (s : world) (disp_drv : lv_disp_drv_t)
    (w : Nat) (time px : Nat) (win : window) (hw : s.app.window_ll[w]? = some win) :
    (window_cycle_close cfg s disp_drv w time px).app =
      (if win.shall_close then
        (s.app.modify_window w (fun x => { x with cycled := true })).modify_window w
          (fun x => { x with closed := true, shall_close := false, flush_pending := true })
       else s.app.modify_window w (fun x => { x with cycled := true })) ∧
    (window_cycle_close cfg s disp_drv w time px).trace =
      s.trace ++ (if win.shall_close then destroy_window_calls cfg w win
        else match win.ext_monitor_cb with
          | some cb => [effect.monitor_cb cb disp_drv time px]
          | none => []) ∧
    (window_cycle_close cfg s disp_drv w time px).exited = s.exited := by
  unfold window_cycle_close
  have h1 : (s.app.modify_window w (fun x => { x with cycled := true })).window_ll[w]? =
      some { win with cycled := true } := by
    simp [modify_window_getElem?, hw]
  simp only [h1]
  cases hc : win.shall_close with
  | true =>
    simp only [if_true]
    rw [destroy_window_eq cfg _ w _ h1]
    exact ⟨rfl, rfl, rfl⟩
  | false =>
    simp only [Bool.false_eq_true, if_false]
    cases hcb : win.ext_monitor_cb with
    | none => simp
    | some cb => simp [world.emit]

/-- The window at position `w` after the close step. -/
theorem window_cycle_close_window (cfg : config) (s : world) (disp_drv : lv_disp_drv_t)
    (w : Nat) (time px : Nat) (win : window) (hw : s.app.window_ll[w]? = some win) :
    (window_cycle_close cfg s disp_drv w time px).app.window_ll[w]? =
      some (if win.shall_close then
        { win with cycled := true, closed := true, shall_close := false,
                   flush_pending := true }
       else { win with cycled := true }) := by
  rw [(window_cycle_close_spec cfg s disp_drv w time px win hw).1]
  cases hc : win.shall_close <;> simp [modify_window_getElem?, hw, hc]

theorem window_cycle_close_idle (cfg : config) (s : world) (disp_drv : lv_disp_drv_t)
    (w : Nat) (time px : Nat) (win : window) (hw : s.app.window_ll[w]? = some win)
    (hc : win.shall_close = false) :
    ∃ added,
      (window_cycle_close cfg s disp_drv w time px).trace = s.trace ++ added ∧
      (∀ e ∈ added, effect.is_release e = false) ∧
      (window_cycle_close cfg s disp_drv w time px).app.window_ll[w]? =
        some { win with cycled := true } := by
  obtain ⟨_, ht, _⟩ := window_cycle_close_spec cfg s disp_drv w time px win hw
  have hw2 := window_cycle_close_window cfg s disp_drv w time px win hw
  have hn : ¬ win.shall_close = true := by rw [hc]; decide
  rw [if_neg hn] at ht hw2
  refine ⟨_, ht, ?_, hw2⟩
  intro e he
  cases hcb : win.ext_monitor_cb with
  | none => simp [hcb] at he
  | some cb =>
    simp only [hcb, List.mem_singleton] at he
    subst he
    rfl

theorem close_steps_idle (cfg : config) (disp_drv : lv_disp_drv_t) (w : Nat) (time px : Nat)
    (k : Nat) (s : world) (win : window) (hw : s.app.window_ll[w]? = some win)
    (hc : win.shall_close = false) :
    ∃ added win2,
      (close_steps cfg disp_drv w time px k s).trace = s.trace ++ added ∧
      (∀ e ∈ added, effect.is_release e = false) ∧
      (close_steps cfg disp_drv w time px k s).app.window_ll[w]? = some win2 ∧
      win2.closed = win.closed ∧ win2.shall_close = false := by
  induction k generalizing s win with
  | zero => exact ⟨[], win, by simp [close_steps], by simp, hw, rfl, hc⟩
  | succ k ih =>
    obtain ⟨A, ht, hA, hw2⟩ := window_cycle_close_idle cfg s disp_drv w time px win hw hc
    obtain ⟨added, win2, h1, h2, h3, h4, h5⟩ :=
      ih (window_cycle_close cfg s disp_drv w time px) { win with cycled := true } hw2 hc
    refine ⟨A ++ added, win2, ?_, ?_, h3, h4, h5⟩
    · show (close_steps cfg disp_drv w time px k _).trace = _
      rw [h1, ht, List.append_assoc]
    · intro e he
      rcases List.mem_append.mp he with he | he
      · exact hA e he
      · exact h2 e he

/-- C8 at its failing input. Two windows; the left button is released over the close
button of window 0 and the coordinator runs once for each window: window 0 is torn down
and closed, each of its resources released once. The button is released again:
`pointer_handle_button` sets `shall_close` without a look at `closed`, and the next
coordinator invocation for window 0, which tests `shall_close` alone, runs
`destroy_window` again, so that the surface, the shell binding, the buffer, the pool,
the mapping and the block of the close button are released a second time.
`lv_wayland_deinit` in the same state tests `closed` and releases nothing of window 0
again. `destroy_window` itself clears no handle: called twice it releases twice, and so
does a second close step once `shall_close` is set again. -/
theorem destroy_window_twice_releases_twice :
    (destroy_window cfg16 (destroy_window cfg16 (world_of [window320 0]) (some 0))
      (some 0)).trace.count (effect.release (input_ptr.of_window 0) resource.surface) = 2 ∧
    (window_cycle_close cfg16
      { window_cycle_close cfg16 (world_of [window_closing 0]) (drv320 0) 0 0 0 with
        app := (window_cycle_close cfg16 (world_of [window_closing 0]) (drv320 0) 0 0 0).app.modify_window
          0 (fun x => { x with shall_close := true }) }
      (drv320 0) 0 0 0).trace.count
        (effect.release (input_ptr.of_window 0) resource.mapping) = 2 ∧
    world_close_requested.app.window_ll.map (fun x => (x.shall_close, x.closed)) =
      [(true, false), (false, false)] ∧
    world_closed_once.app.window_ll.map (fun x => (x.shall_close, x.closed)) =
      [(false, true), (false, false)] ∧
    world_closed_once.exited = false ∧
    [resource.surface, resource.xdg_toplevel, resource.xdg_surface, resource.buffer,
      resource.shm_pool, resource.mapping].map
        (fun r => world_closed_once.trace.count (effect.release (input_ptr.of_window 0) r)) =
      [1, 1, 1, 1, 1, 1] ∧
    world_close_requested_again.app.window_ll.map (fun x => (x.shall_close, x.closed)) =
      [(true, true), (false, false)] ∧
    [resource.surface, resource.xdg_toplevel, resource.xdg_surface, resource.buffer,
      resource.shm_pool, resource.mapping].map
        (fun r => world_closed_twice.trace.count (effect.release (input_ptr.of_window 0) r)) =
      [2, 2, 2, 2, 2, 2] ∧
    world_closed_twice.trace.count
      (effect.release (input_ptr.of_button 0 button_type.BUTTON_TYPE_CLOSE)
        resource.memory) = 2 ∧
    [resource.surface, resource.xdg_toplevel, resource.xdg_surface, resource.buffer,
      resource.shm_pool, resource.mapping].map
        (fun r => (lv_wayland_deinit cfg_deco world_closed_once).trace.count
          (effect.release (input_ptr.of_window 0) r)) =
      [1, 1, 1, 1, 1, 1] := by
  refine ⟨?_, ?_, ?_, ?_, ?_, ?_, ?_, ?_, ?_, ?_⟩ <;> decide

/-- Consecutive close steps without a renewed close request. Over any number `k` of
consecutive close steps on one window, with `shall_close` not set again in between,
every resource of every window is released at most once; nothing is released when
`shall_close` was clear at the first step; and when it was set (and `k` is at least 1)
the surface, buffer, pool and mapping of the window are released exactly once and the
window ends closed. -/
theorem close_steps_release_at_most_once (cfg : config) (disp_drv : lv_disp_drv_t) (w : Nat)
    (time px : Nat) (k : Nat) (s : world) (win : window)
    (hw : s.app.window_ll[w]? = some win) :
    ∃ added win2,
      (close_steps cfg disp_drv w time px k s).trace = s.trace ++ added ∧
      (close_steps cfg disp_drv w time px k s).app.window_ll[w]? = some win2 ∧
      (∀ o r, added.count (effect.release o r) ≤ 1) ∧
      (win.shall_close = false → ∀ e ∈ added, effect.is_release e = false) ∧
      (win.shall_close = true → 0 < k →
        added.count (effect.release (input_ptr.of_window w) resource.surface) = 1 ∧
        added.count (effect.release (input_ptr.of_window w) resource.buffer) = 1 ∧
        added.count (effect.release (input_ptr.of_window w) resource.shm_pool) = 1 ∧
        added.count (effect.release (input_ptr.of_window w) resource.mapping) = 1 ∧
        win2.closed = true ∧ win2.shall_close = false) := by
  have idle_count : ∀ (l : List effect), (∀ e ∈ l, effect.is_release e = false) →
      ∀ o r, l.count (effect.release o r) = 0 := by
    intro l hl o r
    apply List.count_eq_zero_of_not_mem
    intro hmem
    have := hl _ hmem
    simp [effect.is_release] at this
  cases hc : win.shall_close with
  | false =>
    obtain ⟨added, win2, h1, h2, h3, _, _⟩ :=
      close_steps_idle cfg disp_drv w time px k s win hw hc
    refine ⟨added, win2, h1, h3, ?_, fun _ => h2, ?_⟩
    · intro o r
      rw [idle_count added h2 o r]
      exact Nat.zero_le _
    · intro h
      exact absurd h (by simp)
  | true =>
    cases k with
    | zero =>
      refine ⟨[], win, by simp [close_steps], hw, by simp, by simp, ?_⟩
      intro _ h
      exact absurd h (Nat.lt_irrefl 0)
    | succ k =>
      obtain ⟨_, ht, _⟩ := window_cycle_close_spec cfg s disp_drv w time px win hw
      have hw2 := window_cycle_close_window cfg s disp_drv w time px win hw
      simp only [hc, if_true] at ht hw2
      obtain ⟨added, win2, h1, h2, h3, h4, h5⟩ :=
        close_steps_idle cfg disp_drv w time px k (window_cycle_close cfg s disp_drv w time px)
          _ hw2 rfl
      have hnodup := destroy_window_calls_nodup cfg w win
      obtain ⟨m1, m2, m3, m4⟩ := destroy_window_calls_mem cfg w win
      have one : ∀ e, e ∈ destroy_window_calls cfg w win →
          (destroy_window_calls cfg w win).count e = 1 := by
        intro e he
        exact List.count_eq_one_of_mem hnodup he
      refine ⟨destroy_window_calls cfg w win ++ added, win2, ?_, h3, ?_, ?_, ?_⟩
      · show (close_steps cfg disp_drv w time px k _).trace = _
        rw [h1, ht, List.append_assoc]
      · intro o r
        rw [List.count_append, idle_count added h2 o r, Nat.add_zero]
        exact List.nodup_iff_count_le_one.mp hnodup _
      · intro h
        exact absurd h (by simp)
      · intro _ _
        simp only [List.count_append, idle_count added h2, Nat.add_zero]
        exact ⟨one _ m1, one _ m2, one _ m3, one _ m4, h4, h5⟩

theorem close_steps_release_at_most_once_witness :
    (world_of [window_closing 0]).app.window_ll[0]? = some (window_closing 0) ∧
    ∃ added win2,
      (close_steps cfg16 (drv320 0) 0 0 0 3 (world_of [window_closing 0])).trace =
        (world_of [window_closing 0]).trace ++ added ∧
      (close_steps cfg16 (drv320 0) 0 0 0 3 (world_of [window_closing 0])).app.window_ll[0]? =
        some win2 ∧
      (∀ o r, added.count (effect.release o r) ≤ 1) ∧
      ((window_closing 0).shall_close = false → ∀ e ∈ added, effect.is_release e = false) ∧
      ((window_closing 0).shall_close = true → 0 < 3 →
        added.count (effect.release (input_ptr.of_window 0) resource.surface) = 1 ∧
        added.count (effect.release (input_ptr.of_window 0) resource.buffer) = 1 ∧
        added.count (effect.release (input_ptr.of_window 0) resource.shm_pool) = 1 ∧
        added.count (effect.release (input_ptr.of_window 0) resource.mapping) = 1 ∧
        win2.closed = true ∧ win2.shall_close = false) :=
  ⟨rfl, close_steps_release_at_most_once cfg16 (drv320 0) 0 0 0 3 (world_of [window_closing 0])
    (window_closing 0) rfl⟩

/-! ## The copy loops of the draw callback -/

theorem stored_value_eq (cfg : config) (c : lv_color_t) (h : depth_supported cfg) :
    stored_value cfg c = some (px_value cfg c) := by
  unfold stored_value px_value
  rcases h with h | h | h | h <;> simp [h]

theorem put_px_eq (cfg : config) (color_p : Nat → lv_color_t) (d : draw_st) (o : Int)
    (h : depth_supported cfg) :
    put_px cfg color_p d o =
      { data := store d.data o (px_value cfg (color_p d.color_p)),
        color_p := d.color_p + 1, written := d.written ++ [o] } := by
  unfold put_px px_value
  rcases h with h | h | h | h <;> simp [h]

theorem flush_row_step (cfg : config) (hor_res : Int) (color_p : Nat → lv_color_t)
    (y x2 x : Int) (d : draw_st) (h1 : x ≤ x2) (h2 : x < hor_res) :
    flush_row cfg hor_res color_p y x2 x d =
      flush_row cfg hor_res color_p y x2 (x + 1) (put_px cfg color_p d ((y * hor_res) + x)) := by
  rw [flush_row, if_pos ⟨h1, h2⟩]

theorem flush_row_done (cfg : config) (hor_res : Int) (color_p : Nat → lv_color_t)
    (y x2 x : Int) (d : draw_st) (h : ¬ (x ≤ x2 ∧ x < hor_res)) :
    flush_row cfg hor_res color_p y x2 x d = d := by
  rw [flush_row, if_neg h]

theorem flush_rows_step (cfg : config) (hor_res ver_res : Int) (color_p : Nat → lv_color_t)
    (x1 x2 y2 y : Int) (d : draw_st) (h1 : y ≤ y2) (h2 : y < ver_res) :
    flush_rows cfg hor_res ver_res color_p x1 x2 y2 y d =
      flush_rows cfg hor_res ver_res color_p x1 x2 y2 (y + 1)
        (flush_row cfg hor_res color_p y x2 x1 d) := by
  rw [flush_rows, if_pos ⟨h1, h2⟩]

theorem flush_rows_done (cfg : config) (hor_res ver_res : Int) (color_p : Nat → lv_color_t)
    (x1 x2 y2 y : Int) (d : draw_st) (h : ¬ (y ≤ y2 ∧ y < ver_res)) :
    flush_rows cfg hor_res ver_res color_p x1 x2 y2 y d = d := by
  rw [flush_rows, if_neg h]

/-- One row of the copy: the source position advances by the number of pixels copied,
the offsets stored to are the consecutive cells of the row, and each of them receives
the next source pixel. -/
theorem flush_row_spec (cfg : config) (hs : depth_supported cfg) (hor_res : Int)
    (color_p : Nat → lv_color_t) (y x2 : Int) (n : Nat) :
    ∀ (x : Int) (d : draw_st), row_len hor_res x x2 = n →
      (flush_row cfg hor_res color_p y x2 x d).color_p = d.color_p + n ∧
      (flush_row cfg hor_res color_p y x2 x d).written =
        d.written ++ (List.range n).map (fun (i : Nat) => y * hor_res + x + (i : Int)) ∧
      ∀ o : Int,
        (flush_row cfg hor_res color_p y x2 x d).data o =
          if y * hor_res + x ≤ o ∧ o < y * hor_res + x + n then
            px_value cfg (color_p (d.color_p + (o - (y * hor_res + x)).toNat))
          else d.data o := by
  induction n with
  | zero =>
    intro x d hn
    have hdone : ¬ (x ≤ x2 ∧ x < hor_res) := by
      unfold row_len at hn
      omega
    rw [flush_row_done _ _ _ _ _ _ _ hdone]
    refine ⟨rfl, by simp, ?_⟩
    intro o
    rw [if_neg]
    omega
  | succ n ih =>
    intro x d hn
    have h1 : x ≤ x2 := by unfold row_len at hn; omega
    have h2 : x < hor_res := by unfold row_len at hn; omega
    have hn' : row_len hor_res (x + 1) x2 = n := by unfold row_len at hn ⊢; omega
    rw [flush_row_step _ _ _ _ _ _ _ h1 h2, put_px_eq _ _ _ _ hs]
    obtain ⟨hc, hw, hd⟩ := ih (x + 1) _ hn'
    refine ⟨?_, ?_, ?_⟩
    · rw [hc]; simp only; omega
    · rw [hw]
      simp only [List.append_assoc, List.singleton_append]
      congr 1
      rw [List.range_succ_eq_map]
      simp only [List.map_cons, List.map_map, Nat.cast_zero, add_zero, List.cons.injEq,
        true_and]
      apply List.map_congr_left
      intro i _
      simp only [Function.comp, Nat.cast_succ]
      ring
    · intro o
      rw [hd o]
      simp only [store]
      by_cases ho : o = y * hor_res + x
      · subst ho
        simp
      · by_cases hin : y * hor_res + (x + 1) ≤ o ∧ o < y * hor_res + (x + 1) + n
        · have hin' : y * hor_res + x ≤ o ∧ o < y * hor_res + x + ((n + 1 : Nat) : Int) := by
            push_cast; omega
          rw [if_pos hin, if_pos hin']
          congr 2
          have : (o - (y * hor_res + x)).toNat = (o - (y * hor_res + (x + 1))).toNat + 1 := by
            omega
          rw [this]
          omega
        · have hin' : ¬ (y * hor_res + x ≤ o ∧ o < y * hor_res + x + ((n + 1 : Nat) : Int)) := by
            push_cast; omega
          rw [if_neg hin, if_neg hin', if_neg ho]
theorem row_len_le (hor_res x1 x2 : Int) :
    row_len hor_res x1 x2 = 0 ∨ x1 + (row_len hor_res x1 x2 : Int) ≤ hor_res := by
  unfold row_len
  omega

/-- Two cells of a window in different rows have different offsets. -/
theorem cell_offset_lt (hor_res y : Int) (j : Nat) (a b : Int) (ha : a < hor_res)
    (hb : 0 ≤ b) (hh : 0 ≤ hor_res) : y * hor_res + a < (y + 1 + (j : Int)) * hor_res + b := by
  have h1 : (y + 1 + (j : Int)) * hor_res = y * hor_res + hor_res + (j : Int) * hor_res := by
    ring
  have h2 : 0 ≤ (j : Int) * hor_res := by
    exact mul_nonneg (Int.ofNat_nonneg j) hh
  omega

/-- All rows of the copy. The source position advances by the number of pixels copied;
the offsets stored to are the cells (`y + j`, `x1 + i`) for `j` below the row count and
`i` below the row length; and, when `x1` is not negative, each of these cells ends up
with the source pixel number `j * row length + i` while every other cell keeps its
value. -/
theorem flush_rows_spec (cfg : config) (hs : depth_supported cfg) (hor_res ver_res : Int)
    (color_p : Nat → lv_color_t) (x1 x2 y2 : Int) (m : Nat) :
    ∀ (y : Int) (d : draw_st), row_count ver_res y y2 = m →
      (flush_rows cfg hor_res ver_res color_p x1 x2 y2 y d).color_p =
        d.color_p + m * row_len hor_res x1 x2 ∧
      (∃ extra, (flush_rows cfg hor_res ver_res color_p x1 x2 y2 y d).written =
          d.written ++ extra ∧
        extra.length = m * row_len hor_res x1 x2 ∧
        ∀ o, o ∈ extra ↔ ∃ j i : Nat, j < m ∧ i < row_len hor_res x1 x2 ∧
          o = (y + (j : Int)) * hor_res + x1 + (i : Int)) ∧
      (0 ≤ x1 →
        (∀ j i : Nat, j < m → i < row_len hor_res x1 x2 →
          (flush_rows cfg hor_res ver_res color_p x1 x2 y2 y d).data
              ((y + (j : Int)) * hor_res + x1 + (i : Int)) =
            px_value cfg (color_p (d.color_p + j * row_len hor_res x1 x2 + i))) ∧
        (∀ o : Int,
          (∀ j i : Nat, j < m → i < row_len hor_res x1 x2 →
            o ≠ (y + (j : Int)) * hor_res + x1 + (i : Int)) →
          (flush_rows cfg hor_res ver_res color_p x1 x2 y2 y d).data o = d.data o)) := by
  induction m with
  | zero =>
    intro y d hm
    have hdone : ¬ (y ≤ y2 ∧ y < ver_res) := by
      unfold row_count at hm
      omega
    rw [flush_rows_done _ _ _ _ _ _ _ _ _ hdone]
    refine ⟨by simp, ⟨[], by simp, by simp, ?_⟩, ?_⟩
    · intro o
      simp
    · intro _
      exact ⟨fun j i hj => absurd hj (Nat.not_lt_zero j), fun o _ => rfl⟩
  | succ m ih =>
    intro y d hm
    have h1 : y ≤ y2 := by unfold row_count at hm; omega
    have h2 : y < ver_res := by unfold row_count at hm; omega
    have hm' : row_count ver_res (y + 1) y2 = m := by unfold row_count at hm ⊢; omega
    rw [flush_rows_step _ _ _ _ _ _ _ _ _ h1 h2]
    obtain ⟨rc, rw_, rd⟩ := flush_row_spec cfg hs hor_res color_p y x2
      (row_len hor_res x1 x2) x1 d rfl
    obtain ⟨hc, ⟨extra, hw, hlen, hmem⟩, hd⟩ :=
      ih (y + 1) (flush_row cfg hor_res color_p y x2 x1 d) hm'
    refine ⟨?_, ⟨(List.range (row_len hor_res x1 x2)).map
      (fun (i : Nat) => y * hor_res + x1 + (i : Int)) ++ extra, ?_, ?_, ?_⟩, ?_⟩
    · rw [hc, rc]
      ring
    · rw [hw, rw_, List.append_assoc]
    · simp only [List.length_append, List.length_map, List.length_range, hlen]
      ring
    · intro o
      rw [List.mem_append, hmem]
      constructor
      · rintro (ho | ⟨j, i, hj, hi, ho⟩)
        · simp only [List.mem_map, List.mem_range] at ho
          obtain ⟨i, hi, rfl⟩ := ho
          exact ⟨0, i, Nat.succ_pos m, hi, by simp⟩
        · refine ⟨j + 1, i, Nat.succ_lt_succ hj, hi, ?_⟩
          rw [ho]
          push_cast
          ring
      · rintro ⟨j, i, hj, hi, ho⟩
        cases j with
        | zero =>
          left
          simp only [List.mem_map, List.mem_range]
          exact ⟨i, hi, by rw [ho]; simp⟩
        | succ j =>
          right
          refine ⟨j, i, Nat.lt_of_succ_lt_succ hj, hi, ?_⟩
          rw [ho]
          push_cast
          ring
    · intro hx1
      obtain ⟨hcell, hother⟩ := hd hx1
      have hlen_le := row_len_le hor_res x1 x2
      refine ⟨?_, ?_⟩
      · intro j i hj hi
        have hi' : x1 + (i : Int) < hor_res := by omega
        cases j with
        | zero =>
          have hne : ∀ j' i' : Nat, j' < m → i' < row_len hor_res x1 x2 →
              (y + ((0 : Nat) : Int)) * hor_res + x1 + (i : Int) ≠
                (y + 1 + (j' : Int)) * hor_res + x1 + (i' : Int) := by
            intro j' i' _ _
            have := cell_offset_lt hor_res y j' (x1 + i) (x1 + i') hi' (by omega) (by omega)
            simp only [Nat.cast_zero, add_zero]
            omega
          rw [hother _ hne, rd]
          rw [if_pos]
          · congr 2
            simp only [Nat.cast_zero, add_zero, Nat.zero_mul]
            omega
          · simp only [Nat.cast_zero, add_zero]
            omega
        | succ j =>
          have := hcell j i (Nat.lt_of_succ_lt_succ hj) hi
          have e : (y + ((j + 1 : Nat) : Int)) * hor_res + x1 + (i : Int) =
              (y + 1 + (j : Int)) * hor_res + x1 + (i : Int) := by
            push_cast
            ring
          rw [e, this, rc]
          congr 2
          ring
      · intro o ho
        have hne : ∀ j' i' : Nat, j' < m → i' < row_len hor_res x1 x2 →
            o ≠ (y + 1 + (j' : Int)) * hor_res + x1 + (i' : Int) := by
          intro j' i' hj' hi'
          have := ho (j' + 1) i' (Nat.succ_lt_succ hj') hi'
          intro e
          apply this
          rw [e]
          push_cast
          ring
        rw [hother o hne, rd]
        rw [if_neg]
        intro ⟨ha, hb⟩
        have := ho 0 (o - (y * hor_res + x1)).toNat (Nat.succ_pos m) (by omega)
        apply this
        simp only [Nat.cast_zero, add_zero]
        omega

/-! ## What window construction leaves alone -/

theorem modify_window_lifecycle (app : application) (i : Nat) (f : window → window)
    (h : ∀ x, lifecycle (f x) = lifecycle x) :
    (app.modify_window i f).window_ll.map lifecycle = app.window_ll.map lifecycle :=
  modify_window_map _ _ _ _ h

theorem create_titlebar_lifecycle (cfg : config) (env : part_env) (s : world) (w : Nat)
    (h : Nat) :
    (create_titlebar cfg env s w h).1.app.window_ll.map lifecycle =
      s.app.window_ll.map lifecycle := by
  unfold create_titlebar
  repeat' (first | split | dsimp only)
  all_goals first
    | rfl
    | exact modify_window_lifecycle _ _ _ (fun _ => rfl)

theorem create_button_lifecycle (cfg : config) (env : part_env) (s : world) (w : Nat)
    (h : Nat) (b : button_type) :
    (create_button cfg env s w h b).1.app.window_ll.map lifecycle =
      s.app.window_ll.map lifecycle := by
  unfold create_button
  repeat' (first | split | dsimp only)
  all_goals first
    | rfl
    | exact modify_window_lifecycle _ _ _ (fun _ => rfl)

theorem create_window_button_lifecycle (cfg : config) (env : create_env) (s : world) (w : Nat)
    (b : button_type) :
    (create_window_button cfg env s w b).app.window_ll.map lifecycle =
      s.app.window_ll.map lifecycle := by
  unfold create_window_button
  dsimp only
  split
  · refine Eq.trans (modify_window_lifecycle _ _ _ ?_) (create_button_lifecycle cfg _ s w _ b)
    intro _
    rfl
  · rfl

theorem create_decorations_lifecycle (cfg : config) (env : create_env) (s : world) (w : Nat) :
    (create_decorations cfg env s w).app.window_ll.map lifecycle =
      s.app.window_ll.map lifecycle := by
  unfold create_decorations
  split
  · dsimp only
    have h1 : ((create_titlebar cfg env.titlebar s w TITLE_BAR_HEIGHT).1.app.modify_window w
        (fun x => { x with decoration :=
          (create_titlebar cfg env.titlebar s w TITLE_BAR_HEIGHT).2 })).window_ll.map lifecycle =
        s.app.window_ll.map lifecycle := by
      refine Eq.trans (modify_window_lifecycle _ _ _ ?_) (create_titlebar_lifecycle cfg _ s w _)
      intro _
      rfl
    split
    · exact h1
    · simp only [List.foldl]
      rw [create_window_button_lifecycle, create_window_button_lifecycle]
      exact h1
  · rfl

theorem create_shell_surface_lifecycle (cfg : config) (env : create_env) (fuel : Nat)
    (s : world) (w : Nat) (r : world) (label : Nat)
    (h : create_shell_surface cfg env fuel s w = some (r, label)) :
    r.app.window_ll.map lifecycle = s.app.window_ll.map lifecycle := by
  unfold create_shell_surface at h
  dsimp only at h
  repeat' (first | split at h | dsimp only at h)
  all_goals first
    | (exfalso; exact Option.noConfusion h)
    | (simp only [Option.some.injEq, Prod.mk.injEq] at h
       obtain ⟨h1, _⟩ := h
       subst h1
       first
         | rfl
         | exact modify_window_lifecycle _ _ _ (fun _ => rfl)
         | (refine Eq.trans (modify_window_lifecycle _ _ _ ?_)
               (modify_window_lifecycle _ _ _ ?_) <;> intro _ <;> rfl))
theorem world_emit_app (s : world) (e : effect) : (s.emit e).app = s.app := rfl

theorem create_window_shell_some (cfg : config) (env : create_env) (fuel : Nat) (s : world)
    (w : Nat) (s1 : world) (r : Nat)
    (h : create_window_shell cfg env fuel s w = some (s1, some r)) :
    r = w ∧ s1.app.window_ll.map lifecycle = s.app.window_ll.map lifecycle := by
  unfold create_window_shell at h
  split at h
  · exact Option.noConfusion h
  · rename_i s2 hshell
    simp only [Option.some.injEq, Prod.mk.injEq] at h
    obtain ⟨h1, h2⟩ := h
    subst h1
    refine ⟨h2.symm, ?_⟩
    exact (create_decorations_lifecycle cfg env s2 w).trans
      (create_shell_surface_lifecycle _ _ _ _ _ _ _ hshell)
  · simp only [Option.some.injEq, Prod.mk.injEq] at h
    exact Option.noConfusion h.2
  · simp only [Option.some.injEq, Prod.mk.injEq] at h
    exact Option.noConfusion h.2

theorem create_window_surface_some (cfg : config) (env : create_env) (fuel : Nat) (s : world)
    (w : Nat) (s1 : world) (r : Nat)
    (h : create_window_surface cfg env fuel s w = some (s1, some r)) :
    r = w ∧ s1.app.window_ll.map lifecycle = s.app.window_ll.map lifecycle := by
  unfold create_window_surface at h
  split at h
  · simp only [Option.some.injEq, Prod.mk.injEq] at h
    exact Option.noConfusion h.2
  · obtain ⟨h1, h2⟩ := create_window_shell_some _ _ _ _ _ _ _ h
    refine ⟨h1, h2.trans ?_⟩
    refine modify_window_lifecycle _ _ _ ?_
    intro _; rfl

theorem create_window_buffer_some (cfg : config) (env : create_env) (fuel : Nat) (s : world)
    (w : Nat) (width height : Int) (s1 : world) (r : Nat)
    (h : create_window_buffer cfg env fuel s w width height = some (s1, some r)) :
    r = w ∧ s1.app.window_ll.map lifecycle = s.app.window_ll.map lifecycle := by
  unfold create_window_buffer at h
  split at h
  · simp only [Option.some.injEq, Prod.mk.injEq] at h
    exact Option.noConfusion h.2
  · obtain ⟨h1, h2⟩ := create_window_surface_some _ _ _ _ _ _ _ h
    refine ⟨h1, h2.trans ?_⟩
    refine modify_window_lifecycle _ _ _ ?_
    intro _; rfl

theorem create_window_pool_some (cfg : config) (env : create_env) (fuel : Nat) (s : world)
    (w : Nat) (width height : Int) (s1 : world) (r : Nat)
    (h : create_window_pool cfg env fuel s w width height = some (s1, some r)) :
    r = w ∧ s1.app.window_ll.map lifecycle = s.app.window_ll.map lifecycle := by
  unfold create_window_pool at h
  split at h
  · simp only [Option.some.injEq, Prod.mk.injEq] at h
    exact Option.noConfusion h.2
  · obtain ⟨h1, h2⟩ := create_window_buffer_some _ _ _ _ _ _ _ _ _ h
    refine ⟨h1, h2.trans ?_⟩
    refine modify_window_lifecycle _ _ _ ?_
    intro _; rfl

theorem create_window_map_some (cfg : config) (env : create_env) (fuel : Nat) (s : world)
    (w : Nat) (width height : Int) (s1 : world) (r : Nat)
    (h : create_window_map cfg env fuel s w width height = some (s1, some r)) :
    r = w ∧ s1.app.window_ll.map lifecycle = s.app.window_ll.map lifecycle := by
  unfold create_window_map at h
  split at h
  · simp only [Option.some.injEq, Prod.mk.injEq] at h
    exact Option.noConfusion h.2
  · split at h
    · simp only [Option.some.injEq, Prod.mk.injEq] at h
      exact Option.noConfusion h.2
    · obtain ⟨h1, h2⟩ := create_window_pool_some _ _ _ _ _ _ _ _ _ h
      refine ⟨h1, h2.trans ?_⟩
      refine modify_window_lifecycle _ _ _ ?_
      intro _; rfl

theorem create_window_file_some (cfg : config) (env : create_env) (fuel : Nat) (s : world)
    (w : Nat) (width height : Int) (s1 : world) (r : Nat)
    (h : create_window_file cfg env fuel s w width height = some (s1, some r)) :
    r = w ∧ s1.app.window_ll.map lifecycle = s.app.window_ll.map lifecycle := by
  unfold create_window_file at h
  dsimp only at h
  split at h
  · simp only [Option.some.injEq, Prod.mk.injEq] at h
    exact Option.noConfusion h.2
  · split at h
    · simp only [Option.some.injEq, Prod.mk.injEq] at h
      exact Option.noConfusion h.2
    · obtain ⟨h1, h2⟩ := create_window_map_some _ _ _ _ _ _ _ _ _ h
      refine ⟨h1, h2.trans ?_⟩
      simp only [world_emit_app]
      split <;> rfl

/-- A successful `create_window` returns the position at the tail of the collection;
the windows before it keep their lifecycle flags and the new one has all flags clear
and no callback. -/
theorem create_window_some (cfg : config) (env : create_env) (fuel : Nat) (s : world)
    (width height : Int) (s1 : world) (w : Nat)
    (h : create_window cfg env fuel s width height = some (s1, some w)) :
    w = s.app.window_ll.length ∧
    s1.app.window_ll.map lifecycle = s.app.window_ll.map lifecycle ++ [lifecycle zero_window] := by
  unfold create_window at h
  dsimp only at h
  split at h
  · simp only [Option.some.injEq, Prod.mk.injEq] at h
    exact Option.noConfusion h.2
  · obtain ⟨h1, h2⟩ := create_window_file_some _ _ _ _ _ _ _ _ _ h
    refine ⟨h1, h2.trans ?_⟩
    simp only [List.map_append, List.map_cons, List.map_nil]
    rfl

/-- The window a successful `create_window` returns: it exists, is open, and has not
cycled, no flush pending and no callback. -/
theorem create_window_fresh (cfg : config) (env : create_env) (fuel : Nat) (s : world)
    (width height : Int) (s1 : world) (w : Nat)
    (h : create_window cfg env fuel s width height = some (s1, some w)) :
    ∃ win, s1.app.window_ll[w]? = some win ∧ win.flush_pending = false ∧
      win.cycled = false ∧ win.shall_close = false ∧ win.closed = false ∧
      win.ext_monitor_cb = none := by
  obtain ⟨h1, h2⟩ := create_window_some cfg env fuel s width height s1 w h
  have h3 : (s1.app.window_ll.map lifecycle)[w]? = some (lifecycle zero_window) := by
    rw [h2, h1]
    simp
  rw [List.getElem?_map] at h3
  cases hw : s1.app.window_ll[w]? with
  | none => simp [hw] at h3
  | some win =>
    simp only [hw, Option.map_some', Option.some.injEq] at h3
    refine ⟨win, rfl, ?_⟩
    simp only [lifecycle, zero_window, Prod.mk.injEq] at h3
    exact h3

/-! ## The draw callback -/

/-- What the drawing part of `lv_wayland_flush` does to the state. -/
theorem flush_draw_spec (cfg : config) (s : world) (disp_drv : lv_disp_drv_t) (w : Nat)
    (area : lv_area_t) (color_p : Nat → lv_color_t) (is_last : Bool) (win : window)
    (hw : s.app.window_ll[w]? = some win) :
    (flush_draw cfg s disp_drv w area color_p is_last).app.window_ll[w]? =
      some { win with
        data := (flush_rows cfg disp_drv.hor_res disp_drv.ver_res color_p area.x1 area.x2
          area.y2 area.y1 { data := win.data, color_p := 0, written := [] }).data,
        flush_pending := if is_last then true else win.flush_pending } ∧
    (∀ j, j ≠ w → (flush_draw cfg s disp_drv w area color_p is_last).app.window_ll[j]? =
      s.app.window_ll[j]?) ∧
    (flush_draw cfg s disp_drv w area color_p is_last).trace =
      s.trace ++
        (flush_rows cfg disp_drv.hor_res disp_drv.ver_res color_p area.x1 area.x2
          area.y2 area.y1 { data := win.data, color_p := 0, written := [] }).written.map
          (fun k => effect.store (input_ptr.of_window w) k) ++
        [effect.wl_surface_attach (input_ptr.of_window w),
         effect.wl_surface_damage (input_ptr.of_window w) area.x1 area.y1
           (area.x2 - area.x1 + 1) (area.y2 - area.y1 + 1)] ++
        (if is_last then [effect.wl_surface_commit (input_ptr.of_window w)] else []) ++
        [effect.lv_disp_flush_ready disp_drv] ∧
    (flush_draw cfg s disp_drv w area color_p is_last).exited = s.exited := by
  unfold flush_draw
  simp only [hw]
  cases is_last <;>
    simp +contextual [world.emit, modify_window_getElem?, hw]

/-- A draw call on an open window whose rectangle is not entirely outside reaches the
drawing part. -/
theorem flush_open_window (cfg : config) (env : create_env) (fuel : Nat) (s : world)
    (disp_drv : lv_disp_drv_t) (area : lv_area_t) (color_p : Nat → lv_color_t)
    (is_last : Bool) (w : Nat) (win : window)
    (hdrv : disp_drv.user_data = some w) (hwin : s.app.window_ll[w]? = some win)
    (hopen : win.closed = false ∧ win.shall_close = false)
    (hin : ¬ (area.x2 < 0 ∨ area.y2 < 0 ∨
      area.x1 > (if disp_drv.rotated = 0 then disp_drv.hor_res else disp_drv.ver_res) - 1 ∨
      area.y1 > (if disp_drv.rotated = 0 then disp_drv.ver_res else disp_drv.hor_res) - 1)) :
    lv_wayland_flush cfg env fuel s disp_drv area color_p is_last =
      some (flush_draw cfg s disp_drv w area color_p is_last, disp_drv) := by
  unfold lv_wayland_flush
  simp only [hdrv, hwin]
  rw [if_neg (by simp [hopen.1, hopen.2]), if_neg hin]

/-- C3. For an open window on an unrotated display and a rectangle that lies fully
inside the window, after the draw call every cell at the row-major offset
`y * width + x` of the rectangle holds the source pixel at index
`(y - y1) * (x2 - x1 + 1) + (x - x1)`, stored as it is at colour depth 8, 16 and 32 and
as the byte synthesized from its channel bits at depth 1, and every other cell of the
backing memory is unchanged. -/
theorem flush_copies_rectangle (cfg : config) (env : create_env) (fuel : Nat) (s : world)
    (disp_drv : lv_disp_drv_t) (area : lv_area_t) (color_p : Nat → lv_color_t)
    (is_last : Bool) (w : Nat) (win : window)
    (hs : depth_supported cfg)
    (hdrv : disp_drv.user_data = some w) (hwin : s.app.window_ll[w]? = some win)
    (hopen : win.closed = false ∧ win.shall_close = false)
    (hrot : disp_drv.rotated = 0)
    (hwidth : win.width = disp_drv.hor_res) (hheight : win.height = disp_drv.ver_res)
    (hx : 0 ≤ area.x1 ∧ area.x1 ≤ area.x2 ∧ area.x2 < win.width)
    (hy : 0 ≤ area.y1 ∧ area.y1 ≤ area.y2 ∧ area.y2 < win.height) :
    ∃ r win2,
      lv_wayland_flush cfg env fuel s disp_drv area color_p is_last = some (r, disp_drv) ∧
      r.app.window_ll[w]? = some win2 ∧
      (∀ x y : Int, area.x1 ≤ x → x ≤ area.x2 → area.y1 ≤ y → y ≤ area.y2 →
        win2.data (y * win.width + x) =
          if cfg.LV_COLOR_DEPTH = 1 then
            rgb332_of_1bit
              (color_p ((y - area.y1) * (area.x2 - area.x1 + 1) + (x - area.x1)).toNat)
          else
            (color_p ((y - area.y1) * (area.x2 - area.x1 + 1) + (x - area.x1)).toNat).full) ∧
      (∀ o : Int,
        (∀ x y : Int, area.x1 ≤ x → x ≤ area.x2 → area.y1 ≤ y → y ≤ area.y2 →
          o ≠ y * win.width + x) →
        win2.data o = win.data o) := by
  have hin : ¬ (area.x2 < 0 ∨ area.y2 < 0 ∨
      area.x1 > (if disp_drv.rotated = 0 then disp_drv.hor_res else disp_drv.ver_res) - 1 ∨
      area.y1 > (if disp_drv.rotated = 0 then disp_drv.ver_res else disp_drv.hor_res) - 1) := by
    simp only [hrot, if_true]
    omega
  obtain ⟨hw2, _, _, _⟩ := flush_draw_spec cfg s disp_drv w area color_p is_last win hwin
  obtain ⟨_, _, hdata⟩ := flush_rows_spec cfg hs disp_drv.hor_res disp_drv.ver_res color_p
    area.x1 area.x2 area.y2 (row_count disp_drv.ver_res area.y1 area.y2) area.y1
    { data := win.data, color_p := 0, written := [] } rfl
  obtain ⟨hcell, hother⟩ := hdata hx.1
  have hn : (row_len disp_drv.hor_res area.x1 area.x2 : Int) = area.x2 - area.x1 + 1 := by
    unfold row_len
    omega
  have hm : (row_count disp_drv.ver_res area.y1 area.y2 : Int) = area.y2 - area.y1 + 1 := by
    unfold row_count
    omega
  refine ⟨_, _, flush_open_window cfg env fuel s disp_drv area color_p is_last w win hdrv hwin
    hopen hin, hw2, ?_, ?_⟩
  · intro x y hx1 hx2 hy1 hy2
    have hj : (y - area.y1).toNat < row_count disp_drv.ver_res area.y1 area.y2 := by omega
    have hi : (x - area.x1).toNat < row_len disp_drv.hor_res area.x1 area.x2 := by omega
    have hc := hcell (y - area.y1).toNat (x - area.x1).toNat hj hi
    have ha : ((y - area.y1).toNat : Int) = y - area.y1 := Int.toNat_of_nonneg (by omega)
    have hb : ((x - area.x1).toNat : Int) = x - area.x1 := Int.toNat_of_nonneg (by omega)
    have e1 : (area.y1 + ((y - area.y1).toNat : Int)) * disp_drv.hor_res + area.x1 +
        ((x - area.x1).toNat : Int) = y * win.width + x := by
      rw [hwidth, ha, hb]
      ring
    have e2 : 0 + (y - area.y1).toNat * row_len disp_drv.hor_res area.x1 area.x2 +
        (x - area.x1).toNat =
        ((y - area.y1) * (area.x2 - area.x1 + 1) + (x - area.x1)).toNat := by
      have e3 : (y - area.y1) * (area.x2 - area.x1 + 1) + (x - area.x1) =
          (((y - area.y1).toNat * row_len disp_drv.hor_res area.x1 area.x2 +
            (x - area.x1).toNat : Nat) : Int) := by
        push_cast
        rw [ha, hb, hn]
      rw [e3, Int.toNat_ofNat, Nat.zero_add]
    rw [e1, e2] at hc
    simp only
    rw [hc]
    rfl
  · intro o ho
    simp only
    apply hother
    intro j i hj hi e
    apply ho (area.x1 + i) (area.y1 + j) (by omega) (by omega) (by omega) (by omega)
    rw [e, hwidth]
    ring

/-! ## The calls made during window construction -/

theorem trace_adds_refl (P : effect → Prop) (s : world) : trace_adds P s s :=
  ⟨[], by simp, by simp⟩

theorem trace_adds_trans (P : effect → Prop) (a b c : world) (h1 : trace_adds P a b)
    (h2 : trace_adds P b c) : trace_adds P a c := by
  obtain ⟨l1, e1, p1⟩ := h1
  obtain ⟨l2, e2, p2⟩ := h2
  refine ⟨l1 ++ l2, by rw [e2, e1, List.append_assoc], ?_⟩
  intro e he
  rcases List.mem_append.mp he with h | h
  · exact p1 e h
  · exact p2 e h

theorem trace_adds_of_eq (P : effect → Prop) (s r : world) (added : List effect)
    (h : r.trace = s.trace ++ added) (hp : ∀ e ∈ added, P e) : trace_adds P s r :=
  ⟨added, h, hp⟩

theorem create_titlebar_trace (cfg : config) (env : part_env) (s : world) (w : Nat)
    (h : Nat) :
    trace_adds (fun e => effect.from_creation e = true) s (create_titlebar cfg env s w h).1 := by
  unfold create_titlebar
  repeat' (first | split | dsimp only)
  all_goals simp [trace_adds, world.emit, effect.from_creation]

theorem create_button_trace (cfg : config) (env : part_env) (s : world) (w : Nat)
    (h : Nat) (b : button_type) :
    trace_adds (fun e => effect.from_creation e = true) s (create_button cfg env s w h b).1 := by
  unfold create_button
  repeat' (first | split | dsimp only)
  all_goals simp [trace_adds, world.emit, effect.from_creation]

theorem trace_adds_app (P : effect → Prop) (s r : world) (a : application)
    (h : trace_adds P s r) : trace_adds P s { r with app := a } := h

theorem trace_adds_emit (P : effect → Prop) (s r : world) (e : effect)
    (h : trace_adds P s r) (he : P e) : trace_adds P s (r.emit e) :=
  trace_adds_trans P s r _ h ⟨[e], rfl, by simpa using he⟩

theorem create_window_button_trace (cfg : config) (env : create_env) (s : world) (w : Nat)
    (b : button_type) :
    trace_adds (fun e => effect.from_creation e = true) s
      (create_window_button cfg env s w b) := by
  unfold create_window_button
  dsimp only
  split
  · exact trace_adds_app _ _ _ _ (create_button_trace cfg _ s w _ b)
  · exact trace_adds_refl _ _

theorem create_decorations_trace (cfg : config) (env : create_env) (s : world) (w : Nat) :
    trace_adds (fun e => effect.from_creation e = true) s (create_decorations cfg env s w) := by
  unfold create_decorations
  split
  · dsimp only
    have h1 := trace_adds_app _ _ _
      ((create_titlebar cfg env.titlebar s w TITLE_BAR_HEIGHT).1.app.modify_window w
        (fun x => { x with decoration :=
          (create_titlebar cfg env.titlebar s w TITLE_BAR_HEIGHT).2 }))
      (create_titlebar_trace cfg env.titlebar s w TITLE_BAR_HEIGHT)
    split
    · exact h1
    · simp only [List.foldl]
      exact trace_adds_trans _ _ _ _ (trace_adds_trans _ _ _ _ h1
        (create_window_button_trace _ _ _ _ _)) (create_window_button_trace _ _ _ _ _)
  · exact trace_adds_refl _ _

theorem create_shell_surface_trace (cfg : config) (env : create_env) (fuel : Nat)
    (s : world) (w : Nat) (r : world) (label : Nat)
    (h : create_shell_surface cfg env fuel s w = some (r, label)) :
    trace_adds (fun e => effect.from_creation e = true) s r := by
  unfold create_shell_surface at h
  dsimp only at h
  repeat' (first | split at h | dsimp only at h)
  all_goals first
    | (exfalso; exact Option.noConfusion h)
    | (simp only [Option.some.injEq, Prod.mk.injEq] at h
       obtain ⟨h1, _⟩ := h
       subst h1
       simp [trace_adds, world.emit, effect.from_creation])

theorem create_window_shell_trace (cfg : config) (env : create_env) (fuel : Nat) (s : world)
    (w : Nat) (s1 : world) (r : Nat)
    (h : create_window_shell cfg env fuel s w = some (s1, some r)) :
    trace_adds (fun e => effect.from_creation e = true) s s1 := by
  unfold create_window_shell at h
  split at h
  · exact Option.noConfusion h
  · rename_i s2 hshell
    simp only [Option.some.injEq, Prod.mk.injEq] at h
    obtain ⟨h1, _⟩ := h
    subst h1
    exact trace_adds_emit _ _ _ _ (trace_adds_trans _ _ _ _
      (create_shell_surface_trace _ _ _ _ _ _ _ hshell) (create_decorations_trace _ _ _ _)) rfl
  · simp only [Option.some.injEq, Prod.mk.injEq] at h
    exact Option.noConfusion h.2
  · simp only [Option.some.injEq, Prod.mk.injEq] at h
    exact Option.noConfusion h.2

theorem create_window_surface_trace (cfg : config) (env : create_env) (fuel : Nat) (s : world)
    (w : Nat) (s1 : world) (r : Nat)
    (h : create_window_surface cfg env fuel s w = some (s1, some r)) :
    trace_adds (fun e => effect.from_creation e = true) s s1 := by
  unfold create_window_surface at h
  split at h
  · simp only [Option.some.injEq, Prod.mk.injEq] at h
    exact Option.noConfusion h.2
  · refine trace_adds_trans _ _ _ _ ?_ (create_window_shell_trace _ _ _ _ _ _ _ h)
    exact trace_adds_app _ _ _ _ (trace_adds_emit _ _ _ _ (trace_adds_refl _ _) rfl)

theorem create_window_buffer_trace (cfg : config) (env : create_env) (fuel : Nat) (s : world)
    (w : Nat) (width height : Int) (s1 : world) (r : Nat)
    (h : create_window_buffer cfg env fuel s w width height = some (s1, some r)) :
    trace_adds (fun e => effect.from_creation e = true) s s1 := by
  unfold create_window_buffer at h
  split at h
  · simp only [Option.some.injEq, Prod.mk.injEq] at h
    exact Option.noConfusion h.2
  · refine trace_adds_trans _ _ _ _ ?_ (create_window_surface_trace _ _ _ _ _ _ _ h)
    exact trace_adds_app _ _ _ _ (trace_adds_emit _ _ _ _ (trace_adds_refl _ _) rfl)

theorem create_window_pool_trace (cfg : config) (env : create_env) (fuel : Nat) (s : world)
    (w : Nat) (width height : Int) (s1 : world) (r : Nat)
    (h : create_window_pool cfg env fuel s w width height = some (s1, some r)) :
    trace_adds (fun e => effect.from_creation e = true) s s1 := by
  unfold create_window_pool at h
  split at h
  · simp only [Option.some.injEq, Prod.mk.injEq] at h
    exact Option.noConfusion h.2
  · refine trace_adds_trans _ _ _ _ ?_ (create_window_buffer_trace _ _ _ _ _ _ _ _ _ h)
    exact trace_adds_app _ _ _ _ (trace_adds_emit _ _ _ _ (trace_adds_refl _ _) rfl)

theorem create_window_map_trace (cfg : config) (env : create_env) (fuel : Nat) (s : world)
    (w : Nat) (width height : Int) (s1 : world) (r : Nat)
    (h : create_window_map cfg env fuel s w width height = some (s1, some r)) :
    trace_adds (fun e => effect.from_creation e = true) s s1 := by
  unfold create_window_map at h
  split at h
  · simp only [Option.some.injEq, Prod.mk.injEq] at h
    exact Option.noConfusion h.2
  · split at h
    · simp only [Option.some.injEq, Prod.mk.injEq] at h
      exact Option.noConfusion h.2
    · refine trace_adds_trans _ _ _ _ ?_ (create_window_pool_trace _ _ _ _ _ _ _ _ _ h)
      exact trace_adds_app _ _ _ _ (trace_adds_emit _ _ _ _ (trace_adds_refl _ _) rfl)

theorem create_window_file_trace (cfg : config) (env : create_env) (fuel : Nat) (s : world)
    (w : Nat) (width height : Int) (s1 : world) (r : Nat)
    (h : create_window_file cfg env fuel s w width height = some (s1, some r)) :
    trace_adds (fun e => effect.from_creation e = true) s s1 := by
  unfold create_window_file at h
  dsimp only at h
  split at h
  · simp only [Option.some.injEq, Prod.mk.injEq] at h
    exact Option.noConfusion h.2
  · split at h
    · simp only [Option.some.injEq, Prod.mk.injEq] at h
      exact Option.noConfusion h.2
    · refine trace_adds_trans _ _ _ _ ?_ (create_window_map_trace _ _ _ _ _ _ _ _ _ h)
      refine trace_adds_emit _ _ _ _ ?_ rfl
      split
      · exact trace_adds_emit _ _ _ _ (trace_adds_emit _ _ _ _ (trace_adds_refl _ _) rfl) rfl
      · exact trace_adds_emit _ _ _ _ (trace_adds_refl _ _) rfl

/-- A successful `create_window` only adds calls of window construction to the trace:
no damage, no commit on a window surface, no acknowledgment. -/
theorem create_window_trace (cfg : config) (env : create_env) (fuel : Nat) (s : world)
    (width height : Int) (s1 : world) (w : Nat)
    (h : create_window cfg env fuel s width height = some (s1, some w)) :
    trace_adds (fun e => effect.from_creation e = true) s s1 := by
  unfold create_window at h
  dsimp only at h
  split at h
  · simp only [Option.some.injEq, Prod.mk.injEq] at h
    exact Option.noConfusion h.2
  · refine trace_adds_trans _ _ _ _ ?_ (create_window_file_trace _ _ _ _ _ _ _ _ _ h)
    exact ⟨[_], rfl, by simp [effect.from_creation]⟩

/-- The first draw call for a display, when `create_window` succeeds: the callback of
the display driver is captured in the new window, `window_cycle` is installed, and the
drawing part runs for the new window, whatever the rectangle. -/
theorem flush_first_call (cfg : config) (env : create_env) (fuel : Nat) (s : world)
    (disp_drv : lv_disp_drv_t) (area : lv_area_t) (color_p : Nat → lv_color_t)
    (is_last : Bool) (s1 : world) (w : Nat)
    (hdrv : disp_drv.user_data = none)
    (hcreate : create_window cfg env fuel s
      (if disp_drv.rotated = 0 then disp_drv.hor_res else disp_drv.ver_res)
      (if disp_drv.rotated = 0 then disp_drv.ver_res else disp_drv.hor_res) = some (s1, some w)) :
    ∃ win1,
      s1.app.window_ll[w]? = some win1 ∧ lifecycle win1 = lifecycle zero_window ∧
      lv_wayland_flush cfg env fuel s disp_drv area color_p is_last =
        some (flush_draw cfg
          { s1 with app := s1.app.modify_window w (fun x =>
              { x with ext_monitor_cb := disp_drv.monitor_cb }) }
          { disp_drv with user_data := some w, monitor_cb := some monitor_cb_t.window_cycle }
          w area color_p is_last,
          { disp_drv with user_data := some w,
                          monitor_cb := some monitor_cb_t.window_cycle }) ∧
      (flush_draw cfg
          { s1 with app := s1.app.modify_window w (fun x =>
              { x with ext_monitor_cb := disp_drv.monitor_cb }) }
          { disp_drv with user_data := some w, monitor_cb := some monitor_cb_t.window_cycle }
          w area color_p is_last).app.window_ll[w]? =
        some { win1 with
          ext_monitor_cb := disp_drv.monitor_cb,
          data := (flush_rows cfg disp_drv.hor_res disp_drv.ver_res color_p area.x1 area.x2
            area.y2 area.y1 { data := win1.data, color_p := 0, written := [] }).data,
          flush_pending := is_last } ∧
      (flush_draw cfg
          { s1 with app := s1.app.modify_window w (fun x =>
              { x with ext_monitor_cb := disp_drv.monitor_cb }) }
          { disp_drv with user_data := some w, monitor_cb := some monitor_cb_t.window_cycle }
          w area color_p is_last).trace =
        s1.trace ++
          (flush_rows cfg disp_drv.hor_res disp_drv.ver_res color_p area.x1 area.x2
            area.y2 area.y1 { data := win1.data, color_p := 0, written := [] }).written.map
            (fun k => effect.store (input_ptr.of_window w) k) ++
          [effect.wl_surface_attach (input_ptr.of_window w),
           effect.wl_surface_damage (input_ptr.of_window w) area.x1 area.y1
             (area.x2 - area.x1 + 1) (area.y2 - area.y1 + 1)] ++
          (if is_last then [effect.wl_surface_commit (input_ptr.of_window w)] else []) ++
          [effect.lv_disp_flush_ready
            { disp_drv with user_data := some w,
                            monitor_cb := some monitor_cb_t.window_cycle }] := by
  obtain ⟨win1, hw1, hf, hc, hsc, hcl, hcb⟩ := create_window_fresh cfg env fuel s _ _ s1 w hcreate
  have hw1' : ({ s1 with app := s1.app.modify_window w (fun x =>
      { x with ext_monitor_cb := disp_drv.monitor_cb }) } : world).app.window_ll[w]? =
      some { win1 with ext_monitor_cb := disp_drv.monitor_cb } := by
    simp [modify_window_getElem?, hw1]
  obtain ⟨h1, _, h3, _⟩ := flush_draw_spec cfg _
    { disp_drv with user_data := some w, monitor_cb := some monitor_cb_t.window_cycle }
    w area color_p is_last _ hw1'
  refine ⟨win1, hw1, ?_, ?_, ?_, ?_⟩
  · simp [lifecycle, zero_window, hf, hc, hsc, hcl, hcb]
  · unfold lv_wayland_flush
    simp only [hdrv, hcreate]
  · rw [h1]
    cases is_last <;> simp [hf]
  · rw [h3]
/-- C4. Every draw call that is not rejected adds to the trace the stores of the copy,
one attach, exactly one damage request covering
(`x1`, `y1`, `x2 - x1 + 1`, `y2 - y1 + 1`), a commit request if and only if the
rectangle is the last of its frame, and the acknowledgment; `flush_pending` becomes
true when the rectangle is the last of its frame and keeps its value otherwise. This
holds for a call on an open window whose rectangle is not entirely outside, and for
the first call for a display, which creates the window (its `flush_pending` starts
false, and window construction itself issues no damage, no commit on the window
surface and no acknowledgment). -/
theorem flush_damage_and_commit (cfg : config) (env : create_env) (fuel : Nat) (s : world)
    (disp_drv : lv_disp_drv_t) (area : lv_area_t) (color_p : Nat → lv_color_t)
    (is_last : Bool) :
    (∀ w win, disp_drv.user_data = some w → s.app.window_ll[w]? = some win →
      win.closed = false ∧ win.shall_close = false →
      ¬ (area.x2 < 0 ∨ area.y2 < 0 ∨
        area.x1 > (if disp_drv.rotated = 0 then disp_drv.hor_res else disp_drv.ver_res) - 1 ∨
        area.y1 > (if disp_drv.rotated = 0 then disp_drv.ver_res else disp_drv.hor_res) - 1) →
      ∃ (r : world) (win2 : window) (stores : List Int),
        lv_wayland_flush cfg env fuel s disp_drv area color_p is_last = some (r, disp_drv) ∧
        r.trace = s.trace ++
          stores.map (fun k => effect.store (input_ptr.of_window w) k) ++
          [effect.wl_surface_attach (input_ptr.of_window w),
           effect.wl_surface_damage (input_ptr.of_window w) area.x1 area.y1
             (area.x2 - area.x1 + 1) (area.y2 - area.y1 + 1)] ++
          (if is_last then [effect.wl_surface_commit (input_ptr.of_window w)] else []) ++
          [effect.lv_disp_flush_ready disp_drv] ∧
        r.app.window_ll[w]? = some win2 ∧
        win2.flush_pending = (if is_last then true else win.flush_pending)) ∧
    (∀ w s1, disp_drv.user_data = none →
      create_window cfg env fuel s
        (if disp_drv.rotated = 0 then disp_drv.hor_res else disp_drv.ver_res)
        (if disp_drv.rotated = 0 then disp_drv.ver_res else disp_drv.hor_res) =
        some (s1, some w) →
      ∃ (r : world) (win2 : window) (stores : List Int) (created : List effect),
        lv_wayland_flush cfg env fuel s disp_drv area color_p is_last =
          some (r, { disp_drv with user_data := some w,
                                   monitor_cb := some monitor_cb_t.window_cycle }) ∧
        (∀ e ∈ created, effect.from_creation e = true) ∧
        r.trace = s.trace ++ created ++
          stores.map (fun k => effect.store (input_ptr.of_window w) k) ++
          [effect.wl_surface_attach (input_ptr.of_window w),
           effect.wl_surface_damage (input_ptr.of_window w) area.x1 area.y1
             (area.x2 - area.x1 + 1) (area.y2 - area.y1 + 1)] ++
          (if is_last then [effect.wl_surface_commit (input_ptr.of_window w)] else []) ++
          [effect.lv_disp_flush_ready
            { disp_drv with user_data := some w,
                            monitor_cb := some monitor_cb_t.window_cycle }] ∧
        r.app.window_ll[w]? = some win2 ∧
        win2.flush_pending = is_last) := by
  refine ⟨?_, ?_⟩
  · intro w win hdrv hwin hopen hin
    obtain ⟨h1, _, h3, _⟩ := flush_draw_spec cfg s disp_drv w area color_p is_last win hwin
    exact ⟨_, _, _, flush_open_window cfg env fuel s disp_drv area color_p is_last w win hdrv
      hwin hopen hin, h3, h1, rfl⟩
  · intro w s1 hdrv hcreate
    obtain ⟨win1, _, _, h3, h4, h5⟩ :=
      flush_first_call cfg env fuel s disp_drv area color_p is_last s1 w hdrv hcreate
    obtain ⟨created, hc1, hc2⟩ := create_window_trace cfg env fuel s _ _ s1 w hcreate
    refine ⟨_, _,
      (flush_rows cfg disp_drv.hor_res disp_drv.ver_res color_p area.x1 area.x2 area.y2
        area.y1 { data := win1.data, color_p := 0, written := [] }).written,
      created, h3, hc2, ?_, h4, rfl⟩
    rw [h5, hc1]

theorem flush_damage_and_commit_witness :
    (drv320 0).user_data = some 0 ∧
    (world_of [window320 0]).app.window_ll[0]? = some (window320 0) ∧
    ∃ (r : world) (win2 : window) (stores : List Int),
      lv_wayland_flush cfg16 env_ok 0 (world_of [window320 0]) (drv320 0)
        { x1 := 0, y1 := 0, x2 := 9, y2 := 9 } (fun _ => white16) true =
        some (r, drv320 0) ∧
      r.trace = (world_of [window320 0]).trace ++
        stores.map (fun k => effect.store (input_ptr.of_window 0) k) ++
        [effect.wl_surface_attach (input_ptr.of_window 0),
         effect.wl_surface_damage (input_ptr.of_window 0) 0 0 (9 - 0 + 1) (9 - 0 + 1)] ++
        (if true = true then [effect.wl_surface_commit (input_ptr.of_window 0)] else []) ++
        [effect.lv_disp_flush_ready (drv320 0)] ∧
      r.app.window_ll[0]? = some win2 ∧
      win2.flush_pending = (if true = true then true else (window320 0).flush_pending) :=
  ⟨rfl, rfl,
    (flush_damage_and_commit cfg16 env_ok 0 (world_of [window320 0]) (drv320 0)
      { x1 := 0, y1 := 0, x2 := 9, y2 := 9 } (fun _ => white16) true).1 0 (window320 0)
      rfl rfl ⟨rfl, rfl⟩ (by decide)⟩

theorem flush_copies_rectangle_witness :
    depth_supported cfg16 ∧
    (drv320 0).user_data = some 0 ∧
    (world_of [window320 0]).app.window_ll[0]? = some (window320 0) ∧
    ∃ r win2,
      lv_wayland_flush cfg16 env_ok 0 (world_of [window320 0]) (drv320 0)
        { x1 := 0, y1 := 0, x2 := 9, y2 := 9 } (fun _ => white16) true =
        some (r, drv320 0) ∧
      r.app.window_ll[0]? = some win2 ∧
      (∀ x y : Int, 0 ≤ x → x ≤ 9 → 0 ≤ y → y ≤ 9 → win2.data (y * 320 + x) = 65535) ∧
      (∀ o : Int, (∀ x y : Int, 0 ≤ x → x ≤ 9 → 0 ≤ y → y ≤ 9 → o ≠ y * 320 + x) →
        win2.data o = 0) := by
  have hs : depth_supported cfg16 := Or.inr (Or.inl rfl)
  obtain ⟨r, win2, h1, h2, h3, h4⟩ :=
    flush_copies_rectangle cfg16 env_ok 0 (world_of [window320 0]) (drv320 0)
      { x1 := 0, y1 := 0, x2 := 9, y2 := 9 } (fun _ => white16) true 0 (window320 0)
      hs rfl rfl ⟨rfl, rfl⟩ rfl rfl rfl (by decide) (by decide)
  refine ⟨hs, rfl, rfl, r, win2, h1, h2, ?_, ?_⟩
  · intro x y hx0 hx1 hy0 hy1
    have hcell := h3 x y hx0 hx1 hy0 hy1
    have e : (window320 0).width = 320 := rfl
    rw [e] at hcell
    rw [hcell]
    decide
  · intro o ho
    exact h4 o ho
/-- A draw call on an open window whose rectangle lies entirely outside the target
resolution returns after the acknowledgment alone: no store, no damage, no commit. -/
theorem flush_outside_existing_window (cfg : config) (env : create_env) (fuel : Nat)
    (s : world) (disp_drv : lv_disp_drv_t) (area : lv_area_t) (color_p : Nat → lv_color_t)
    (is_last : Bool) (w : Nat) (win : window)
    (hdrv : disp_drv.user_data = some w) (hwin : s.app.window_ll[w]? = some win)
    (hout : area.x2 < 0 ∨ area.y2 < 0 ∨
      area.x1 > (if disp_drv.rotated = 0 then disp_drv.hor_res else disp_drv.ver_res) - 1 ∨
      area.y1 > (if disp_drv.rotated = 0 then disp_drv.ver_res else disp_drv.hor_res) - 1) :
    lv_wayland_flush cfg env fuel s disp_drv area color_p is_last =
      some (s.emit (effect.lv_disp_flush_ready disp_drv), disp_drv) := by
  unfold lv_wayland_flush
  simp only [hdrv, hwin]
  split_ifs <;> rfl

/-- C1 at its failing input. The first draw call for a 320 by 240 display, with the
rectangle (-5,1)-(-1,1) that lies entirely to the left of the display: the window is
created, the outside check is skipped, and the five source pixels are stored into the
cells 315 to 319 of the backing memory (the end of row 0). -/
theorem flush_outside_on_first_call_stores :
    area_left.x2 < 0 ∧
    ∃ r win2,
      lv_wayland_flush cfg16 env_ok 0 (world_of []) drv_new area_left (fun _ => white16) true =
        some (r, { drv_new with user_data := some 0,
                                monitor_cb := some monitor_cb_t.window_cycle }) ∧
      r.app.window_ll[0]? = some win2 ∧
      win2.data 315 = 65535 ∧ win2.data 316 = 65535 ∧ win2.data 317 = 65535 ∧
      win2.data 318 = 65535 ∧ win2.data 319 = 65535 ∧
      effect.store (input_ptr.of_window 0) 315 ∈ r.trace ∧
      effect.store (input_ptr.of_window 0) 319 ∈ r.trace := by
  refine ⟨by decide, ?_⟩
  have hcreate : create_window cfg16 env_ok 0 (world_of [])
      (if drv_new.rotated = 0 then drv_new.hor_res else drv_new.ver_res)
      (if drv_new.rotated = 0 then drv_new.ver_res else drv_new.hor_res) =
      some ((((create_window cfg16 env_ok 0 (world_of []) 320 240).map Prod.fst).getD
        (world_of [])), some 0) := rfl
  obtain ⟨win1, _, _, h3, h4, h5⟩ :=
    flush_first_call cfg16 env_ok 0 (world_of []) drv_new area_left (fun _ => white16) true
      _ 0 rfl hcreate
  have hs : depth_supported cfg16 := Or.inr (Or.inl rfl)
  have hrows : flush_rows cfg16 drv_new.hor_res drv_new.ver_res (fun _ => white16)
      area_left.x1 area_left.x2 area_left.y2 area_left.y1
      { data := win1.data, color_p := 0, written := [] } =
      flush_row cfg16 320 (fun _ => white16) 1 (-1) (-5)
        { data := win1.data, color_p := 0, written := [] } := by
    rw [flush_rows_step _ _ _ _ _ _ _ _ _ (by decide) (by decide),
      flush_rows_done _ _ _ _ _ _ _ _ _ (by decide)]
    rfl
  obtain ⟨_, hwr, hd⟩ := flush_row_spec cfg16 hs 320 (fun _ => white16) 1 (-1) 5 (-5)
    { data := win1.data, color_p := 0, written := [] } (by decide)
  rw [hrows] at h4 h5
  refine ⟨_, _, h3, h4, ?_, ?_, ?_, ?_, ?_, ?_, ?_⟩
  · show (flush_row cfg16 320 (fun _ => white16) 1 (-1) (-5) _).data 315 = 65535
    rw [hd, if_pos (by decide)]; decide
  · show (flush_row cfg16 320 (fun _ => white16) 1 (-1) (-5) _).data 316 = 65535
    rw [hd, if_pos (by decide)]; decide
  · show (flush_row cfg16 320 (fun _ => white16) 1 (-1) (-5) _).data 317 = 65535
    rw [hd, if_pos (by decide)]; decide
  · show (flush_row cfg16 320 (fun _ => white16) 1 (-1) (-5) _).data 318 = 65535
    rw [hd, if_pos (by decide)]; decide
  · show (flush_row cfg16 320 (fun _ => white16) 1 (-1) (-5) _).data 319 = 65535
    rw [hd, if_pos (by decide)]; decide
  · rw [h5, hwr]
    simp [List.range_succ]
  · rw [h5, hwr]
    simp [List.range_succ]
/-- C7. One coordinator invocation on the window at position `w`, up to the barrier
check: the window is marked cycled; if `shall_close` was set the teardown calls of
`destroy_window` are made (among them the release of surface, buffer, pool and
mapping), `closed` becomes true, `shall_close` false, `flush_pending` true and no
callback is called; otherwise `closed` and `flush_pending` keep their values and the
callback captured in `ext_monitor_cb`, if any, is called exactly once with the
arguments of this invocation. The callback is captured by the draw call that creates
the window, which stores the previous `monitor_cb` of the display driver in the window
and installs `window_cycle` in its place. -/
theorem coordinator_close_or_callback (cfg : config) (s : world) (disp_drv : lv_disp_drv_t)
    (w : Nat) (time px : Nat) (win : window) (hw : s.app.window_ll[w]? = some win) :
    (∃ win2 added,
      (window_cycle_close cfg s disp_drv w time px).app.window_ll[w]? = some win2 ∧
      (window_cycle_close cfg s disp_drv w time px).trace = s.trace ++ added ∧
      win2.cycled = true ∧
      (win.shall_close = true →
        added = destroy_window_calls cfg w win ∧
        effect.release (input_ptr.of_window w) resource.surface ∈ added ∧
        effect.release (input_ptr.of_window w) resource.buffer ∈ added ∧
        effect.release (input_ptr.of_window w) resource.shm_pool ∈ added ∧
        effect.release (input_ptr.of_window w) resource.mapping ∈ added ∧
        win2.closed = true ∧ win2.shall_close = false ∧ win2.flush_pending = true ∧
        ∀ cb d t p, effect.monitor_cb cb d t p ∉ added) ∧
      (win.shall_close = false →
        win2.closed = win.closed ∧ win2.flush_pending = win.flush_pending ∧
        (∀ cb, win.ext_monitor_cb = some cb →
          added = [effect.monitor_cb cb disp_drv time px]) ∧
        (win.ext_monitor_cb = none → added = []))) ∧
    (∀ (env : create_env) (fuel : Nat) (s0 s1 : world) (drv0 : lv_disp_drv_t)
        (area : lv_area_t) (color_p : Nat → lv_color_t) (is_last : Bool) (v : Nat),
      drv0.user_data = none →
      create_window cfg env fuel s0
        (if drv0.rotated = 0 then drv0.hor_res else drv0.ver_res)
        (if drv0.rotated = 0 then drv0.ver_res else drv0.hor_res) = some (s1, some v) →
      ∃ r created,
        lv_wayland_flush cfg env fuel s0 drv0 area color_p is_last =
          some (r, { drv0 with user_data := some v,
                               monitor_cb := some monitor_cb_t.window_cycle }) ∧
        r.app.window_ll[v]? = some created ∧
        created.ext_monitor_cb = drv0.monitor_cb) := by
  obtain ⟨_, htrace, _⟩ := window_cycle_close_spec cfg s disp_drv w time px win hw
  refine ⟨⟨_, _, window_cycle_close_window cfg s disp_drv w time px win hw, htrace, ?_, ?_, ?_⟩,
    ?_⟩
  rotate_left 3
  · intro env fuel s0 s1 drv0 area color_p is_last v hdrv hcreate
    obtain ⟨win1, _, _, h3, h4, _⟩ :=
      flush_first_call cfg env fuel s0 drv0 area color_p is_last s1 v hdrv hcreate
    exact ⟨_, _, h3, h4, rfl⟩
  · cases win.shall_close <;> rfl
  · intro hc
    simp only [hc, if_true]
    obtain ⟨m1, m2, m3, m4⟩ := destroy_window_calls_mem cfg w win
    refine ⟨trivial, m1, m2, m3, m4, trivial, trivial, trivial, ?_⟩
    intro cb d t p hmem
    have := destroy_window_calls_release cfg w win _ hmem
    simp [effect.releases_of] at this
  · intro hc
    simp only [hc, Bool.false_eq_true, if_false]
    refine ⟨trivial, trivial, ?_, ?_⟩
    · intro cb hcb
      simp [hcb]
    · intro hcb
      simp [hcb]

theorem coordinator_close_or_callback_witness :
    (world_of [{ window320 0 with ext_monitor_cb := some (monitor_cb_t.external 7) }]).app.window_ll[0]? =
      some { window320 0 with ext_monitor_cb := some (monitor_cb_t.external 7) } ∧
    (window_cycle_close cfg16
      (world_of [{ window320 0 with ext_monitor_cb := some (monitor_cb_t.external 7) }])
      (drv320 0) 0 33 76800).trace =
      [effect.monitor_cb (monitor_cb_t.external 7) (drv320 0) 33 76800] := by
  refine ⟨rfl, ?_⟩
  obtain ⟨⟨win2, added, _, h2, _, _, h5⟩, _⟩ := coordinator_close_or_callback cfg16
    (world_of [{ window320 0 with ext_monitor_cb := some (monitor_cb_t.external 7) }])
    (drv320 0) 0 33 76800
    { window320 0 with ext_monitor_cb := some (monitor_cb_t.external 7) } rfl
  rw [h2, (h5 rfl).2.2.1 _ rfl]
  rfl

/-! ## The calls made by the listeners -/

theorem pointer_handle_enter_trace (cfg : config) (s : world) (surface : Option input_ptr)
    (sx sy : Int) :
    trace_adds (fun e => effect.from_listener e = true) s
      (pointer_handle_enter cfg s surface sx sy) := by
  unfold pointer_handle_enter
  repeat' (first | split | dsimp only)
  all_goals simp [trace_adds, world.emit, effect.from_listener]

theorem pointer_handle_button_trace (cfg : config) (s : world) (button state : Nat) :
    trace_adds (fun e => effect.from_listener e = true) s
      (pointer_handle_button cfg s button state) := by
  unfold pointer_handle_button
  repeat' (first | split | dsimp only)
  all_goals simp [trace_adds, world.emit, effect.from_listener]

theorem keyboard_handle_keymap_trace (s : world) (format : Nat) (map_str : Option String)
    (compiles state_created : Bool) :
    trace_adds (fun e => effect.from_listener e = true) s
      (keyboard_handle_keymap s format map_str compiles state_created) := by
  unfold keyboard_handle_keymap
  repeat' (first | split | dsimp only)
  all_goals simp [trace_adds, world.emit, effect.from_listener]

theorem seat_handle_capabilities_trace (s : world) (caps : Nat) (cursor_ok : Bool) :
    trace_adds (fun e => effect.from_listener e = true) s
      (seat_handle_capabilities s caps cursor_ok) := by
  unfold seat_handle_capabilities
  repeat' (first | split | dsimp only)
  all_goals simp [trace_adds, world.emit, effect.from_listener]

theorem trace_adds_same (P : effect → Prop) (s r : world) (h : r.trace = s.trace) :
    trace_adds P s r :=
  ⟨[], by simp [h], by simp⟩

theorem pointer_handle_leave_trace (s : world) (surface : Option input_ptr) :
    (pointer_handle_leave s surface).trace = s.trace := by
  unfold pointer_handle_leave
  split <;> rfl

theorem pointer_handle_motion_trace (cfg : config) (s : world) (sx sy : Int) :
    (pointer_handle_motion cfg s sx sy).trace = s.trace := by
  unfold pointer_handle_motion
  repeat' (first | split | dsimp only)

theorem pointer_handle_axis_trace (s : world) (axis : Nat) (value : Int) :
    (pointer_handle_axis s axis value).trace = s.trace := by
  unfold pointer_handle_axis
  repeat' (first | split | dsimp only)

theorem keyboard_handle_leave_trace (s : world) (surface : Option input_ptr) :
    (keyboard_handle_leave s surface).trace = s.trace := by
  unfold keyboard_handle_leave
  split <;> rfl

theorem keyboard_handle_key_trace (cfg : config) (s : world) (key state : Nat) :
    (keyboard_handle_key cfg s key state).trace = s.trace := by
  unfold keyboard_handle_key
  repeat' (first | split | dsimp only)

theorem keyboard_handle_modifiers_trace (s : world) (a b c d : Nat) :
    (keyboard_handle_modifiers s a b c d).trace = s.trace := by
  unfold keyboard_handle_modifiers
  split <;> rfl

theorem touch_handle_down_trace (cfg : config) (s : world) (surface : Option input_ptr)
    (x_w y_w : Int) : (touch_handle_down cfg s surface x_w y_w).trace = s.trace := by
  unfold touch_handle_down
  split <;> rfl

theorem touch_handle_up_trace (s : world) : (touch_handle_up s).trace = s.trace := by
  unfold touch_handle_up
  split <;> rfl

theorem touch_handle_motion_trace (cfg : config) (s : world) (x_w y_w : Int) :
    (touch_handle_motion cfg s x_w y_w).trace = s.trace := by
  unfold touch_handle_motion
  split <;> rfl

theorem shm_format_trace (cfg : config) (s : world) (format : Nat) :
    (shm_format cfg s format).trace = s.trace := by
  unfold shm_format
  repeat' (first | split | dsimp only)

theorem handle_global_trace (cfg : config) (s : world) (interface : String) :
    (handle_global cfg s interface).trace = s.trace := by
  unfold handle_global
  repeat' (first | split | dsimp only)

/-- A listener only makes calls of the listener kind: in particular it never starts a
flush round and never ends the process. -/
theorem dispatch_trace (cfg : config) (s : world) (e : wl_event) :
    trace_adds (fun e => effect.from_listener e = true) s (dispatch cfg s e) := by
  cases e with
  | pointer_enter surface sx sy => exact pointer_handle_enter_trace cfg s surface sx sy
  | pointer_leave surface => exact trace_adds_same _ _ _ (pointer_handle_leave_trace s surface)
  | pointer_motion sx sy => exact trace_adds_same _ _ _ (pointer_handle_motion_trace cfg s sx sy)
  | pointer_button button state => exact pointer_handle_button_trace cfg s button state
  | pointer_axis axis value =>
    exact trace_adds_same _ _ _ (pointer_handle_axis_trace s axis value)
  | keyboard_keymap f m c t => exact keyboard_handle_keymap_trace s f m c t
  | keyboard_enter surface => exact trace_adds_same _ _ _ rfl
  | keyboard_leave surface =>
    exact trace_adds_same _ _ _ (keyboard_handle_leave_trace s surface)
  | keyboard_key key state =>
    exact trace_adds_same _ _ _ (keyboard_handle_key_trace cfg s key state)
  | keyboard_modifiers a b c d =>
    exact trace_adds_same _ _ _ (keyboard_handle_modifiers_trace s a b c d)
  | touch_down surface x_w y_w =>
    exact trace_adds_same _ _ _ (touch_handle_down_trace cfg s surface x_w y_w)
  | touch_up => exact trace_adds_same _ _ _ (touch_handle_up_trace s)
  | touch_motion x_w y_w =>
    exact trace_adds_same _ _ _ (touch_handle_motion_trace cfg s x_w y_w)
  | seat_capabilities caps ok => exact seat_handle_capabilities_trace s caps ok
  | xdg_toplevel_close w =>
    simp only [dispatch]
    split
    · exact trace_adds_same _ _ _ rfl
    · exact trace_adds_refl _ _
  | shm_format format => exact trace_adds_same _ _ _ (shm_format_trace cfg s format)
  | global interface => exact trace_adds_same _ _ _ (handle_global_trace cfg s interface)
  | other => exact trace_adds_refl _ _

/-- The events of one `wl_display_dispatch_pending` leave the `cycled` and `closed`
flags alone, keep the process running, and add no flush round to the trace. -/
theorem dispatch_list_keeps (cfg : config) (events : List wl_event) (s : world) :
    cycle_flags (events.foldl (dispatch cfg) s).app = cycle_flags s.app ∧
    (events.foldl (dispatch cfg) s).exited = s.exited ∧
    trace_adds (fun e => effect.from_listener e = true) s (events.foldl (dispatch cfg) s) := by
  induction events generalizing s with
  | nil => exact ⟨rfl, rfl, trace_adds_refl _ _⟩
  | cons e rest ih =>
    obtain ⟨h1, h2, h3⟩ := ih (dispatch cfg s e)
    obtain ⟨g1, g2⟩ := dispatch_flags cfg s e
    exact ⟨h1.trans g1, h2.trans g2, trace_adds_trans _ _ _ _ (dispatch_trace cfg s e) h3⟩

/-! ## The flush round -/

theorem rounds_of_adds (P : effect → Prop) (s r : world) (h : trace_adds P s r)
    (hp : ∀ e, P e → e ≠ effect.wl_display_read_events) :
    rounds r.trace = rounds s.trace := by
  obtain ⟨added, e1, e2⟩ := h
  have h0 : List.count effect.wl_display_read_events added = 0 :=
    List.count_eq_zero_of_not_mem (fun hmem => hp _ (e2 _ hmem) rfl)
  unfold rounds
  rw [e1, List.count_append, h0, Nat.add_zero]

theorem rounds_of_listener (s r : world)
    (h : trace_adds (fun e => effect.from_listener e = true) s r) :
    rounds r.trace = rounds s.trace := by
  apply rounds_of_adds _ s r h
  intro e he hne
  subst hne
  simp [effect.from_listener] at he

theorem rounds_emit (s : world) (e : effect) (h : e ≠ effect.wl_display_read_events) :
    rounds (s.emit e).trace = rounds s.trace := by
  have h0 : List.count effect.wl_display_read_events [e] = 0 :=
    List.count_eq_zero_of_not_mem (by simpa using fun h' => h h'.symm)
  unfold rounds world.emit
  rw [List.count_append, h0, Nat.add_zero]

theorem rounds_append (a b : List effect) : rounds (a ++ b) = rounds a + rounds b := by
  unfold rounds
  exact List.count_append _ _ _

theorem wl_display_dispatch_pending_keeps (cfg : config) (events : List wl_event) (s : world) :
    cycle_flags (wl_display_dispatch_pending cfg s events).app = cycle_flags s.app ∧
    (wl_display_dispatch_pending cfg s events).exited = s.exited ∧
    rounds (wl_display_dispatch_pending cfg s events).trace = rounds s.trace := by
  unfold wl_display_dispatch_pending
  obtain ⟨h1, h2, h3⟩ := dispatch_list_keeps cfg events
    (s.emit effect.wl_display_dispatch_pending)
  refine ⟨h1, h2, ?_⟩
  rw [rounds_of_listener _ _ h3]
  exact rounds_emit s _ (by simp)

theorem prepare_read_loop_keeps (cfg : config) (queued : List (List wl_event)) (s : world) :
    cycle_flags (prepare_read_loop cfg s queued).app = cycle_flags s.app ∧
    (prepare_read_loop cfg s queued).exited = s.exited ∧
    rounds (prepare_read_loop cfg s queued).trace = rounds s.trace := by
  induction queued generalizing s with
  | nil =>
    refine ⟨rfl, rfl, ?_⟩
    exact rounds_emit s _ (by simp)
  | cons batch rest ih =>
    obtain ⟨h1, h2, h3⟩ := ih (wl_display_dispatch_pending cfg
      (s.emit (effect.wl_display_prepare_read false)) batch)
    obtain ⟨g1, g2, g3⟩ := wl_display_dispatch_pending_keeps cfg batch
      (s.emit (effect.wl_display_prepare_read false))
    refine ⟨h1.trans g1, h2.trans g2, ?_⟩
    show rounds (prepare_read_loop cfg _ rest).trace = _
    rw [h3, g3]
    exact rounds_emit s _ (by simp)

/-- One flush round: every window ends with `cycled` false and its `closed` flag as it
was, `wl_display_read_events` is called exactly once, and the process ends exactly
when every window is closed. -/
theorem window_cycle_round_spec (cfg : config) (env : cycle_env) (s : world)
    (shall_flush : Bool) (hrun : s.exited = false) :
    cycle_flags (window_cycle_round cfg env s shall_flush).app =
      (cycle_flags s.app).map (fun p => (false, p.2)) ∧
    rounds (window_cycle_round cfg env s shall_flush).trace = rounds s.trace + 1 ∧
    ((window_cycle_round cfg env s shall_flush).exited = true ↔
      ∀ p ∈ cycle_flags s.app, p.2 = true) := by
  unfold window_cycle_round
  dsimp only
  generalize hsf : List.foldl (fun acc (a_window : window) => acc || a_window.flush_pending)
    shall_flush s.app.window_ll = sf
  generalize hs1 :
    ({ s with
       app := { s.app with
                window_ll := s.app.window_ll.map (fun a_window =>
                  { a_window with flush_pending := false, cycled := false }) } } : world) = s1
  have f1 : cycle_flags s1.app = (cycle_flags s.app).map (fun p => (false, p.2)) := by
    rw [← hs1]
    simp [cycle_flags, Function.comp]
  have x1 : s1.exited = false := by rw [← hs1]; exact hrun
  have r1 : rounds s1.trace = rounds s.trace := by rw [← hs1]
  obtain ⟨f2, x2, r2⟩ := prepare_read_loop_keeps cfg env.queued s1
  generalize hs2 : prepare_read_loop cfg s1 env.queued = s2 at f2 x2 r2 ⊢
  generalize hs3 : (if sf = true then
      ({ s2 with app := { s2.app with cursor_flush_pending := false },
                 trace := s2.trace ++ [effect.wl_display_flush] } : world)
    else s2) = s3
  have f3 : cycle_flags s3.app = cycle_flags s2.app := by
    rw [← hs3]; split <;> rfl
  have x3 : s3.exited = s2.exited := by
    rw [← hs3]; split <;> rfl
  have r3 : rounds s3.trace = rounds s2.trace := by
    rw [← hs3]
    split
    · exact rounds_emit s2 _ (by simp)
    · rfl
  obtain ⟨f4, x4, r4⟩ := wl_display_dispatch_pending_keeps cfg env.arrived
    (s3.emit effect.wl_display_read_events)
  generalize hs4 : wl_display_dispatch_pending cfg (s3.emit effect.wl_display_read_events)
    env.arrived = s4 at f4 x4 r4 ⊢
  have f5 : cycle_flags s4.app = (cycle_flags s.app).map (fun p => (false, p.2)) := by
    rw [f4]
    show cycle_flags s3.app = _
    rw [f3, f2, f1]
  have r5 : rounds s4.trace = rounds s.trace + 1 := by
    rw [r4]
    show rounds (s3.trace ++ [effect.wl_display_read_events]) = _
    rw [rounds_append, r3, r2, r1]
    rfl
  have x5 : s4.exited = false := by
    rw [x4]
    show s3.exited = false
    rw [x3, x2, x1]
  have hall : (s4.app.window_ll.all (fun a_window => a_window.closed) = true) ↔
      ∀ p ∈ cycle_flags s.app, p.2 = true := by
    have hmap : ∀ l : List window,
        l.all (fun a_window => a_window.closed) =
          (l.map (fun a_window => (a_window.cycled, a_window.closed))).all (fun p => p.2) := by
      intro l
      induction l with
      | nil => rfl
      | cons a rest ih => simp only [List.all_cons, List.map_cons, ih]
    have : s4.app.window_ll.all (fun a_window => a_window.closed) =
        (cycle_flags s4.app).all (fun p => p.2) := hmap _
    rw [this, f5]
    simp [List.all_eq_true]
  split
  · rename_i hc
    refine ⟨f5, ?_, ?_⟩
    · show rounds (s4.trace ++ [effect.exit 0]) = _
      rw [rounds_append, r5]
      rfl
    · simp only [true_iff]
      exact hall.mp hc
  · rename_i hc
    refine ⟨f5, r5, ?_⟩
    rw [x5]
    simp only [Bool.false_eq_true, false_iff]
    intro h
    exact hc (hall.mpr h)

/-! ## One coordinator invocation -/

theorem modify_window_map_set {β : Type} (l : List window) (i : Nat) (f : window → window)
    (g : window → β) (win : window) (h : l[i]? = some win) :
    (modify_window l i f).map g = (l.map g).set i (g (f win)) := by
  apply List.ext_getElem?
  intro j
  rw [List.getElem?_map, modify_window_getElem?, List.getElem?_set, List.getElem?_map]
  by_cases hj : i = j
  · subst hj
    have hlt : i < l.length := (List.getElem?_eq_some.mp h).1
    simp [h, hlt]
  · have hj' : ¬ j = i := fun e => hj e.symm
    simp [hj, hj']

theorem rounds_destroy_window_calls (cfg : config) (w : Nat) (win : window) :
    rounds (destroy_window_calls cfg w win) = 0 := by
  unfold rounds
  apply List.count_eq_zero_of_not_mem
  intro hmem
  have := destroy_window_calls_release cfg w win _ hmem
  simp [effect.releases_of] at this

/-- The close step of one invocation, seen through the `cycled` and `closed` flags. -/
theorem window_cycle_close_flags (cfg : config) (s : world) (disp_drv : lv_disp_drv_t)
    (w : Nat) (time px : Nat) (win : window) (hw : s.app.window_ll[w]? = some win) :
    cycle_flags (window_cycle_close cfg s disp_drv w time px).app =
      (cycle_flags s.app).set w (true, win.closed || win.shall_close) ∧
    rounds (window_cycle_close cfg s disp_drv w time px).trace = rounds s.trace ∧
    (window_cycle_close cfg s disp_drv w time px).exited = s.exited := by
  obtain ⟨happ, htrace, hexit⟩ := window_cycle_close_spec cfg s disp_drv w time px win hw
  refine ⟨?_, ?_, hexit⟩
  · rw [happ]
    have h1 : (s.app.modify_window w (fun x => { x with cycled := true })).window_ll[w]? =
        some { win with cycled := true } := by
      simp [modify_window_getElem?, hw]
    cases hc : win.shall_close with
    | true =>
      simp only [if_true]
      unfold cycle_flags
      rw [application_modify_window_ll, modify_window_map_set _ _ _ _ _ h1,
        application_modify_window_ll, modify_window_map_set _ _ _ _ _ hw]
      simp
    | false =>
      simp only [Bool.false_eq_true, if_false]
      unfold cycle_flags
      rw [application_modify_window_ll, modify_window_map_set _ _ _ _ _ hw]
      simp
  · rw [htrace, rounds_append]
    cases hc : win.shall_close with
    | true =>
      simp only [if_true]
      rw [rounds_destroy_window_calls]
      rfl
    | false =>
      simp only [Bool.false_eq_true, if_false]
      cases win.ext_monitor_cb <;> rfl

theorem all_cycled_iff (app : application) :
    app.window_ll.all (fun a_window => a_window.cycled) = true ↔
      ∀ p ∈ cycle_flags app, p.1 = true := by
  unfold cycle_flags
  simp [List.all_eq_true]

/-- One invocation of `window_cycle` for the window at position `w`, seen through the
flags: until every window has cycled the invocation stops after the close step;
otherwise it runs exactly one flush round, which resets `cycled` everywhere, and ends
the process exactly when every window is closed. -/
theorem window_cycle_spec (cfg : config) (env : cycle_env) (s : world)
    (disp_drv : lv_disp_drv_t) (time px : Nat) (w : Nat) (win : window)
    (hdrv : disp_drv.user_data = some w) (hw : s.app.window_ll[w]? = some win)
    (hrun : s.exited = false) :
    (¬ (∀ p ∈ (cycle_flags s.app).set w (true, win.closed || win.shall_close), p.1 = true) →
      cycle_flags (window_cycle cfg env s disp_drv time px).app =
        (cycle_flags s.app).set w (true, win.closed || win.shall_close) ∧
      rounds (window_cycle cfg env s disp_drv time px).trace = rounds s.trace ∧
      (window_cycle cfg env s disp_drv time px).exited = false) ∧
    ((∀ p ∈ (cycle_flags s.app).set w (true, win.closed || win.shall_close), p.1 = true) →
      cycle_flags (window_cycle cfg env s disp_drv time px).app =
        ((cycle_flags s.app).set w (true, win.closed || win.shall_close)).map
          (fun p => (false, p.2)) ∧
      rounds (window_cycle cfg env s disp_drv time px).trace = rounds s.trace + 1 ∧
      ((window_cycle cfg env s disp_drv time px).exited = true ↔
        ∀ p ∈ (cycle_flags s.app).set w (true, win.closed || win.shall_close), p.2 = true)) := by
  obtain ⟨hf, hr, hx⟩ := window_cycle_close_flags cfg s disp_drv w time px win hw
  unfold window_cycle
  simp only [hdrv]
  refine ⟨?_, ?_⟩
  · intro hnot
    rw [if_neg]
    · exact ⟨hf, hr, hx.trans hrun⟩
    · rw [all_cycled_iff, hf]
      exact hnot
  · intro hall
    rw [if_pos]
    · obtain ⟨h1, h2, h3⟩ := window_cycle_round_spec cfg env
        (window_cycle_close cfg s disp_drv w time px) s.app.cursor_flush_pending
        (hx.trans hrun)
      rw [hf] at h1 h3
      rw [hr] at h2
      exact ⟨h1, h2, h3⟩
    · rw [all_cycled_iff, hf]
      exact hall
/-! ## A tick of the coordinator -/

theorem run_cycles_exited (cfg : config) (L : List cycle_call) (s : world)
    (h : s.exited = true) : run_cycles cfg s L = s := by
  cases L with
  | nil => rfl
  | cons c rest => simp [run_cycles, h]

theorem run_cycles_append (cfg : config) (a b : List cycle_call) (s : world) :
    run_cycles cfg s (a ++ b) = run_cycles cfg (run_cycles cfg s a) b := by
  induction a generalizing s with
  | nil => rfl
  | cons c rest ih =>
    cases hx : s.exited with
    | true => simp [run_cycles, hx, run_cycles_exited cfg b s hx]
    | false => simp [run_cycles, hx, ih]

theorem cycle_flags_getElem? (app : application) (i : Nat) :
    (cycle_flags app)[i]? =
      (app.window_ll[i]?).map (fun a_window => (a_window.cycled, a_window.closed)) := by
  unfold cycle_flags
  rw [List.getElem?_map]

theorem cycle_flags_length (app : application) :
    (cycle_flags app).length = app.window_ll.length := by
  unfold cycle_flags
  rw [List.length_map]

/-- Invocations for windows other than `j` while `j` has not cycled: no flush round
runs, the process keeps running, `j` stays as it is and each invoked window is marked
cycled. -/
theorem run_cycles_wait (cfg : config) (L : List cycle_call) :
    ∀ (s : world) (j : Nat) (cj : Bool),
      s.exited = false →
      (cycle_flags s.app)[j]? = some (false, cj) →
      (∀ c ∈ L, ∃ w, c.disp_drv.user_data = some w ∧ w ≠ j ∧ w < s.app.window_ll.length) →
      (run_cycles cfg s L).exited = false ∧
      rounds (run_cycles cfg s L).trace = rounds s.trace ∧
      (run_cycles cfg s L).app.window_ll.length = s.app.window_ll.length ∧
      (cycle_flags (run_cycles cfg s L).app)[j]? = some (false, cj) ∧
      (∀ i : Nat, (∃ b : Bool, (cycle_flags s.app)[i]? = some (true, b)) →
        ∃ b : Bool, (cycle_flags (run_cycles cfg s L).app)[i]? = some (true, b)) ∧
      (∀ c ∈ L, ∀ w, c.disp_drv.user_data = some w →
        ∃ b : Bool, (cycle_flags (run_cycles cfg s L).app)[w]? = some (true, b)) := by
  induction L with
  | nil =>
    intro s j cj hrun hj _
    exact ⟨hrun, rfl, rfl, hj, fun i h => h, fun c hc => absurd hc (List.not_mem_nil c)⟩
  | cons c rest ih =>
    intro s j cj hrun hj hL
    obtain ⟨w, hdrv, hwj, hwlt⟩ := hL c (List.mem_cons_self _ _)
    obtain ⟨win, hw⟩ : ∃ win, s.app.window_ll[w]? = some win :=
      ⟨s.app.window_ll[w], List.getElem?_eq_getElem hwlt⟩
    have hjset : ((cycle_flags s.app).set w (true, win.closed || win.shall_close))[j]? =
        some (false, cj) := by
      rw [List.getElem?_set_ne hwj]
      exact hj
    have hnot : ¬ (∀ p ∈ (cycle_flags s.app).set w (true, win.closed || win.shall_close),
        p.1 = true) := by
      intro hall
      have := hall _ (List.getElem?_mem hjset)
      simp at this
    obtain ⟨hf, hr, hx⟩ :=
      (window_cycle_spec cfg c.env s c.disp_drv c.time c.px w win hdrv hw hrun).1 hnot
    have hlen : (window_cycle cfg c.env s c.disp_drv c.time c.px).app.window_ll.length =
        s.app.window_ll.length := by
      rw [← cycle_flags_length, hf, List.length_set, cycle_flags_length]
    have hstep : run_cycles cfg s (c :: rest) =
        run_cycles cfg (window_cycle cfg c.env s c.disp_drv c.time c.px) rest := by
      simp [run_cycles, hrun]
    obtain ⟨i1, i2, i3, i4, i5, i6⟩ := ih (window_cycle cfg c.env s c.disp_drv c.time c.px) j cj
      hx (by rw [hf]; exact hjset) (by
        intro c' hc'
        obtain ⟨w', h1, h2, h3⟩ := hL c' (List.mem_cons_of_mem _ hc')
        exact ⟨w', h1, h2, by rw [hlen]; exact h3⟩)
    rw [hstep]
    refine ⟨i1, i2.trans hr, i3.trans hlen, i4, ?_, ?_⟩
    · intro i hi
      apply i5
      rw [hf]
      obtain ⟨b, hb⟩ := hi
      by_cases hiw : w = i
      · subst hiw
        have hlt : w < (cycle_flags s.app).length := by
          rw [cycle_flags_length]; exact hwlt
        exact ⟨_, by rw [List.getElem?_set_self hlt]⟩
      · exact ⟨b, by rw [List.getElem?_set_ne hiw]; exact hb⟩
    · intro c' hc' w' hw'
      rcases List.mem_cons.mp hc' with h | h
      · subst h
        apply i5
        rw [hf]
        have e : w' = w := by
          rw [hdrv] at hw'
          exact (Option.some.inj hw').symm
        subst e
        have hlt : w' < (cycle_flags s.app).length := by
          rw [cycle_flags_length]; exact hwlt
        exact ⟨_, by rw [List.getElem?_set_self hlt]⟩
      · exact i6 c' h w' hw'

/-- C5. For every collection of N >= 1 windows that all start a tick with `cycled`
false, if `window_cycle` is invoked exactly once for each window, in any order, then no
flush round (prepare-read, optional flush, read, dispatch) runs during the first N - 1
invocations, exactly one runs during the last, and after it every window again has
`cycled` false. -/
theorem window_cycle_barrier (cfg : config) (s : world) (calls : List cycle_call)
    (hN : 1 ≤ s.app.window_ll.length)
    (h0 : ∀ x ∈ s.app.window_ll, x.cycled = false)
    (hrun : s.exited = false)
    (hperm : (calls.map (fun c => c.disp_drv.user_data)).Perm
      ((List.range s.app.window_ll.length).map some)) :
    ∃ init last, calls = init ++ [last] ∧
      (run_cycles cfg s init).exited = false ∧
      rounds (run_cycles cfg s init).trace = rounds s.trace ∧
      rounds (run_cycles cfg s calls).trace = rounds s.trace + 1 ∧
      (run_cycles cfg s calls).app.window_ll.length = s.app.window_ll.length ∧
      ∀ x ∈ (run_cycles cfg s calls).app.window_ll, x.cycled = false := by
  have hlen : calls.length = s.app.window_ll.length := by
    have := hperm.length_eq
    simpa using this
  rcases List.eq_nil_or_concat calls with h | ⟨init, last, h⟩
  · subst h
    simp at hlen
    omega
  rw [List.concat_eq_append] at h
  subst h
  have hmem : ∀ o : Option Nat,
      (o ∈ init.map (fun c => c.disp_drv.user_data) ∨ o = last.disp_drv.user_data) ↔
        ∃ i, i < s.app.window_ll.length ∧ o = some i := by
    intro o
    have := (List.Perm.mem_iff hperm : o ∈ _ ↔ o ∈ _)
    simp only [List.map_append, List.map_cons, List.map_nil, List.mem_append,
      List.mem_singleton, List.mem_map, List.mem_range] at this
    rw [show (o ∈ init.map (fun c => c.disp_drv.user_data)) ↔
      (∃ a, a ∈ init ∧ a.disp_drv.user_data = o) from List.mem_map]
    rw [this]
    constructor
    · rintro ⟨i, hi, rfl⟩
      exact ⟨i, hi, rfl⟩
    · rintro ⟨i, hi, rfl⟩
      exact ⟨i, hi, rfl⟩
  have hnodup : (init.map (fun c => c.disp_drv.user_data) ++ [last.disp_drv.user_data]).Nodup := by
    have h1 : ((List.range s.app.window_ll.length).map some).Nodup :=
      List.Nodup.map (fun a b hab => Option.some.inj hab) (List.nodup_range _)
    have h2 := hperm.nodup_iff.mpr h1
    simpa using h2
  obtain ⟨wl, hwl, hlast⟩ := (hmem last.disp_drv.user_data).mp (Or.inr rfl)
  have hnotin : last.disp_drv.user_data ∉ init.map (fun c => c.disp_drv.user_data) := by
    intro hin
    have := (List.nodup_append.mp hnodup).2.2
    exact this hin (List.mem_singleton_self _) 
  obtain ⟨win, hw⟩ : ∃ win, s.app.window_ll[wl]? = some win :=
    ⟨s.app.window_ll[wl], List.getElem?_eq_getElem hwl⟩
  have hwin0 : win.cycled = false := h0 win (List.getElem?_mem hw)
  have hj : (cycle_flags s.app)[wl]? = some (false, win.closed) := by
    rw [cycle_flags_getElem?, hw]
    simp [hwin0]
  have hinit : ∀ c ∈ init, ∃ w, c.disp_drv.user_data = some w ∧ w ≠ wl ∧
      w < s.app.window_ll.length := by
    intro c hc
    have hcin : c.disp_drv.user_data ∈ init.map (fun c => c.disp_drv.user_data) :=
      List.mem_map.mpr ⟨c, hc, rfl⟩
    obtain ⟨i, hi, hci⟩ := (hmem _).mp (Or.inl hcin)
    refine ⟨i, hci, ?_, hi⟩
    intro e
    subst e
    apply hnotin
    rw [hlast, ← hci]
    exact hcin
  obtain ⟨t1, t2, t3, t4, _, t6⟩ := run_cycles_wait cfg init s wl win.closed hrun hj hinit
  obtain ⟨wint, hwt⟩ : ∃ wint, (run_cycles cfg s init).app.window_ll[wl]? = some wint := by
    rw [cycle_flags_getElem?] at t4
    cases hq : (run_cycles cfg s init).app.window_ll[wl]? with
    | none => simp [hq] at t4
    | some x => exact ⟨x, rfl⟩
  have hall : ∀ p ∈ (cycle_flags (run_cycles cfg s init).app).set wl
      (true, wint.closed || wint.shall_close), p.1 = true := by
    intro p hp
    obtain ⟨i, hi⟩ := List.mem_iff_getElem?.mp hp
    by_cases hiw : wl = i
    · subst hiw
      have hlt : wl < (cycle_flags (run_cycles cfg s init).app).length := by
        rw [cycle_flags_length, t3]; exact hwl
      rw [List.getElem?_set_self hlt] at hi
      rw [← Option.some.inj hi]
    · rw [List.getElem?_set_ne hiw] at hi
      have hilt : i < s.app.window_ll.length := by
        have := (List.getElem?_eq_some.mp hi).1
        rw [cycle_flags_length, t3] at this
        exact this
      have hin := (hmem (some i)).mpr ⟨i, hilt, rfl⟩
      rcases hin with hin | hin
      · obtain ⟨c, hc, hci⟩ := List.mem_map.mp hin
        obtain ⟨b, hb⟩ := t6 c hc i hci
        rw [hb] at hi
        rw [← Option.some.inj hi]
      · exfalso
        rw [hlast] at hin
        exact hiw (Option.some.inj hin).symm
  obtain ⟨f1, f2, _⟩ := (window_cycle_spec cfg last.env (run_cycles cfg s init) last.disp_drv
    last.time last.px wl wint hlast hwt t1).2 hall
  have hfinal : run_cycles cfg s (init ++ [last]) =
      window_cycle cfg last.env (run_cycles cfg s init) last.disp_drv last.time last.px := by
    rw [run_cycles_append]
    simp [run_cycles, t1]
  refine ⟨init, last, rfl, t1, t2, ?_, ?_, ?_⟩
  · rw [hfinal, f2, t2]
  · rw [hfinal, ← cycle_flags_length, f1, List.length_map, List.length_set, cycle_flags_length,
      t3]
  · intro x hx
    rw [hfinal] at hx
    have hxin : (x.cycled, x.closed) ∈ cycle_flags (window_cycle cfg last.env
        (run_cycles cfg s init) last.disp_drv last.time last.px).app :=
      List.mem_map.mpr ⟨x, hx, rfl⟩
    rw [f1] at hxin
    obtain ⟨p, _, hp⟩ := List.mem_map.mp hxin
    exact (Prod.mk.inj hp).1.symm

theorem window_cycle_wait_eq (cfg : config) (env : cycle_env) (s : world)
    (disp_drv : lv_disp_drv_t) (time px : Nat) (w : Nat) (win : window)
    (hdrv : disp_drv.user_data = some w) (hw : s.app.window_ll[w]? = some win)
    (hnot : ¬ (∀ p ∈ (cycle_flags s.app).set w (true, win.closed || win.shall_close),
      p.1 = true)) :
    window_cycle cfg env s disp_drv time px = window_cycle_close cfg s disp_drv w time px := by
  obtain ⟨hf, _, _⟩ := window_cycle_close_flags cfg s disp_drv w time px win hw
  unfold window_cycle
  simp only [hdrv]
  rw [if_neg]
  rw [all_cycled_iff, hf]
  exact hnot

theorem window_cycle_close_other (cfg : config) (s : world) (disp_drv : lv_disp_drv_t)
    (w : Nat) (time px : Nat) (win : window) (hw : s.app.window_ll[w]? = some win)
    (j : Nat) (hj : j ≠ w) :
    (window_cycle_close cfg s disp_drv w time px).app.window_ll[j]? = s.app.window_ll[j]? := by
  rw [(window_cycle_close_spec cfg s disp_drv w time px win hw).1]
  split <;> simp [modify_window_getElem?, hj]

theorem window_ll_of_flags (app : application) (a b : Bool × Bool)
    (h : cycle_flags app = [a, b]) :
    ∃ x y, app.window_ll = [x, y] ∧ (x.cycled, x.closed) = a ∧ (y.cycled, y.closed) = b := by
  unfold cycle_flags at h
  match hl : app.window_ll with
  | [] => rw [hl] at h; simp at h
  | [_] => rw [hl] at h; simp at h
  | [x, y] =>
    rw [hl] at h
    simp only [List.map_cons, List.map_nil, List.cons.injEq, and_true] at h
    exact ⟨x, y, rfl, h.1, h.2⟩
  | _ :: _ :: _ :: _ => rw [hl] at h; simp at h

/-- The two-window scenario of C6, first invocation for A (position 0), second for B. -/
theorem two_windows_close_a_then_b (cfg : config) (s : world) (A B : window)
    (cA cB : cycle_call) (hll : s.app.window_ll = [A, B]) (hrun : s.exited = false)
    (hA : A.cycled = false ∧ A.shall_close = true)
    (hB : B.cycled = false ∧ B.shall_close = false ∧ B.closed = false)
    (hcA : cA.disp_drv.user_data = some 0) (hcB : cB.disp_drv.user_data = some 1) :
    (run_cycles cfg s [cA, cB]).exited = false ∧
    ∃ A2 B2, (run_cycles cfg s [cA, cB]).app.window_ll = [A2, B2] ∧
      A2.closed = true ∧ B2.closed = false := by
  have hw0 : s.app.window_ll[0]? = some A := by rw [hll]; rfl
  have hw1 : s.app.window_ll[1]? = some B := by rw [hll]; rfl
  have hflags : cycle_flags s.app = [(false, A.closed), (false, false)] := by
    unfold cycle_flags
    rw [hll]
    simp [hA.1, hB.1, hB.2.2]
  have hnot : ¬ (∀ p ∈ (cycle_flags s.app).set 0 (true, A.closed || A.shall_close),
      p.1 = true) := by
    rw [hflags]
    simp
  obtain ⟨f1, _, x1⟩ :=
    (window_cycle_spec cfg cA.env s cA.disp_drv cA.time cA.px 0 A hcA hw0 hrun).1 hnot
  have e1 := window_cycle_wait_eq cfg cA.env s cA.disp_drv cA.time cA.px 0 A hcA hw0 hnot
  have hw1' : (window_cycle cfg cA.env s cA.disp_drv cA.time cA.px).app.window_ll[1]? =
      some B := by
    rw [e1, window_cycle_close_other cfg s cA.disp_drv 0 cA.time cA.px A hw0 1 (by decide)]
    exact hw1
  have hall : ∀ p ∈ (cycle_flags (window_cycle cfg cA.env s cA.disp_drv cA.time cA.px).app).set
      1 (true, B.closed || B.shall_close), p.1 = true := by
    rw [f1, hflags]
    simp
  obtain ⟨f2, _, x2⟩ := (window_cycle_spec cfg cB.env _ cB.disp_drv cB.time cB.px 1 B hcB
    hw1' x1).2 hall
  have hrunc : run_cycles cfg s [cA, cB] = window_cycle cfg cB.env
      (window_cycle cfg cA.env s cA.disp_drv cA.time cA.px) cB.disp_drv cB.time cB.px := by
    simp [run_cycles, hrun, x1]
  rw [hrunc]
  rw [f1, hflags] at f2 x2
  simp only [hA.2, hB.2.1, hB.2.2, Bool.or_true, Bool.or_false, List.set_cons_zero,
    List.set_cons_succ, List.map_cons, List.map_nil] at f2 x2
  refine ⟨?_, ?_⟩
  · cases hx : (window_cycle cfg cB.env (window_cycle cfg cA.env s cA.disp_drv cA.time cA.px)
      cB.disp_drv cB.time cB.px).exited with
    | false => rfl
    | true =>
      have := x2.mp hx (true, false) (by simp)
      simp at this
  · obtain ⟨x, y, h1, h2, h3⟩ := window_ll_of_flags _ _ _ f2
    exact ⟨x, y, h1, (Prod.mk.inj h2).2, (Prod.mk.inj h3).2⟩

/-- The two-window scenario of C6, first invocation for B (position 1), second for A. -/
theorem two_windows_close_b_then_a (cfg : config) (s : world) (A B : window)
    (cA cB : cycle_call) (hll : s.app.window_ll = [A, B]) (hrun : s.exited = false)
    (hA : A.cycled = false ∧ A.shall_close = true)
    (hB : B.cycled = false ∧ B.shall_close = false ∧ B.closed = false)
    (hcA : cA.disp_drv.user_data = some 0) (hcB : cB.disp_drv.user_data = some 1) :
    (run_cycles cfg s [cB, cA]).exited = false ∧
    ∃ A2 B2, (run_cycles cfg s [cB, cA]).app.window_ll = [A2, B2] ∧
      A2.closed = true ∧ B2.closed = false := by
  have hw0 : s.app.window_ll[0]? = some A := by rw [hll]; rfl
  have hw1 : s.app.window_ll[1]? = some B := by rw [hll]; rfl
  have hflags : cycle_flags s.app = [(false, A.closed), (false, false)] := by
    unfold cycle_flags
    rw [hll]
    simp [hA.1, hB.1, hB.2.2]
  have hnot : ¬ (∀ p ∈ (cycle_flags s.app).set 1 (true, B.closed || B.shall_close),
      p.1 = true) := by
    rw [hflags]
    simp
  obtain ⟨f1, _, x1⟩ :=
    (window_cycle_spec cfg cB.env s cB.disp_drv cB.time cB.px 1 B hcB hw1 hrun).1 hnot
  have e1 := window_cycle_wait_eq cfg cB.env s cB.disp_drv cB.time cB.px 1 B hcB hw1 hnot
  have hw0' : (window_cycle cfg cB.env s cB.disp_drv cB.time cB.px).app.window_ll[0]? =
      some A := by
    rw [e1, window_cycle_close_other cfg s cB.disp_drv 1 cB.time cB.px B hw1 0 (by decide)]
    exact hw0
  have hall : ∀ p ∈ (cycle_flags (window_cycle cfg cB.env s cB.disp_drv cB.time cB.px).app).set
      0 (true, A.closed || A.shall_close), p.1 = true := by
    rw [f1, hflags]
    simp
  obtain ⟨f2, _, x2⟩ := (window_cycle_spec cfg cA.env _ cA.disp_drv cA.time cA.px 0 A hcA
    hw0' x1).2 hall
  have hrunc : run_cycles cfg s [cB, cA] = window_cycle cfg cA.env
      (window_cycle cfg cB.env s cB.disp_drv cB.time cB.px) cA.disp_drv cA.time cA.px := by
    simp [run_cycles, hrun, x1]
  rw [hrunc]
  rw [f1, hflags] at f2 x2
  simp only [hA.2, hB.2.1, hB.2.2, Bool.or_true, Bool.or_false, List.set_cons_zero,
    List.set_cons_succ, List.map_cons, List.map_nil] at f2 x2
  refine ⟨?_, ?_⟩
  · cases hx : (window_cycle cfg cA.env (window_cycle cfg cB.env s cB.disp_drv cB.time cB.px)
      cA.disp_drv cA.time cA.px).exited with
    | false => rfl
    | true =>
      have := x2.mp hx (true, false) (by simp)
      simp at this
  · obtain ⟨x, y, h1, h2, h3⟩ := window_ll_of_flags _ _ _ f2
    exact ⟨x, y, h1, (Prod.mk.inj h2).2, (Prod.mk.inj h3).2⟩
/-- C6. An invocation of `window_cycle` ends the process if and only if it ran the
flush round and every window of the collection is closed afterwards; so the process
never ends while some window has `closed` false. With two windows A and B of which only
A has `shall_close` set, after both have been cycled in one tick, in either order, A is
closed, B is not, and the process has not ended. -/
theorem window_cycle_exits_only_when_all_closed (cfg : config) :
    (∀ (env : cycle_env) (s : world) (disp_drv : lv_disp_drv_t) (time px w : Nat)
        (win : window),
      disp_drv.user_data = some w → s.app.window_ll[w]? = some win → s.exited = false →
      ((window_cycle cfg env s disp_drv time px).exited = true ↔
        rounds (window_cycle cfg env s disp_drv time px).trace = rounds s.trace + 1 ∧
        ∀ x ∈ (window_cycle cfg env s disp_drv time px).app.window_ll, x.closed = true) ∧
      ((∃ x ∈ (window_cycle cfg env s disp_drv time px).app.window_ll, x.closed = false) →
        (window_cycle cfg env s disp_drv time px).exited = false)) ∧
    (∀ (s : world) (A B : window) (cA cB : cycle_call),
      s.app.window_ll = [A, B] → s.exited = false →
      A.cycled = false ∧ A.shall_close = true →
      B.cycled = false ∧ B.shall_close = false ∧ B.closed = false →
      cA.disp_drv.user_data = some 0 → cB.disp_drv.user_data = some 1 →
      ((run_cycles cfg s [cA, cB]).exited = false ∧
        ∃ A2 B2, (run_cycles cfg s [cA, cB]).app.window_ll = [A2, B2] ∧
          A2.closed = true ∧ B2.closed = false) ∧
      ((run_cycles cfg s [cB, cA]).exited = false ∧
        ∃ A2 B2, (run_cycles cfg s [cB, cA]).app.window_ll = [A2, B2] ∧
          A2.closed = true ∧ B2.closed = false)) := by
  refine ⟨?_, ?_⟩
  · intro env s disp_drv time px w win hdrv hw hrun
    obtain ⟨hwait, hfire⟩ := window_cycle_spec cfg env s disp_drv time px w win hdrv hw hrun
    have key : (window_cycle cfg env s disp_drv time px).exited = true ↔
        rounds (window_cycle cfg env s disp_drv time px).trace = rounds s.trace + 1 ∧
        ∀ x ∈ (window_cycle cfg env s disp_drv time px).app.window_ll, x.closed = true := by
      by_cases hall : ∀ p ∈ (cycle_flags s.app).set w (true, win.closed || win.shall_close),
          p.1 = true
      · obtain ⟨f, r, x⟩ := hfire hall
        rw [x]
        constructor
        · intro hclosed
          refine ⟨r, ?_⟩
          intro y hy
          have hyin : (y.cycled, y.closed) ∈
              cycle_flags (window_cycle cfg env s disp_drv time px).app :=
            List.mem_map.mpr ⟨y, hy, rfl⟩
          rw [f] at hyin
          obtain ⟨p, hp, hpe⟩ := List.mem_map.mp hyin
          rw [← (Prod.mk.inj hpe).2]
          exact hclosed p hp
        · rintro ⟨_, hclosed⟩ p hp
          have hpin : (false, p.2) ∈
              cycle_flags (window_cycle cfg env s disp_drv time px).app := by
            rw [f]
            exact List.mem_map.mpr ⟨p, hp, rfl⟩
          obtain ⟨y, hy, hye⟩ := List.mem_map.mp hpin
          rw [← (Prod.mk.inj hye).2]
          exact hclosed y hy
      · obtain ⟨_, r, x⟩ := hwait hall
        rw [x, r]
        constructor
        · intro h
          exact absurd h (by simp)
        · rintro ⟨h, _⟩
          omega
    refine ⟨key, ?_⟩
    rintro ⟨x, hx, hxc⟩
    cases he : (window_cycle cfg env s disp_drv time px).exited with
    | false => rfl
    | true =>
      have := (key.mp he).2 x hx
      rw [hxc] at this
      exact absurd this (by simp)
  · intro s A B cA cB hll hrun hA hB hcA hcB
    exact ⟨two_windows_close_a_then_b cfg s A B cA cB hll hrun hA hB hcA hcB,
      two_windows_close_b_then_a cfg s A B cA cB hll hrun hA hB hcA hcB⟩

theorem window_cycle_exits_only_when_all_closed_witness :
    (world_of [window_closing 0, window320 1]).app.window_ll =
      [window_closing 0, window320 1] ∧
    (run_cycles cfg16 (world_of [window_closing 0, window320 1])
      [call320 0, call320 1]).exited = false ∧
    (∃ A2 B2, (run_cycles cfg16 (world_of [window_closing 0, window320 1])
        [call320 0, call320 1]).app.window_ll = [A2, B2] ∧
      A2.closed = true ∧ B2.closed = false) ∧
    (run_cycles cfg16 (world_of [window_closing 0, window320 1])
      [call320 1, call320 0]).exited = false :=
  ⟨rfl,
   ((window_cycle_exits_only_when_all_closed cfg16).2
      (world_of [window_closing 0, window320 1]) (window_closing 0) (window320 1)
      (call320 0) (call320 1) rfl rfl ⟨rfl, rfl⟩ ⟨rfl, rfl, rfl⟩ rfl rfl).1.1,
   ((window_cycle_exits_only_when_all_closed cfg16).2
      (world_of [window_closing 0, window320 1]) (window_closing 0) (window320 1)
      (call320 0) (call320 1) rfl rfl ⟨rfl, rfl⟩ ⟨rfl, rfl, rfl⟩ rfl rfl).1.2,
   ((window_cycle_exits_only_when_all_closed cfg16).2
      (world_of [window_closing 0, window320 1]) (window_closing 0) (window320 1)
      (call320 0) (call320 1) rfl rfl ⟨rfl, rfl⟩ ⟨rfl, rfl, rfl⟩ rfl rfl).2.1⟩

theorem window_cycle_barrier_witness :
    1 ≤ (world_of [window320 0, window320 1]).app.window_ll.length ∧
    (∀ x ∈ (world_of [window320 0, window320 1]).app.window_ll, x.cycled = false) ∧
    (world_of [window320 0, window320 1]).exited = false ∧
    ([call320 1, call320 0].map (fun c => c.disp_drv.user_data)).Perm
      ((List.range (world_of [window320 0, window320 1]).app.window_ll.length).map some) ∧
    ∃ init last, [call320 1, call320 0] = init ++ [last] ∧
      (run_cycles cfg16 (world_of [window320 0, window320 1]) init).exited = false ∧
      rounds (run_cycles cfg16 (world_of [window320 0, window320 1]) init).trace =
        rounds (world_of [window320 0, window320 1]).trace ∧
      rounds (run_cycles cfg16 (world_of [window320 0, window320 1])
        [call320 1, call320 0]).trace =
        rounds (world_of [window320 0, window320 1]).trace + 1 ∧
      (run_cycles cfg16 (world_of [window320 0, window320 1])
        [call320 1, call320 0]).app.window_ll.length =
        (world_of [window320 0, window320 1]).app.window_ll.length ∧
      ∀ x ∈ (run_cycles cfg16 (world_of [window320 0, window320 1])
        [call320 1, call320 0]).app.window_ll, x.cycled = false := by
  have h0 : ∀ x ∈ (world_of [window320 0, window320 1]).app.window_ll, x.cycled = false := by
    intro x hx
    have hx' : x ∈ [window320 0, window320 1] := hx
    simp only [List.mem_cons, List.mem_singleton, List.not_mem_nil, or_false] at hx'
    rcases hx' with h | h <;> subst h <;> rfl
  have hperm : ([call320 1, call320 0].map (fun c => c.disp_drv.user_data)).Perm
      ((List.range (world_of [window320 0, window320 1]).app.window_ll.length).map some) :=
    List.Perm.swap (some 0) (some 1) []
  exact ⟨by decide, h0, rfl, hperm,
    window_cycle_barrier cfg16 (world_of [window320 0, window320 1]) [call320 1, call320 0]
      (by decide) h0 rfl hperm⟩

/-! ## The key table -/

/-- C16. `keycode_xkb_to_lv` is the static table: a symbol of the printable range
`space` to `asciitilde` maps to itself; the keypad digit symbol `KP_0 + d` maps to the
code of the digit character, 48 + d; each named key maps to its logical key; every other
symbol, `NoSymbol` among them, maps to 0; and the result never exceeds 127. -/
theorem keycode_xkb_to_lv_is_table :
    (∀ k, XKB_KEY_space ≤ k → k ≤ XKB_KEY_asciitilde → keycode_xkb_to_lv k = k) ∧
    (∀ d, d ≤ 9 → keycode_xkb_to_lv (XKB_KEY_KP_0 + d) = 48 + d) ∧
    (∀ p ∈ named_keys, keycode_xkb_to_lv p.1 = p.2) ∧
    (∀ k, ¬ (XKB_KEY_space ≤ k ∧ k ≤ XKB_KEY_asciitilde) → ¬ (XKB_KEY_KP_0 ≤ k ∧ k ≤ XKB_KEY_KP_9) →
      k ∉ named_keys.map Prod.fst → keycode_xkb_to_lv k = 0) ∧
    keycode_xkb_to_lv XKB_KEY_NoSymbol = 0 ∧
    (∀ k, keycode_xkb_to_lv k ≤ 127) := by
  have hprint : ∀ k, XKB_KEY_space ≤ k → k ≤ XKB_KEY_asciitilde → keycode_xkb_to_lv k = k := by
    intro k h1 h2
    unfold keycode_xkb_to_lv
    rw [if_pos ⟨h1, h2⟩]
  have hpad : ∀ k, XKB_KEY_KP_0 ≤ k → k ≤ XKB_KEY_KP_9 →
      keycode_xkb_to_lv k = 48 + (k - XKB_KEY_KP_0) := by
    intro k h1 h2
    have h3 : XKB_KEY_KP_0 = 0xffb0 := rfl
    have h4 : XKB_KEY_KP_9 = 0xffb9 := rfl
    rw [h3] at h1
    rw [h4] at h2
    interval_cases k <;> decide
  have hnamed : ∀ p ∈ named_keys, keycode_xkb_to_lv p.1 = p.2 := by decide
  have hother : ∀ k, ¬ (XKB_KEY_space ≤ k ∧ k ≤ XKB_KEY_asciitilde) →
      ¬ (XKB_KEY_KP_0 ≤ k ∧ k ≤ XKB_KEY_KP_9) →
      k ∉ named_keys.map Prod.fst → keycode_xkb_to_lv k = 0 := by
    intro k h1 h2 h3
    simp only [named_keys, List.map_cons, List.map_nil, List.mem_cons, List.not_mem_nil,
      or_false, not_or] at h3
    obtain ⟨a1, a2, a3, a4, a5, a6, a7, a8, a9, a10, a11, a12, a13, a14, a15, a16, a17, a18,
      a19, a20, a21, a22, a23, a24⟩ := h3
    unfold keycode_xkb_to_lv
    rw [if_neg h1, if_neg h2, if_neg a1, if_neg (not_or.mpr ⟨a2, a3⟩), if_neg a4,
      if_neg (not_or.mpr ⟨a5, a6⟩), if_neg (not_or.mpr ⟨a7, a8⟩),
      if_neg (not_or.mpr ⟨a9, a10⟩), if_neg (not_or.mpr ⟨a11, a12⟩),
      if_neg (not_or.mpr ⟨a13, a14⟩), if_neg (not_or.mpr ⟨a15, a16⟩),
      if_neg (not_or.mpr ⟨a17, a18⟩),
      if_neg (not_or.mpr ⟨a19, not_or.mpr ⟨a20, not_or.mpr ⟨a21, a22⟩⟩⟩),
      if_neg (not_or.mpr ⟨a23, a24⟩)]
  refine ⟨hprint, ?_, hnamed, hother, by decide, ?_⟩
  · intro d hd
    rw [hpad _ (Nat.le_add_right _ _) (by
      have h4 : XKB_KEY_KP_9 = XKB_KEY_KP_0 + 9 := rfl
      omega)]
    omega
  · intro k
    by_cases h1 : XKB_KEY_space ≤ k ∧ k ≤ XKB_KEY_asciitilde
    · rw [hprint k h1.1 h1.2]
      exact le_trans h1.2 (by decide)
    · by_cases h2 : XKB_KEY_KP_0 ≤ k ∧ k ≤ XKB_KEY_KP_9
      · rw [hpad k h2.1 h2.2]
        have h4 : XKB_KEY_KP_9 = XKB_KEY_KP_0 + 9 := rfl
        omega
      · by_cases h3 : k ∈ named_keys.map Prod.fst
        · obtain ⟨p, hp, rfl⟩ := List.mem_map.mp h3
          rw [hnamed p hp]
          revert p
          decide
        · rw [hother k h1 h2 h3]
          exact Nat.zero_le _

theorem keycode_xkb_to_lv_is_table_witness :
    keycode_xkb_to_lv 0x41 = 0x41 ∧ keycode_xkb_to_lv (XKB_KEY_KP_0 + 7) = 48 + 7 ∧
    keycode_xkb_to_lv XKB_KEY_KP_Tab = LV_KEY_NEXT ∧ keycode_xkb_to_lv 0xffe1 = 0 :=
  ⟨keycode_xkb_to_lv_is_table.1 0x41 (by decide) (by decide),
   keycode_xkb_to_lv_is_table.2.1 7 (by decide),
   keycode_xkb_to_lv_is_table.2.2.1 (XKB_KEY_KP_Tab, LV_KEY_NEXT) (by decide),
   keycode_xkb_to_lv_is_table.2.2.2.1 0xffe1 (by decide) (by decide) (by decide)⟩

/-! ## Reads and writes through a `struct input *` -/

theorem input_get_input_set (app : application) (p : input_ptr) (f : input → input) :
    input_get (input_set app p f) p = (input_get app p).map f := by
  cases p with
  | of_window w =>
    simp only [input_get, input_set, application_modify_window_ll, modify_window_getElem?,
      if_true]
    cases app.window_ll[w]? <;> rfl
  | of_decoration w =>
    simp only [input_get, input_set, application_modify_window_ll, modify_window_getElem?,
      if_true]
    cases app.window_ll[w]? with
    | none => rfl
    | some x =>
      simp only [Option.map_some', Option.some_bind]
      cases x.decoration <;> rfl
  | of_button w b =>
    simp only [input_get, input_set, application_modify_window_ll, modify_window_getElem?,
      if_true]
    cases app.window_ll[w]? with
    | none => rfl
    | some x =>
      simp only [Option.map_some', Option.some_bind, if_true]
      cases x.button b <;> rfl

theorem input_set_pointer (app : application) (p : input_ptr) (f : input → input) :
    (input_set app p f).pointer = app.pointer ∧ (input_set app p f).keyboard = app.keyboard ∧
    (input_set app p f).touch = app.touch := by
  cases p <;> exact ⟨rfl, rfl, rfl⟩

theorem window_of_input_set (app : application) (p : input_ptr) (f : input → input)
    (i : input) :
    (window_of (input_set app p f) i).map (fun x => (x.width, x.height)) =
      (window_of app i).map (fun x => (x.width, x.height)) := by
  unfold window_of
  cases i.window with
  | none => rfl
  | some v =>
    simp only [Option.some_bind]
    cases p with
    | of_window w =>
      simp only [input_set, application_modify_window_ll, modify_window_getElem?]
      by_cases h : v = w
      · subst h
        simp only [if_true]
        cases app.window_ll[v]? <;> rfl
      · simp only [if_neg h]
    | of_decoration w =>
      simp only [input_set, application_modify_window_ll, modify_window_getElem?]
      by_cases h : v = w
      · subst h
        simp only [if_true]
        cases app.window_ll[v]? <;> rfl
      · simp only [if_neg h]
    | of_button w b =>
      simp only [input_set, application_modify_window_ll, modify_window_getElem?]
      by_cases h : v = w
      · subst h
        simp only [if_true]
        cases app.window_ll[v]? <;> rfl
      · simp only [if_neg h]

theorem to_lv_coord_fix (cfg : config) (m v : Int) (hm : to_lv_coord cfg m = m)
    (h0 : 0 ≤ v) (h1 : v ≤ max 0 m) : to_lv_coord cfg v = v := by
  unfold to_lv_coord wrap_int32 wrap_int16 at *
  split at hm <;> rename_i hc
  · rw [if_pos hc]
    omega
  · rw [if_neg hc]
    omega

/-! ## Pointer motion, enter and button -/

theorem pointer_motion_max_eq (cfg : config) (app : application) (i : input) (win : window)
    (hwin : window_of app i = some win)
    (hkind : cfg.LV_WAYLAND_CLIENT_SIDE_DECORATIONS = true ∨
      i.parent_type = parent_type.PARENT_IS_WINDOW) :
    pointer_motion_max cfg app i = some (motion_bounds i.parent_type win) := by
  unfold pointer_motion_max motion_bounds
  cases hk : i.parent_type with
  | PARENT_IS_WINDOW => simp [hwin]
  | PARENT_IS_DECORATION =>
    rcases hkind with h | h
    · simp [hwin, h]
    · rw [hk] at h
      cases h
  | PARENT_IS_BUTTON =>
    rcases hkind with h | h
    · simp [h]
    · rw [hk] at h
      cases h

/-- C13. A pointer-motion event with no focused target changes nothing. With a focused
target whose window has a width and a height that are values of `lv_coord_t`, the
recorded position becomes x = max(0, min(sx, max_x)) and y = max(0, min(sy, max_y)), where
sx and sy are the integer parts of the event coordinates and (max_x, max_y) is
(width - 1, height - 1) for a window, (width - 1, `TITLE_BAR_HEIGHT`) for a decoration and
(`BUTTON_SIZE`, `BUTTON_SIZE`) for a button; nothing else of the input record, the focus
or the trace changes. For a window target of positive size the position lies in
[0, width - 1] x [0, height - 1] and equals the input when the input is in that range. -/
theorem pointer_motion_clamps (cfg : config) (s : world) (sx sy : Int) :
    (s.app.pointer = none → pointer_handle_motion cfg s sx sy = s) ∧
    (∀ (p : input_ptr) (i : input) (win : window),
      s.app.pointer = some p → input_get s.app p = some i → window_of s.app i = some win →
      cfg.LV_WAYLAND_CLIENT_SIDE_DECORATIONS = true ∨
        i.parent_type = parent_type.PARENT_IS_WINDOW →
      to_lv_coord cfg win.width = win.width → to_lv_coord cfg win.height = win.height →
      input_get (pointer_handle_motion cfg s sx sy).app p =
        some { i with mouse := { i.mouse with
          x := max 0 (min (wl_fixed_to_int sx) (motion_bounds i.parent_type win).1),
          y := max 0 (min (wl_fixed_to_int sy) (motion_bounds i.parent_type win).2) } } ∧
      (pointer_handle_motion cfg s sx sy).app.pointer = some p ∧
      (pointer_handle_motion cfg s sx sy).trace = s.trace ∧
      (i.parent_type = parent_type.PARENT_IS_WINDOW → 1 ≤ win.width → 1 ≤ win.height →
        ∃ j, input_get (pointer_handle_motion cfg s sx sy).app p = some j ∧
          0 ≤ j.mouse.x ∧ j.mouse.x ≤ win.width - 1 ∧
          0 ≤ j.mouse.y ∧ j.mouse.y ≤ win.height - 1 ∧
          (0 ≤ wl_fixed_to_int sx → wl_fixed_to_int sx ≤ win.width - 1 →
            j.mouse.x = wl_fixed_to_int sx) ∧
          (0 ≤ wl_fixed_to_int sy → wl_fixed_to_int sy ≤ win.height - 1 →
            j.mouse.y = wl_fixed_to_int sy))) := by
  constructor
  · intro h
    unfold pointer_handle_motion
    rw [h]
  · intro p i win hp hi hwin hkind hw hh
    have hmax := pointer_motion_max_eq cfg s.app i win hwin hkind
    have hcx : to_lv_coord cfg (max 0 (min (wl_fixed_to_int sx)
        (motion_bounds i.parent_type win).1)) =
        max 0 (min (wl_fixed_to_int sx) (motion_bounds i.parent_type win).1) := by
      cases hk : i.parent_type with
      | PARENT_IS_WINDOW =>
        refine to_lv_coord_fix cfg win.width _ hw (le_max_left _ _) ?_
        simp only [motion_bounds]
        omega
      | PARENT_IS_DECORATION =>
        refine to_lv_coord_fix cfg win.width _ hw (le_max_left _ _) ?_
        simp only [motion_bounds]
        omega
      | PARENT_IS_BUTTON =>
        refine to_lv_coord_fix cfg 16 _ ?_ (le_max_left _ _) ?_
        · unfold to_lv_coord wrap_int32 wrap_int16
          split <;> decide
        · simp only [motion_bounds, BUTTON_SIZE, TITLE_BAR_HEIGHT, BUTTON_MARGIN]
          omega
    have hcy : to_lv_coord cfg (max 0 (min (wl_fixed_to_int sy)
        (motion_bounds i.parent_type win).2)) =
        max 0 (min (wl_fixed_to_int sy) (motion_bounds i.parent_type win).2) := by
      cases hk : i.parent_type with
      | PARENT_IS_WINDOW =>
        refine to_lv_coord_fix cfg win.height _ hh (le_max_left _ _) ?_
        simp only [motion_bounds]
        omega
      | PARENT_IS_DECORATION =>
        refine to_lv_coord_fix cfg 24 _ ?_ (le_max_left _ _) ?_
        · unfold to_lv_coord wrap_int32 wrap_int16
          split <;> decide
        · simp only [motion_bounds, TITLE_BAR_HEIGHT]
          omega
      | PARENT_IS_BUTTON =>
        refine to_lv_coord_fix cfg 16 _ ?_ (le_max_left _ _) ?_
        · unfold to_lv_coord wrap_int32 wrap_int16
          split <;> decide
        · simp only [motion_bounds, BUTTON_SIZE, TITLE_BAR_HEIGHT, BUTTON_MARGIN]
          omega
    have hget : input_get (pointer_handle_motion cfg s sx sy).app p =
        some { i with mouse := { i.mouse with
          x := max 0 (min (wl_fixed_to_int sx) (motion_bounds i.parent_type win).1),
          y := max 0 (min (wl_fixed_to_int sy) (motion_bounds i.parent_type win).2) } } := by
      unfold pointer_handle_motion
      simp only [hp, hi, hmax]
      rw [input_get_input_set, input_get_input_set, hi, hcx, hcy]
      rfl
    refine ⟨hget, ?_, ?_, ?_⟩
    · unfold pointer_handle_motion
      simp only [hp, hi, hmax]
      rw [(input_set_pointer _ _ _).1, (input_set_pointer _ _ _).1]
      exact hp
    · unfold pointer_handle_motion
      simp only [hp, hi, hmax]
    · intro hk hw1 hh1
      refine ⟨_, hget, ?_⟩
      simp only [hk, motion_bounds]
      omega

theorem pointer_motion_clamps_witness :
    world_pointing.app.pointer = some (input_ptr.of_window 0) ∧
    input_get world_pointing.app (input_ptr.of_window 0) = some input_at_7_9 ∧
    window_of world_pointing.app input_at_7_9 = some window_pointing ∧
    input_get (pointer_handle_motion cfg16 world_pointing 102400 (-768)).app
        (input_ptr.of_window 0) =
      some { input_at_7_9 with mouse := { input_at_7_9.mouse with
        x := max 0 (min (wl_fixed_to_int 102400)
          (motion_bounds input_at_7_9.parent_type window_pointing).1),
        y := max 0 (min (wl_fixed_to_int (-768))
          (motion_bounds input_at_7_9.parent_type window_pointing).2) } } :=
  ⟨rfl, rfl, rfl,
   ((pointer_motion_clamps cfg16 world_pointing 102400 (-768)).2 (input_ptr.of_window 0)
      input_at_7_9 window_pointing rfl rfl rfl (Or.inr rfl) (by decide) (by decide)).1⟩

/-- C14 at its failing input. A pointer-enter event on the surface of a 320 by 240
window with the coordinates (-5.0, 300.0): the window becomes the focused pointer target,
and the recorded position is (-5, 300), the entry coordinate as it came, outside
[0, 319] x [0, 239]. `pointer_handle_enter` stores the coordinate without the clamp that
`pointer_handle_motion` applies. -/
theorem pointer_enter_records_unclamped :
    (world_of [window320 0]).app.window_ll.map (fun x => (x.width, x.height)) = [(320, 240)] ∧
    (pointer_handle_enter cfg16 (world_of [window320 0]) (some (input_ptr.of_window 0))
      (-1280) 76800).app.pointer = some (input_ptr.of_window 0) ∧
    (input_get (pointer_handle_enter cfg16 (world_of [window320 0])
      (some (input_ptr.of_window 0)) (-1280) 76800).app (input_ptr.of_window 0)).map
        (fun i => (i.mouse.x, i.mouse.y)) = some (-5, 300) ∧
    (input_get (pointer_handle_motion cfg16
      (pointer_handle_enter cfg16 (world_of [window320 0]) (some (input_ptr.of_window 0))
        (-1280) 76800) (-1280) 76800).app (input_ptr.of_window 0)).map
        (fun i => (i.mouse.x, i.mouse.y)) = some (0, 239) := by
  refine ⟨rfl, rfl, ?_, ?_⟩ <;> decide

theorem modify_window_id (l : List window) (i : Nat) (f : window → window)
    (h : ∀ x, f x = x) : modify_window l i f = l := by
  apply List.ext_getElem?
  intro j
  rw [modify_window_getElem?]
  split
  · rename_i hj
    rw [hj]
    cases l[i]? with
    | none => rfl
    | some x => simp [h x]
  · rfl

theorem input_set_id (app : application) (p : input_ptr) (f : input → input)
    (h : ∀ j, f j = j) : input_set app p f = app := by
  have key : ∀ (i : Nat) (g : window → window), (∀ x, g x = x) →
      app.modify_window i g = app := by
    intro i g hg
    unfold application.modify_window
    rw [modify_window_id _ _ _ hg]
  cases p with
  | of_window w =>
    apply key
    intro x
    simp only [h]
  | of_decoration w =>
    apply key
    intro x
    have : x.decoration.map (fun d => { d with input := f d.input }) = x.decoration := by
      cases x.decoration with
      | none => rfl
      | some d => simp only [Option.map_some', h]
    simp only [this]
  | of_button w b =>
    apply key
    intro x
    have : (fun c => if c = b then (x.button c).map (fun d => { d with input := f d.input })
        else x.button c) = x.button := by
      funext c
      split
      · cases x.button c with
        | none => rfl
        | some d => simp only [Option.map_some', h]
      · rfl
    simp only [this]

theorem pointer_button_store_low (m : mouse_t) (button : Nat) (st : lv_indev_state_t) :
    (button % 16 = 0 → pointer_button_store m button st = { m with left_button := st }) ∧
    (button % 16 = 1 → pointer_button_store m button st = { m with right_button := st }) ∧
    (button % 16 = 2 → pointer_button_store m button st = { m with wheel_button := st }) ∧
    (3 ≤ button % 16 → pointer_button_store m button st = m) := by
  unfold pointer_button_store
  refine ⟨?_, ?_, ?_, ?_⟩
  · intro h
    rw [h]
  · intro h
    rw [h]
  · intro h
    rw [h]
  · intro h
    split <;> first | rfl | omega

/-- C15. A pointer-button event while the focused target is a window (or any target in a
build without client-side decorations): the low four bits of the button code select the
field that receives pressed or released, 0 the left, 1 the right and 2 the wheel button;
the other fields of the input record, the focus and the trace stay as they were; a code
whose low four bits are 3 to 15 changes nothing at all. On a button region only a release
acts: a press changes nothing, and a release on the close button sets `shall_close` of the
window and nothing else. -/
theorem pointer_button_selects (cfg : config) (s : world) (button state : Nat) :
    (∀ (p : input_ptr) (i : input),
      s.app.pointer = some p → input_get s.app p = some i →
      cfg.LV_WAYLAND_CLIENT_SIDE_DECORATIONS = false ∨
        i.parent_type = parent_type.PARENT_IS_WINDOW →
      (button % 16 = 0 →
        input_get (pointer_handle_button cfg s button state).app p =
          some { i with mouse := { i.mouse with left_button :=
            if state = WL_POINTER_BUTTON_STATE_PRESSED then lv_indev_state_t.LV_INDEV_STATE_PR
            else lv_indev_state_t.LV_INDEV_STATE_REL } }) ∧
      (button % 16 = 1 →
        input_get (pointer_handle_button cfg s button state).app p =
          some { i with mouse := { i.mouse with right_button :=
            if state = WL_POINTER_BUTTON_STATE_PRESSED then lv_indev_state_t.LV_INDEV_STATE_PR
            else lv_indev_state_t.LV_INDEV_STATE_REL } }) ∧
      (button % 16 = 2 →
        input_get (pointer_handle_button cfg s button state).app p =
          some { i with mouse := { i.mouse with wheel_button :=
            if state = WL_POINTER_BUTTON_STATE_PRESSED then lv_indev_state_t.LV_INDEV_STATE_PR
            else lv_indev_state_t.LV_INDEV_STATE_REL } }) ∧
      (3 ≤ button % 16 → pointer_handle_button cfg s button state = s) ∧
      (pointer_handle_button cfg s button state).app.pointer = some p ∧
      (pointer_handle_button cfg s button state).trace = s.trace) ∧
    (∀ (p : input_ptr) (i : input),
      s.app.pointer = some p → input_get s.app p = some i →
      cfg.LV_WAYLAND_CLIENT_SIDE_DECORATIONS = true →
      i.parent_type = parent_type.PARENT_IS_BUTTON →
      (state ≠ WL_POINTER_BUTTON_STATE_RELEASED →
        pointer_handle_button cfg s button state = s) ∧
      (∀ (w : Nat) (win : window) (b : LvWayland.button),
        state = WL_POINTER_BUTTON_STATE_RELEASED → i.window = some w →
        s.app.window_ll[w]? = some win → button_of s.app p = some b →
        b.type = button_type.BUTTON_TYPE_CLOSE →
        (pointer_handle_button cfg s button state).app.window_ll[w]? =
          some { win with shall_close := true } ∧
        (∀ v, v ≠ w → (pointer_handle_button cfg s button state).app.window_ll[v]? =
          s.app.window_ll[v]?) ∧
        (pointer_handle_button cfg s button state).app.pointer = some p ∧
        (pointer_handle_button cfg s button state).trace = s.trace)) := by
  constructor
  · intro p i hp hi hkind
    have hd : ¬ (cfg.LV_WAYLAND_CLIENT_SIDE_DECORATIONS = true ∧
        i.parent_type = parent_type.PARENT_IS_DECORATION) := by
      rintro ⟨h1, h2⟩
      rcases hkind with h | h
      · rw [h1] at h
        cases h
      · rw [h2] at h
        cases h
    have hb : ¬ (cfg.LV_WAYLAND_CLIENT_SIDE_DECORATIONS = true ∧
        i.parent_type = parent_type.PARENT_IS_BUTTON) := by
      rintro ⟨h1, h2⟩
      rcases hkind with h | h
      · rw [h1] at h
        cases h
      · rw [h2] at h
        cases h
    have hr : ∃ st : lv_indev_state_t,
        st = (if state = WL_POINTER_BUTTON_STATE_PRESSED then
          lv_indev_state_t.LV_INDEV_STATE_PR else lv_indev_state_t.LV_INDEV_STATE_REL) ∧
        pointer_handle_button cfg s button state =
          { s with app := input_set s.app p (fun j =>
              { j with mouse := pointer_button_store j.mouse button st }) } := by
      refine ⟨_, rfl, ?_⟩
      unfold pointer_handle_button
      simp only [hp, hi, if_neg hd, if_neg hb]
    obtain ⟨st, hst, hr⟩ := hr
    rw [← hst]
    refine ⟨?_, ?_, ?_, ?_, ?_, ?_⟩
    · intro h
      rw [hr]
      simp only [input_get_input_set, hi, Option.map_some',
        (pointer_button_store_low _ _ _).1 h]
    · intro h
      rw [hr]
      simp only [input_get_input_set, hi, Option.map_some',
        (pointer_button_store_low _ _ _).2.1 h]
    · intro h
      rw [hr]
      simp only [input_get_input_set, hi, Option.map_some',
        (pointer_button_store_low _ _ _).2.2.1 h]
    · intro h
      rw [hr, input_set_id]
      intro j
      rw [(pointer_button_store_low _ _ _).2.2.2 h]
    · rw [hr]
      exact (input_set_pointer _ _ _).1.trans hp
    · rw [hr]
  · intro p i hp hi hdeco hk
    have hd : ¬ (cfg.LV_WAYLAND_CLIENT_SIDE_DECORATIONS = true ∧
        i.parent_type = parent_type.PARENT_IS_DECORATION) := by
      rintro ⟨_, h2⟩
      rw [hk] at h2
      cases h2
    have hb : cfg.LV_WAYLAND_CLIENT_SIDE_DECORATIONS = true ∧
        i.parent_type = parent_type.PARENT_IS_BUTTON := ⟨hdeco, hk⟩
    constructor
    · intro hs
      unfold pointer_handle_button
      simp only [hp, hi, if_neg hd, if_pos hb, if_neg hs]
    · intro w win b hs hiw hw hbtn hty
      have hwo : window_of s.app i = some win := by
        unfold window_of
        rw [hiw]
        exact hw
      have hr : pointer_handle_button cfg s button state =
          { s with app := s.app.modify_window w (fun x => { x with shall_close := true }) } := by
        unfold pointer_handle_button
        simp only [hp, hi, if_neg hd, if_pos hb, if_pos hs, hiw, hwo, hbtn, hty]
      rw [hr]
      refine ⟨?_, ?_, hp, rfl⟩
      · simp only [application_modify_window_ll, modify_window_getElem?, if_true, hw,
          Option.map_some']
      · intro v hv
        simp only [application_modify_window_ll, modify_window_getElem?, if_neg hv]

theorem pointer_button_selects_witness :
    (world_pointing.app.pointer = some (input_ptr.of_window 0) ∧
      input_get world_pointing.app (input_ptr.of_window 0) = some input_at_7_9 ∧
      0x110 % 16 = 0 ∧
      input_get (pointer_handle_button cfg16 world_pointing 0x110 1).app
          (input_ptr.of_window 0) =
        some { input_at_7_9 with mouse := { input_at_7_9.mouse with left_button :=
          if 1 = WL_POINTER_BUTTON_STATE_PRESSED then lv_indev_state_t.LV_INDEV_STATE_PR
          else lv_indev_state_t.LV_INDEV_STATE_REL } }) ∧
    (world_on_close_button.app.pointer =
        some (input_ptr.of_button 0 button_type.BUTTON_TYPE_CLOSE) ∧
      input_get world_on_close_button.app
        (input_ptr.of_button 0 button_type.BUTTON_TYPE_CLOSE) = some close_button_input ∧
      (pointer_handle_button cfg_deco world_on_close_button 0x110 0).app.window_ll[0]? =
        some { window_decorated with shall_close := true }) :=
  ⟨⟨rfl, rfl, rfl,
    ((pointer_button_selects cfg16 world_pointing 0x110 1).1 (input_ptr.of_window 0)
      input_at_7_9 rfl rfl (Or.inl rfl)).1 rfl⟩,
   ⟨rfl, rfl,
    (((pointer_button_selects cfg_deco world_on_close_button 0x110 0).2
      (input_ptr.of_button 0 button_type.BUTTON_TYPE_CLOSE) close_button_input rfl rfl rfl
      rfl).2 0 window_decorated close_button rfl rfl rfl rfl rfl).1⟩⟩

/-! ## Keyboard key events -/

theorem input_get_input_set_ne (app : application) (p q : input_ptr) (f : input → input)
    (h : q ≠ p) : input_get (input_set app p f) q = input_get app q := by
  have key : ∀ (w v : Nat) (g : window → window) (sel : window → Option input),
      (v = w → ∀ x, sel (g x) = sel x) →
      ((app.modify_window w g).window_ll[v]?).bind sel = (app.window_ll[v]?).bind sel := by
    intro w v g sel hsel
    rw [application_modify_window_ll, modify_window_getElem?]
    by_cases e : v = w
    · subst e
      rw [if_pos rfl]
      cases app.window_ll[v]? with
      | none => rfl
      | some x => exact hsel rfl x
    · rw [if_neg e]
  have map_bind : ∀ (o : Option window) (sel : window → input),
      o.map sel = o.bind (fun x => some (sel x)) := by
    intro o sel
    cases o <;> rfl
  cases p with
  | of_window w =>
    cases q with
    | of_window v =>
      have e : v ≠ w := fun e => h (by rw [e])
      simp only [input_get, input_set, map_bind]
      exact key w v _ _ (fun e' => absurd e' e)
    | of_decoration v =>
      simp only [input_get, input_set]
      exact key w v _ _ (fun _ _ => rfl)
    | of_button v b =>
      simp only [input_get, input_set]
      exact key w v _ _ (fun _ _ => rfl)
  | of_decoration w =>
    cases q with
    | of_window v =>
      simp only [input_get, input_set, map_bind]
      exact key w v _ _ (fun _ _ => rfl)
    | of_decoration v =>
      have e : v ≠ w := fun e => h (by rw [e])
      simp only [input_get, input_set]
      exact key w v _ _ (fun e' => absurd e' e)
    | of_button v b =>
      simp only [input_get, input_set]
      exact key w v _ _ (fun _ _ => rfl)
  | of_button w b =>
    cases q with
    | of_window v =>
      simp only [input_get, input_set, map_bind]
      exact key w v _ _ (fun _ _ => rfl)
    | of_decoration v =>
      simp only [input_get, input_set]
      exact key w v _ _ (fun _ _ => rfl)
    | of_button v c =>
      simp only [input_get, input_set]
      apply key w v
      intro e x
      have hc : c ≠ b := by
        intro e2
        apply h
        rw [e, e2]
      simp only [if_neg hc]

/-- C17. A keyboard key event with raw code `key`. Without a keyboard focus or without a
loaded keymap state the event changes nothing. Otherwise the symbols of the code
`key + 8` (in 32-bit arithmetic) are looked up: when there is not exactly one symbol, or
the symbol maps to the logical key 0, the event changes nothing; when the one symbol maps
to a non-zero logical key, the focused input record receives that key and the state
pressed or released as reported, and every other input record, the focus, the seat and
the trace stay as they were. -/
theorem keyboard_key_records_mapped (cfg : config) (s : world) (key state : Nat) :
    (s.app.keyboard = none ∨ s.app.seat.xkb_state = none →
      keyboard_handle_key cfg s key state = s) ∧
    (∀ (p : input_ptr) (st : xkb_state),
      s.app.keyboard = some p → s.app.seat.xkb_state = some st →
      ((cfg.xkb_state_key_get_syms st ((key + 8) % 2 ^ 32)).length ≠ 1 →
        keyboard_handle_key cfg s key state = s) ∧
      (∀ sym, cfg.xkb_state_key_get_syms st ((key + 8) % 2 ^ 32) = [sym] →
        (keycode_xkb_to_lv sym = 0 → keyboard_handle_key cfg s key state = s) ∧
        (keycode_xkb_to_lv sym ≠ 0 →
          (∀ i, input_get s.app p = some i →
            input_get (keyboard_handle_key cfg s key state).app p =
              some { i with keyboard :=
                { key := keycode_xkb_to_lv sym,
                  state := if state = WL_KEYBOARD_KEY_STATE_PRESSED then
                      lv_indev_state_t.LV_INDEV_STATE_PR
                    else lv_indev_state_t.LV_INDEV_STATE_REL } }) ∧
          (∀ q, q ≠ p → input_get (keyboard_handle_key cfg s key state).app q =
            input_get s.app q) ∧
          (keyboard_handle_key cfg s key state).app.keyboard = some p ∧
          (keyboard_handle_key cfg s key state).app.seat = s.app.seat ∧
          (keyboard_handle_key cfg s key state).trace = s.trace))) := by
  constructor
  · intro h
    unfold keyboard_handle_key
    rcases h with h | h
    · simp only [h]
    · simp only [h]
      cases s.app.keyboard <;> rfl
  · intro p st hp hst
    constructor
    · intro hlen
      unfold keyboard_handle_key
      simp only [hp, hst]
      have h0 : keycode_xkb_to_lv XKB_KEY_NoSymbol = 0 := by decide
      generalize cfg.xkb_state_key_get_syms st ((key + 8) % 2 ^ 32) = l at hlen
      match l, hlen with
      | [], _ => simp only [h0, ne_eq, not_true_eq_false, if_false]
      | [k], h => exact absurd rfl h
      | _ :: _ :: _, _ => simp only [h0, ne_eq, not_true_eq_false, if_false]
    · intro sym hsym
      have hr : keyboard_handle_key cfg s key state =
          if keycode_xkb_to_lv sym ≠ 0 then
            { s with app := input_set s.app p (fun i =>
                { i with keyboard :=
                  { key := keycode_xkb_to_lv sym,
                    state := if state = WL_KEYBOARD_KEY_STATE_PRESSED then
                        lv_indev_state_t.LV_INDEV_STATE_PR
                      else lv_indev_state_t.LV_INDEV_STATE_REL } }) }
          else s := by
        unfold keyboard_handle_key
        simp only [hp, hst, hsym]
      constructor
      · intro h0
        rw [hr, if_neg (not_not.mpr h0)]
      · intro h0
        rw [hr, if_pos h0]
        refine ⟨?_, ?_, ?_, ?_, rfl⟩
        · intro i hi
          simp only [input_get_input_set, hi, Option.map_some']
        · intro q hq
          exact input_get_input_set_ne _ _ _ _ hq
        · exact (input_set_pointer _ _ _).2.1.trans hp
        · exact input_set_seat _ _ _

theorem keyboard_key_records_mapped_witness :
    world_typing.app.keyboard = some (input_ptr.of_window 0) ∧
    world_typing.app.seat.xkb_state = some (xkb_state_new { source := "xkb_keymap" }) ∧
    cfg_keys.xkb_state_key_get_syms (xkb_state_new { source := "xkb_keymap" })
      ((30 + 8) % 2 ^ 32) = [0x61] ∧
    keycode_xkb_to_lv 0x61 ≠ 0 ∧
    input_get world_typing.app (input_ptr.of_window 0) = some (window320 0).input ∧
    input_get (keyboard_handle_key cfg_keys world_typing 30 1).app (input_ptr.of_window 0) =
      some { (window320 0).input with keyboard :=
        { key := keycode_xkb_to_lv 0x61,
          state := if 1 = WL_KEYBOARD_KEY_STATE_PRESSED then lv_indev_state_t.LV_INDEV_STATE_PR
            else lv_indev_state_t.LV_INDEV_STATE_REL } } :=
  ⟨rfl, rfl, rfl, by decide, rfl,
   ((((keyboard_key_records_mapped cfg_keys world_typing 30 1).2 (input_ptr.of_window 0)
      (xkb_state_new { source := "xkb_keymap" }) rfl rfl).2 0x61 rfl).2 (by decide)).1
      (window320 0).input rfl⟩

/-! ## Close requests -/

/-- C18. A close request is advisory. The close notification of the server for the
window at position `w` sets `shall_close` of that window and leaves every other field of
it, every other window, the rest of the application record and the trace as they were
(no teardown call is made); a release on the close button of the window does exactly the
same. No event delivered afterwards changes a `closed` flag, and the next invocation of
the coordinator for the window leaves it closed. -/
theorem close_request_is_advisory (cfg : config) (s : world) (w : Nat) (win : window)
    (hw : s.app.window_ll[w]? = some win) :
    ((xdg_toplevel_handle_close s w).app.window_ll[w]? = some { win with shall_close := true } ∧
      (∀ v, v ≠ w → (xdg_toplevel_handle_close s w).app.window_ll[v]? = s.app.window_ll[v]?) ∧
      (xdg_toplevel_handle_close s w).app =
        { s.app with window_ll := (xdg_toplevel_handle_close s w).app.window_ll } ∧
      (xdg_toplevel_handle_close s w).trace = s.trace ∧
      (xdg_toplevel_handle_close s w).exited = s.exited) ∧
    (∀ (p : input_ptr) (i : input) (b : LvWayland.button) (code : Nat),
      cfg.LV_WAYLAND_CLIENT_SIDE_DECORATIONS = true →
      s.app.pointer = some p → input_get s.app p = some i →
      i.parent_type = parent_type.PARENT_IS_BUTTON → i.window = some w →
      button_of s.app p = some b → b.type = button_type.BUTTON_TYPE_CLOSE →
      pointer_handle_button cfg s code WL_POINTER_BUTTON_STATE_RELEASED =
        xdg_toplevel_handle_close s w) ∧
    (∀ events : List wl_event,
      cycle_flags (events.foldl (dispatch cfg) (xdg_toplevel_handle_close s w)).app =
        cycle_flags s.app) ∧
    (∀ (env : cycle_env) (t : world) (disp_drv : lv_disp_drv_t) (time px : Nat)
        (win1 : window),
      t.app.window_ll[w]? = some win1 → win1.shall_close = true →
      disp_drv.user_data = some w → t.exited = false →
      ∃ win2, (window_cycle cfg env t disp_drv time px).app.window_ll[w]? = some win2 ∧
        win2.closed = true) := by
  refine ⟨⟨?_, ?_, rfl, rfl, rfl⟩, ?_, ?_, ?_⟩
  · simp only [xdg_toplevel_handle_close, application_modify_window_ll,
      modify_window_getElem?, if_true, hw, Option.map_some']
  · intro v hv
    simp only [xdg_toplevel_handle_close, application_modify_window_ll,
      modify_window_getElem?, if_neg hv]
  · intro p i b code hdeco hp hi hk hiw hbtn hty
    have hd : ¬ (cfg.LV_WAYLAND_CLIENT_SIDE_DECORATIONS = true ∧
        i.parent_type = parent_type.PARENT_IS_DECORATION) := by
      rintro ⟨_, h2⟩
      rw [hk] at h2
      cases h2
    have hwo : window_of s.app i = some win := by
      unfold window_of
      rw [hiw]
      exact hw
    unfold pointer_handle_button xdg_toplevel_handle_close
    simp only [hp, hi, if_neg hd, if_pos (And.intro hdeco hk), if_true, hiw, hwo, hbtn, hty]
  · intro events
    rw [(dispatch_list_keeps cfg events _).1]
    exact (xdg_toplevel_handle_close_flags s w).1
  · intro env t disp_drv time px win1 hw1 hsc hdrv hrun
    obtain ⟨hwait, hfire⟩ := window_cycle_spec cfg env t disp_drv time px w win1 hdrv hw1 hrun
    have hlt : w < (cycle_flags t.app).length := by
      rw [cycle_flags_length]
      exact (List.getElem?_eq_some.mp hw1).1
    have hflag : ∃ c : Bool,
        (cycle_flags (window_cycle cfg env t disp_drv time px).app)[w]? = some (c, true) := by
      by_cases hall : ∀ p ∈ (cycle_flags t.app).set w (true, win1.closed || win1.shall_close),
          p.1 = true
      · refine ⟨false, ?_⟩
        rw [(hfire hall).1, List.getElem?_map, List.getElem?_set_self hlt, hsc]
        simp
      · refine ⟨true, ?_⟩
        rw [(hwait hall).1, List.getElem?_set_self hlt, hsc]
        simp
    obtain ⟨c, hc⟩ := hflag
    rw [cycle_flags_getElem?] at hc
    cases hx : (window_cycle cfg env t disp_drv time px).app.window_ll[w]? with
    | none =>
      rw [hx] at hc
      cases hc
    | some win2 =>
      rw [hx] at hc
      simp only [Option.map_some', Option.some.injEq, Prod.mk.injEq] at hc
      exact ⟨win2, rfl, hc.2⟩

theorem close_request_is_advisory_witness :
    (world_of [window320 0]).app.window_ll[0]? = some (window320 0) ∧
    (xdg_toplevel_handle_close (world_of [window320 0]) 0).app.window_ll[0]? =
      some { window320 0 with shall_close := true } ∧
    ∃ win2, (window_cycle cfg16 { queued := [], arrived := [] }
        (xdg_toplevel_handle_close (world_of [window320 0]) 0) (drv320 0) 33
        76800).app.window_ll[0]? = some win2 ∧
      win2.closed = true :=
  ⟨rfl, (close_request_is_advisory cfg16 (world_of [window320 0]) 0 (window320 0) rfl).1.1,
   (close_request_is_advisory cfg16 (world_of [window320 0]) 0 (window320 0) rfl).2.2.2
     { queued := [], arrived := [] } (xdg_toplevel_handle_close (world_of [window320 0]) 0)
     (drv320 0) 33 76800 { window320 0 with shall_close := true } rfl rfl rfl rfl⟩

/-! ## Focus references and teardown -/

/-- C12 at its failing input. The one window of the collection holds the pointer, the
keyboard and the touch focus and is torn down by the close step of the coordinator: it
is closed, its surface destroyed, and the three references still name its input record;
after `lv_wayland_deinit` has emptied the collection they are still there. With two
windows and the pointer focus on the close button of window 0, the teardown of window 0
frees the block of the button (`destroy_button`), the pointer focus still names the
input record inside that block, and the next pointer-motion event stores the position
(5, 3) through it. The listeners clear a focus reference for a null surface; no
teardown path does. -/
theorem focus_survives_teardown :
    (window_cycle_close cfg16 world_closing_focused (drv320 0) 0 33
      76800).app.window_ll.map (fun x => x.closed) = [true] ∧
    effect.release (input_ptr.of_window 0) resource.surface ∈
      (window_cycle_close cfg16 world_closing_focused (drv320 0) 0 33 76800).trace ∧
    focus_refs (window_cycle_close cfg16 world_closing_focused (drv320 0) 0 33 76800).app =
      (some (input_ptr.of_window 0), some (input_ptr.of_window 0),
       some (input_ptr.of_window 0)) ∧
    (lv_wayland_deinit cfg16 world_closing_focused).app.window_ll.length = 0 ∧
    focus_refs (lv_wayland_deinit cfg16 world_closing_focused).app =
      (some (input_ptr.of_window 0), some (input_ptr.of_window 0),
       some (input_ptr.of_window 0)) ∧
    world_closed_once.app.window_ll.map (fun x => x.closed) = [true, false] ∧
    world_closed_once.exited = false ∧
    effect.release (input_ptr.of_button 0 button_type.BUTTON_TYPE_CLOSE) resource.memory ∈
      world_closed_once.trace ∧
    world_closed_once.app.pointer =
      some (input_ptr.of_button 0 button_type.BUTTON_TYPE_CLOSE) ∧
    input_get (pointer_handle_motion cfg_deco world_closed_once 1280 768).app
        (input_ptr.of_button 0 button_type.BUTTON_TYPE_CLOSE) =
      some { close_button_input with
        mouse := { close_button_input.mouse with x := 5, y := 3 } } ∧
    (pointer_handle_leave world_closed_once none).app.pointer = none := by
  refine ⟨?_, ?_, ?_, ?_, ?_, ?_, ?_, ?_, ?_, ?_, ?_⟩ <;> decide

theorem destroy_window_app (cfg : config) (s : world) (window : Option Nat) :
    (destroy_window cfg s window).app = s.app := by
  cases window with
  | none => rfl
  | some w =>
    cases hw : s.app.window_ll[w]? with
    | none =>
      unfold destroy_window
      simp only [hw]
    | some win => rw [destroy_window_eq cfg s w win hw]

theorem deinit_loop_app (cfg : config) (l : List Nat) (s : world) :
    (l.foldl (fun t w =>
      match t.app.window_ll[w]? with
      | some win => if !win.closed then destroy_window cfg t (some w) else t
      | none => t) s).app = s.app := by
  induction l generalizing s with
  | nil => rfl
  | cons w rest ih =>
    rw [List.foldl_cons, ih]
    split
    · split
      · exact destroy_window_app cfg s (some w)
      · rfl
    · rfl

theorem ite_emit_app (c : Prop) [Decidable c] (s : world) (e : effect) :
    (if c then s.emit e else s).app = s.app := by
  split <;> rfl

theorem lv_wayland_deinit_focus (cfg : config) (s : world) :
    focus_refs (lv_wayland_deinit cfg s).app = focus_refs s.app := by
  unfold lv_wayland_deinit
  lift_lets
  extract_lets s1 s2 s3 s4 s5 s6 s7 s8
  have e1 : s1.app = s.app := deinit_loop_app cfg _ s
  have e2 : s2.app = s1.app := ite_emit_app _ _ _
  have e3 : s3.app = s2.app := ite_emit_app _ _ _
  have e4 : s4.app = s3.app := ite_emit_app _ _ _
  have e5 : s5.app = s4.app := ite_emit_app _ _ _
  have e6 : s6.app = s5.app := ite_emit_app _ _ _
  have e7 : s7.app = s6.app := ite_emit_app _ _ _
  have e8 : s8.app = s7.app := rfl
  have e : s8.app = s.app := by
    rw [e8, e7, e6, e5, e4, e3, e2, e1]
  show (s8.app.pointer, s8.app.keyboard, s8.app.touch) = _
  rw [e]
  rfl

theorem window_cycle_close_focus (cfg : config) (s : world) (disp_drv : lv_disp_drv_t)
    (w : Nat) (time px : Nat) :
    focus_refs (window_cycle_close cfg s disp_drv w time px).app = focus_refs s.app := by
  cases hw : s.app.window_ll[w]? with
  | none =>
    unfold window_cycle_close
    simp only [application_modify_window_ll, modify_window_getElem?, if_true, hw,
      Option.map_none']
    rfl
  | some win =>
    rw [(window_cycle_close_spec cfg s disp_drv w time px win hw).1]
    split <;> rfl

/-- What teardown and the listeners do to the focus references. `destroy_window`, the
close step of the coordinator and `lv_wayland_deinit` leave the pointer, keyboard and
touch focus of the application exactly as they were. A leave event for the focused
surface or with a null surface, an enter or touch-down event with a null surface, and a
touch-up event clear the focus reference of their device. -/
theorem teardown_keeps_focus (cfg : config) (s : world) :
    (∀ window, focus_refs (destroy_window cfg s window).app = focus_refs s.app) ∧
    (∀ (disp_drv : lv_disp_drv_t) (w time px : Nat),
      focus_refs (window_cycle_close cfg s disp_drv w time px).app = focus_refs s.app) ∧
    focus_refs (lv_wayland_deinit cfg s).app = focus_refs s.app ∧
    (∀ surface, surface = none ∨ s.app.pointer = surface →
      (pointer_handle_leave s surface).app.pointer = none) ∧
    (∀ surface, surface = none ∨ s.app.keyboard = surface →
      (keyboard_handle_leave s surface).app.keyboard = none) ∧
    (∀ sx sy, (pointer_handle_enter cfg s none sx sy).app.pointer = none) ∧
    (keyboard_handle_enter s none).app.keyboard = none ∧
    (∀ x_w y_w, (touch_handle_down cfg s none x_w y_w).app.touch = none) ∧
    (touch_handle_up s).app.touch = none := by
  refine ⟨?_, ?_, lv_wayland_deinit_focus cfg s, ?_, ?_, ?_, rfl, ?_, ?_⟩
  · intro window
    rw [destroy_window_app]
  · intro disp_drv w time px
    exact window_cycle_close_focus cfg s disp_drv w time px
  · intro surface h
    unfold pointer_handle_leave
    rw [if_pos h]
  · intro surface h
    unfold keyboard_handle_leave
    rw [if_pos h]
  · intro sx sy
    rfl
  · intro x_w y_w
    rfl
  · unfold touch_handle_up
    cases h : s.app.touch with
    | none => simp only [h]
    | some p => rfl

theorem teardown_keeps_focus_witness :
    focus_refs (window_cycle_close cfg16 world_closing_focused (drv320 0) 0 33 76800).app =
      focus_refs world_closing_focused.app ∧
    (pointer_handle_leave world_closing_focused (some (input_ptr.of_window 0))).app.pointer =
      none :=
  ⟨(teardown_keeps_focus cfg16 world_closing_focused).2.1 (drv320 0) 0 33 76800,
   (teardown_keeps_focus cfg16 world_closing_focused).2.2.2.1 (some (input_ptr.of_window 0))
     (Or.inr rfl)⟩

/-! ## The flush decision of a round -/

theorem flushes_append (a b : List effect) : flushes (a ++ b) = flushes a + flushes b := by
  unfold flushes
  exact List.count_append _ _ _

theorem flushes_emit (s : world) (e : effect) (h : e ≠ effect.wl_display_flush) :
    flushes (s.emit e).trace = flushes s.trace := by
  have h0 : List.count effect.wl_display_flush [e] = 0 :=
    List.count_eq_zero_of_not_mem (by simpa using fun h' => h h'.symm)
  unfold flushes world.emit
  rw [List.count_append, h0, Nat.add_zero]

theorem flushes_of_listener (s r : world)
    (h : trace_adds (fun e => effect.from_listener e = true) s r) :
    flushes r.trace = flushes s.trace := by
  obtain ⟨added, h1, h2⟩ := h
  have h0 : List.count effect.wl_display_flush added = 0 := by
    apply List.count_eq_zero_of_not_mem
    intro hm
    have := h2 _ hm
    simp [effect.from_listener] at this
  unfold flushes
  rw [h1, List.count_append, h0, Nat.add_zero]

theorem wl_display_dispatch_pending_flushes (cfg : config) (events : List wl_event)
    (s : world) :
    flushes (wl_display_dispatch_pending cfg s events).trace = flushes s.trace := by
  unfold wl_display_dispatch_pending
  rw [flushes_of_listener _ _ (dispatch_list_keeps cfg events _).2.2]
  exact flushes_emit s _ (by simp)

theorem prepare_read_loop_flushes (cfg : config) (queued : List (List wl_event)) (s : world) :
    flushes (prepare_read_loop cfg s queued).trace = flushes s.trace := by
  induction queued generalizing s with
  | nil => exact flushes_emit s _ (by simp)
  | cons batch rest ih =>
    show flushes (prepare_read_loop cfg _ rest).trace = _
    rw [ih, wl_display_dispatch_pending_flushes]
    exact flushes_emit s _ (by simp)

theorem prepare_read_loop_idle (cfg : config) (queued : List (List wl_event)) (s : world)
    (h : ∀ b ∈ queued, b = []) : (prepare_read_loop cfg s queued).app = s.app := by
  induction queued generalizing s with
  | nil => rfl
  | cons batch rest ih =>
    show (prepare_read_loop cfg _ rest).app = _
    rw [ih _ (fun b hb => h b (List.mem_cons_of_mem _ hb)), h batch (List.mem_cons_self _ _)]
    rfl

theorem foldl_or_flush_pending (l : List window) (b : Bool) :
    l.foldl (fun acc a_window => acc || a_window.flush_pending) b =
      (b || l.any (fun a_window => a_window.flush_pending)) := by
  induction l generalizing b with
  | nil => simp
  | cons a rest ih =>
    rw [List.foldl_cons, ih, List.any_cons, Bool.or_assoc]

theorem window_cycle_round_flush (cfg : config) (env : cycle_env) (s : world)
    (shall_flush : Bool) :
    flushes (window_cycle_round cfg env s shall_flush).trace =
      flushes s.trace +
        (if (shall_flush || s.app.window_ll.any (fun a_window => a_window.flush_pending)) = true
          then 1 else 0) ∧
    (env.arrived = [] →
      (shall_flush || s.app.window_ll.any (fun a_window => a_window.flush_pending)) = true →
      (window_cycle_round cfg env s shall_flush).app.cursor_flush_pending = false) ∧
    ((∀ b ∈ env.queued, b = []) → env.arrived = [] →
      (∀ x ∈ (window_cycle_round cfg env s shall_flush).app.window_ll,
        x.flush_pending = false) ∧
      (window_cycle_round cfg env s shall_flush).app.cursor_flush_pending =
        (if (shall_flush ||
            s.app.window_ll.any (fun a_window => a_window.flush_pending)) = true
          then false else s.app.cursor_flush_pending)) := by
  unfold window_cycle_round
  dsimp only
  rw [foldl_or_flush_pending]
  generalize (shall_flush || s.app.window_ll.any (fun a_window => a_window.flush_pending)) = sf
  generalize hs1 :
    ({ s with
       app := { s.app with
                window_ll := s.app.window_ll.map (fun a_window =>
                  { a_window with flush_pending := false, cycled := false }) } } : world) = s1
  have t1 : flushes s1.trace = flushes s.trace := by rw [← hs1]
  have c1 : s1.app.cursor_flush_pending = s.app.cursor_flush_pending := by rw [← hs1]
  have p1 : ∀ x ∈ s1.app.window_ll, x.flush_pending = false := by
    rw [← hs1]
    intro x hx
    obtain ⟨y, _, rfl⟩ := List.mem_map.mp hx
    rfl
  have t2 := prepare_read_loop_flushes cfg env.queued s1
  have a2 := prepare_read_loop_idle cfg env.queued s1
  generalize hs2 : prepare_read_loop cfg s1 env.queued = s2 at t2 a2 ⊢
  generalize hs3 : (if sf = true then
      ({ s2 with app := { s2.app with cursor_flush_pending := false },
                 trace := s2.trace ++ [effect.wl_display_flush] } : world)
    else s2) = s3
  have t3 : flushes s3.trace = flushes s2.trace + (if sf = true then 1 else 0) := by
    rw [← hs3]
    split
    · show flushes (s2.trace ++ [effect.wl_display_flush]) = _
      rw [flushes_append]
      rfl
    · rfl
  have c3 : sf = true → s3.app.cursor_flush_pending = false := by
    intro h
    rw [← hs3, if_pos h]
  have w3 : s3.app.window_ll = s2.app.window_ll := by
    rw [← hs3]
    split <;> rfl
  have c3n : s3.app.cursor_flush_pending =
      (if sf = true then false else s2.app.cursor_flush_pending) := by
    rw [← hs3]
    split <;> rfl
  have t4 := wl_display_dispatch_pending_flushes cfg env.arrived
    (s3.emit effect.wl_display_read_events)
  have a4 : env.arrived = [] →
      (wl_display_dispatch_pending cfg (s3.emit effect.wl_display_read_events)
        env.arrived).app = s3.app := by
    intro h
    rw [h]
    rfl
  generalize hs4 : wl_display_dispatch_pending cfg (s3.emit effect.wl_display_read_events)
    env.arrived = s4 at t4 a4 ⊢
  have t5 : flushes s4.trace = flushes s.trace + (if sf = true then 1 else 0) := by
    rw [t4, flushes_emit s3 _ (by simp), t3, t2, t1]
  have hfinal : ∀ r : world, r.app = s4.app → flushes r.trace = flushes s4.trace →
      flushes r.trace = flushes s.trace + (if sf = true then 1 else 0) ∧
      (env.arrived = [] → sf = true → r.app.cursor_flush_pending = false) ∧
      ((∀ b ∈ env.queued, b = []) → env.arrived = [] →
        (∀ x ∈ r.app.window_ll, x.flush_pending = false) ∧
        r.app.cursor_flush_pending =
          (if sf = true then false else s.app.cursor_flush_pending)) := by
    intro r hr ht
    refine ⟨ht.trans t5, ?_, ?_⟩
    · intro ha hsf
      rw [hr, a4 ha]
      exact c3 hsf
    · intro hq ha
      rw [hr, a4 ha, w3, a2 hq, c3n, a2 hq, c1]
      exact ⟨p1, rfl⟩
  have hx : flushes (s4.trace ++ [effect.exit 0]) = flushes s4.trace := by
    rw [flushes_append]
    rfl
  split
  · exact hfinal { s4 with trace := s4.trace ++ [effect.exit 0], exited := true } rfl hx
  · exact hfinal s4 rfl rfl

theorem flushes_destroy_window_calls (cfg : config) (w : Nat) (win : window) :
    flushes (destroy_window_calls cfg w win) = 0 := by
  apply List.count_eq_zero_of_not_mem
  intro hm
  have := destroy_window_calls_release cfg w win _ hm
  simp [effect.releases_of] at this

theorem window_cycle_close_flushes (cfg : config) (s : world) (disp_drv : lv_disp_drv_t)
    (w : Nat) (time px : Nat) (win : window) (hw : s.app.window_ll[w]? = some win) :
    flushes (window_cycle_close cfg s disp_drv w time px).trace = flushes s.trace ∧
    (window_cycle_close cfg s disp_drv w time px).app.cursor_flush_pending =
      s.app.cursor_flush_pending := by
  obtain ⟨happ, htrace, _⟩ := window_cycle_close_spec cfg s disp_drv w time px win hw
  constructor
  · rw [htrace, flushes_append]
    split
    · rw [flushes_destroy_window_calls]
      rfl
    · split <;> rfl
  · rw [happ]
    split <;> rfl

/-- C19. An invocation of `window_cycle` after whose close step every window has cycled.
With shall_flush the logical OR of the cursor flag `cursor_flush_pending` and of the
`flush_pending` flags of all windows as they stand after the close step (before the
reset): `wl_display_flush` is called once when shall_flush is true and not at all when it
is false; every window ends with `cycled` false; when shall_flush is true the cursor flag
is cleared (it is false at the end unless an event that arrives after the flush sets it
again); and in a round that delivers no event every window ends with `flush_pending`
false and the cursor flag ends false. -/
theorem round_flushes_iff_pending (cfg : config) (env : cycle_env) (s : world)
    (disp_drv : lv_disp_drv_t) (time px : Nat) (w : Nat) (win : window)
    (hdrv : disp_drv.user_data = some w) (hw : s.app.window_ll[w]? = some win)
    (hrun : s.exited = false)
    (hall : ∀ x ∈ (window_cycle_close cfg s disp_drv w time px).app.window_ll,
      x.cycled = true) :
    flushes (window_cycle cfg env s disp_drv time px).trace =
      flushes s.trace +
        (if (s.app.cursor_flush_pending ||
            (window_cycle_close cfg s disp_drv w time px).app.window_ll.any
              (fun a_window => a_window.flush_pending)) = true then 1 else 0) ∧
    (∀ x ∈ (window_cycle cfg env s disp_drv time px).app.window_ll, x.cycled = false) ∧
    (env.arrived = [] →
      (s.app.cursor_flush_pending ||
        (window_cycle_close cfg s disp_drv w time px).app.window_ll.any
          (fun a_window => a_window.flush_pending)) = true →
      (window_cycle cfg env s disp_drv time px).app.cursor_flush_pending = false) ∧
    ((∀ b ∈ env.queued, b = []) → env.arrived = [] →
      (∀ x ∈ (window_cycle cfg env s disp_drv time px).app.window_ll,
        x.flush_pending = false) ∧
      (window_cycle cfg env s disp_drv time px).app.cursor_flush_pending = false) := by
  have heq : window_cycle cfg env s disp_drv time px =
      window_cycle_round cfg env (window_cycle_close cfg s disp_drv w time px)
        s.app.cursor_flush_pending := by
    unfold window_cycle
    simp only [hdrv]
    rw [if_pos]
    rw [List.all_eq_true]
    exact hall
  obtain ⟨hcf, hcc⟩ := window_cycle_close_flushes cfg s disp_drv w time px win hw
  obtain ⟨h1, h2, h3⟩ := window_cycle_round_flush cfg env
    (window_cycle_close cfg s disp_drv w time px) s.app.cursor_flush_pending
  have hx : (window_cycle_close cfg s disp_drv w time px).exited = false :=
    (window_cycle_close_spec cfg s disp_drv w time px win hw).2.2.trans hrun
  obtain ⟨hflags, _, _⟩ := window_cycle_round_spec cfg env
    (window_cycle_close cfg s disp_drv w time px) s.app.cursor_flush_pending hx
  rw [heq]
  refine ⟨?_, ?_, h2, ?_⟩
  · rw [h1, hcf]
  · intro x hx
    have hm : (x.cycled, x.closed) ∈ cycle_flags (window_cycle_round cfg env
        (window_cycle_close cfg s disp_drv w time px) s.app.cursor_flush_pending).app :=
      List.mem_map.mpr ⟨x, hx, rfl⟩
    rw [hflags] at hm
    obtain ⟨p, _, hp⟩ := List.mem_map.mp hm
    exact (Prod.mk.inj hp).1.symm
  · intro hq ha
    obtain ⟨g1, g2⟩ := h3 hq ha
    refine ⟨g1, ?_⟩
    rw [g2]
    split
    · rfl
    · rename_i hn
      rw [hcc]
      cases hc : s.app.cursor_flush_pending with
      | false => rfl
      | true =>
        rw [hc] at hn
        simp at hn

theorem round_flushes_iff_pending_witness :
    (drv320 0).user_data = some 0 ∧
    world_last_to_cycle.app.window_ll[0]? = some (window320 0) ∧
    world_last_to_cycle.exited = false ∧
    (∀ x ∈ (window_cycle_close cfg16 world_last_to_cycle (drv320 0) 0 33
      76800).app.window_ll, x.cycled = true) ∧
    flushes (window_cycle cfg16 { queued := [], arrived := [] } world_last_to_cycle (drv320 0)
      33 76800).trace =
      flushes world_last_to_cycle.trace +
        (if (world_last_to_cycle.app.cursor_flush_pending ||
            (window_cycle_close cfg16 world_last_to_cycle (drv320 0) 0 33
              76800).app.window_ll.any (fun a_window => a_window.flush_pending)) = true
          then 1 else 0) :=
  ⟨rfl, rfl, rfl, by decide,
   (round_flushes_iff_pending cfg16 { queued := [], arrived := [] } world_last_to_cycle
      (drv320 0) 33 76800 0 (window320 0) rfl rfl rfl (by decide)).1⟩

/-! ## Failure of `create_window` -/

theorem eraseIdx_modify_window (l : List window) (w : Nat) (f : window → window) :
    (modify_window l w f).eraseIdx w = l.eraseIdx w := by
  apply List.ext_getElem?
  intro j
  rw [List.getElem?_eraseIdx, List.getElem?_eraseIdx, modify_window_getElem?,
    modify_window_getElem?]
  split
  · rename_i h
    rw [if_neg (by omega)]
  · rename_i h
    rw [if_neg (by omega)]

theorem unwinds_step (w : Nat) (h h1 : List (input_ptr × resource)) (s s1 r : world)
    (pre : List effect) (hu : unwinds w h1 s1 r)
    (ht : s1.trace = s.trace ++ pre) (hh : held_from h pre = h1)
    (hp : ∀ e ∈ pre, effect.is_release e = true →
      e = effect.release (input_ptr.of_window w) resource.name)
    (happ : ({ s1.app with window_ll := s1.app.window_ll.eraseIdx w } : application) =
      { s.app with window_ll := s.app.window_ll.eraseIdx w })
    (hx : s1.exited = s.exited) : unwinds w h s r := by
  obtain ⟨h1a, h1x, more, h1t, h1n, h1r⟩ := hu
  refine ⟨h1a.trans happ, h1x.trans hx, pre ++ more, ?_, ?_, ?_⟩
  · rw [h1t, ht]
    unfold held_from at hh ⊢
    rw [List.foldl_append, hh]
    simp only [List.append_assoc]
  · unfold held_from at hh h1n ⊢
    rw [List.foldl_append, hh]
    exact h1n
  · intro e he
    rcases List.mem_append.mp he with he | he
    · exact hp e he
    · exact h1r e he

theorem unwinds_now (w : Nat) (h : List (input_ptr × resource)) (s r : world)
    (happ : r.app = { s.app with window_ll := s.app.window_ll.eraseIdx w })
    (hx : r.exited = s.exited) (ht : r.trace = s.trace ++ unwinding h) (hn : h.Nodup) :
    unwinds w h s r := by
  refine ⟨happ, hx, [], ?_, hn, ?_⟩
  · rw [ht]
    simp [held_from]
  · intro e he
    cases he

theorem err_destroy_surface_spec (s : world) (w : Nat) :
    (err_destroy_surface s w).app = { s.app with window_ll := s.app.window_ll.eraseIdx w } ∧
    (err_destroy_surface s w).exited = s.exited ∧
    (err_destroy_surface s w).trace = s.trace ++
      [effect.release (input_ptr.of_window w) resource.surface,
       effect.release (input_ptr.of_window w) resource.buffer,
       effect.release (input_ptr.of_window w) resource.shm_pool,
       effect.release (input_ptr.of_window w) resource.mapping,
       effect.release (input_ptr.of_window w) resource.fd,
       effect.release (input_ptr.of_window w) resource.node] := by
  refine ⟨rfl, rfl, ?_⟩
  simp [err_destroy_surface, err_destroy_buffer, err_destroy_pool, err_unmap, err_close_fd,
    err_free_window, world.emit]

theorem create_shell_surface_cases (cfg : config) (env : create_env) (fuel : Nat) (s : world)
    (w : Nat) (s1 : world) (label : Nat)
    (h : create_shell_surface cfg env fuel s w = some (s1, label)) :
    s1.exited = s.exited ∧
    (label = 0 ∨
     (label = 1 ∧ s1.app = s.app ∧
       (s1.trace = s.trace ∨
        ∃ ivi_id, s1.trace = s.trace ++ [effect.ivi_application_surface_create w ivi_id])) ∨
     (label = 2 ∧ cfg.LV_WAYLAND_XDG_SHELL = true ∧
       s1.app = s.app.modify_window w (fun x => { x with xdg_surface := true }) ∧
       s1.trace = s.trace ++ [effect.acquire (input_ptr.of_window w) resource.xdg_surface])) := by
  unfold create_shell_surface at h
  dsimp only at h
  split at h
  · split at h
    · cases h
    · rename_i ivi_id _
      split at h
      · cases h
        exact ⟨rfl, Or.inr (Or.inl ⟨rfl, rfl, Or.inr ⟨ivi_id, rfl⟩⟩)⟩
      · cases h
        exact ⟨rfl, Or.inl rfl⟩
  · split at h
    · rename_i hx
      split at h
      · cases h
        exact ⟨rfl, Or.inr (Or.inl ⟨rfl, rfl, Or.inl rfl⟩)⟩
      · split at h
        · cases h
          exact ⟨rfl, Or.inr (Or.inr ⟨rfl, hx.1, rfl, rfl⟩)⟩
        · cases h
          exact ⟨rfl, Or.inl rfl⟩
    · split at h
      · split at h
        · cases h
          exact ⟨rfl, Or.inr (Or.inl ⟨rfl, rfl, Or.inl rfl⟩)⟩
        · cases h
          exact ⟨rfl, Or.inl rfl⟩
      · cases h
        exact ⟨rfl, Or.inr (Or.inl ⟨rfl, rfl, Or.inl rfl⟩)⟩

theorem create_window_shell_unwinds (cfg : config) (env : create_env) (fuel : Nat)
    (s : world) (w : Nat) (r : world) (hfree : shell_free s.app w)
    (h : create_window_shell cfg env fuel s w = some (r, none)) :
    unwinds w
      [(input_ptr.of_window w, resource.surface), (input_ptr.of_window w, resource.buffer),
       (input_ptr.of_window w, resource.shm_pool), (input_ptr.of_window w, resource.mapping),
       (input_ptr.of_window w, resource.fd), (input_ptr.of_window w, resource.node)] s r := by
  unfold create_window_shell at h
  cases hc : create_shell_surface cfg env fuel s w with
  | none =>
    rw [hc] at h
    cases h
  | some res =>
    obtain ⟨s1, label⟩ := res
    rw [hc] at h
    obtain ⟨hx, hcase⟩ := create_shell_surface_cases cfg env fuel s w s1 label hc
    obtain ⟨ha, hb, ht⟩ := err_destroy_surface_spec s1 w
    rcases hcase with h0 | ⟨h1, happ, htr⟩ | ⟨h2, hxdg, happ, htr⟩
    · subst h0
      simp only at h
      cases h
    · subst h1
      simp only [Option.some.injEq, Prod.mk.injEq, and_true] at h
      subst h
      rcases htr with htr | ⟨ivi_id, htr⟩
      · refine unwinds_now w _ s _ ?_ (hb.trans hx) ?_ (by simp)
        · rw [ha, happ]
        · rw [ht, htr]
          rfl
      · refine ⟨?_, hb.trans hx, [effect.ivi_application_surface_create w ivi_id], ?_,
          by simp [held_from, held_step], ?_⟩
        · rw [ha, happ]
        · rw [ht, htr]
          rfl
        · intro e he
          simp only [List.mem_singleton] at he
          subst he
          intro hr
          simp [effect.is_release] at hr
    · subst h2
      simp only [Option.some.injEq, Prod.mk.injEq, and_true] at h
      subst h
      obtain ⟨win, hw, f1, f2, f3⟩ := hfree
      have hw1 : s1.app.window_ll[w]? = some { win with xdg_surface := true } := by
        rw [happ]
        simp only [application_modify_window_ll, modify_window_getElem?, if_true, hw,
          Option.map_some']
      have hshell : err_destroy_shell_surface cfg s1 w =
          err_destroy_surface
            (s1.emit (effect.release (input_ptr.of_window w) resource.xdg_surface)) w := by
        unfold err_destroy_shell_surface
        simp only [hw1, Option.getD_some, f1, f3, hxdg, Bool.false_eq_true, and_false,
          and_self, if_false, if_true]
      rw [hshell]
      obtain ⟨ha2, hb2, ht2⟩ := err_destroy_surface_spec
        (s1.emit (effect.release (input_ptr.of_window w) resource.xdg_surface)) w
      refine ⟨?_, hb2.trans hx,
        [effect.acquire (input_ptr.of_window w) resource.xdg_surface], ?_,
        by simp [held_from, held_step], ?_⟩
      · rw [ha2]
        show ({ s1.app with window_ll := s1.app.window_ll.eraseIdx w } : application) = _
        rw [happ]
        show ({ s.app with window_ll :=
          (modify_window s.app.window_ll w _).eraseIdx w } : application) = _
        rw [eraseIdx_modify_window]
      · rw [ht2]
        show (s1.trace ++ _) ++ _ = _
        rw [htr]
        simp [held_from, held_step, unwinding]
      · intro e he
        simp only [List.mem_singleton] at he
        subst he
        intro hr
        simp [effect.is_release] at hr

theorem create_window_shell_returns (cfg : config) (env : create_env) (fuel : Nat)
    (s : world) (w : Nat) (hf : shell_fails cfg env s.app = true)
    (hl : loop_ends cfg s.app w fuel) :
    ∃ r, create_window_shell cfg env fuel s w = some (r, none) := by
  unfold shell_fails at hf
  by_cases hivi : cfg.LV_WAYLAND_IVI_APPLICATION = true ∧ s.app.ivi_application = true
  · obtain ⟨hw, hfuel⟩ := hl.resolve_left (not_not.mpr hivi)
    subst hw
    obtain ⟨k, hk⟩ := Nat.exists_eq_succ_of_ne_zero (Nat.pos_iff_ne_zero.mp hfuel)
    subst hk
    rw [if_pos hivi] at hf
    have hok : env.ivi_surface_ok = false := by simpa using hf
    refine ⟨err_destroy_surface
      (s.emit (effect.ivi_application_surface_create 0 s.app.ivi_id_base)) 0, ?_⟩
    unfold create_window_shell create_shell_surface
    simp [hivi, ivi_id_loop, lv_ll_get_prev, hok]
  · rw [if_neg hivi] at hf
    by_cases hxdg : cfg.LV_WAYLAND_XDG_SHELL = true ∧ s.app.xdg_wm = true
    · rw [if_pos hxdg] at hf
      by_cases h1 : env.xdg_surface_ok = true
      · have h2 : env.xdg_toplevel_ok = false := by simpa [h1] using hf
        refine ⟨err_destroy_shell_surface cfg
          { s.emit (effect.acquire (input_ptr.of_window w) resource.xdg_surface) with
            app := s.app.modify_window w (fun x => { x with xdg_surface := true }) } w, ?_⟩
        unfold create_window_shell create_shell_surface
        simp [hivi, hxdg, h1, h2, world.emit]
      · have h1f : env.xdg_surface_ok = false := by simpa using h1
        refine ⟨err_destroy_surface s w, ?_⟩
        unfold create_window_shell create_shell_surface
        simp [hivi, hxdg, h1f]
    · rw [if_neg hxdg] at hf
      by_cases hwl : cfg.LV_WAYLAND_WL_SHELL = true ∧ s.app.wl_shell = true
      · rw [if_pos hwl] at hf
        have h1f : env.wl_shell_surface_ok = false := by simpa using hf
        refine ⟨err_destroy_surface s w, ?_⟩
        unfold create_window_shell create_shell_surface
        simp [hivi, hxdg, hwl, h1f]
      · refine ⟨err_destroy_surface s w, ?_⟩
        unfold create_window_shell create_shell_surface
        simp [hivi, hxdg, hwl]

theorem shell_free_modify (app : application) (w : Nat) (f : window → window)
    (h : shell_free app w)
    (hf : ∀ x, (f x).wl_shell_surface = x.wl_shell_surface ∧
      (f x).xdg_surface = x.xdg_surface ∧ (f x).ivi_surface = x.ivi_surface) :
    shell_free (app.modify_window w f) w := by
  obtain ⟨win, hw, h1, h2, h3⟩ := h
  refine ⟨f win, ?_, ?_, ?_, ?_⟩
  · simp only [application_modify_window_ll, modify_window_getElem?, if_true, hw,
      Option.map_some']
  · rw [(hf win).1, h1]
  · rw [(hf win).2.1, h2]
  · rw [(hf win).2.2, h3]

theorem returns_of_stage (x_ok F E : Bool) (L P : Prop) (hfail : x_ok = false → P)
    (hnext : x_ok = true → F = true → E = true ∨ L → P)
    (hf : (!x_ok || F) = true) (hret : (!x_ok || E) = true ∨ L) : P := by
  cases hx : x_ok with
  | false => exact hfail hx
  | true =>
    rw [hx] at hf hret
    simp only [Bool.not_true, Bool.false_or] at hf hret
    exact hnext hx hf hret

theorem create_window_surface_unwinds (cfg : config) (env : create_env) (fuel : Nat)
    (s : world) (w : Nat) (r : world) (hfree : shell_free s.app w)
    (h : create_window_surface cfg env fuel s w = some (r, none)) :
    unwinds w
      [(input_ptr.of_window w, resource.buffer),
       (input_ptr.of_window w, resource.shm_pool), (input_ptr.of_window w, resource.mapping),
       (input_ptr.of_window w, resource.fd), (input_ptr.of_window w, resource.node)] s r := by
  unfold create_window_surface at h
  split at h
  · simp only [Option.some.injEq, Prod.mk.injEq, and_true] at h
    subst h
    refine unwinds_now w _ s _ rfl rfl ?_ (by simp)
    simp [err_destroy_buffer, err_destroy_pool, err_unmap, err_close_fd, err_free_window,
      world.emit, unwinding]
  · dsimp only at h
    refine unwinds_step w _ _ s _ r
      [effect.acquire (input_ptr.of_window w) resource.surface]
      (create_window_shell_unwinds cfg env fuel _ w r ?_ h) rfl rfl ?_ ?_ rfl
    · exact shell_free_modify _ w _ hfree (fun _ => ⟨rfl, rfl, rfl⟩)
    · intro e he
      simp only [List.mem_singleton] at he
      subst he
      intro hr
      simp [effect.is_release] at hr
    · show ({ s.app with window_ll :=
        (modify_window s.app.window_ll w _).eraseIdx w } : application) = _
      rw [eraseIdx_modify_window]

theorem create_window_surface_returns (cfg : config) (env : create_env) (fuel : Nat)
    (s : world) (w : Nat)
    (hf : (!env.surface_ok || shell_fails cfg env s.app) = true)
    (hret : (!env.surface_ok) = true ∨ loop_ends cfg s.app w fuel) :
    ∃ r, create_window_surface cfg env fuel s w = some (r, none) := by
  cases hx : env.surface_ok with
  | false =>
    refine ⟨err_destroy_buffer s w, ?_⟩
    unfold create_window_surface
    simp [hx]
  | true =>
    rw [hx] at hf hret
    simp only [Bool.not_true, Bool.false_or, Bool.false_eq_true, false_or] at hf hret
    unfold create_window_surface
    simp only [hx, Bool.not_true, Bool.false_eq_true, if_false]
    exact create_window_shell_returns cfg env fuel _ w hf hret

theorem create_window_buffer_unwinds (cfg : config) (env : create_env) (fuel : Nat)
    (s : world) (w : Nat) (width height : Int) (r : world) (hfree : shell_free s.app w)
    (h : create_window_buffer cfg env fuel s w width height = some (r, none)) :
    unwinds w
      [(input_ptr.of_window w, resource.shm_pool), (input_ptr.of_window w, resource.mapping),
       (input_ptr.of_window w, resource.fd), (input_ptr.of_window w, resource.node)] s r := by
  unfold create_window_buffer at h
  split at h
  · simp only [Option.some.injEq, Prod.mk.injEq, and_true] at h
    subst h
    refine unwinds_now w _ s _ rfl rfl ?_ (by simp)
    simp [err_destroy_pool, err_unmap, err_close_fd, err_free_window, world.emit, unwinding]
  · dsimp only at h
    refine unwinds_step w _ _ s _ r
      [effect.acquire (input_ptr.of_window w) resource.buffer]
      (create_window_surface_unwinds cfg env fuel _ w r ?_ h) rfl rfl ?_ ?_ rfl
    · exact shell_free_modify _ w _ hfree (fun _ => ⟨rfl, rfl, rfl⟩)
    · intro e he
      simp only [List.mem_singleton] at he
      subst he
      intro hr
      simp [effect.is_release] at hr
    · show ({ s.app with window_ll :=
        (modify_window s.app.window_ll w _).eraseIdx w } : application) = _
      rw [eraseIdx_modify_window]

theorem create_window_buffer_returns (cfg : config) (env : create_env) (fuel : Nat)
    (s : world) (w : Nat) (width height : Int)
    (hf : (!env.buffer_ok || (!env.surface_ok || shell_fails cfg env s.app)) = true)
    (hret : (!env.buffer_ok || !env.surface_ok) = true ∨ loop_ends cfg s.app w fuel) :
    ∃ r, create_window_buffer cfg env fuel s w width height = some (r, none) := by
  refine returns_of_stage env.buffer_ok _ _ _ _ ?_ ?_ hf hret
  · intro hx
    refine ⟨err_destroy_pool s w, ?_⟩
    unfold create_window_buffer
    simp [hx]
  · intro hx hf1 hret1
    unfold create_window_buffer
    simp only [hx, Bool.not_true, Bool.false_eq_true, if_false]
    exact create_window_surface_returns cfg env fuel _ w hf1 hret1

theorem create_window_pool_unwinds (cfg : config) (env : create_env) (fuel : Nat)
    (s : world) (w : Nat) (width height : Int) (r : world) (hfree : shell_free s.app w)
    (h : create_window_pool cfg env fuel s w width height = some (r, none)) :
    unwinds w
      [(input_ptr.of_window w, resource.mapping),
       (input_ptr.of_window w, resource.fd), (input_ptr.of_window w, resource.node)] s r := by
  unfold create_window_pool at h
  split at h
  · simp only [Option.some.injEq, Prod.mk.injEq, and_true] at h
    subst h
    refine unwinds_now w _ s _ rfl rfl ?_ (by simp)
    simp [err_unmap, err_close_fd, err_free_window, world.emit, unwinding]
  · dsimp only at h
    refine unwinds_step w _ _ s _ r
      [effect.acquire (input_ptr.of_window w) resource.shm_pool]
      (create_window_buffer_unwinds cfg env fuel _ w width height r ?_ h) rfl rfl ?_ ?_ rfl
    · exact shell_free_modify _ w _ hfree (fun _ => ⟨rfl, rfl, rfl⟩)
    · intro e he
      simp only [List.mem_singleton] at he
      subst he
      intro hr
      simp [effect.is_release] at hr
    · show ({ s.app with window_ll :=
        (modify_window s.app.window_ll w _).eraseIdx w } : application) = _
      rw [eraseIdx_modify_window]

theorem create_window_pool_returns (cfg : config) (env : create_env) (fuel : Nat)
    (s : world) (w : Nat) (width height : Int)
    (hf : (!env.pool_ok || (!env.buffer_ok || (!env.surface_ok ||
      shell_fails cfg env s.app))) = true)
    (hret : (!env.pool_ok || (!env.buffer_ok || !env.surface_ok)) = true ∨
      loop_ends cfg s.app w fuel) :
    ∃ r, create_window_pool cfg env fuel s w width height = some (r, none) := by
  refine returns_of_stage env.pool_ok _ _ _ _ ?_ ?_ hf hret
  · intro hx
    refine ⟨err_unmap s w, ?_⟩
    unfold create_window_pool
    simp [hx]
  · intro hx hf1 hret1
    unfold create_window_pool
    simp only [hx, Bool.not_true, Bool.false_eq_true, if_false]
    exact create_window_buffer_returns cfg env fuel _ w width height hf1 hret1

theorem create_window_map_unwinds (cfg : config) (env : create_env) (fuel : Nat)
    (s : world) (w : Nat) (width height : Int) (r : world) (hfree : shell_free s.app w)
    (h : create_window_map cfg env fuel s w width height = some (r, none)) :
    unwinds w
      [(input_ptr.of_window w, resource.fd), (input_ptr.of_window w, resource.node)] s r := by
  unfold create_window_map at h
  split at h
  · simp only [Option.some.injEq, Prod.mk.injEq, and_true] at h
    subst h
    refine unwinds_now w _ s _ rfl rfl ?_ (by simp)
    simp [err_close_fd, err_free_window, world.emit, unwinding]
  · split at h
    · simp only [Option.some.injEq, Prod.mk.injEq, and_true] at h
      subst h
      refine unwinds_now w _ s _ rfl rfl ?_ (by simp)
      simp [err_close_fd, err_free_window, world.emit, unwinding]
    · dsimp only at h
      refine unwinds_step w _ _ s _ r
        [effect.acquire (input_ptr.of_window w) resource.mapping]
        (create_window_pool_unwinds cfg env fuel _ w width height r ?_ h) rfl rfl ?_ ?_ rfl
      · exact shell_free_modify _ w _ hfree (fun _ => ⟨rfl, rfl, rfl⟩)
      · intro e he
        simp only [List.mem_singleton] at he
        subst he
        intro hr
        simp [effect.is_release] at hr
      · show ({ s.app with window_ll :=
          (modify_window s.app.window_ll w _).eraseIdx w } : application) = _
        rw [eraseIdx_modify_window]

theorem create_window_map_returns (cfg : config) (env : create_env) (fuel : Nat)
    (s : world) (w : Nat) (width height : Int)
    (hf : (!env.ftruncate_ok || (!env.mmap_ok || (!env.pool_ok || (!env.buffer_ok ||
      (!env.surface_ok || shell_fails cfg env s.app))))) = true)
    (hret : (!env.ftruncate_ok || (!env.mmap_ok || (!env.pool_ok || (!env.buffer_ok ||
      !env.surface_ok)))) = true ∨ loop_ends cfg s.app w fuel) :
    ∃ r, create_window_map cfg env fuel s w width height = some (r, none) := by
  refine returns_of_stage env.ftruncate_ok _ _ _ _ ?_ ?_ hf hret
  · intro hx
    refine ⟨err_close_fd s w, ?_⟩
    unfold create_window_map
    simp [hx]
  · intro hx hf1 hret1
    refine returns_of_stage env.mmap_ok _ _ _ _ ?_ ?_ hf1 hret1
    · intro hy
      refine ⟨err_close_fd s w, ?_⟩
      unfold create_window_map
      simp [hx, hy]
    · intro hy hf2 hret2
      unfold create_window_map
      simp only [hx, hy, Bool.not_true, Bool.false_eq_true, if_false]
      exact create_window_pool_returns cfg env fuel _ w width height hf2 hret2

theorem create_window_file_unwinds (cfg : config) (env : create_env) (fuel : Nat)
    (s : world) (w : Nat) (width height : Int) (r : world) (hfree : shell_free s.app w)
    (h : create_window_file cfg env fuel s w width height = some (r, none)) :
    unwinds w [(input_ptr.of_window w, resource.node)] s r := by
  unfold create_window_file at h
  dsimp only at h
  split at h
  · simp only [Option.some.injEq, Prod.mk.injEq, and_true] at h
    subst h
    refine unwinds_now w _ s _ rfl rfl ?_ (by simp)
    simp [err_free_window, unwinding]
  · cases hm : env.mkstemp_ok with
    | false =>
      rw [hm] at h
      simp only [Bool.false_eq_true, if_false, Bool.not_false, if_true, Option.some.injEq,
        Prod.mk.injEq, and_true] at h
      subst h
      refine ⟨rfl, rfl,
        [effect.acquire (input_ptr.of_window w) resource.name,
         effect.release (input_ptr.of_window w) resource.name], ?_,
        by simp [held_from, held_step], ?_⟩
      · simp [err_free_window, world.emit, held_from, held_step, unwinding]
      · intro e he hr
        simp only [List.mem_cons, List.mem_singleton, List.not_mem_nil, or_false] at he
        rcases he with he | he
        · subst he
          simp [effect.is_release] at hr
        · exact he
    | true =>
      rw [hm] at h
      simp only [if_true, Bool.not_true, Bool.false_eq_true, if_false] at h
      refine unwinds_step w _ _ s
        (((s.emit (effect.acquire (input_ptr.of_window w) resource.name)).emit
          (effect.acquire (input_ptr.of_window w) resource.fd)).emit
          (effect.release (input_ptr.of_window w) resource.name)) r
        [effect.acquire (input_ptr.of_window w) resource.name,
         effect.acquire (input_ptr.of_window w) resource.fd,
         effect.release (input_ptr.of_window w) resource.name]
        (create_window_map_unwinds cfg env fuel _ w width height r hfree h) ?_ ?_ ?_ rfl rfl
      · simp [world.emit]
      · simp [held_from, held_step]
      · intro e he hr
        simp only [List.mem_cons, List.mem_singleton, List.not_mem_nil, or_false] at he
        rcases he with he | he | he
        · subst he
          simp [effect.is_release] at hr
        · subst he
          simp [effect.is_release] at hr
        · exact he

theorem create_window_file_returns (cfg : config) (env : create_env) (fuel : Nat)
    (s : world) (w : Nat) (width height : Int)
    (hf : (!env.name_ok || (!env.mkstemp_ok || (!env.ftruncate_ok || (!env.mmap_ok ||
      (!env.pool_ok || (!env.buffer_ok || (!env.surface_ok ||
        shell_fails cfg env s.app))))))) = true)
    (hret : (!env.name_ok || (!env.mkstemp_ok || (!env.ftruncate_ok || (!env.mmap_ok ||
      (!env.pool_ok || (!env.buffer_ok || !env.surface_ok)))))) = true ∨
      loop_ends cfg s.app w fuel) :
    ∃ r, create_window_file cfg env fuel s w width height = some (r, none) := by
  refine returns_of_stage env.name_ok _ _ _ _ ?_ ?_ hf hret
  · intro hx
    refine ⟨err_free_window s w, ?_⟩
    unfold create_window_file
    simp [hx]
  · intro hx hf1 hret1
    refine returns_of_stage env.mkstemp_ok _ _ _ _ ?_ ?_ hf1 hret1
    · intro hy
      refine ⟨err_free_window
        ((s.emit (effect.acquire (input_ptr.of_window w) resource.name)).emit
          (effect.release (input_ptr.of_window w) resource.name)) w, ?_⟩
      unfold create_window_file
      simp only [hx, hy, Bool.not_true, Bool.not_false, Bool.false_eq_true, if_false, if_true]
    · intro hy hf2 hret2
      unfold create_window_file
      simp only [hx, hy, Bool.not_true, Bool.false_eq_true, if_false, if_true]
      exact create_window_map_returns cfg env fuel _ w width height hf2 hret2

/-- C11. A call of `create_window` that has obtained its list node and in which some
later acquisition fails (name allocation, backing file, truncate, mapping, pool, buffer,
surface, shell binding, top-level) returns no window, leaves the application record, the
window collection included, as it was before the call, and has made these calls: first
the calls `pre` up to the failure, which acquire and release nothing early but the buffer
of the file name, then the release of everything still held at the failure (`held pre`),
each once, the latest acquisition first. (With an IVI shell the call returns only when
the failure comes before the shell binding or the identifier loop ends.) -/
theorem create_window_failure_unwinds (cfg : config) (env : create_env) (fuel : Nat)
    (s : world) (width height : Int)
    (hnode : env.node_ok = true)
    (hfail : create_fails cfg env s.app = true)
    (hret : create_fails_early env = true ∨
      loop_ends cfg s.app s.app.window_ll.length fuel) :
    ∃ r pre, create_window cfg env fuel s width height = some (r, none) ∧
      r.app = s.app ∧ r.exited = s.exited ∧
      r.trace = s.trace ++ pre ++ unwinding (held pre) ∧
      (held pre).Nodup ∧
      pre.head? =
        some (effect.acquire (input_ptr.of_window s.app.window_ll.length) resource.node) ∧
      (input_ptr.of_window s.app.window_ll.length, resource.node) ∈ held pre ∧
      ∀ e ∈ pre, effect.is_release e = true →
        e = effect.release (input_ptr.of_window s.app.window_ll.length) resource.name := by
  have hf : (!env.name_ok || (!env.mkstemp_ok || (!env.ftruncate_ok || (!env.mmap_ok ||
      (!env.pool_ok || (!env.buffer_ok || (!env.surface_ok ||
        shell_fails cfg env s.app))))))) = true := by
    unfold create_fails create_fails_early at hfail
    simpa only [Bool.or_assoc] using hfail
  generalize hs1 : ({ s with
      app := { s.app with window_ll := s.app.window_ll ++
        [{ zero_window with width := width, height := height,
                            data_size := window_data_size cfg width height }] },
      trace := s.trace ++
        [effect.acquire (input_ptr.of_window s.app.window_ll.length) resource.node] } :
      world) = s1
  have hcw : create_window cfg env fuel s width height =
      create_window_file cfg env fuel s1 s.app.window_ll.length width height := by
    unfold create_window
    simp only [hnode, Bool.not_true, Bool.false_eq_true, if_false]
    rw [← hs1]
  have hfree : shell_free s1.app s.app.window_ll.length := by
    rw [← hs1]
    refine ⟨{ zero_window with width := width, height := height,
                               data_size := window_data_size cfg width height },
      ?_, rfl, rfl, rfl⟩
    show (s.app.window_ll ++ [_])[s.app.window_ll.length]? = _
    simp
  have hf1 : (!env.name_ok || (!env.mkstemp_ok || (!env.ftruncate_ok || (!env.mmap_ok ||
      (!env.pool_ok || (!env.buffer_ok || (!env.surface_ok ||
        shell_fails cfg env s1.app))))))) = true := by
    rw [← hs1]
    exact hf
  have hret1 : (!env.name_ok || (!env.mkstemp_ok || (!env.ftruncate_ok || (!env.mmap_ok ||
      (!env.pool_ok || (!env.buffer_ok || !env.surface_ok)))))) = true ∨
      loop_ends cfg s1.app s.app.window_ll.length fuel := by
    rw [← hs1]
    exact hret
  obtain ⟨r, hr⟩ := create_window_file_returns cfg env fuel s1 s.app.window_ll.length
    width height hf1 hret1
  obtain ⟨ha, hx, more, ht, hn, hrel⟩ := create_window_file_unwinds cfg env fuel s1
    s.app.window_ll.length width height r hfree hr
  have hheld : held (effect.acquire (input_ptr.of_window s.app.window_ll.length)
      resource.node :: more) =
      held_from [(input_ptr.of_window s.app.window_ll.length, resource.node)] more := rfl
  have hmem : ∀ (l : List effect) (h : List (input_ptr × resource)),
      (input_ptr.of_window s.app.window_ll.length, resource.node) ∈ h →
      (∀ e ∈ l, effect.is_release e = true →
        e = effect.release (input_ptr.of_window s.app.window_ll.length) resource.name) →
      (input_ptr.of_window s.app.window_ll.length, resource.node) ∈ held_from h l := by
    intro l
    induction l with
    | nil => intro h hm _; exact hm
    | cons e rest ih =>
      intro h hm hall
      show _ ∈ held_from (held_step h e) rest
      apply ih
      · cases e with
        | acquire o res => exact List.mem_cons_of_mem _ hm
        | release o res =>
          have he := hall _ (List.mem_cons_self _ _) rfl
          injection he with h1 h2
          subst h1 h2
          show _ ∈ h.erase _
          rw [List.mem_erase_of_ne]
          · exact hm
          · simp
        | _ => exact hm
      · intro e' he'
        exact hall e' (List.mem_cons_of_mem _ he')
  refine ⟨r, effect.acquire (input_ptr.of_window s.app.window_ll.length) resource.node ::
    more, hcw.trans hr, ?_, ?_, ?_, ?_, rfl, ?_, ?_⟩
  · rw [ha, ← hs1]
    have he : ∀ x : window,
        (s.app.window_ll ++ [x]).eraseIdx s.app.window_ll.length = s.app.window_ll := by
      intro x
      rw [List.eraseIdx_append_of_length_le (le_refl _)]
      simp
    dsimp only
    rw [he]
  · rw [hx, ← hs1]
  · rw [ht, hheld, ← hs1]
    simp only [List.append_assoc, List.singleton_append, List.cons_append, List.nil_append]
  · rw [hheld]
    exact hn
  · rw [hheld]
    exact hmem more _ (List.mem_singleton.mpr rfl) hrel
  · intro e he hr2
    rcases List.mem_cons.mp he with he | he
    · subst he
      simp [effect.is_release] at hr2
    · exact hrel e he hr2

theorem create_window_failure_unwinds_witness :
    env_no_toplevel.node_ok = true ∧
    create_fails cfg16 env_no_toplevel (world_of []).app = true ∧
    (create_window cfg16 env_no_toplevel 0 (world_of []) 320 240).map
        (fun p => (p.1.trace, p.2)) =
      some ([effect.acquire (input_ptr.of_window 0) resource.node,
             effect.acquire (input_ptr.of_window 0) resource.name,
             effect.acquire (input_ptr.of_window 0) resource.fd,
             effect.release (input_ptr.of_window 0) resource.name,
             effect.acquire (input_ptr.of_window 0) resource.mapping,
             effect.acquire (input_ptr.of_window 0) resource.shm_pool,
             effect.acquire (input_ptr.of_window 0) resource.buffer,
             effect.acquire (input_ptr.of_window 0) resource.surface,
             effect.acquire (input_ptr.of_window 0) resource.xdg_surface,
             effect.release (input_ptr.of_window 0) resource.xdg_surface,
             effect.release (input_ptr.of_window 0) resource.surface,
             effect.release (input_ptr.of_window 0) resource.buffer,
             effect.release (input_ptr.of_window 0) resource.shm_pool,
             effect.release (input_ptr.of_window 0) resource.mapping,
             effect.release (input_ptr.of_window 0) resource.fd,
             effect.release (input_ptr.of_window 0) resource.node], none) ∧
    ∃ r pre, create_window cfg16 env_no_toplevel 0 (world_of []) 320 240 = some (r, none) ∧
      r.app = (world_of []).app ∧ r.exited = (world_of []).exited ∧
      r.trace = (world_of []).trace ++ pre ++ unwinding (held pre) ∧
      (held pre).Nodup ∧
      pre.head? =
        some (effect.acquire (input_ptr.of_window (world_of []).app.window_ll.length)
          resource.node) ∧
      (input_ptr.of_window (world_of []).app.window_ll.length, resource.node) ∈ held pre ∧
      ∀ e ∈ pre, effect.is_release e = true →
        e = effect.release (input_ptr.of_window (world_of []).app.window_ll.length)
          resource.name :=
  ⟨rfl, by decide, by decide,
   create_window_failure_unwinds cfg16 env_no_toplevel 0 (world_of []) 320 240 rfl
     (by decide) (Or.inr (Or.inl (by decide)))⟩

/-! ## The size of a window -/

theorem modify_window_geometry (app : application) (i : Nat) (f : window → window)
    (h : ∀ x, geometry (f x) = geometry x) :
    (app.modify_window i f).window_ll.map geometry = app.window_ll.map geometry :=
  modify_window_map _ _ _ _ h

theorem create_titlebar_geometry (cfg : config) (env : part_env) (s : world) (w : Nat)
    (h : Nat) :
    (create_titlebar cfg env s w h).1.app.window_ll.map geometry =
      s.app.window_ll.map geometry := by
  unfold create_titlebar
  repeat' (first | split | dsimp only)
  all_goals first
    | rfl
    | exact modify_window_geometry _ _ _ (fun _ => rfl)

theorem create_button_geometry (cfg : config) (env : part_env) (s : world) (w : Nat)
    (h : Nat) (b : button_type) :
    (create_button cfg env s w h b).1.app.window_ll.map geometry =
      s.app.window_ll.map geometry := by
  unfold create_button
  repeat' (first | split | dsimp only)
  all_goals first
    | rfl
    | exact modify_window_geometry _ _ _ (fun _ => rfl)

theorem create_window_button_geometry (cfg : config) (env : create_env) (s : world) (w : Nat)
    (b : button_type) :
    (create_window_button cfg env s w b).app.window_ll.map geometry =
      s.app.window_ll.map geometry := by
  unfold create_window_button
  dsimp only
  split
  · refine Eq.trans (modify_window_geometry _ _ _ ?_) (create_button_geometry cfg _ s w _ b)
    intro _
    rfl
  · rfl

theorem create_decorations_geometry (cfg : config) (env : create_env) (s : world) (w : Nat) :
    (create_decorations cfg env s w).app.window_ll.map geometry =
      s.app.window_ll.map geometry := by
  unfold create_decorations
  split
  · dsimp only
    have h1 : ((create_titlebar cfg env.titlebar s w TITLE_BAR_HEIGHT).1.app.modify_window w
        (fun x => { x with decoration :=
          (create_titlebar cfg env.titlebar s w TITLE_BAR_HEIGHT).2 })).window_ll.map geometry =
        s.app.window_ll.map geometry := by
      refine Eq.trans (modify_window_geometry _ _ _ ?_) (create_titlebar_geometry cfg _ s w _)
      intro _
      rfl
    split
    · exact h1
    · simp only [List.foldl]
      rw [create_window_button_geometry, create_window_button_geometry]
      exact h1
  · rfl

theorem create_shell_surface_geometry (cfg : config) (env : create_env) (fuel : Nat)
    (s : world) (w : Nat) (r : world) (label : Nat)
    (h : create_shell_surface cfg env fuel s w = some (r, label)) :
    r.app.window_ll.map geometry = s.app.window_ll.map geometry := by
  unfold create_shell_surface at h
  dsimp only at h
  repeat' (first | split at h | dsimp only at h)
  all_goals first
    | (exfalso; exact Option.noConfusion h)
    | (simp only [Option.some.injEq, Prod.mk.injEq] at h
       obtain ⟨h1, _⟩ := h
       subst h1
       first
         | rfl
         | exact modify_window_geometry _ _ _ (fun _ => rfl)
         | (refine Eq.trans (modify_window_geometry _ _ _ ?_)
               (modify_window_geometry _ _ _ ?_) <;> intro _ <;> rfl))


theorem create_window_shell_some_geometry (cfg : config) (env : create_env) (fuel : Nat) (s : world)
    (w : Nat) (s1 : world) (r : Nat)
    (h : create_window_shell cfg env fuel s w = some (s1, some r)) :
    r = w ∧ s1.app.window_ll.map geometry = s.app.window_ll.map geometry := by
  unfold create_window_shell at h
  split at h
  · exact Option.noConfusion h
  · rename_i s2 hshell
    simp only [Option.some.injEq, Prod.mk.injEq] at h
    obtain ⟨h1, h2⟩ := h
    subst h1
    refine ⟨h2.symm, ?_⟩
    exact (create_decorations_geometry cfg env s2 w).trans
      (create_shell_surface_geometry _ _ _ _ _ _ _ hshell)
  · simp only [Option.some.injEq, Prod.mk.injEq] at h
    exact Option.noConfusion h.2
  · simp only [Option.some.injEq, Prod.mk.injEq] at h
    exact Option.noConfusion h.2

theorem create_window_surface_some_geometry (cfg : config) (env : create_env) (fuel : Nat) (s : world)
    (w : Nat) (s1 : world) (r : Nat)
    (h : create_window_surface cfg env fuel s w = some (s1, some r)) :
    r = w ∧ s1.app.window_ll.map geometry = s.app.window_ll.map geometry := by
  unfold create_window_surface at h
  split at h
  · simp only [Option.some.injEq, Prod.mk.injEq] at h
    exact Option.noConfusion h.2
  · obtain ⟨h1, h2⟩ := create_window_shell_some_geometry _ _ _ _ _ _ _ h
    refine ⟨h1, h2.trans ?_⟩
    refine modify_window_geometry _ _ _ ?_
    intro _; rfl

theorem create_window_buffer_some_geometry (cfg : config) (env : create_env) (fuel : Nat) (s : world)
    (w : Nat) (width height : Int) (s1 : world) (r : Nat)
    (h : create_window_buffer cfg env fuel s w width height = some (s1, some r)) :
    r = w ∧ s1.app.window_ll.map geometry = s.app.window_ll.map geometry := by
  unfold create_window_buffer at h
  split at h
  · simp only [Option.some.injEq, Prod.mk.injEq] at h
    exact Option.noConfusion h.2
  · obtain ⟨h1, h2⟩ := create_window_surface_some_geometry _ _ _ _ _ _ _ h
    refine ⟨h1, h2.trans ?_⟩
    refine modify_window_geometry _ _ _ ?_
    intro _; rfl

theorem create_window_pool_some_geometry (cfg : config) (env : create_env) (fuel : Nat) (s : world)
    (w : Nat) (width height : Int) (s1 : world) (r : Nat)
    (h : create_window_pool cfg env fuel s w width height = some (s1, some r)) :
    r = w ∧ s1.app.window_ll.map geometry = s.app.window_ll.map geometry := by
  unfold create_window_pool at h
  split at h
  · simp only [Option.some.injEq, Prod.mk.injEq] at h
    exact Option.noConfusion h.2
  · obtain ⟨h1, h2⟩ := create_window_buffer_some_geometry _ _ _ _ _ _ _ _ _ h
    refine ⟨h1, h2.trans ?_⟩
    refine modify_window_geometry _ _ _ ?_
    intro _; rfl

theorem create_window_map_some_geometry (cfg : config) (env : create_env) (fuel : Nat) (s : world)
    (w : Nat) (width height : Int) (s1 : world) (r : Nat)
    (h : create_window_map cfg env fuel s w width height = some (s1, some r)) :
    r = w ∧ s1.app.window_ll.map geometry = s.app.window_ll.map geometry := by
  unfold create_window_map at h
  split at h
  · simp only [Option.some.injEq, Prod.mk.injEq] at h
    exact Option.noConfusion h.2
  · split at h
    · simp only [Option.some.injEq, Prod.mk.injEq] at h
      exact Option.noConfusion h.2
    · obtain ⟨h1, h2⟩ := create_window_pool_some_geometry _ _ _ _ _ _ _ _ _ h
      refine ⟨h1, h2.trans ?_⟩
      refine modify_window_geometry _ _ _ ?_
      intro _; rfl

theorem create_window_file_some_geometry (cfg : config) (env : create_env) (fuel : Nat) (s : world)
    (w : Nat) (width height : Int) (s1 : world) (r : Nat)
    (h : create_window_file cfg env fuel s w width height = some (s1, some r)) :
    r = w ∧ s1.app.window_ll.map geometry = s.app.window_ll.map geometry := by
  unfold create_window_file at h
  dsimp only at h
  split at h
  · simp only [Option.some.injEq, Prod.mk.injEq] at h
    exact Option.noConfusion h.2
  · split at h
    · simp only [Option.some.injEq, Prod.mk.injEq] at h
      exact Option.noConfusion h.2
    · obtain ⟨h1, h2⟩ := create_window_map_some_geometry _ _ _ _ _ _ _ _ _ h
      refine ⟨h1, h2.trans ?_⟩
      simp only [world_emit_app]
      split <;> rfl

theorem create_window_some_geometry (cfg : config) (env : create_env) (fuel : Nat) (s : world)
    (width height : Int) (s1 : world) (w : Nat)
    (h : create_window cfg env fuel s width height = some (s1, some w)) :
    w = s.app.window_ll.length ∧
    s1.app.window_ll.map geometry =
      s.app.window_ll.map geometry ++ [(width, height, window_data_size cfg width height)] := by
  unfold create_window at h
  dsimp only at h
  split at h
  · simp only [Option.some.injEq, Prod.mk.injEq] at h
    exact Option.noConfusion h.2
  · obtain ⟨h1, h2⟩ := create_window_file_some_geometry _ _ _ _ _ _ _ _ _ h
    refine ⟨h1, h2.trans ?_⟩
    simp only [List.map_append, List.map_cons, List.map_nil]
    rfl

theorem input_set_geometry (app : application) (p : input_ptr) (f : input → input) :
    (input_set app p f).window_ll.map geometry = app.window_ll.map geometry := by
  cases p <;> exact modify_window_map _ _ _ _ (fun _ => rfl)

theorem dispatch_geometry (cfg : config) (s : world) (e : wl_event) :
    (dispatch cfg s e).app.window_ll.map geometry = s.app.window_ll.map geometry := by
  cases e
  all_goals simp only [dispatch]
  case pointer_enter surface sx sy =>
    unfold pointer_handle_enter
    cases surface with
    | none => rfl
    | some p =>
      simp only
      split
      · show (input_set (input_set _ p _) p _).window_ll.map geometry = _
        rw [input_set_geometry, input_set_geometry]
      · rw [input_set_geometry, input_set_geometry]
  case pointer_leave surface =>
    unfold pointer_handle_leave
    split <;> rfl
  case pointer_motion sx sy =>
    unfold pointer_handle_motion
    repeat' (first | split | dsimp only)
    all_goals first
      | rfl
      | rw [input_set_geometry, input_set_geometry]
  case pointer_button button state =>
    unfold pointer_handle_button
    repeat' (first | split | dsimp only)
    all_goals first
      | rfl
      | exact input_set_geometry _ _ _
      | exact modify_window_geometry _ _ _ (fun _ => rfl)
  case pointer_axis axis value =>
    unfold pointer_handle_axis
    repeat' (first | split | dsimp only)
    all_goals first
      | rfl
      | exact input_set_geometry _ _ _
  case keyboard_keymap f m c t =>
    unfold keyboard_handle_keymap
    repeat' (first | split | dsimp only)
    all_goals rfl
  case keyboard_enter surface => rfl
  case keyboard_leave surface =>
    unfold keyboard_handle_leave
    split <;> rfl
  case keyboard_key key state =>
    unfold keyboard_handle_key
    repeat' (first | split | dsimp only)
    all_goals first
      | rfl
      | exact input_set_geometry _ _ _
  case keyboard_modifiers a b c d =>
    unfold keyboard_handle_modifiers
    split <;> rfl
  case touch_down surface x_w y_w =>
    unfold touch_handle_down
    split
    · rfl
    · simp only [input_set_geometry]
  case touch_up =>
    unfold touch_handle_up
    split
    · rfl
    · show (input_set _ _ _).window_ll.map geometry = _
      simp only [input_set_geometry]
  case touch_motion x_w y_w =>
    unfold touch_handle_motion
    split
    · rfl
    · rw [input_set_geometry, input_set_geometry]
  case seat_capabilities caps ok =>
    unfold seat_handle_capabilities
    repeat' (first | split | dsimp only)
    all_goals rfl
  case xdg_toplevel_close w =>
    split
    · exact modify_window_geometry _ _ _ (fun _ => rfl)
    · rfl
  case shm_format format =>
    unfold shm_format
    repeat' (first | split | dsimp only)
  case global interface =>
    unfold handle_global
    repeat' (first | split | dsimp only)

theorem dispatch_list_geometry (cfg : config) (events : List wl_event) (s : world) :
    (events.foldl (dispatch cfg) s).app.window_ll.map geometry =
      s.app.window_ll.map geometry := by
  induction events generalizing s with
  | nil => rfl
  | cons e rest ih =>
    rw [List.foldl_cons, ih, dispatch_geometry]

theorem prepare_read_loop_geometry (cfg : config) (queued : List (List wl_event))
    (s : world) :
    (prepare_read_loop cfg s queued).app.window_ll.map geometry =
      s.app.window_ll.map geometry := by
  induction queued generalizing s with
  | nil => rfl
  | cons batch rest ih =>
    show (prepare_read_loop cfg _ rest).app.window_ll.map geometry = _
    rw [ih]
    unfold wl_display_dispatch_pending
    rw [dispatch_list_geometry]
    rfl

theorem window_cycle_close_geometry (cfg : config) (s : world) (disp_drv : lv_disp_drv_t)
    (w : Nat) (time px : Nat) :
    (window_cycle_close cfg s disp_drv w time px).app.window_ll.map geometry =
      s.app.window_ll.map geometry := by
  cases hw : s.app.window_ll[w]? with
  | none =>
    unfold window_cycle_close
    simp only [application_modify_window_ll, modify_window_getElem?, if_true, hw,
      Option.map_none']
    exact modify_window_geometry _ _ _ (fun _ => rfl)
  | some win =>
    rw [(window_cycle_close_spec cfg s disp_drv w time px win hw).1]
    split
    · refine Eq.trans (modify_window_geometry _ _ _ ?_) (modify_window_geometry _ _ _ ?_)
      · intro _; rfl
      · intro _; rfl
    · exact modify_window_geometry _ _ _ (fun _ => rfl)

theorem window_cycle_round_geometry (cfg : config) (env : cycle_env) (s : world)
    (shall_flush : Bool) :
    (window_cycle_round cfg env s shall_flush).app.window_ll.map geometry =
      s.app.window_ll.map geometry := by
  unfold window_cycle_round
  dsimp only
  generalize List.foldl (fun acc (a_window : window) => acc || a_window.flush_pending)
    shall_flush s.app.window_ll = sf
  generalize hs1 :
    ({ s with
       app := { s.app with
                window_ll := s.app.window_ll.map (fun a_window =>
                  { a_window with flush_pending := false, cycled := false }) } } : world) = s1
  have g1 : s1.app.window_ll.map geometry = s.app.window_ll.map geometry := by
    rw [← hs1]
    simp [geometry, Function.comp]
  have g2 := prepare_read_loop_geometry cfg env.queued s1
  generalize prepare_read_loop cfg s1 env.queued = s2 at g2 ⊢
  generalize hs3 : (if sf = true then
      ({ s2 with app := { s2.app with cursor_flush_pending := false },
                 trace := s2.trace ++ [effect.wl_display_flush] } : world)
    else s2) = s3
  have g3 : s3.app.window_ll.map geometry = s2.app.window_ll.map geometry := by
    rw [← hs3]
    split <;> rfl
  have g4 : (wl_display_dispatch_pending cfg (s3.emit effect.wl_display_read_events)
      env.arrived).app.window_ll.map geometry = s3.app.window_ll.map geometry := by
    unfold wl_display_dispatch_pending
    rw [dispatch_list_geometry]
    rfl
  generalize wl_display_dispatch_pending cfg (s3.emit effect.wl_display_read_events)
    env.arrived = s4 at g4 ⊢
  split
  · show s4.app.window_ll.map geometry = _
    rw [g4, g3, g2, g1]
  · rw [g4, g3, g2, g1]

theorem window_cycle_geometry (cfg : config) (env : cycle_env) (s : world)
    (disp_drv : lv_disp_drv_t) (time px : Nat) :
    (window_cycle cfg env s disp_drv time px).app.window_ll.map geometry =
      s.app.window_ll.map geometry := by
  unfold window_cycle
  split
  · rfl
  · dsimp only
    split
    · rw [window_cycle_round_geometry, window_cycle_close_geometry]
    · exact window_cycle_close_geometry cfg s disp_drv _ time px

theorem flush_draw_geometry (cfg : config) (s : world) (disp_drv : lv_disp_drv_t) (w : Nat)
    (area : lv_area_t) (color_p : Nat → lv_color_t) (is_last : Bool) :
    (flush_draw cfg s disp_drv w area color_p is_last).app.window_ll.map geometry =
      s.app.window_ll.map geometry := by
  unfold flush_draw
  dsimp only
  split
  · rfl
  · split
    · refine Eq.trans (modify_window_geometry _ _ _ ?_) (modify_window_geometry _ _ _ ?_)
      · intro _; rfl
      · intro _; rfl
    · exact modify_window_geometry _ _ _ (fun _ => rfl)

theorem lv_wayland_flush_geometry (cfg : config) (env : create_env) (fuel : Nat) (s : world)
    (disp_drv : lv_disp_drv_t) (area : lv_area_t) (color_p : Nat → lv_color_t)
    (is_last : Bool) (r : world) (drv2 : lv_disp_drv_t)
    (h : lv_wayland_flush cfg env fuel s disp_drv area color_p is_last = some (r, drv2)) :
    (disp_drv.user_data ≠ none →
      r.app.window_ll.map geometry = s.app.window_ll.map geometry) ∧
    (disp_drv.user_data = none →
      r.app.window_ll.map geometry = s.app.window_ll.map geometry ∨
      r.app.window_ll.map geometry = s.app.window_ll.map geometry ++
        [((if disp_drv.rotated = 0 then disp_drv.hor_res else disp_drv.ver_res),
          (if disp_drv.rotated = 0 then disp_drv.ver_res else disp_drv.hor_res),
          window_data_size cfg
            (if disp_drv.rotated = 0 then disp_drv.hor_res else disp_drv.ver_res)
            (if disp_drv.rotated = 0 then disp_drv.ver_res else disp_drv.hor_res))]) := by
  unfold lv_wayland_flush at h
  dsimp only at h
  cases hd : disp_drv.user_data with
  | none =>
    refine ⟨fun hne => absurd rfl hne, fun _ => ?_⟩
    simp only [hd] at h
    cases hc : create_window cfg env fuel s
        (if disp_drv.rotated = 0 then disp_drv.hor_res else disp_drv.ver_res)
        (if disp_drv.rotated = 0 then disp_drv.ver_res else disp_drv.hor_res) with
    | none =>
      rw [hc] at h
      cases h
    | some res =>
      obtain ⟨s1, ow⟩ := res
      rw [hc] at h
      cases ow with
      | none =>
        simp only [Option.some.injEq, Prod.mk.injEq] at h
        obtain ⟨h1, _⟩ := h
        subst h1
        left
        have hnode : env.node_ok = true ∨ env.node_ok = false := by
          cases env.node_ok
          · exact Or.inr rfl
          · exact Or.inl rfl
        rcases hnode with hn | hn
        · have hs : s1.app = s.app := by
            unfold create_window at hc
            simp only [hn, Bool.not_true, Bool.false_eq_true, if_false] at hc
            have hu := create_window_file_unwinds cfg env fuel _ s.app.window_ll.length _ _
              s1 ⟨{ zero_window with
                    width := (if disp_drv.rotated = 0 then disp_drv.hor_res
                      else disp_drv.ver_res),
                    height := (if disp_drv.rotated = 0 then disp_drv.ver_res
                      else disp_drv.hor_res),
                    data_size := window_data_size cfg
                      (if disp_drv.rotated = 0 then disp_drv.hor_res else disp_drv.ver_res)
                      (if disp_drv.rotated = 0 then disp_drv.ver_res
                        else disp_drv.hor_res) },
                  by simp, rfl, rfl, rfl⟩ hc
            rw [hu.1]
            have he : ∀ x : window,
                (s.app.window_ll ++ [x]).eraseIdx s.app.window_ll.length = s.app.window_ll := by
              intro x
              rw [List.eraseIdx_append_of_length_le (le_refl _)]
              simp
            dsimp only
            rw [he]
          rw [hs]
        · unfold create_window at hc
          simp only [hn, Bool.not_false, if_true, Option.some.injEq, Prod.mk.injEq,
            and_true] at hc
          rw [← hc]
      | some w =>
        simp only [Option.some.injEq, Prod.mk.injEq] at h
        obtain ⟨h1, _⟩ := h
        subst h1
        right
        rw [flush_draw_geometry]
        refine Eq.trans (modify_window_geometry _ _ _ (fun _ => rfl)) ?_
        exact (create_window_some_geometry cfg env fuel s _ _ s1 w hc).2
  | some w =>
    refine ⟨fun _ => ?_, fun hn => Option.noConfusion hn⟩
    simp only [hd] at h
    repeat' split at h
    all_goals cases h
    all_goals first
      | rfl
      | exact flush_draw_geometry cfg s disp_drv w area color_p is_last

theorem carve_at_modify (app : application) (w : Nat) (f : window → window) (c : carve)
    (g : carve → carve) (h : carve_at app w = some c) (hf : ∀ x, (f x).carve = g x.carve) :
    carve_at (app.modify_window w f) w = some (g c) := by
  unfold carve_at at h ⊢
  rw [application_modify_window_ll, modify_window_getElem?, if_pos rfl]
  cases hx : app.window_ll[w]? with
  | none =>
    rw [hx] at h
    cases h
  | some x =>
    rw [hx] at h
    simp only [Option.map_some', Option.some.injEq] at h ⊢
    rw [hf, h]

theorem create_shell_surface_carve (cfg : config) (env : create_env) (fuel : Nat)
    (s : world) (w : Nat) (s2 : world) (label : Nat) (c : carve)
    (hc : carve_at s.app w = some c)
    (h : create_shell_surface cfg env fuel s w = some (s2, label)) :
    carve_at s2.app w = some c := by
  unfold create_shell_surface at h
  dsimp only at h
  repeat' (first | split at h | dsimp only at h)
  all_goals first
    | (exfalso; exact Option.noConfusion h)
    | (simp only [Option.some.injEq, Prod.mk.injEq] at h
       obtain ⟨h1, _⟩ := h
       subst h1
       first
         | exact hc
         | exact carve_at_modify _ w _ c id hc (fun _ => rfl)
         | exact carve_at_modify _ w _ c id
             (carve_at_modify _ w _ c id hc (fun _ => rfl)) (fun _ => rfl))

theorem create_window_shell_reaches (cfg : config) (env : create_env) (fuel : Nat)
    (s : world) (w : Nat) (r : world) (v : Nat) (c : carve)
    (hc : carve_at s.app w = some c)
    (h : create_window_shell cfg env fuel s w = some (r, some v)) :
    ∃ s2, carve_at s2.app w = some c ∧
      r = (create_decorations cfg env s2 w).emit
        (effect.release (input_ptr.of_window w) resource.fd) := by
  unfold create_window_shell at h
  split at h
  · exact Option.noConfusion h
  · rename_i s2 hshell
    simp only [Option.some.injEq, Prod.mk.injEq] at h
    exact ⟨s2, create_shell_surface_carve cfg env fuel s w s2 0 c hc hshell, h.1.symm⟩
  · simp only [Option.some.injEq, Prod.mk.injEq] at h
    exact Option.noConfusion h.2
  · simp only [Option.some.injEq, Prod.mk.injEq] at h
    exact Option.noConfusion h.2

theorem create_window_surface_reaches (cfg : config) (env : create_env) (fuel : Nat)
    (s : world) (w : Nat) (r : world) (v : Nat) (c : carve)
    (hc : carve_at s.app w = some c)
    (h : create_window_surface cfg env fuel s w = some (r, some v)) :
    ∃ s2, carve_at s2.app w = some c ∧
      r = (create_decorations cfg env s2 w).emit
        (effect.release (input_ptr.of_window w) resource.fd) := by
  unfold create_window_surface at h
  split at h
  · simp only [Option.some.injEq, Prod.mk.injEq] at h
    exact Option.noConfusion h.2
  · refine create_window_shell_reaches cfg env fuel _ w r v c ?_ h
    exact carve_at_modify _ w _ c id hc (fun _ => rfl)

theorem create_window_buffer_reaches (cfg : config) (env : create_env) (fuel : Nat)
    (s : world) (w : Nat) (width height : Int) (r : world) (v : Nat) (c : carve)
    (hc : carve_at s.app w = some c)
    (h : create_window_buffer cfg env fuel s w width height = some (r, some v)) :
    ∃ s2, carve_at s2.app w =
        some { c with offset :=
          (c.offset + to_uint32 (width * height * BYTES_PER_PIXEL cfg)) % 2 ^ 32 } ∧
      r = (create_decorations cfg env s2 w).emit
        (effect.release (input_ptr.of_window w) resource.fd) := by
  unfold create_window_buffer at h
  split at h
  · simp only [Option.some.injEq, Prod.mk.injEq] at h
    exact Option.noConfusion h.2
  · refine create_window_surface_reaches cfg env fuel _ w r v _ ?_ h
    exact carve_at_modify _ w _ c
      (fun k => { k with offset :=
        (k.offset + to_uint32 (width * height * BYTES_PER_PIXEL cfg)) % 2 ^ 32 })
      hc (fun _ => rfl)

theorem create_window_pool_reaches (cfg : config) (env : create_env) (fuel : Nat)
    (s : world) (w : Nat) (width height : Int) (r : world) (v : Nat) (c : carve)
    (hc : carve_at s.app w = some c)
    (h : create_window_pool cfg env fuel s w width height = some (r, some v)) :
    ∃ s2, carve_at s2.app w =
        some { c with offset :=
          (c.offset + to_uint32 (width * height * BYTES_PER_PIXEL cfg)) % 2 ^ 32 } ∧
      r = (create_decorations cfg env s2 w).emit
        (effect.release (input_ptr.of_window w) resource.fd) := by
  unfold create_window_pool at h
  split at h
  · simp only [Option.some.injEq, Prod.mk.injEq] at h
    exact Option.noConfusion h.2
  · refine create_window_buffer_reaches cfg env fuel _ w width height r v c ?_ h
    exact carve_at_modify _ w _ c id hc (fun _ => rfl)

theorem create_window_map_reaches (cfg : config) (env : create_env) (fuel : Nat)
    (s : world) (w : Nat) (width height : Int) (r : world) (v : Nat) (c : carve)
    (hc : carve_at s.app w = some c)
    (h : create_window_map cfg env fuel s w width height = some (r, some v)) :
    ∃ s2, carve_at s2.app w =
        some { c with offset :=
          (c.offset + to_uint32 (width * height * BYTES_PER_PIXEL cfg)) % 2 ^ 32 } ∧
      r = (create_decorations cfg env s2 w).emit
        (effect.release (input_ptr.of_window w) resource.fd) := by
  unfold create_window_map at h
  split at h
  · simp only [Option.some.injEq, Prod.mk.injEq] at h
    exact Option.noConfusion h.2
  · split at h
    · simp only [Option.some.injEq, Prod.mk.injEq] at h
      exact Option.noConfusion h.2
    · refine create_window_pool_reaches cfg env fuel _ w width height r v c ?_ h
      exact carve_at_modify _ w _ c id hc (fun _ => rfl)

theorem create_window_file_reaches (cfg : config) (env : create_env) (fuel : Nat)
    (s : world) (w : Nat) (width height : Int) (r : world) (v : Nat) (c : carve)
    (hc : carve_at s.app w = some c)
    (h : create_window_file cfg env fuel s w width height = some (r, some v)) :
    ∃ s2, carve_at s2.app w =
        some { c with offset :=
          (c.offset + to_uint32 (width * height * BYTES_PER_PIXEL cfg)) % 2 ^ 32 } ∧
      r = (create_decorations cfg env s2 w).emit
        (effect.release (input_ptr.of_window w) resource.fd) := by
  unfold create_window_file at h
  dsimp only at h
  split at h
  · simp only [Option.some.injEq, Prod.mk.injEq] at h
    exact Option.noConfusion h.2
  · split at h
    · simp only [Option.some.injEq, Prod.mk.injEq] at h
      exact Option.noConfusion h.2
    · refine create_window_map_reaches cfg env fuel _ w width height r v c ?_ h
      simp only [world_emit_app]
      split <;> exact hc

theorem create_window_reaches (cfg : config) (env : create_env) (fuel : Nat)
    (s : world) (width height : Int) (r : world) (w : Nat)
    (h : create_window cfg env fuel s width height = some (r, some w)) :
    ∃ s2, carve_at s2.app w =
        some { offset := (0 + to_uint32 (width * height * BYTES_PER_PIXEL cfg)) % 2 ^ 32,
               titlebar := none, close := none, minimize := none, width := width } ∧
      r = (create_decorations cfg env s2 w).emit
        (effect.release (input_ptr.of_window w) resource.fd) := by
  have hw := (create_window_some cfg env fuel s width height r w h).1
  subst hw
  unfold create_window at h
  dsimp only at h
  split at h
  · simp only [Option.some.injEq, Prod.mk.injEq] at h
    exact Option.noConfusion h.2
  · refine create_window_file_reaches cfg env fuel _ _ width height r _
      { offset := 0, titlebar := none, close := none, minimize := none, width := width } ?_ h
    unfold carve_at
    show ((s.app.window_ll ++ [_])[s.app.window_ll.length]?).map window.carve = _
    simp
    rfl

theorem carve_at_window (app : application) (w : Nat) (c : carve)
    (h : carve_at app w = some c) : ∃ win, app.window_ll[w]? = some win ∧ win.carve = c := by
  unfold carve_at at h
  cases hx : app.window_ll[w]? with
  | none =>
    rw [hx] at h
    cases h
  | some x =>
    rw [hx] at h
    exact ⟨x, rfl, Option.some.inj h⟩

theorem create_titlebar_carve (cfg : config) (env : part_env) (s : world) (w : Nat)
    (h : Nat) (c : carve) (hc : carve_at s.app w = some c) :
    ((create_titlebar cfg env s w h).2 = none ∧
      carve_at (create_titlebar cfg env s w h).1.app w = some c) ∨
    (∃ d, (create_titlebar cfg env s w h).2 = some d ∧ d.data = c.offset ∧
      carve_at (create_titlebar cfg env s w h).1.app w =
        some { c with offset :=
          (c.offset + (to_uint32 c.width * h * BYTES_PER_PIXEL cfg) % 2 ^ 32) % 2 ^ 32 }) := by
  obtain ⟨win, hw, hwc⟩ := carve_at_window s.app w c hc
  have ho : win.data_offset = c.offset := by rw [← hwc]; rfl
  have hwd : win.width = c.width := by rw [← hwc]; rfl
  unfold create_titlebar
  simp only [hw]
  split
  · exact Or.inl ⟨rfl, hc⟩
  · split
    · exact Or.inl ⟨rfl, hc⟩
    · split
      · exact Or.inl ⟨rfl, hc⟩
      · split
        · exact Or.inl ⟨rfl, hc⟩
        · refine Or.inr ⟨_, rfl, ho, ?_⟩
          rw [hwd]
          exact carve_at_modify _ w _ c
            (fun k => { k with offset :=
              (k.offset + (to_uint32 c.width * h * BYTES_PER_PIXEL cfg) % 2 ^ 32) % 2 ^ 32 })
            hc (fun _ => rfl)

theorem create_button_carve (cfg : config) (env : part_env) (s : world) (w : Nat)
    (size : Nat) (b : button_type) (c : carve) (hc : carve_at s.app w = some c) :
    ((create_button cfg env s w size b).2 = none ∧
      carve_at (create_button cfg env s w size b).1.app w = some c) ∨
    (∃ d, (create_button cfg env s w size b).2 = some d ∧ d.data = c.offset ∧
      carve_at (create_button cfg env s w size b).1.app w =
        some { c with offset :=
          (c.offset + (size * size * BYTES_PER_PIXEL cfg) % 2 ^ 32) % 2 ^ 32 }) := by
  obtain ⟨win, hw, hwc⟩ := carve_at_window s.app w c hc
  have ho : win.data_offset = c.offset := by rw [← hwc]; rfl
  unfold create_button
  simp only [hw]
  split
  · exact Or.inl ⟨rfl, hc⟩
  · split
    · exact Or.inl ⟨rfl, hc⟩
    · split
      · exact Or.inl ⟨rfl, hc⟩
      · split
        · exact Or.inl ⟨rfl, hc⟩
        · refine Or.inr ⟨_, rfl, ho, ?_⟩
          exact carve_at_modify _ w _ c
            (fun k => { k with offset :=
              (k.offset + (size * size * BYTES_PER_PIXEL cfg) % 2 ^ 32) % 2 ^ 32 })
            hc (fun _ => rfl)

theorem create_window_button_close_carve (cfg : config) (env : create_env) (s : world)
    (w : Nat) (c : carve) (hc : carve_at s.app w = some c) (h0 : c.close = none) :
    carve_at (create_window_button cfg env s w button_type.BUTTON_TYPE_CLOSE).app w = some c ∨
    carve_at (create_window_button cfg env s w button_type.BUTTON_TYPE_CLOSE).app w =
      some { c with
        offset := (c.offset + (BUTTON_SIZE * BUTTON_SIZE * BYTES_PER_PIXEL cfg) % 2 ^ 32) % 2 ^ 32,
        close := some c.offset } := by
  unfold create_window_button
  simp only [if_true]
  rcases create_button_carve cfg (env.button button_type.BUTTON_TYPE_CLOSE) s w BUTTON_SIZE
    button_type.BUTTON_TYPE_CLOSE c hc with ⟨h1, h2⟩ | ⟨d, h1, h2, h3⟩
  · left
    rw [carve_at_modify _ w _ c (fun k => { k with close := none }) h2, ← h0]
    intro x
    simp only [window.carve, h1]
    rfl
  · right
    rw [carve_at_modify _ w _ _ (fun k => { k with close := some c.offset }) h3]
    intro x
    simp only [window.carve, h1, ← h2]
    rfl

theorem create_window_button_minimize_carve (cfg : config) (env : create_env) (s : world)
    (w : Nat) (c : carve) (hc : carve_at s.app w = some c) (h0 : c.minimize = none) :
    carve_at (create_window_button cfg env s w button_type.BUTTON_TYPE_MINIMIZE).app w =
      some c ∨
    carve_at (create_window_button cfg env s w button_type.BUTTON_TYPE_MINIMIZE).app w =
      some { c with
        offset := (c.offset + (BUTTON_SIZE * BUTTON_SIZE * BYTES_PER_PIXEL cfg) % 2 ^ 32) % 2 ^ 32,
        minimize := some c.offset } := by
  unfold create_window_button
  dsimp only
  split
  · rcases create_button_carve cfg (env.button button_type.BUTTON_TYPE_MINIMIZE) s w
      BUTTON_SIZE button_type.BUTTON_TYPE_MINIMIZE c hc with ⟨h1, h2⟩ | ⟨d, h1, h2, h3⟩
    · left
      rw [carve_at_modify _ w _ c (fun k => { k with minimize := none }) h2, ← h0]
      intro x
      simp only [window.carve, h1]
      rfl
    · right
      rw [carve_at_modify _ w _ _ (fun k => { k with minimize := some c.offset }) h3]
      intro x
      simp only [window.carve, h1, ← h2]
      rfl
  · exact Or.inl hc

theorem create_decorations_carve (cfg : config) (env : create_env) (s : world) (w : Nat)
    (c : carve) (hc : carve_at s.app w = some c)
    (h0 : c.titlebar = none ∧ c.close = none ∧ c.minimize = none) :
    ∃ tb cl mn : Bool,
      (cfg.LV_WAYLAND_CLIENT_SIDE_DECORATIONS = false → tb = false) ∧
      carve_at (create_decorations cfg env s w).app w = some (carved cfg c tb cl mn) := by
  unfold create_decorations
  split
  · rename_i hdeco
    dsimp only
    rcases create_titlebar_carve cfg env.titlebar s w TITLE_BAR_HEIGHT c hc with
      ⟨h1, h2⟩ | ⟨d, h1, h2, h3⟩
    · refine ⟨false, false, false, fun _ => rfl, ?_⟩
      rw [h1]
      dsimp only
      have := carve_at_modify _ w (fun x => { x with decoration := none }) c
        (fun k => { k with titlebar := none }) h2 (fun _ => rfl)
      rw [this, ← h0.1]
      rfl
    · have hc1 := carve_at_modify _ w (fun x => { x with decoration := some d }) _
        (fun k => { k with titlebar := some c.offset }) h3 (by
          intro x
          simp only [window.carve, Option.map_some', h2])
      rw [h1]
      dsimp only
      simp only [List.foldl]
      generalize hs1 : (⟨(create_titlebar cfg env.titlebar s w
          TITLE_BAR_HEIGHT).1.app.modify_window w (fun x => { x with decoration := some d }),
        (create_titlebar cfg env.titlebar s w TITLE_BAR_HEIGHT).1.trace,
        (create_titlebar cfg env.titlebar s w TITLE_BAR_HEIGHT).1.exited⟩ : world) = s1
      have hc1' : carve_at s1.app w = some (carved cfg c true false false) := by
        rw [← hs1]
        refine hc1.trans ?_
        obtain ⟨o, t, cl, mn, wd⟩ := c
        obtain ⟨_, e2, e3⟩ := h0
        dsimp only at e2 e3
        subst e2 e3
        rfl
      rcases create_window_button_close_carve cfg env s1 w _ hc1' rfl with hcl | hcl
      · rcases create_window_button_minimize_carve cfg env _ w _ hcl rfl with hmn | hmn
        · refine ⟨true, false, false, ?_, ?_⟩
          · intro hf
            rw [hf] at hdeco
            exact absurd hdeco.1 (by simp)
          · exact hmn
        · refine ⟨true, false, true, ?_, ?_⟩
          · intro hf
            rw [hf] at hdeco
            exact absurd hdeco.1 (by simp)
          · rw [hmn]
            rfl
      · rcases create_window_button_minimize_carve cfg env _ w _ hcl rfl with hmn | hmn
        · refine ⟨true, true, false, ?_, ?_⟩
          · intro hf
            rw [hf] at hdeco
            exact absurd hdeco.1 (by simp)
          · rw [hmn]
            rfl
        · refine ⟨true, true, true, ?_, ?_⟩
          · intro hf
            rw [hf] at hdeco
            exact absurd hdeco.1 (by simp)
          · rw [hmn]
            rfl
  · rename_i hdeco
    refine ⟨false, false, false, fun _ => rfl, ?_⟩
    rw [hc]
    rfl

theorem to_uint32_of_range (x : Int) (h0 : 0 ≤ x) (h1 : x < 4294967296) :
    ((to_uint32 x : Nat) : Int) = x := by
  unfold to_uint32
  omega

theorem window_data_size_exact (cfg : config) (width height : Int) (hw : 0 ≤ width)
    (hh : 0 ≤ height) (hfit : spec_data_size cfg width height < 4294967296) :
    ((window_data_size cfg width height : Nat) : Int) = spec_data_size cfg width height := by
  have hB : (0 : Int) ≤ (BYTES_PER_PIXEL cfg : Int) := Int.ofNat_nonneg _
  have hP : 0 ≤ width * height * (BYTES_PER_PIXEL cfg : Int) :=
    mul_nonneg (mul_nonneg hw hh) hB
  have hT : 0 ≤ width * (TITLE_BAR_HEIGHT : Int) * (BYTES_PER_PIXEL cfg : Int) :=
    mul_nonneg (mul_nonneg hw (Int.ofNat_nonneg _)) hB
  have hQ : 0 ≤ (BUTTON_SIZE : Int) * (BUTTON_SIZE : Int) * (BYTES_PER_PIXEL cfg : Int) :=
    mul_nonneg (mul_nonneg (Int.ofNat_nonneg _) (Int.ofNat_nonneg _)) hB
  unfold spec_data_size at hfit ⊢
  simp only [NUM_BUTTONS, Nat.cast_ofNat] at hfit ⊢
  unfold window_data_size
  dsimp only
  cases hd : cfg.LV_WAYLAND_CLIENT_SIDE_DECORATIONS with
  | false =>
    rw [hd] at hfit
    simp only [Bool.false_eq_true, if_false, add_zero] at hfit ⊢
    exact to_uint32_of_range _ hP hfit
  | true =>
    rw [hd] at hfit
    simp only [if_true, List.foldl] at hfit ⊢
    have e1 := to_uint32_of_range _ hP (by omega)
    have e2 := to_uint32_of_range _ hT (by omega)
    have e3 := to_uint32_of_range _ hQ (by omega)
    have p2 : (2 : Nat) ^ 32 = 4294967296 := rfl
    rw [p2]
    omega

theorem titlebar_size_exact (cfg : config) (width : Int) (hw : 0 ≤ width)
    (hfit : width * (TITLE_BAR_HEIGHT : Int) * (BYTES_PER_PIXEL cfg : Int) < 4294967296) :
    to_uint32 width * TITLE_BAR_HEIGHT * BYTES_PER_PIXEL cfg =
      to_uint32 (width * TITLE_BAR_HEIGHT * BYTES_PER_PIXEL cfg) := by
  have hB : (0 : Int) ≤ (BYTES_PER_PIXEL cfg : Int) := Int.ofNat_nonneg _
  have hT : 0 ≤ width * (TITLE_BAR_HEIGHT : Int) * (BYTES_PER_PIXEL cfg : Int) :=
    mul_nonneg (mul_nonneg hw (Int.ofNat_nonneg _)) hB
  apply Int.ofNat_inj.mp
  rw [to_uint32_of_range _ hT hfit]
  push_cast
  rcases Nat.eq_zero_or_pos (BYTES_PER_PIXEL cfg) with h0 | h1
  · rw [h0]
    simp
  · have h24 : (TITLE_BAR_HEIGHT : Int) = 24 := rfl
    have hle : width ≤ width * (TITLE_BAR_HEIGHT : Int) * (BYTES_PER_PIXEL cfg : Int) := by
      rw [h24]
      have h1' : (1 : Int) ≤ (BYTES_PER_PIXEL cfg : Int) := by exact_mod_cast h1
      nlinarith
    rw [to_uint32_of_range width hw (by omega)]

theorem sub_buffers_packed (cfg : config) (x : window) (width height : Int)
    (tb cl mn : Bool)
    (hx : x.carve = carved cfg
      { offset := (0 + to_uint32 (width * height * BYTES_PER_PIXEL cfg)) % 2 ^ 32,
        titlebar := none, close := none, minimize := none, width := width } tb cl mn)
    (hwd : x.width = width) (hht : x.height = height)
    (hds : x.data_size = window_data_size cfg width height)
    (htb : cfg.LV_WAYLAND_CLIENT_SIDE_DECORATIONS = false → tb = false)
    (hw : 0 ≤ width) (hh : 0 ≤ height)
    (hfit : spec_data_size cfg width height < 4294967296) :
    (sub_buffers cfg x).Pairwise (fun a b => a.1 + a.2 ≤ b.1) ∧
    (∀ a ∈ sub_buffers cfg x, a.1 + a.2 ≤ x.data_offset) ∧
    x.data_offset ≤ x.data_size := by
  have hsize := window_data_size_exact cfg width height hw hh hfit
  have hB : (0 : Int) ≤ (BYTES_PER_PIXEL cfg : Int) := Int.ofNat_nonneg _
  have hP : 0 ≤ width * height * (BYTES_PER_PIXEL cfg : Int) :=
    mul_nonneg (mul_nonneg hw hh) hB
  have hT : 0 ≤ width * (TITLE_BAR_HEIGHT : Int) * (BYTES_PER_PIXEL cfg : Int) :=
    mul_nonneg (mul_nonneg hw (Int.ofNat_nonneg _)) hB
  have hQ : (0 : Int) ≤
      (BUTTON_SIZE : Int) * (BUTTON_SIZE : Int) * (BYTES_PER_PIXEL cfg : Int) :=
    mul_nonneg (mul_nonneg (Int.ofNat_nonneg _) (Int.ofNat_nonneg _)) hB
  have hoff : x.data_offset = x.carve.offset := rfl
  have p2 : (2 : Nat) ^ 32 = 4294967296 := rfl
  unfold spec_data_size at hfit hsize
  simp only [NUM_BUTTONS, Nat.cast_ofNat] at hfit hsize
  unfold sub_buffers
  rw [hoff, hds, hx, hwd, hht]
  cases tb with
  | false =>
    have e1 := to_uint32_of_range _ hP (by
      split at hfit <;> omega)
    simp only [carved, Bool.false_eq_true, if_false, Option.map_none', Option.toList_none,
      List.append_nil, List.pairwise_cons, List.not_mem_nil, false_implies, implies_true,
      List.Pairwise.nil, and_self, List.mem_singleton, forall_eq, true_and, p2]
    split at hsize <;> omega
  | true =>
    have hdeco : cfg.LV_WAYLAND_CLIENT_SIDE_DECORATIONS = true := by
      cases hd : cfg.LV_WAYLAND_CLIENT_SIDE_DECORATIONS with
      | true => rfl
      | false => exact absurd (htb hd) (by simp)
    rw [hdeco] at hfit hsize
    simp only [if_true] at hfit hsize
    have e1 := to_uint32_of_range _ hP (by omega)
    have e2 := to_uint32_of_range _ hT (by omega)
    have eV := titlebar_size_exact cfg width hw (by omega)
    have eQ : ((BUTTON_SIZE * BUTTON_SIZE * BYTES_PER_PIXEL cfg : Nat) : Int) =
        (BUTTON_SIZE : Int) * (BUTTON_SIZE : Int) * (BYTES_PER_PIXEL cfg : Int) := by
      push_cast
      rfl
    generalize hbq : BUTTON_SIZE * BUTTON_SIZE * BYTES_PER_PIXEL cfg = bq at eQ ⊢
    generalize hiq : (BUTTON_SIZE : Int) * (BUTTON_SIZE : Int) * (BYTES_PER_PIXEL cfg : Int) =
      iq at eQ hfit hsize hQ
    generalize to_uint32 (width * ↑TITLE_BAR_HEIGHT * ↑(BYTES_PER_PIXEL cfg)) = u2
      at e2 eV ⊢
    generalize to_uint32 (width * height * ↑(BYTES_PER_PIXEL cfg)) = u1 at e1 ⊢
    generalize window_data_size cfg width height = ds at hsize ⊢
    generalize width * height * ↑(BYTES_PER_PIXEL cfg) = ip at e1 hfit hsize hP
    generalize width * ↑TITLE_BAR_HEIGHT * ↑(BYTES_PER_PIXEL cfg) = it at e2 hfit hsize hT
    cases cl <;> cases mn <;>
      simp only [carved, if_true, Bool.false_eq_true, if_false, Option.map_none',
        Option.map_some', Option.toList_none, Option.toList_some, List.append_nil,
        List.nil_append, List.singleton_append, List.cons_append, List.pairwise_cons,
        List.not_mem_nil, false_implies, implies_true, List.Pairwise.nil, and_self,
        and_true, true_and, List.mem_cons, List.mem_singleton, forall_eq_or_imp, forall_eq,
        eV, p2] <;>
      omega

/-- C20. A window that `create_window` returns has the width and height asked for and a
backing memory of width*height*B bytes plus, with decorations compiled in,
width*TITLE_BAR_HEIGHT*B and NUM_BUTTONS*BUTTON_SIZE*BUTTON_SIZE*B bytes (sizes that
fit `unsigned int`); the regions handed out of it lie one after the other without
overlap, each ends at or before the running offset, and the running offset is at most
the size; and no listener, no round of the coordinator and no flush changes the width,
the height or the size of a window of the collection. -/
theorem window_memory_fixed_at_creation (cfg : config) (env : create_env) (fuel : Nat)
    (s : world) (width height : Int) (r : world) (w : Nat)
    (h : create_window cfg env fuel s width height = some (r, some w))
    (hw : 0 ≤ width) (hh : 0 ≤ height)
    (hfit : spec_data_size cfg width height < 4294967296) :
    (∃ x, r.app.window_ll[w]? = some x ∧
      x.width = width ∧ x.height = height ∧
      ((x.data_size : Nat) : Int) = spec_data_size cfg width height ∧
      (sub_buffers cfg x).Pairwise (fun a b => a.1 + a.2 ≤ b.1) ∧
      (∀ a ∈ sub_buffers cfg x, a.1 + a.2 ≤ x.data_offset) ∧
      x.data_offset ≤ x.data_size) ∧
    (∀ (t : world) (e : wl_event),
      (dispatch cfg t e).app.window_ll.map geometry = t.app.window_ll.map geometry) ∧
    (∀ (t : world) (cenv : cycle_env) (disp_drv : lv_disp_drv_t) (time px : Nat),
      (window_cycle cfg cenv t disp_drv time px).app.window_ll.map geometry =
        t.app.window_ll.map geometry) ∧
    (∀ (t : world) (env2 : create_env) (fuel2 : Nat) (disp_drv : lv_disp_drv_t)
        (area : lv_area_t) (color_p : Nat → lv_color_t) (is_last : Bool) (t2 : world)
        (drv2 : lv_disp_drv_t),
      lv_wayland_flush cfg env2 fuel2 t disp_drv area color_p is_last = some (t2, drv2) →
      t.app.window_ll.map geometry <+: t2.app.window_ll.map geometry) := by
  refine ⟨?_, fun t e => dispatch_geometry cfg t e,
    fun t cenv d time px => window_cycle_geometry cfg cenv t d time px, ?_⟩
  · obtain ⟨hwl, hgeo⟩ := create_window_some_geometry cfg env fuel s width height r w h
    obtain ⟨s2, hc2, hr⟩ := create_window_reaches cfg env fuel s width height r w h
    obtain ⟨tb, cl, mn, htb, hcarve⟩ :=
      create_decorations_carve cfg env s2 w _ hc2 ⟨rfl, rfl, rfl⟩
    have happ : r.app = (create_decorations cfg env s2 w).app := by rw [hr]; rfl
    rw [← happ] at hcarve
    unfold carve_at at hcarve
    cases hx : r.app.window_ll[w]? with
    | none => rw [hx] at hcarve; exact Option.noConfusion hcarve
    | some x =>
      rw [hx] at hcarve
      have hxc : x.carve = _ := Option.some.inj hcarve
      have hg : (r.app.window_ll.map geometry)[w]? = some (geometry x) := by
        rw [List.getElem?_map, hx]; rfl
      rw [hgeo, hwl, ← List.length_map s.app.window_ll geometry,
        List.getElem?_concat_length] at hg
      have hg2 : (width, height, window_data_size cfg width height) = geometry x :=
        Option.some.inj hg
      unfold geometry at hg2
      simp only [Prod.mk.injEq] at hg2
      obtain ⟨g1, g2, g3⟩ := hg2
      refine ⟨x, rfl, g1.symm, g2.symm, ?_,
        sub_buffers_packed cfg x width height tb cl mn hxc g1.symm g2.symm g3.symm htb
          hw hh hfit⟩
      rw [← g3]
      exact window_data_size_exact cfg width height hw hh hfit
  · intro t env2 fuel2 d area color_p is_last t2 drv2 hf
    obtain ⟨h1, h2⟩ :=
      lv_wayland_flush_geometry cfg env2 fuel2 t d area color_p is_last t2 drv2 hf
    by_cases hu : d.user_data = none
    · rcases h2 hu with h3 | h3
      · rw [h3]
      · rw [h3]; exact List.prefix_append _ _
    · rw [h1 hu]

theorem window_memory_fixed_at_creation_witness :
    create_window cfg_deco env_ok 0 (world_of []) 320 240 =
      some (world_first_window, some 0) ∧
    (0 : Int) ≤ 320 ∧ (0 : Int) ≤ 240 ∧ spec_data_size cfg_deco 320 240 < 4294967296 ∧
    (world_first_window.app.window_ll[0]?).map
        (fun x => (sub_buffers cfg_deco x, x.data_offset, x.data_size)) =
      some ([(0, 153600), (153600, 15360), (168960, 512), (169472, 512)], 169984, 169984) ∧
    ((∃ x, world_first_window.app.window_ll[0]? = some x ∧
      x.width = 320 ∧ x.height = 240 ∧
      ((x.data_size : Nat) : Int) = spec_data_size cfg_deco 320 240 ∧
      (sub_buffers cfg_deco x).Pairwise (fun a b => a.1 + a.2 ≤ b.1) ∧
      (∀ a ∈ sub_buffers cfg_deco x, a.1 + a.2 ≤ x.data_offset) ∧
      x.data_offset ≤ x.data_size) ∧
    (∀ (t : world) (e : wl_event),
      (dispatch cfg_deco t e).app.window_ll.map geometry = t.app.window_ll.map geometry) ∧
    (∀ (t : world) (cenv : cycle_env) (disp_drv : lv_disp_drv_t) (time px : Nat),
      (window_cycle cfg_deco cenv t disp_drv time px).app.window_ll.map geometry =
        t.app.window_ll.map geometry) ∧
    (∀ (t : world) (env2 : create_env) (fuel2 : Nat) (disp_drv : lv_disp_drv_t)
        (area : lv_area_t) (color_p : Nat → lv_color_t) (is_last : Bool) (t2 : world)
        (drv2 : lv_disp_drv_t),
      lv_wayland_flush cfg_deco env2 fuel2 t disp_drv area color_p is_last =
        some (t2, drv2) →
      t.app.window_ll.map geometry <+: t2.app.window_ll.map geometry)) :=
  ⟨rfl, by decide, by decide, by decide, by decide,
   window_memory_fixed_at_creation cfg_deco env_ok 0 (world_of []) 320 240
     world_first_window 0 rfl (by decide) (by decide) (by decide)⟩

/-! ## The shell a window is bound to -/

theorem tail_unbound_modify (app0 app : application) (f : window → window)
    (h : tail_unbound app0 app) (hf : ∀ x, shell_fields (f x) = shell_fields x) :
    tail_unbound app0 (app.modify_window app0.window_ll.length f) := by
  obtain ⟨x, rfl, hx⟩ := h
  refine ⟨f x, ?_, (hf x).trans hx⟩
  unfold application.modify_window modify_window
  simp

theorem create_window_shell_binds (cfg : config) (env : create_env) (fuel : Nat)
    (s : world) (w : Nat) (r : world) (v : Nat) (app0 : application)
    (ht : tail_unbound app0 s.app)
    (h : create_window_shell cfg env fuel s w = some (r, some v)) :
    ∃ s1 s2, tail_unbound app0 s1.app ∧
      create_shell_surface cfg env fuel s1 w = some (s2, 0) ∧
      r = (create_decorations cfg env s2 w).emit
        (effect.release (input_ptr.of_window w) resource.fd) := by
  unfold create_window_shell at h
  split at h
  · exact Option.noConfusion h
  · rename_i s2 hshell
    simp only [Option.some.injEq, Prod.mk.injEq] at h
    exact ⟨s, s2, ht, hshell, h.1.symm⟩
  · simp only [Option.some.injEq, Prod.mk.injEq] at h
    exact Option.noConfusion h.2
  · simp only [Option.some.injEq, Prod.mk.injEq] at h
    exact Option.noConfusion h.2

theorem create_window_surface_binds (cfg : config) (env : create_env) (fuel : Nat)
    (s : world) (w : Nat) (r : world) (v : Nat) (app0 : application)
    (hw : w = app0.window_ll.length) (ht : tail_unbound app0 s.app)
    (h : create_window_surface cfg env fuel s w = some (r, some v)) :
    ∃ s1 s2, tail_unbound app0 s1.app ∧
      create_shell_surface cfg env fuel s1 w = some (s2, 0) ∧
      r = (create_decorations cfg env s2 w).emit
        (effect.release (input_ptr.of_window w) resource.fd) := by
  unfold create_window_surface at h
  split at h
  · simp only [Option.some.injEq, Prod.mk.injEq] at h
    exact Option.noConfusion h.2
  · refine create_window_shell_binds cfg env fuel _ w r v app0 ?_ h
    rw [hw]
    exact tail_unbound_modify app0 _ _ ht (fun _ => rfl)

theorem create_window_buffer_binds (cfg : config) (env : create_env) (fuel : Nat)
    (s : world) (w : Nat) (width height : Int) (r : world) (v : Nat) (app0 : application)
    (hw : w = app0.window_ll.length) (ht : tail_unbound app0 s.app)
    (h : create_window_buffer cfg env fuel s w width height = some (r, some v)) :
    ∃ s1 s2, tail_unbound app0 s1.app ∧
      create_shell_surface cfg env fuel s1 w = some (s2, 0) ∧
      r = (create_decorations cfg env s2 w).emit
        (effect.release (input_ptr.of_window w) resource.fd) := by
  unfold create_window_buffer at h
  split at h
  · simp only [Option.some.injEq, Prod.mk.injEq] at h
    exact Option.noConfusion h.2
  · refine create_window_surface_binds cfg env fuel _ w r v app0 hw ?_ h
    rw [hw]
    exact tail_unbound_modify app0 _ _ ht (fun _ => rfl)

theorem create_window_pool_binds (cfg : config) (env : create_env) (fuel : Nat)
    (s : world) (w : Nat) (width height : Int) (r : world) (v : Nat) (app0 : application)
    (hw : w = app0.window_ll.length) (ht : tail_unbound app0 s.app)
    (h : create_window_pool cfg env fuel s w width height = some (r, some v)) :
    ∃ s1 s2, tail_unbound app0 s1.app ∧
      create_shell_surface cfg env fuel s1 w = some (s2, 0) ∧
      r = (create_decorations cfg env s2 w).emit
        (effect.release (input_ptr.of_window w) resource.fd) := by
  unfold create_window_pool at h
  split at h
  · simp only [Option.some.injEq, Prod.mk.injEq] at h
    exact Option.noConfusion h.2
  · refine create_window_buffer_binds cfg env fuel _ w width height r v app0 hw ?_ h
    rw [hw]
    exact tail_unbound_modify app0 _ _ ht (fun _ => rfl)

theorem create_window_map_binds (cfg : config) (env : create_env) (fuel : Nat)
    (s : world) (w : Nat) (width height : Int) (r : world) (v : Nat) (app0 : application)
    (hw : w = app0.window_ll.length) (ht : tail_unbound app0 s.app)
    (h : create_window_map cfg env fuel s w width height = some (r, some v)) :
    ∃ s1 s2, tail_unbound app0 s1.app ∧
      create_shell_surface cfg env fuel s1 w = some (s2, 0) ∧
      r = (create_decorations cfg env s2 w).emit
        (effect.release (input_ptr.of_window w) resource.fd) := by
  unfold create_window_map at h
  split at h
  · simp only [Option.some.injEq, Prod.mk.injEq] at h
    exact Option.noConfusion h.2
  · split at h
    · simp only [Option.some.injEq, Prod.mk.injEq] at h
      exact Option.noConfusion h.2
    · refine create_window_pool_binds cfg env fuel _ w width height r v app0 hw ?_ h
      rw [hw]
      exact tail_unbound_modify app0 _ _ ht (fun _ => rfl)

theorem create_window_file_binds (cfg : config) (env : create_env) (fuel : Nat)
    (s : world) (w : Nat) (width height : Int) (r : world) (v : Nat) (app0 : application)
    (hw : w = app0.window_ll.length) (ht : tail_unbound app0 s.app)
    (h : create_window_file cfg env fuel s w width height = some (r, some v)) :
    ∃ s1 s2, tail_unbound app0 s1.app ∧
      create_shell_surface cfg env fuel s1 w = some (s2, 0) ∧
      r = (create_decorations cfg env s2 w).emit
        (effect.release (input_ptr.of_window w) resource.fd) := by
  unfold create_window_file at h
  dsimp only at h
  split at h
  · simp only [Option.some.injEq, Prod.mk.injEq] at h
    exact Option.noConfusion h.2
  · split at h
    · simp only [Option.some.injEq, Prod.mk.injEq] at h
      exact Option.noConfusion h.2
    · refine create_window_map_binds cfg env fuel _ w width height r v app0 hw ?_ h
      simp only [world_emit_app]
      split <;> exact ht

/-- A successful `create_window` has gone through the shell binding with a window to
which nothing was bound yet, and ends with the decorations and the close of the file. -/
theorem create_window_binds (cfg : config) (env : create_env) (fuel : Nat)
    (s : world) (width height : Int) (r : world) (w : Nat)
    (h : create_window cfg env fuel s width height = some (r, some w)) :
    w = s.app.window_ll.length ∧
    ∃ s1 s2, tail_unbound s.app s1.app ∧
      create_shell_surface cfg env fuel s1 w = some (s2, 0) ∧
      r = (create_decorations cfg env s2 w).emit
        (effect.release (input_ptr.of_window w) resource.fd) := by
  have hw := (create_window_some cfg env fuel s width height r w h).1
  refine ⟨hw, ?_⟩
  unfold create_window at h
  dsimp only at h
  split at h
  · simp only [Option.some.injEq, Prod.mk.injEq] at h
    exact Option.noConfusion h.2
  · rw [← hw] at h
    refine create_window_file_binds cfg env fuel _ w width height r _ s.app hw ?_ h
    exact ⟨_, rfl, rfl⟩

theorem modify_window_shell_fields (app : application) (i : Nat) (f : window → window)
    (h : ∀ x, shell_fields (f x) = shell_fields x) :
    (app.modify_window i f).window_ll.map shell_fields = app.window_ll.map shell_fields :=
  modify_window_map _ _ _ _ h

theorem create_titlebar_shell_fields (cfg : config) (env : part_env) (s : world) (w : Nat)
    (h : Nat) :
    (create_titlebar cfg env s w h).1.app.window_ll.map shell_fields =
      s.app.window_ll.map shell_fields := by
  unfold create_titlebar
  repeat' (first | split | dsimp only)
  all_goals first
    | rfl
    | exact modify_window_shell_fields _ _ _ (fun _ => rfl)

theorem create_button_shell_fields (cfg : config) (env : part_env) (s : world) (w : Nat)
    (h : Nat) (b : button_type) :
    (create_button cfg env s w h b).1.app.window_ll.map shell_fields =
      s.app.window_ll.map shell_fields := by
  unfold create_button
  repeat' (first | split | dsimp only)
  all_goals first
    | rfl
    | exact modify_window_shell_fields _ _ _ (fun _ => rfl)

theorem create_window_button_shell_fields (cfg : config) (env : create_env) (s : world)
    (w : Nat) (b : button_type) :
    (create_window_button cfg env s w b).app.window_ll.map shell_fields =
      s.app.window_ll.map shell_fields := by
  unfold create_window_button
  dsimp only
  split
  · refine Eq.trans (modify_window_shell_fields _ _ _ ?_)
      (create_button_shell_fields cfg _ s w _ b)
    intro _
    rfl
  · rfl

theorem create_decorations_shell_fields (cfg : config) (env : create_env) (s : world)
    (w : Nat) :
    (create_decorations cfg env s w).app.window_ll.map shell_fields =
      s.app.window_ll.map shell_fields := by
  unfold create_decorations
  split
  · dsimp only
    have h1 : ((create_titlebar cfg env.titlebar s w TITLE_BAR_HEIGHT).1.app.modify_window w
        (fun x => { x with decoration :=
          (create_titlebar cfg env.titlebar s w TITLE_BAR_HEIGHT).2 })).window_ll.map
            shell_fields = s.app.window_ll.map shell_fields := by
      refine Eq.trans (modify_window_shell_fields _ _ _ ?_)
        (create_titlebar_shell_fields cfg _ s w _)
      intro _
      rfl
    split
    · exact h1
    · simp only [List.foldl]
      rw [create_window_button_shell_fields, create_window_button_shell_fields]
      exact h1
  · rfl

theorem create_shell_surface_binds (cfg : config) (env : create_env) (fuel : Nat)
    (s1 s2 : world) (w : Nat) (app0 : application)
    (hw : w = app0.window_ll.length) (ht : tail_unbound app0 s1.app)
    (h : create_shell_surface cfg env fuel s1 w = some (s2, 0)) :
    ∃ x, s2.app.window_ll[w]? = some x ∧
      shell_fields x =
        (if cfg.LV_WAYLAND_IVI_APPLICATION ∧ app0.ivi_application = true then
          (true, false, false, false)
        else if cfg.LV_WAYLAND_XDG_SHELL ∧ app0.xdg_wm = true then
          (false, true, true, false)
        else (false, false, false, true)) ∧
      (cfg.LV_WAYLAND_IVI_APPLICATION ∧ app0.ivi_application = true ∨
        cfg.LV_WAYLAND_XDG_SHELL ∧ app0.xdg_wm = true ∨
        cfg.LV_WAYLAND_WL_SHELL ∧ app0.wl_shell = true) := by
  obtain ⟨x0, happ, hx0⟩ := ht
  obtain ⟨app, trace, exited⟩ := s1
  dsimp only at happ
  subst happ
  subst hw
  unfold shell_fields at hx0
  simp only [Prod.mk.injEq] at hx0
  obtain ⟨f1, f2, f3, f4⟩ := hx0
  have hget1 : ∀ (f : window → window) (l : List window),
      (modify_window (l ++ [x0]) l.length f)[l.length]? = some (f x0) := by
    intro f l
    rw [modify_window_getElem?, if_pos rfl]
    simp
  have hget2 : ∀ (f g : window → window) (l : List window),
      (modify_window (modify_window (l ++ [x0]) l.length f) l.length g)[l.length]? =
        some (g (f x0)) := by
    intro f g l
    rw [modify_window_getElem?, if_pos rfl, modify_window_getElem?, if_pos rfl]
    simp
  unfold create_shell_surface at h
  dsimp only at h
  by_cases c1 : cfg.LV_WAYLAND_IVI_APPLICATION = true ∧ app0.ivi_application = true
  · rw [if_pos c1] at h
    rw [if_pos c1]
    split at h
    · exact Option.noConfusion h
    · split at h
      · simp only [Option.some.injEq, Prod.mk.injEq] at h
        exact absurd h.2 (by decide)
      · simp only [Option.some.injEq, Prod.mk.injEq, and_true] at h
        subst h
        refine ⟨_, hget1 _ _, ?_, Or.inl c1⟩
        simp only [shell_fields, f2, f3, f4]
  · rw [if_neg c1] at h
    rw [if_neg c1]
    by_cases c2 : cfg.LV_WAYLAND_XDG_SHELL = true ∧ app0.xdg_wm = true
    · rw [if_pos c2] at h
      rw [if_pos c2]
      split at h
      · simp only [Option.some.injEq, Prod.mk.injEq] at h
        exact absurd h.2 (by decide)
      · split at h
        · simp only [Option.some.injEq, Prod.mk.injEq] at h
          exact absurd h.2 (by decide)
        · simp only [Option.some.injEq, Prod.mk.injEq, and_true] at h
          subst h
          refine ⟨_, hget2 _ _ _, ?_, Or.inr (Or.inl c2)⟩
          simp only [shell_fields, f1, f4]
    · rw [if_neg c2] at h
      rw [if_neg c2]
      by_cases c3 : cfg.LV_WAYLAND_WL_SHELL = true ∧ app0.wl_shell = true
      · rw [if_pos c3] at h
        split at h
        · simp only [Option.some.injEq, Prod.mk.injEq] at h
          exact absurd h.2 (by decide)
        · simp only [Option.some.injEq, Prod.mk.injEq, and_true] at h
          subst h
          refine ⟨_, hget1 _ _, ?_, Or.inr (Or.inr c3)⟩
          simp only [shell_fields, f1, f2, f3]
      · rw [if_neg c3] at h
        simp only [Option.some.injEq, Prod.mk.injEq] at h
        exact absurd h.2 (by decide)

theorem available_variants_nil (cfg : config) (app : application) :
    available_variants cfg app = [] ↔
      ¬ (cfg.LV_WAYLAND_IVI_APPLICATION = true ∧ app.ivi_application = true) ∧
      ¬ (cfg.LV_WAYLAND_XDG_SHELL = true ∧ app.xdg_wm = true) ∧
      ¬ (cfg.LV_WAYLAND_WL_SHELL = true ∧ app.wl_shell = true) := by
  unfold available_variants
  by_cases c1 : cfg.LV_WAYLAND_IVI_APPLICATION = true ∧ app.ivi_application = true <;>
    by_cases c2 : cfg.LV_WAYLAND_XDG_SHELL = true ∧ app.xdg_wm = true <;>
    by_cases c3 : cfg.LV_WAYLAND_WL_SHELL = true ∧ app.wl_shell = true <;>
    simp [c1, c2, c3]

/-- C21. A window that `create_window` returns is bound to exactly one shell variant:
the first of IVI application, XDG shell and `wl_shell` that is compiled in and
advertised. The window holds the shell objects of that variant (for the XDG shell the
surface and the top-level) and none of another variant. When no variant is compiled in
and advertised, `create_window` returns no window. -/
theorem create_window_binds_one_shell (cfg : config) (env : create_env) (fuel : Nat)
    (s : world) (width height : Int) :
    (∀ r w, create_window cfg env fuel s width height = some (r, some w) →
      ∃ x v, r.app.window_ll[w]? = some x ∧
        (available_variants cfg s.app).head? = some v ∧
        bound_variants x = [v] ∧
        shell_fields x =
          (match v with
           | shell_variant.ivi_application => (true, false, false, false)
           | shell_variant.xdg_shell => (false, true, true, false)
           | shell_variant.wl_shell => (false, false, false, true))) ∧
    (available_variants cfg s.app = [] →
      ∃ r, create_window cfg env fuel s width height = some (r, none)) := by
  constructor
  · intro r w h
    obtain ⟨hw, s1, s2, ht, hshell, hr⟩ := create_window_binds cfg env fuel s width height r w h
    obtain ⟨x2, hx2, hf2, hav⟩ := create_shell_surface_binds cfg env fuel s1 s2 w s.app hw ht hshell
    have hmap : r.app.window_ll.map shell_fields = s2.app.window_ll.map shell_fields := by
      rw [hr]
      exact create_decorations_shell_fields cfg env s2 w
    have hget := congrArg (fun l => l[w]?) hmap
    simp only [List.getElem?_map, hx2, Option.map_some'] at hget
    cases hx : r.app.window_ll[w]? with
    | none =>
      rw [hx] at hget
      exact Option.noConfusion hget
    | some x =>
      rw [hx] at hget
      have hfx : shell_fields x = shell_fields x2 := Option.some.inj hget
      rw [hf2] at hfx
      have hb : ∀ y : window, bound_variants y =
          (if (shell_fields y).1 then [shell_variant.ivi_application] else []) ++
          ((if (shell_fields y).2.1 ∨ (shell_fields y).2.2.1 then [shell_variant.xdg_shell]
            else []) ++
           (if (shell_fields y).2.2.2 then [shell_variant.wl_shell] else [])) := fun _ => rfl
      unfold available_variants
      by_cases c1 : cfg.LV_WAYLAND_IVI_APPLICATION = true ∧ s.app.ivi_application = true
      · rw [if_pos c1] at hfx
        refine ⟨x, shell_variant.ivi_application, rfl, ?_, ?_, hfx⟩
        · rw [if_pos c1]
          rfl
        · rw [hb, hfx]
          decide
      · rw [if_neg c1] at hfx
        rw [if_neg c1]
        by_cases c2 : cfg.LV_WAYLAND_XDG_SHELL = true ∧ s.app.xdg_wm = true
        · rw [if_pos c2] at hfx
          refine ⟨x, shell_variant.xdg_shell, rfl, ?_, ?_, hfx⟩
          · rw [if_pos c2]
            rfl
          · rw [hb, hfx]
            decide
        · rw [if_neg c2] at hfx
          rw [if_neg c2]
          have c3 : cfg.LV_WAYLAND_WL_SHELL = true ∧ s.app.wl_shell = true := by
            rcases hav with h1 | h1 | h1
            · exact absurd h1 c1
            · exact absurd h1 c2
            · exact h1
          refine ⟨x, shell_variant.wl_shell, rfl, ?_, ?_, hfx⟩
          · rw [if_pos c3]
            rfl
          · rw [hb, hfx]
            decide
  · intro hnil
    obtain ⟨c1, c2, c3⟩ := (available_variants_nil cfg s.app).mp hnil
    cases hnode : env.node_ok with
    | false =>
      refine ⟨s, ?_⟩
      unfold create_window
      simp only [hnode, Bool.not_false, if_true]
    | true =>
      have hsf : ∀ app : application, app.ivi_application = s.app.ivi_application →
          app.xdg_wm = s.app.xdg_wm → app.wl_shell = s.app.wl_shell →
          shell_fails cfg env app = true := by
        intro app e1 e2 e3
        unfold shell_fails
        rw [e1, e2, e3, if_neg c1, if_neg c2, if_neg c3]
      unfold create_window
      simp only [hnode, Bool.not_true, Bool.false_eq_true, if_false]
      refine create_window_file_returns cfg env fuel _ _ width height ?_ (Or.inr (Or.inl ?_))
      · have e := hsf { s.app with window_ll := s.app.window_ll ++
          [{ zero_window with width := width, height := height,
                              data_size := window_data_size cfg width height }] } rfl rfl rfl
        dsimp only
        rw [e]
        simp
      · exact c1

theorem create_window_binds_one_shell_witness :
    create_window cfg_deco env_ok 0 (world_of []) 320 240 =
      some (world_first_window, some 0) ∧
    available_variants cfg_deco (world_of []).app = [shell_variant.xdg_shell] ∧
    (world_first_window.app.window_ll[0]?).map shell_fields =
      some (false, true, true, false) ∧
    (∃ x v, world_first_window.app.window_ll[0]? = some x ∧
      (available_variants cfg_deco (world_of []).app).head? = some v ∧
      bound_variants x = [v] ∧
      shell_fields x =
        (match v with
         | shell_variant.ivi_application => (true, false, false, false)
         | shell_variant.xdg_shell => (false, true, true, false)
         | shell_variant.wl_shell => (false, false, false, true))) ∧
    available_variants cfg16 world_no_shell.app = [] ∧
    (create_window cfg16 env_ok 0 world_no_shell 320 240).map Prod.snd = some none :=
  ⟨rfl, by decide, by decide,
   (create_window_binds_one_shell cfg_deco env_ok 0 (world_of []) 320 240).1
     world_first_window 0 rfl,
   by decide, by decide⟩

/-! ## Touch events -/

theorem input_set_touch_focus (app : application) (p : input_ptr) (f : input → input)
    (t : Option input_ptr) :
    input_set { app with touch := t } p f = { input_set app p f with touch := t } := by
  cases p <;> rfl

/-- C22. Touch events. A touch-down on a surface whose input record is `p` makes `p` the
touch focus and gives the record the position of the contact (the integer part of the
fixed-point coordinates, as `lv_coord_t`) and the state pressed. With the focus on `p`,
a touch-motion gives the record the new position and leaves its state and the focus as
they were, and a touch-up gives it the state released, leaves its position and clears
the focus. Each of the three leaves every other input record and the trace as they
were. Without a touch focus, touch-motion and touch-up change nothing. -/
theorem touch_tracks_one_contact (cfg : config) (s : world) (p : input_ptr) (i : input)
    (x_w y_w : Int) (hp : input_get s.app p = some i) :
    ((touch_handle_down cfg s (some p) x_w y_w).app.touch = some p ∧
      input_get (touch_handle_down cfg s (some p) x_w y_w).app p =
        some { i with touch :=
          { x := to_lv_coord cfg (wl_fixed_to_int x_w),
            y := to_lv_coord cfg (wl_fixed_to_int y_w),
            state := lv_indev_state_t.LV_INDEV_STATE_PR } } ∧
      (∀ q, q ≠ p → input_get (touch_handle_down cfg s (some p) x_w y_w).app q =
        input_get s.app q) ∧
      (touch_handle_down cfg s (some p) x_w y_w).trace = s.trace) ∧
    (s.app.touch = some p →
      ((touch_handle_motion cfg s x_w y_w).app.touch = some p ∧
        input_get (touch_handle_motion cfg s x_w y_w).app p =
          some { i with touch :=
            { x := to_lv_coord cfg (wl_fixed_to_int x_w),
              y := to_lv_coord cfg (wl_fixed_to_int y_w),
              state := i.touch.state } } ∧
        (∀ q, q ≠ p → input_get (touch_handle_motion cfg s x_w y_w).app q =
          input_get s.app q) ∧
        (touch_handle_motion cfg s x_w y_w).trace = s.trace) ∧
      ((touch_handle_up s).app.touch = none ∧
        input_get (touch_handle_up s).app p =
          some { i with touch :=
            { x := i.touch.x, y := i.touch.y,
              state := lv_indev_state_t.LV_INDEV_STATE_REL } } ∧
        (∀ q, q ≠ p → input_get (touch_handle_up s).app q = input_get s.app q) ∧
        (touch_handle_up s).trace = s.trace)) ∧
    (∀ t : world, t.app.touch = none →
      touch_handle_motion cfg t x_w y_w = t ∧ touch_handle_up t = t) := by
  refine ⟨⟨?_, ?_, ?_, ?_⟩, ?_, ?_⟩
  · unfold touch_handle_down
    simp only [input_set_touch_focus]
  · unfold touch_handle_down
    simp only [input_set_touch_focus]
    show input_get { input_set (input_set (input_set s.app p _) p _) p _ with
      touch := some p } p = _
    have e : ∀ (a : application) (t : Option input_ptr) (q : input_ptr),
        input_get { a with touch := t } q = input_get a q := by
      intro a t q
      cases q <;> rfl
    rw [e, input_get_input_set, input_get_input_set, input_get_input_set, hp]
    rfl
  · intro q hq
    unfold touch_handle_down
    simp only [input_set_touch_focus]
    have e : ∀ (a : application) (t : Option input_ptr) (q : input_ptr),
        input_get { a with touch := t } q = input_get a q := by
      intro a t q
      cases q <;> rfl
    show input_get { input_set (input_set (input_set s.app p _) p _) p _ with
      touch := some p } q = _
    rw [e, input_get_input_set_ne _ _ _ _ hq, input_get_input_set_ne _ _ _ _ hq,
      input_get_input_set_ne _ _ _ _ hq]
  · rfl
  · intro hf
    refine ⟨⟨?_, ?_, ?_, ?_⟩, ?_, ?_, ?_, ?_⟩
    · unfold touch_handle_motion
      simp only [hf]
      rw [(input_set_pointer _ _ _).2.2, (input_set_pointer _ _ _).2.2]
      exact hf
    · unfold touch_handle_motion
      simp only [hf]
      rw [input_get_input_set, input_get_input_set, hp]
      rfl
    · intro q hq
      unfold touch_handle_motion
      simp only [hf]
      rw [input_get_input_set_ne _ _ _ _ hq, input_get_input_set_ne _ _ _ _ hq]
    · unfold touch_handle_motion
      simp only [hf]
    · unfold touch_handle_up
      simp only [hf]
    · unfold touch_handle_up
      simp only [hf]
      have e : ∀ (a : application) (t : Option input_ptr) (q : input_ptr),
          input_get { a with touch := t } q = input_get a q := by
        intro a t q
        cases q <;> rfl
      rw [e, input_get_input_set, hp]
      rfl
    · intro q hq
      unfold touch_handle_up
      simp only [hf]
      have e : ∀ (a : application) (t : Option input_ptr) (q : input_ptr),
          input_get { a with touch := t } q = input_get a q := by
        intro a t q
        cases q <;> rfl
      rw [e, input_get_input_set_ne _ _ _ _ hq]
    · unfold touch_handle_up
      simp only [hf]
  · intro t ht
    constructor
    · unfold touch_handle_motion
      simp only [ht]
    · unfold touch_handle_up
      simp only [ht]

theorem touch_tracks_one_contact_witness :
    input_get (world_of [window320 0]).app (input_ptr.of_window 0) =
      some (window320 0).input ∧
    (touch_handle_down cfg16 (world_of [window320 0]) (some (input_ptr.of_window 0))
      25600 12800).app.touch = some (input_ptr.of_window 0) ∧
    input_get (touch_handle_down cfg16 (world_of [window320 0])
        (some (input_ptr.of_window 0)) 25600 12800).app (input_ptr.of_window 0) =
      some { (window320 0).input with touch :=
        { x := 100, y := 50, state := lv_indev_state_t.LV_INDEV_STATE_PR } } ∧
    touch_handle_up (world_of [window320 0]) = world_of [window320 0] :=
  have h := touch_tracks_one_contact cfg16 (world_of [window320 0]) (input_ptr.of_window 0)
    (window320 0).input 25600 12800 rfl
  ⟨rfl, h.1.1, h.1.2.1, (h.2.2 (world_of [window320 0]) rfl).2⟩

/-! ## The value stored for a pixel -/

theorem rgb332_of_bits (r g b : Nat) (hr : r ≤ 1) (hg : g ≤ 1) (hb : b ≤ 1) :
    (((0x07 * r) <<< 5) ||| ((0x07 * g) <<< 2) ||| ((0x03 * b) <<< 0)) % 256 =
        0xE0 * r + 0x1C * g + 0x03 * b ∧
      ((0x07 * r) <<< 5) ||| ((0x07 * g) <<< 2) ||| (0x03 * b) =
        0xE0 * r + 0x1C * g + 0x03 * b ∧
      ((0x07 * r) <<< 5) &&& 0xE0 = (0x07 * r) <<< 5 ∧
      ((0x07 * g) <<< 2) &&& 0x1C = (0x07 * g) <<< 2 ∧
      (0x03 * b) &&& 0x03 = 0x03 * b := by
  interval_cases r <;> interval_cases g <;> interval_cases b <;> decide

/-- C23. The store of one pixel. At colour depth 1 the cell receives the byte
(7*red << 5) | (7*green << 2) | (3*blue); when the channel bits are 0 or 1 the three
fields lie in the bit ranges 0xE0, 0x1C and 0x03, which do not overlap, the byte is
0xE0*red + 0x1C*green + 0x03*blue, it is at most 0xFF, it is 0xFF when all bits are 1
and 0x00 when all are 0. At depth 8, 16 and 32 the cell receives the full value of the
pixel. -/
theorem one_bit_pixel_is_rgb332 (cfg : config) (color_p : Nat → lv_color_t) (d : draw_st)
    (o : Int) (c : lv_color_t) (hc : color_p d.color_p = c) :
    (cfg.LV_COLOR_DEPTH = 1 →
      (put_px cfg color_p d o).data o =
        (((0x07 * c.red) <<< 5) ||| ((0x07 * c.green) <<< 2) ||| (0x03 * c.blue)) % 256 ∧
      (c.red ≤ 1 → c.green ≤ 1 → c.blue ≤ 1 →
        (put_px cfg color_p d o).data o =
          ((0x07 * c.red) <<< 5) ||| ((0x07 * c.green) <<< 2) ||| (0x03 * c.blue) ∧
        ((0x07 * c.red) <<< 5) &&& 0xE0 = (0x07 * c.red) <<< 5 ∧
        ((0x07 * c.green) <<< 2) &&& 0x1C = (0x07 * c.green) <<< 2 ∧
        (0x03 * c.blue) &&& 0x03 = 0x03 * c.blue ∧
        (0xE0 &&& 0x1C = 0 ∧ 0xE0 &&& 0x03 = 0 ∧ 0x1C &&& 0x03 = 0) ∧
        (put_px cfg color_p d o).data o = 0xE0 * c.red + 0x1C * c.green + 0x03 * c.blue ∧
        (put_px cfg color_p d o).data o ≤ 0xFF ∧
        (c.red = 1 → c.green = 1 → c.blue = 1 → (put_px cfg color_p d o).data o = 0xFF) ∧
        (c.red = 0 → c.green = 0 → c.blue = 0 → (put_px cfg color_p d o).data o = 0x00))) ∧
    (cfg.LV_COLOR_DEPTH = 8 ∨ cfg.LV_COLOR_DEPTH = 16 ∨ cfg.LV_COLOR_DEPTH = 32 →
      (put_px cfg color_p d o).data o = c.full) := by
  constructor
  · intro h1
    have hput : (put_px cfg color_p d o).data o = rgb332_of_1bit c := by
      unfold put_px
      simp [h1, store, hc]
    have hdef : rgb332_of_1bit c =
        (((0x07 * c.red) <<< 5) ||| ((0x07 * c.green) <<< 2) ||| (0x03 * c.blue)) % 256 := by
      unfold rgb332_of_1bit
      rfl
    refine ⟨by rw [hput, hdef], ?_⟩
    intro hr hg hb
    obtain ⟨e1, e2, m1, m2, m3⟩ := rgb332_of_bits c.red c.green c.blue hr hg hb
    have e1' : (((0x07 * c.red) <<< 5) ||| ((0x07 * c.green) <<< 2) ||| (0x03 * c.blue)) % 256 =
        0xE0 * c.red + 0x1C * c.green + 0x03 * c.blue := e1
    rw [hput, hdef, e1']
    refine ⟨e2.symm, m1, m2, m3, ⟨by decide, by decide, by decide⟩, rfl, by omega, ?_, ?_⟩
    · intro a b c3
      rw [a, b, c3]
    · intro a b c3
      rw [a, b, c3]
  · intro h
    unfold put_px
    rcases h with h | h | h <;> simp [h, store, hc]

theorem one_bit_pixel_is_rgb332_witness :
    (fun (_ : Nat) => white1) 0 = white1 ∧ cfg1.LV_COLOR_DEPTH = 1 ∧
    white1.red ≤ 1 ∧ white1.green ≤ 1 ∧ white1.blue ≤ 1 ∧
    (put_px cfg1 (fun _ => white1) { data := fun _ => 0, color_p := 0, written := [] }
        5).data 5 = 0xE0 * white1.red + 0x1C * white1.green + 0x03 * white1.blue ∧
    (put_px cfg1 (fun _ => white1) { data := fun _ => 0, color_p := 0, written := [] }
        5).data 5 = 0xFF :=
  have h := ((one_bit_pixel_is_rgb332 cfg1 (fun _ => white1)
    { data := fun _ => 0, color_p := 0, written := [] } 5 white1 rfl).1 rfl).2
      (by decide) (by decide) (by decide)
  ⟨rfl, rfl, by decide, by decide, by decide, h.2.2.2.2.2.1, h.2.2.2.2.2.2.2.1 rfl rfl rfl⟩

/-! ## The barrier and closed windows -/

theorem set_cycled_all_iff (app : application) (w : Nat) (c : Bool) :
    (∀ p ∈ (cycle_flags app).set w (true, c), p.1 = true) ↔
      ∀ j x, app.window_ll[j]? = some x → j ≠ w → x.cycled = true := by
  constructor
  · intro h j x hj hne
    have hget : ((cycle_flags app).set w (true, c))[j]? = some (x.cycled, x.closed) := by
      rw [List.getElem?_set_ne (Ne.symm hne), cycle_flags_getElem?, hj]
      rfl
    exact h _ (List.getElem?_mem hget)
  · intro h p hp
    obtain ⟨j, hj⟩ := List.getElem?_of_mem hp
    by_cases e : j = w
    · subst e
      rw [List.getElem?_set_self'] at hj
      cases hc : (cycle_flags app)[j]? with
      | none =>
        rw [hc] at hj
        exact Option.noConfusion hj
      | some v =>
        rw [hc] at hj
        have hj2 : (true, c) = p := Option.some.inj hj
        rw [← hj2]
    · rw [List.getElem?_set_ne (Ne.symm e), cycle_flags_getElem?] at hj
      cases hx : app.window_ll[j]? with
      | none =>
        rw [hx] at hj
        exact Option.noConfusion hj
      | some x =>
        rw [hx] at hj
        simp only [Option.map_some', Option.some.injEq] at hj
        rw [← hj]
        exact h j x hx e

/-- C24, amended. The barrier of `window_cycle` scans every window of the collection,
closed or not: an invocation for the window at position `w` performs the
flush round exactly when every other window of the collection has `cycled` set, and
otherwise performs none. A closed window is still in the collection, so one that has not
been cycled in this tick holds the round back. -/
theorem barrier_waits_for_every_window (cfg : config) (env : cycle_env) (s : world)
    (disp_drv : lv_disp_drv_t) (time px : Nat) (w : Nat) (win : window)
    (hdrv : disp_drv.user_data = some w) (hw : s.app.window_ll[w]? = some win)
    (hrun : s.exited = false) :
    (rounds (window_cycle cfg env s disp_drv time px).trace = rounds s.trace + 1 ↔
      ∀ j x, s.app.window_ll[j]? = some x → j ≠ w → x.cycled = true) ∧
    (rounds (window_cycle cfg env s disp_drv time px).trace = rounds s.trace ↔
      ∃ j x, s.app.window_ll[j]? = some x ∧ j ≠ w ∧ x.cycled = false) ∧
    (window_cycle cfg env s disp_drv time px).app.window_ll.length =
      s.app.window_ll.length := by
  obtain ⟨hwait, hround⟩ := window_cycle_spec cfg env s disp_drv time px w win hdrv hw hrun
  have hiff := set_cycled_all_iff s.app w (win.closed || win.shall_close)
  have hlen : (window_cycle cfg env s disp_drv time px).app.window_ll.length =
      s.app.window_ll.length := by
    have := congrArg List.length (window_cycle_geometry cfg env s disp_drv time px)
    simpa using this
  by_cases hall : ∀ p ∈ (cycle_flags s.app).set w (true, win.closed || win.shall_close),
      p.1 = true
  · obtain ⟨_, hr, _⟩ := hround hall
    refine ⟨⟨fun _ => hiff.mp hall, fun _ => hr⟩, ⟨?_, ?_⟩, hlen⟩
    · intro h
      omega
    · rintro ⟨j, x, hj, hne, hx⟩
      have := hiff.mp hall j x hj hne
      rw [hx] at this
      exact Bool.noConfusion this
  · obtain ⟨_, hr, _⟩ := hwait hall
    refine ⟨⟨?_, ?_⟩, ⟨fun _ => ?_, fun _ => hr⟩, hlen⟩
    · intro h
      omega
    · intro h
      exact absurd (hiff.mpr h) hall
    · by_contra hne
      apply hall
      apply hiff.mpr
      intro j x hj hjw
      cases hx : x.cycled with
      | true => rfl
      | false => exact absurd ⟨j, x, hj, hjw, hx⟩ hne

theorem barrier_waits_for_every_window_witness :
    (drv320 1).user_data = some 1 ∧
    world_closed_and_open.app.window_ll[1]? = some { window320 1 with cycled := true } ∧
    world_closed_and_open.exited = false ∧
    (rounds (window_cycle cfg16 { queued := [], arrived := [] } world_closed_and_open
        (drv320 1) 33 76800).trace = rounds world_closed_and_open.trace ↔
      ∃ j x, world_closed_and_open.app.window_ll[j]? = some x ∧ j ≠ 1 ∧ x.cycled = false) :=
  ⟨rfl, rfl, rfl,
   (barrier_waits_for_every_window cfg16 { queued := [], arrived := [] }
      world_closed_and_open (drv320 1) 33 76800 1 { window320 1 with cycled := true }
      rfl rfl rfl).2.1⟩

/-- C24 as stated fails. Two windows, the first closed in an earlier tick and not
cycled since, the second open and cycled: every window that is not closed has cycled,
and still an invocation for the open window performs no flush round (no call of
`wl_display_read_events`, no flush), because the closed window has not cycled. -/
theorem barrier_held_by_closed_window :
    (∀ x ∈ world_closed_and_open.app.window_ll, x.closed = false → x.cycled = true) ∧
    (∃ x ∈ world_closed_and_open.app.window_ll, x.closed = true ∧ x.cycled = false) ∧
    rounds (window_cycle cfg16 { queued := [], arrived := [] } world_closed_and_open
      (drv320 1) 33 76800).trace = 0 ∧
    flushes (window_cycle cfg16 { queued := [], arrived := [] } world_closed_and_open
      (drv320 1) 33 76800).trace = 0 ∧
    cycle_flags (window_cycle cfg16 { queued := [], arrived := [] } world_closed_and_open
      (drv320 1) 33 76800).app = [(false, true), (true, false)] := by
  refine ⟨?_, ?_, by decide, by decide, by decide⟩
  · intro x hx
    simp only [world_closed_and_open, world_of, List.mem_cons, List.mem_singleton,
      List.not_mem_nil, or_false] at hx
    rcases hx with rfl | rfl
    · intro h
      exact absurd h (by decide)
    · intro _
      rfl
  · exact ⟨{ window320 0 with closed := true }, by simp [world_closed_and_open, world_of],
      rfl, rfl⟩

/-! ## Rectangles that straddle an edge of the window -/

/-- With `x1` and `y1` not negative every offset the copy loops store to lies in the
pixel buffer of `hor_res * ver_res` cells. -/
theorem flush_offsets_in_window (cfg : config) (hs : depth_supported cfg)
    (hor_res ver_res : Int) (color_p : Nat → lv_color_t) (x1 x2 y1 y2 : Int) (d : draw_st)
    (hx : 0 ≤ x1) (hy : 0 ≤ y1) (hd : d.written = []) :
    ∀ o ∈ (flush_rows cfg hor_res ver_res color_p x1 x2 y2 y1 d).written,
      0 ≤ o ∧ o < hor_res * ver_res := by
  obtain ⟨_, ⟨extra, hw, _, hmem⟩, _⟩ := flush_rows_spec cfg hs hor_res ver_res color_p
    x1 x2 y2 (row_count ver_res y1 y2) y1 d rfl
  intro o ho
  rw [hw, hd, List.nil_append] at ho
  obtain ⟨j, i, hj, hi, rfl⟩ := (hmem o).mp ho
  have hlen := row_len_le hor_res x1 x2
  have hxi : x1 + (i : Int) < hor_res := by omega
  have hyj : y1 + (j : Int) + 1 ≤ ver_res := by
    unfold row_count at hj
    omega
  have hh : 0 ≤ hor_res := by omega
  have h1 : 0 ≤ (y1 + (j : Int)) * hor_res := mul_nonneg (by omega) hh
  have h2 : (y1 + (j : Int) + 1) * hor_res ≤ ver_res * hor_res :=
    mul_le_mul_of_nonneg_right hyj hh
  have h3 : (y1 + (j : Int) + 1) * hor_res = (y1 + (j : Int)) * hor_res + hor_res := by ring
  have h4 : hor_res * ver_res = ver_res * hor_res := mul_comm _ _
  constructor
  · omega
  · omega

/-- C25 at its failing input. An open 320 by 240 window and the rectangle (-5,0)-(4,0),
which straddles the left edge and passes the outside check: the draw call stores to the
offsets -5 to -1, which lie before the pixel buffer, besides the cells 0 to 4. -/
theorem flush_straddling_left_edge_stores_before_buffer :
    ¬ (area_straddle.x2 < 0 ∨ area_straddle.y2 < 0 ∨
      area_straddle.x1 > (drv320 0).hor_res - 1 ∨ area_straddle.y1 > (drv320 0).ver_res - 1) ∧
    ∃ r,
      lv_wayland_flush cfg16 env_ok 0 (world_of [window320 0]) (drv320 0) area_straddle
        (fun _ => white16) true = some (r, drv320 0) ∧
      effect.store (input_ptr.of_window 0) (-5) ∈ r.trace ∧
      effect.store (input_ptr.of_window 0) (-1) ∈ r.trace ∧
      effect.store (input_ptr.of_window 0) 4 ∈ r.trace ∧
      ¬ ((0 : Int) ≤ -5 ∧ (-5 : Int) < (window320 0).width * (window320 0).height) := by
  refine ⟨by decide, ?_⟩
  have hs : depth_supported cfg16 := Or.inr (Or.inl rfl)
  have hflush := flush_open_window cfg16 env_ok 0 (world_of [window320 0]) (drv320 0)
    area_straddle (fun _ => white16) true 0 (window320 0) rfl rfl ⟨rfl, rfl⟩ (by decide)
  obtain ⟨_, _, htrace, _⟩ := flush_draw_spec cfg16 (world_of [window320 0]) (drv320 0) 0
    area_straddle (fun _ => white16) true (window320 0) rfl
  obtain ⟨_, ⟨extra, hw, _, hmem⟩, _⟩ := flush_rows_spec cfg16 hs (drv320 0).hor_res
    (drv320 0).ver_res (fun _ => white16) area_straddle.x1 area_straddle.x2 area_straddle.y2
    (row_count (drv320 0).ver_res area_straddle.y1 area_straddle.y2) area_straddle.y1
    { data := (window320 0).data, color_p := 0, written := [] } rfl
  have hrc : row_count (drv320 0).ver_res area_straddle.y1 area_straddle.y2 = 1 := by decide
  have hrl : row_len (drv320 0).hor_res area_straddle.x1 area_straddle.x2 = 10 := by decide
  rw [hrc, hrl] at hmem
  have hin : ∀ o : Int, o ∈ extra →
      effect.store (input_ptr.of_window 0) o ∈
        (flush_draw cfg16 (world_of [window320 0]) (drv320 0) 0 area_straddle
          (fun _ => white16) true).trace := by
    intro o ho
    rw [htrace, hw]
    simp only [List.nil_append, List.append_assoc, List.mem_append, List.mem_map]
    exact Or.inr (Or.inl ⟨o, ho, rfl⟩)
  refine ⟨_, hflush, hin _ ?_, hin _ ?_, hin _ ?_, by decide⟩
  · exact (hmem _).mpr ⟨0, 0, by decide, by decide, by decide⟩
  · exact (hmem _).mpr ⟨0, 4, by decide, by decide, by decide⟩
  · exact (hmem _).mpr ⟨0, 9, by decide, by decide, by decide⟩

/-! ## Rectangles that extend past the right edge of the window -/

/-- C26 at its failing input. An open 320 by 240 window and the rectangle
(318,0)-(321,1), four columns wide, of which the columns 318 and 319 lie inside the
window. The cell of the pixel (318, 1) should receive the source pixel at index
(1 - 0) * 4 + 0 = 4; it receives the source pixel at index 2, because the source
position advances only for the pixels copied. Row 0 receives the indices 0 and 1. -/
theorem flush_clipped_right_shifts_rows :
    ∃ r win2,
      lv_wayland_flush cfg16 env_ok 0 (world_of [window320 0]) (drv320 0) area_right
        numbered_pixels true = some (r, drv320 0) ∧
      r.app.window_ll[0]? = some win2 ∧
      win2.data (0 * 320 + 318) = 0 ∧ win2.data (0 * 320 + 319) = 1 ∧
      win2.data (1 * 320 + 318) = 2 ∧ win2.data (1 * 320 + 319) = 3 ∧
      ((1 - area_right.y1) * (area_right.x2 - area_right.x1 + 1) + (318 - area_right.x1)).toNat
        = 4 ∧
      px_value cfg16 (numbered_pixels 4) = 4 := by
  have hs : depth_supported cfg16 := Or.inr (Or.inl rfl)
  have hflush := flush_open_window cfg16 env_ok 0 (world_of [window320 0]) (drv320 0)
    area_right numbered_pixels true 0 (window320 0) rfl rfl ⟨rfl, rfl⟩ (by decide)
  obtain ⟨hwin, _, _, _⟩ := flush_draw_spec cfg16 (world_of [window320 0]) (drv320 0) 0
    area_right numbered_pixels true (window320 0) rfl
  obtain ⟨_, _, hdata⟩ := flush_rows_spec cfg16 hs (drv320 0).hor_res
    (drv320 0).ver_res numbered_pixels area_right.x1 area_right.x2 area_right.y2
    (row_count (drv320 0).ver_res area_right.y1 area_right.y2) area_right.y1
    { data := (window320 0).data, color_p := 0, written := [] } rfl
  obtain ⟨hcell, _⟩ := hdata (by decide)
  have hrc : row_count (drv320 0).ver_res area_right.y1 area_right.y2 = 2 := by decide
  have hrl : row_len (drv320 0).hor_res area_right.x1 area_right.x2 = 2 := by decide
  rw [hrc, hrl] at hcell
  refine ⟨_, _, hflush, hwin, ?_, ?_, ?_, ?_, by decide, by decide⟩
  · exact hcell 0 0 (by decide) (by decide)
  · exact hcell 0 1 (by decide) (by decide)
  · exact hcell 1 0 (by decide) (by decide)
  · exact hcell 1 1 (by decide) (by decide)

/-! ## The identifier loop of the IVI shell -/

/-- Once the loop has found a predecessor of the new window it finds it again in every
round: it does not end, whatever the fuel. -/
theorem ivi_id_loop_stuck (w : Nat) (hw : w ≠ 0) :
    ∀ (fuel : Nat) (p : Nat) (ivi_id : Nat), ivi_id_loop w fuel (some p) ivi_id = none := by
  intro fuel
  induction fuel with
  | zero =>
    intro p ivi_id
    rfl
  | succ n ih =>
    intro p ivi_id
    show ivi_id_loop w n (lv_ll_get_prev w) ((ivi_id + 1) % 2 ^ 32) = none
    have hp : lv_ll_get_prev w = some (w - 1) := if_neg hw
    rw [hp]
    exact ih _ _

theorem create_window_shell_stuck (cfg : config) (env : create_env) (fuel : Nat)
    (s : world) (w : Nat) (hcfg : cfg.LV_WAYLAND_IVI_APPLICATION = true)
    (happ : s.app.ivi_application = true) (hw : w ≠ 0) :
    create_window_shell cfg env fuel s w = none := by
  have hp : lv_ll_get_prev w = some (w - 1) := if_neg hw
  have hshell : create_shell_surface cfg env fuel s w = none := by
    unfold create_shell_surface
    dsimp only
    rw [if_pos ⟨hcfg, happ⟩, hp, ivi_id_loop_stuck w hw]
  unfold create_window_shell
  rw [hshell]

theorem create_window_surface_stuck (cfg : config) (env : create_env) (fuel : Nat)
    (s : world) (w : Nat) (hcfg : cfg.LV_WAYLAND_IVI_APPLICATION = true)
    (happ : s.app.ivi_application = true) (hw : w ≠ 0) (e7 : env.surface_ok = true) :
    create_window_surface cfg env fuel s w = none := by
  unfold create_window_surface
  rw [e7]
  exact create_window_shell_stuck cfg env fuel _ w hcfg happ hw

theorem create_window_buffer_stuck (cfg : config) (env : create_env) (fuel : Nat)
    (s : world) (w : Nat) (width height : Int)
    (hcfg : cfg.LV_WAYLAND_IVI_APPLICATION = true)
    (happ : s.app.ivi_application = true) (hw : w ≠ 0) (e6 : env.buffer_ok = true)
    (e7 : env.surface_ok = true) :
    create_window_buffer cfg env fuel s w width height = none := by
  unfold create_window_buffer
  rw [e6]
  exact create_window_surface_stuck cfg env fuel _ w hcfg happ hw e7

theorem create_window_pool_stuck (cfg : config) (env : create_env) (fuel : Nat)
    (s : world) (w : Nat) (width height : Int)
    (hcfg : cfg.LV_WAYLAND_IVI_APPLICATION = true)
    (happ : s.app.ivi_application = true) (hw : w ≠ 0) (e5 : env.pool_ok = true)
    (e6 : env.buffer_ok = true) (e7 : env.surface_ok = true) :
    create_window_pool cfg env fuel s w width height = none := by
  unfold create_window_pool
  rw [e5]
  exact create_window_buffer_stuck cfg env fuel _ w width height hcfg happ hw e6 e7

theorem create_window_map_stuck (cfg : config) (env : create_env) (fuel : Nat)
    (s : world) (w : Nat) (width height : Int)
    (hcfg : cfg.LV_WAYLAND_IVI_APPLICATION = true)
    (happ : s.app.ivi_application = true) (hw : w ≠ 0) (e3 : env.ftruncate_ok = true)
    (e4 : env.mmap_ok = true) (e5 : env.pool_ok = true)
    (e6 : env.buffer_ok = true) (e7 : env.surface_ok = true) :
    create_window_map cfg env fuel s w width height = none := by
  unfold create_window_map
  rw [e3, e4]
  exact create_window_pool_stuck cfg env fuel _ w width height hcfg happ hw e5 e6 e7

theorem create_window_file_stuck (cfg : config) (env : create_env) (fuel : Nat)
    (s : world) (w : Nat) (width height : Int)
    (hcfg : cfg.LV_WAYLAND_IVI_APPLICATION = true)
    (happ : s.app.ivi_application = true) (hw : w ≠ 0)
    (hearly : create_fails_early env = false) :
    create_window_file cfg env fuel s w width height = none := by
  unfold create_fails_early at hearly
  simp only [Bool.or_eq_false_iff, Bool.not_eq_false'] at hearly
  obtain ⟨e1, e2, e3, e4, e5, e6, e7⟩ := hearly
  unfold create_window_file
  dsimp only
  rw [e1, e2]
  exact create_window_map_stuck cfg env fuel _ w width height hcfg happ hw e3 e4 e5 e6 e7

/-- With the IVI shell in use and a window already in the collection, `create_window`
does not return once it has its surface: its result is `none` for every fuel. -/
theorem create_window_ivi_stuck (cfg : config) (env : create_env) (fuel : Nat)
    (s : world) (width height : Int) (hcfg : cfg.LV_WAYLAND_IVI_APPLICATION = true)
    (happ : s.app.ivi_application = true) (hprev : s.app.window_ll ≠ [])
    (hnode : env.node_ok = true) (hearly : create_fails_early env = false) :
    create_window cfg env fuel s width height = none := by
  have hw : s.app.window_ll.length ≠ 0 := by
    intro h
    exact hprev (List.length_eq_zero.mp h)
  unfold create_window
  dsimp only
  rw [hnode]
  exact create_window_file_stuck cfg env fuel _ _ width height hcfg happ hw hearly

/-- C27 at its failing input. The IVI shell is compiled in and advertised, every
acquisition succeeds, and one window is already in the collection: `create_window` does
not return, whatever the number of rounds allowed to its identifier loop, and so neither
does the draw call that would create the second window. With no window in the
collection it returns the window and has asked for the identifier `ivi_id_base`. -/
theorem ivi_second_window_never_returns :
    cfg_ivi.LV_WAYLAND_IVI_APPLICATION = true ∧
    (world_ivi [window_ivi 0]).app.ivi_application = true ∧
    (world_ivi [window_ivi 0]).app.window_ll.length = 1 ∧
    (∀ fuel, create_window cfg_ivi env_ok fuel (world_ivi [window_ivi 0]) 320 240 = none) ∧
    (∀ fuel area color_p is_last,
      lv_wayland_flush cfg_ivi env_ok fuel (world_ivi [window_ivi 0]) drv_new area color_p
        is_last = none) ∧
    (create_window cfg_ivi env_ok 1 (world_ivi []) 320 240).map
        (fun p => (p.2, ivi_ids p.1.trace)) = some (some 0, [(0, 1000)]) := by
  have hstuck : ∀ fuel, create_window cfg_ivi env_ok fuel (world_ivi [window_ivi 0]) 320 240 =
      none := fun fuel =>
    create_window_ivi_stuck cfg_ivi env_ok fuel (world_ivi [window_ivi 0]) 320 240 rfl rfl
      (by simp [world_ivi]) rfl rfl
  refine ⟨rfl, rfl, rfl, hstuck, ?_, by decide⟩
  intro fuel area color_p is_last
  unfold lv_wayland_flush
  have h := hstuck fuel
  simp only [drv_new] at h ⊢
  simp only [if_true] at h ⊢
  rw [h]

end LvWayland
